import Mathlib

/-!
# usbip-win2, vhci driver: the URB to USB/IP translator of `driver/vhci/read.cpp`

A shallow embedding of the read path of the virtual host controller.  Machine integers
are natural numbers; a store into a `UCHAR`, `USHORT` or `ULONG` object reduces modulo
`2^8`, `2^16`, `2^32`.  Pointers that may be null are `Option`s.  The headers `proto.h`,
`pdu.h`, `usbd_helper.h`, `ch9.h` are not part of the sources at hand: the functions they
declare are collected in the record `Helpers`, over which every definition is parametric.
-/

namespace Vhci

/-! ## Status codes (ntstatus.h) -/

abbrev NTSTATUS := Nat

abbrev STATUS_SUCCESS : NTSTATUS := 0
abbrev STATUS_PENDING : NTSTATUS := 0x00000103
abbrev STATUS_INVALID_PARAMETER : NTSTATUS := 0xC000000D
abbrev STATUS_NO_SUCH_DEVICE : NTSTATUS := 0xC000000E
abbrev STATUS_INVALID_DEVICE_REQUEST : NTSTATUS := 0xC0000010
abbrev STATUS_BUFFER_TOO_SMALL : NTSTATUS := 0xC0000023
abbrev STATUS_INSUFFICIENT_RESOURCES : NTSTATUS := 0xC000009A
abbrev STATUS_DEVICE_NOT_CONNECTED : NTSTATUS := 0xC000009D
abbrev STATUS_INTERNAL_ERROR : NTSTATUS := 0xC00000E5
abbrev STATUS_CANCELLED : NTSTATUS := 0xC0000120
abbrev STATUS_REQUEST_ABORTED : NTSTATUS := 0xC0000240

/-! ## URB function codes (usb.h) -/

abbrev URB_FUNCTION_SELECT_CONFIGURATION : Nat := 0x00
abbrev URB_FUNCTION_SELECT_INTERFACE : Nat := 0x01
abbrev URB_FUNCTION_ABORT_PIPE : Nat := 0x02
abbrev URB_FUNCTION_TAKE_FRAME_LENGTH_CONTROL : Nat := 0x03
abbrev URB_FUNCTION_RELEASE_FRAME_LENGTH_CONTROL : Nat := 0x04
abbrev URB_FUNCTION_GET_FRAME_LENGTH : Nat := 0x05
abbrev URB_FUNCTION_SET_FRAME_LENGTH : Nat := 0x06
abbrev URB_FUNCTION_GET_CURRENT_FRAME_NUMBER : Nat := 0x07
abbrev URB_FUNCTION_CONTROL_TRANSFER : Nat := 0x08
abbrev URB_FUNCTION_BULK_OR_INTERRUPT_TRANSFER : Nat := 0x09
abbrev URB_FUNCTION_ISOCH_TRANSFER : Nat := 0x0A
abbrev URB_FUNCTION_GET_DESCRIPTOR_FROM_DEVICE : Nat := 0x0B
abbrev URB_FUNCTION_SET_DESCRIPTOR_TO_DEVICE : Nat := 0x0C
abbrev URB_FUNCTION_SET_FEATURE_TO_DEVICE : Nat := 0x0D
abbrev URB_FUNCTION_SET_FEATURE_TO_INTERFACE : Nat := 0x0E
abbrev URB_FUNCTION_SET_FEATURE_TO_ENDPOINT : Nat := 0x0F
abbrev URB_FUNCTION_CLEAR_FEATURE_TO_DEVICE : Nat := 0x10
abbrev URB_FUNCTION_CLEAR_FEATURE_TO_INTERFACE : Nat := 0x11
abbrev URB_FUNCTION_CLEAR_FEATURE_TO_ENDPOINT : Nat := 0x12
abbrev URB_FUNCTION_GET_STATUS_FROM_DEVICE : Nat := 0x13
abbrev URB_FUNCTION_GET_STATUS_FROM_INTERFACE : Nat := 0x14
abbrev URB_FUNCTION_GET_STATUS_FROM_ENDPOINT : Nat := 0x15
abbrev URB_FUNCTION_VENDOR_DEVICE : Nat := 0x17
abbrev URB_FUNCTION_VENDOR_INTERFACE : Nat := 0x18
abbrev URB_FUNCTION_VENDOR_ENDPOINT : Nat := 0x19
abbrev URB_FUNCTION_CLASS_DEVICE : Nat := 0x1A
abbrev URB_FUNCTION_CLASS_INTERFACE : Nat := 0x1B
abbrev URB_FUNCTION_CLASS_ENDPOINT : Nat := 0x1C
abbrev URB_FUNCTION_SYNC_RESET_PIPE_AND_CLEAR_STALL : Nat := 0x1E
abbrev URB_FUNCTION_CLASS_OTHER : Nat := 0x1F
abbrev URB_FUNCTION_VENDOR_OTHER : Nat := 0x20
abbrev URB_FUNCTION_GET_STATUS_FROM_OTHER : Nat := 0x21
abbrev URB_FUNCTION_CLEAR_FEATURE_TO_OTHER : Nat := 0x22
abbrev URB_FUNCTION_SET_FEATURE_TO_OTHER : Nat := 0x23
abbrev URB_FUNCTION_GET_DESCRIPTOR_FROM_ENDPOINT : Nat := 0x24
abbrev URB_FUNCTION_SET_DESCRIPTOR_TO_ENDPOINT : Nat := 0x25
abbrev URB_FUNCTION_GET_CONFIGURATION : Nat := 0x26
abbrev URB_FUNCTION_GET_INTERFACE : Nat := 0x27
abbrev URB_FUNCTION_GET_DESCRIPTOR_FROM_INTERFACE : Nat := 0x28
abbrev URB_FUNCTION_SET_DESCRIPTOR_TO_INTERFACE : Nat := 0x29
abbrev URB_FUNCTION_GET_MS_FEATURE_DESCRIPTOR : Nat := 0x2A
abbrev URB_FUNCTION_SYNC_RESET_PIPE : Nat := 0x30
abbrev URB_FUNCTION_SYNC_CLEAR_STALL : Nat := 0x31
abbrev URB_FUNCTION_CONTROL_TRANSFER_EX : Nat := 0x32
abbrev URB_FUNCTION_OPEN_STATIC_STREAMS : Nat := 0x35
abbrev URB_FUNCTION_CLOSE_STATIC_STREAMS : Nat := 0x36
abbrev URB_FUNCTION_BULK_OR_INTERRUPT_TRANSFER_USING_CHAINED_MDL : Nat := 0x37
abbrev URB_FUNCTION_ISOCH_TRANSFER_USING_CHAINED_MDL : Nat := 0x38
abbrev URB_FUNCTION_GET_ISOCH_PIPE_TRANSFER_PATH_DELAYS : Nat := 0x3D

/-! ## Transfer flags and pipe types (usb.h) -/

abbrev USBD_TRANSFER_DIRECTION_OUT : Nat := 0
abbrev USBD_TRANSFER_DIRECTION_IN : Nat := 1
abbrev USBD_SHORT_TRANSFER_OK : Nat := 2
abbrev USBD_START_ISO_TRANSFER_ASAP : Nat := 4
abbrev USBD_DEFAULT_PIPE_TRANSFER : Nat := 8

abbrev UsbdPipeTypeControl : Nat := 0
abbrev UsbdPipeTypeIsochronous : Nat := 1
abbrev UsbdPipeTypeBulk : Nat := 2
abbrev UsbdPipeTypeInterrupt : Nat := 3

/-! ## Setup packet constants (ch9.h, ch11.h, usbspec.h) -/

abbrev USB_DIR_OUT : Nat := 0x00
abbrev USB_DIR_IN : Nat := 0x80
abbrev USB_TYPE_STANDARD : Nat := 0x00
abbrev USB_TYPE_CLASS : Nat := 0x20
abbrev USB_TYPE_VENDOR : Nat := 0x40
abbrev USB_RECIP_DEVICE : Nat := 0x00
abbrev USB_RECIP_INTERFACE : Nat := 0x01
abbrev USB_RECIP_ENDPOINT : Nat := 0x02
abbrev USB_RECIP_OTHER : Nat := 0x03
abbrev USB_RT_PORT : Nat := USB_TYPE_CLASS ||| USB_RECIP_OTHER

abbrev USB_REQUEST_GET_STATUS : Nat := 0x00
abbrev USB_REQUEST_CLEAR_FEATURE : Nat := 0x01
abbrev USB_REQUEST_SET_FEATURE : Nat := 0x03
abbrev USB_REQUEST_GET_DESCRIPTOR : Nat := 0x06
abbrev USB_REQUEST_SET_DESCRIPTOR : Nat := 0x07
abbrev USB_REQUEST_GET_CONFIGURATION : Nat := 0x08
abbrev USB_REQUEST_SET_CONFIGURATION : Nat := 0x09
abbrev USB_REQUEST_GET_INTERFACE : Nat := 0x0A
abbrev USB_REQUEST_SET_INTERFACE : Nat := 0x0B

abbrev USB_FEATURE_ENDPOINT_STALL : Nat := 0x00
abbrev USB_PORT_FEAT_RESET : Nat := 4

/-- The macro `USB_DESCRIPTOR_MAKE_TYPE_AND_INDEX(d, i)` of usbspec.h:
`(USHORT)((USHORT)d << 8 | i)`. -/
def USB_DESCRIPTOR_MAKE_TYPE_AND_INDEX (d i : Nat) : Nat :=
  ((d <<< 8) % 65536 ||| i) % 65536

/-! ## I/O control codes (usbioctl.h); only their being distinct matters -/

abbrev IOCTL_INTERNAL_USB_SUBMIT_URB : Nat := 0x00220003
abbrev IOCTL_INTERNAL_USB_RESET_PORT : Nat := 0x00220007
abbrev IOCTL_USB_GET_DESCRIPTOR_FROM_NODE_CONNECTION : Nat := 0x00220410

/-! ## Sizes of the wire structures (usbip_proto.h) -/

/-- The value of `sizeof(usbip_header)`: the fixed 48-byte PDU header. -/
abbrev sizeof_usbip_header : Nat := 48

/-- The value of `sizeof(usbip_iso_packet_descriptor)`: four 32-bit fields. -/
abbrev sizeof_usbip_iso_packet_descriptor : Nat := 16

/-! ## Data model -/

/-- A pipe handle: a pointer-sized token, null for the default control pipe. -/
abbrev USBD_PIPE_HANDLE := Nat

/-- The null pipe handle `EP0` that the control handlers pass to the header builder. -/
abbrev EP0 : USBD_PIPE_HANDLE := 0

/-- A memory descriptor list.  `MappedSystemVa` is what `MmGetSystemAddressForMdlSafe`
returns for it: the mapped bytes, or `none` when the mapping fails. -/
structure MDL where
  MappedSystemVa : Option (List Nat)
deriving Inhabited

/-- One entry of the packet table of an isochronous URB. -/
structure USBD_ISO_PACKET_DESCRIPTOR where
  Offset : Nat
  Length : Nat
  Status : Nat
deriving Inhabited, DecidableEq, Repr

structure USB_CONFIGURATION_DESCRIPTOR where
  wTotalLength : Nat
  bNumInterfaces : Nat
  bConfigurationValue : Nat
deriving Inhabited, DecidableEq, Repr

structure USBD_INTERFACE_INFORMATION where
  InterfaceNumber : Nat
  AlternateSetting : Nat
deriving Inhabited, DecidableEq, Repr

structure USB_DEVICE_DESCRIPTOR where
  bLength : Nat
  bDescriptorType : Nat
  bcdUSB : Nat
  bDeviceClass : Nat
  bDeviceSubClass : Nat
  bDeviceProtocol : Nat
deriving Inhabited, DecidableEq, Repr

structure USB_INTERFACE_DESCRIPTOR where
  bInterfaceNumber : Nat
  bAlternateSetting : Nat
  bInterfaceClass : Nat
  bInterfaceSubClass : Nat
  bInterfaceProtocol : Nat
deriving Inhabited, DecidableEq, Repr

/-- The member `SetupPacket` of `USB_DESCRIPTOR_REQUEST` (usbioctl.h). -/
structure USB_DESCRIPTOR_REQUEST_SetupPacket where
  bmRequest : Nat
  bRequest : Nat
  wValue : Nat
  wIndex : Nat
  wLength : Nat
deriving Inhabited, DecidableEq, Repr

structure USB_DESCRIPTOR_REQUEST where
  ConnectionIndex : Nat
  SetupPacket : USB_DESCRIPTOR_REQUEST_SetupPacket
deriving Inhabited, DecidableEq, Repr

/-- Eight bytes of memory: the array `UCHAR setup[8]` of the submit header and the
array `UCHAR SetupPacket[8]` of a control-transfer URB.  Seen through
`USB_DEFAULT_PIPE_SETUP_PACKET` the bytes are `bmRequestType`, `bRequest`, and the
little-endian words `wValue`, `wIndex`, `wLength`. -/
structure SetupBytes where
  b0 : Nat
  b1 : Nat
  b2 : Nat
  b3 : Nat
  b4 : Nat
  b5 : Nat
  b6 : Nat
  b7 : Nat
deriving Inhabited, DecidableEq, Repr

def SetupBytes.toList (s : SetupBytes) : List Nat :=
  [s.b0, s.b1, s.b2, s.b3, s.b4, s.b5, s.b6, s.b7]

/-- Store `pkt->bmRequestType.B = v`. -/
def SetupBytes.set_bmRequestType (s : SetupBytes) (v : Nat) : SetupBytes :=
  { s with b0 := v % 256 }

/-- Store `pkt->bRequest = v`. -/
def SetupBytes.set_bRequest (s : SetupBytes) (v : Nat) : SetupBytes :=
  { s with b1 := v % 256 }

/-- Store `pkt->wValue.W = v`. -/
def SetupBytes.set_wValue (s : SetupBytes) (v : Nat) : SetupBytes :=
  { s with b2 := v % 256, b3 := v / 256 % 256 }

/-- Store `pkt->wIndex.W = v`. -/
def SetupBytes.set_wIndex (s : SetupBytes) (v : Nat) : SetupBytes :=
  { s with b4 := v % 256, b5 := v / 256 % 256 }

/-- Store `pkt->wLength = v`. -/
def SetupBytes.set_wLength (s : SetupBytes) (v : Nat) : SetupBytes :=
  { s with b6 := v % 256, b7 := v / 256 % 256 }

def SetupBytes.bmRequestType (s : SetupBytes) : Nat := s.b0
def SetupBytes.bRequest (s : SetupBytes) : Nat := s.b1
def SetupBytes.wValue (s : SetupBytes) : Nat := s.b2 + 256 * s.b3
def SetupBytes.wIndex (s : SetupBytes) : Nat := s.b4 + 256 * s.b5
def SetupBytes.wLength (s : SetupBytes) : Nat := s.b6 + 256 * s.b7

structure URB_HEADER where
  Function : Nat
deriving Inhabited, DecidableEq, Repr

/-- The union `URB`.  The members `_URB_CONTROL_TRANSFER`, `_URB_BULK_OR_INTERRUPT_TRANSFER`,
`_URB_ISOCH_TRANSFER`, `_URB_CONTROL_DESCRIPTOR_REQUEST`, `_URB_CONTROL_GET_STATUS_REQUEST`,
`_URB_CONTROL_VENDOR_OR_CLASS_REQUEST`, ... start with the same fields at the same
offsets (this is what `AsUrbTransfer` relies on); they are kept once.  The fields that
follow belong to the member named in their comment. -/
structure URB where
  UrbHeader : URB_HEADER
  -- shared start of the transfer members
  PipeHandle : USBD_PIPE_HANDLE
  TransferFlags : Nat
  TransferBufferLength : Nat
  TransferBuffer : Option (List Nat)
  TransferBufferMDL : Option MDL
  -- _URB_CONTROL_TRANSFER, _URB_CONTROL_TRANSFER_EX
  SetupPacket : SetupBytes
  -- _URB_ISOCH_TRANSFER
  StartFrame : Nat
  NumberOfPackets : Nat
  IsoPacket : Nat → USBD_ISO_PACKET_DESCRIPTOR
  -- _URB_CONTROL_DESCRIPTOR_REQUEST (Index is a UCHAR there)
  DescriptorType : Nat
  LanguageId : Nat
  -- _URB_CONTROL_DESCRIPTOR_REQUEST, _URB_CONTROL_FEATURE_REQUEST,
  -- _URB_CONTROL_GET_STATUS_REQUEST, _URB_CONTROL_VENDOR_OR_CLASS_REQUEST
  Index : Nat
  -- _URB_CONTROL_FEATURE_REQUEST
  FeatureSelector : Nat
  -- _URB_CONTROL_VENDOR_OR_CLASS_REQUEST
  Request : Nat
  Value : Nat
  -- _URB_SELECT_CONFIGURATION
  ConfigurationDescriptor : Option USB_CONFIGURATION_DESCRIPTOR
  -- _URB_SELECT_INTERFACE
  Interface : USBD_INTERFACE_INFORMATION
  -- _URB_CONTROL_GET_INTERFACE_REQUEST
  GetInterface_Interface : Nat
deriving Inhabited

structure usbip_header_basic where
  command : Nat
  seqnum : Nat
  devid : Nat
  direction : Nat
  ep : Nat
deriving Inhabited, DecidableEq, Repr

structure usbip_header_cmd_submit where
  transfer_flags : Nat
  transfer_buffer_length : Nat
  start_frame : Nat
  number_of_packets : Nat
  interval : Nat
  setup : SetupBytes
deriving Inhabited, DecidableEq, Repr

structure usbip_header_cmd_unlink where
  seqnum : Nat
deriving Inhabited, DecidableEq, Repr

/-- The PDU header: the common part, the submit body `u.cmd_submit` and the unlink body
`u.cmd_unlink`.  The two bodies share storage in the union `u`; a header is read through
the body of its command only, so they are kept apart here. -/
structure usbip_header where
  base : usbip_header_basic
  cmd_submit : usbip_header_cmd_submit
  cmd_unlink : usbip_header_cmd_unlink
deriving Inhabited, DecidableEq, Repr

structure usbip_iso_packet_descriptor where
  offset : Nat
  length : Nat
  actual_length : Nat
  status : Nat
deriving Inhabited, DecidableEq, Repr

/-- One store into the buffer of a read IRP: raw bytes copied by `RtlCopyMemory`, or one
isochronous packet descriptor. -/
inductive Store where
  | bytes (b : List Nat)
  | iso (d : usbip_iso_packet_descriptor)
deriving Inhabited, DecidableEq, Repr

/-- An I/O request packet.  For a read IRP: `Length` is `Parameters.Read.Length`,
`Information` is `IoStatus.Information`, and the contents of `AssociatedIrp.SystemBuffer`
are kept as what was stored there: `hdr` is the `usbip_header` at its start, and `stores`
lists, in program order, every other store with the byte offset of its destination from
the start of the buffer.  For an IRP that carries a URB: `IoControlCode`, `urb` (what
`URB_FROM_IRP` yields) and the context the driver keeps in the IRP.  For the IRP of
IOCTL_USB_GET_DESCRIPTOR_FROM_NODE_CONNECTION: `OutputBufferLength` and the
`USB_DESCRIPTOR_REQUEST` in its system buffer.  `id` stands for the address of the IRP:
two IRPs are the same object when their `id`s are equal. -/
structure IRP where
  Length : Nat
  Information : Nat
  hdr : usbip_header
  stores : List (Nat × Store)
  IoControlCode : Nat
  urb : Option URB
  seqnum : Nat
  seqnum_unlink : Nat
  pipe_handle : USBD_PIPE_HANDLE
  id : Nat
  OutputBufferLength : Nat
  descriptor_request : USB_DESCRIPTOR_REQUEST
deriving Inhabited

/-- The per-device state that read.cpp and plugin.cpp touch.  The four queues are the
lists behind `rx_irps_csq` (records to be read by the reader), the queue that
`enqueue_rx_unlink_irp` and `dequeue_rx_unlink_irp` work on (cancelled records whose
unlink command is to be read), `tx_irps_csq` (records that wait for a reply) and
`read_irp_csq` (read IRPs that wait for a record); the head of a list is its oldest
entry.  `actconfig` is the copy of the active configuration, null until it is
allocated. -/
structure vpdo_dev_t where
  seqnum : Nat
  seqnum_payload : Nat
  unplugged : Bool
  devid : Nat
  plugged : Bool
  port : Int
  speed : Nat
  descriptor : USB_DEVICE_DESCRIPTOR
  actconfig : Option USB_CONFIGURATION_DESCRIPTOR
  bDeviceClass : Nat
  bDeviceSubClass : Nat
  bDeviceProtocol : Nat
  SerialNumberUser : Option (List Nat)
  current_intf_num : Nat
  current_intf_alt : Nat
  rx_irps_csq : List IRP
  rx_unlink_irps : List IRP
  tx_irps_csq : List IRP
  read_irp_csq : List IRP
deriving Inhabited

/-- The functions that read.cpp calls and whose definitions (proto.h, pdu.h,
usbd_helper.h, irp.h) are not among the sources.  `set_cmd_submit_usbip_header vpdo h pipe
TransferFlags TransferBufferLength` yields the status, the device state and the header it
leaves in `*h`; `is_transfer_direction_out` reads a header, `is_transfer_dir_out` the
setup packet of a control-transfer URB.  `set_cmd_unlink_usbip_header vpdo h seqnum_unlink`
yields the device state and the header it leaves in `*h`; `get_pdu_payload_size` and
`get_pdu_size` read a header; `clear_context irp skip_unlink` yields the IRP with its
driver context cleared. -/
structure Helpers where
  is_endpoint_direction_out : USBD_PIPE_HANDLE → Bool
  get_endpoint_type : USBD_PIPE_HANDLE → Nat
  get_endpoint_address : USBD_PIPE_HANDLE → Nat
  set_cmd_submit_usbip_header :
    vpdo_dev_t → usbip_header → USBD_PIPE_HANDLE → Nat → Nat → NTSTATUS × vpdo_dev_t × usbip_header
  is_transfer_direction_out : usbip_header → Bool
  is_transfer_dir_out : URB → Bool
  set_cmd_unlink_usbip_header : vpdo_dev_t → usbip_header → Nat → vpdo_dev_t × usbip_header
  get_pdu_payload_size : usbip_header → Nat
  get_pdu_size : usbip_header → Nat
  clear_context : IRP → Bool → IRP

/-! ## read.cpp -/

def get_irp_buffer_size (irp : IRP) : Nat := irp.Length

/-- Whether `try_get_irp_buffer(irp, min_size)` is non-null. -/
def try_get_irp_buffer (irp : IRP) (min_size : Nat) : Bool :=
  decide (get_irp_buffer_size irp ≥ min_size)

/-- Whether `get_usbip_header(irp)` is non-null; the header itself is `irp.hdr`. -/
def get_usbip_header (irp : IRP) : Bool :=
  try_get_irp_buffer irp sizeof_usbip_header

def get_urb_buffer (buf : Option (List Nat)) (bufMDL : Option MDL) : Option (List Nat) :=
  match buf with
  | some b => some b
  | none =>
    match bufMDL with
    | none => none
    | some m => m.MappedSystemVa

/-- The loop of `do_copy_payload`, `n` iterations from index `i` on, where `n` is
`NumberOfPackets - i`.  `dsc` is the byte offset of the descriptor pointer in the read
buffer, `sum` the running sum, `out` what has been stored so far.
`i < NumberOfPackets` holds where the loop tests it, so `++i` does not wrap. -/
def do_copy_payload_loop (r : URB) :
    Nat → Nat → Nat → Nat → List (Nat × Store) → NTSTATUS × Nat × List (Nat × Store)
  | 0, _, _, sum, out => (STATUS_SUCCESS, sum, out)
  | n + 1, i, dsc, sum, out =>
    let offset := (r.IsoPacket i).Offset
    let i := i + 1
    let next_offset :=
      if i < r.NumberOfPackets then (r.IsoPacket i).Offset else r.TransferBufferLength
    if next_offset ≥ offset ∧ next_offset ≤ r.TransferBufferLength then
      let d : usbip_iso_packet_descriptor :=
        { offset := offset, length := next_offset - offset, actual_length := 0, status := 0 }
      do_copy_payload_loop r n i (dsc + sizeof_usbip_iso_packet_descriptor)
        ((sum + d.length) % 2 ^ 32) (out ++ [(dsc, Store.iso d)])
    else
      (STATUS_INVALID_PARAMETER, sum, out)

/-- What `do_copy_payload` leaves behind: its return value, `*transferred`, the stores it
made into the read buffer and the final value of the local `sum`. -/
structure copy_payload_result where
  status : NTSTATUS
  transferred : Nat
  stores : List (Nat × Store)
  sum : Nat
deriving Inhabited, DecidableEq, Repr

/-- The function `do_copy_payload(dst_buf, r, transferred)`; `dst_buf` is the byte offset
of the destination in the read buffer. -/
def do_copy_payload (env : Helpers) (dst_buf : Nat) (r : URB) : copy_payload_result :=
  let transferred := 0
  let mdl := r.UrbHeader.Function == URB_FUNCTION_ISOCH_TRANSFER_USING_CHAINED_MDL
  match get_urb_buffer (if mdl then none else r.TransferBuffer) r.TransferBufferMDL with
  | none =>
    { status := STATUS_INSUFFICIENT_RESOURCES, transferred := transferred, stores := [], sum := 0 }
  | some src_buf =>
    let buf_sz := if env.is_endpoint_direction_out r.PipeHandle then r.TransferBufferLength else 0
    let out := [(dst_buf, Store.bytes (src_buf.take buf_sz))]
    let transferred := (transferred + buf_sz) % 2 ^ 32
    match do_copy_payload_loop r r.NumberOfPackets 0 (dst_buf + buf_sz) 0 out with
    | (err, sum, out) =>
      if err ≠ STATUS_SUCCESS then
        { status := err, transferred := transferred, stores := out, sum := sum }
      else
        { status := STATUS_SUCCESS,
          transferred :=
            (transferred + r.NumberOfPackets * sizeof_usbip_iso_packet_descriptor) % 2 ^ 32,
          stores := out, sum := sum }

def get_payload_size (env : Helpers) (r : URB) : Nat :=
  let len := (r.NumberOfPackets * sizeof_usbip_iso_packet_descriptor) % 2 ^ 32
  if env.is_endpoint_direction_out r.PipeHandle then
    (len + r.TransferBufferLength) % 2 ^ 32
  else
    len

/-- The function `do_copy_transfer_buffer(dst, urb, irp)`; `dst` is a byte offset in the
read buffer.  `TRANSFERRED(irp)` is a `ULONG_PTR`. -/
def do_copy_transfer_buffer (dst : Nat) (urb : URB) (irp : IRP) : NTSTATUS × IRP :=
  let mdl := urb.UrbHeader.Function == URB_FUNCTION_BULK_OR_INTERRUPT_TRANSFER_USING_CHAINED_MDL
  match get_urb_buffer (if mdl then none else urb.TransferBuffer) urb.TransferBufferMDL with
  | some buf =>
    (STATUS_SUCCESS,
      { irp with
        stores := irp.stores ++ [(dst, Store.bytes (buf.take urb.TransferBufferLength))],
        Information := (irp.Information + urb.TransferBufferLength) % 2 ^ 64 })
  | none => (STATUS_INSUFFICIENT_RESOURCES, irp)

def copy_payload (env : Helpers) (dst : Nat) (irp : IRP) (r : URB) (_expected : Nat) :
    NTSTATUS × IRP :=
  let res := do_copy_payload env dst r
  let irp := { irp with stores := irp.stores ++ res.stores }
  if res.status = STATUS_SUCCESS then
    (res.status, { irp with Information := (irp.Information + res.transferred) % 2 ^ 64 })
  else
    (res.status, irp)

/-- The function `copy_transfer_buffer`: `buf_sz` and `transferred` are `ULONG`s, and so
is their difference. -/
def copy_transfer_buffer (irp : IRP) (urb : URB) : NTSTATUS × IRP :=
  let buf_sz := get_irp_buffer_size irp
  let transferred := irp.Information % 2 ^ 32
  if (buf_sz + 2 ^ 32 - transferred) % 2 ^ 32 ≥ urb.TransferBufferLength then
    do_copy_transfer_buffer transferred urb irp
  else
    (STATUS_SUCCESS, irp)

def transfer_payload (irp : IRP) (urb : URB) : NTSTATUS × IRP :=
  if try_get_irp_buffer irp urb.TransferBufferLength then
    do_copy_transfer_buffer 0 urb irp
  else
    (STATUS_BUFFER_TOO_SMALL, irp)

def urb_isoch_transfer_payload (env : Helpers) (irp : IRP) (urb : URB) : NTSTATUS × IRP :=
  let sz := get_payload_size env urb
  if try_get_irp_buffer irp sz then
    copy_payload env 0 irp urb sz
  else
    (STATUS_BUFFER_TOO_SMALL, irp)

/-- What a handler of the dispatch table leaves behind: its return value, the device,
the read IRP and the IRP of the URB. -/
structure urb_result where
  status : NTSTATUS
  vpdo : vpdo_dev_t
  read_irp : IRP
  irp : IRP

def get_submit_setup (hdr : usbip_header) : SetupBytes := hdr.cmd_submit.setup

/-- The header `hdr` after the stores made through the pointer `get_submit_setup(hdr)`. -/
def set_submit_setup (hdr : usbip_header) (pkt : SetupBytes) : usbip_header :=
  { hdr with cmd_submit := { hdr.cmd_submit with setup := pkt } }

/-- The function `set_pipe_handle(irp, handle)` of irp.h: keeps the handle in the IRP. -/
def set_pipe_handle (irp : IRP) (h : USBD_PIPE_HANDLE) : IRP :=
  { irp with pipe_handle := h }

def sync_reset_pipe_and_clear_stall (env : Helpers) (vpdo : vpdo_dev_t) (irp urb_irp : IRP)
    (urb : URB) : urb_result :=
  if !get_usbip_header irp then
    { status := STATUS_BUFFER_TOO_SMALL, vpdo := vpdo, read_irp := irp, irp := urb_irp }
  else
    let TransferFlags := USBD_DEFAULT_PIPE_TRANSFER ||| USBD_TRANSFER_DIRECTION_OUT
    match env.set_cmd_submit_usbip_header vpdo irp.hdr EP0 TransferFlags 0 with
    | (err, vpdo, hdr) =>
      if err ≠ 0 then
        { status := err, vpdo := vpdo, read_irp := { irp with hdr := hdr }, irp := urb_irp }
      else
        let pkt := get_submit_setup hdr
        let pkt := pkt.set_bmRequestType (USB_DIR_OUT ||| USB_TYPE_STANDARD ||| USB_RECIP_ENDPOINT)
        let pkt := pkt.set_bRequest USB_REQUEST_CLEAR_FEATURE
        let pkt := pkt.set_wValue USB_FEATURE_ENDPOINT_STALL
        let pkt := pkt.set_wIndex (env.get_endpoint_address urb.PipeHandle)
        { status := STATUS_SUCCESS, vpdo := vpdo,
          read_irp := { irp with hdr := set_submit_setup hdr pkt, Information := sizeof_usbip_header },
          irp := urb_irp }

def urb_control_descriptor_request (env : Helpers) (vpdo : vpdo_dev_t) (irp urb_irp : IRP)
    (urb : URB) (dir_in : Bool) (recipient : Nat) : urb_result :=
  if !get_usbip_header irp then
    { status := STATUS_BUFFER_TOO_SMALL, vpdo := vpdo, read_irp := irp, irp := urb_irp }
  else
    let TransferFlags := USBD_DEFAULT_PIPE_TRANSFER |||
      (if dir_in then USBD_SHORT_TRANSFER_OK ||| USBD_TRANSFER_DIRECTION_IN
       else USBD_TRANSFER_DIRECTION_OUT)
    match env.set_cmd_submit_usbip_header vpdo irp.hdr EP0 TransferFlags urb.TransferBufferLength with
    | (err, vpdo, hdr) =>
      if err ≠ 0 then
        { status := err, vpdo := vpdo, read_irp := { irp with hdr := hdr }, irp := urb_irp }
      else
        let pkt := get_submit_setup hdr
        let pkt := pkt.set_bmRequestType
          ((if dir_in then USB_DIR_IN else USB_DIR_OUT) ||| USB_TYPE_STANDARD ||| recipient)
        let pkt := pkt.set_bRequest
          (if dir_in then USB_REQUEST_GET_DESCRIPTOR else USB_REQUEST_SET_DESCRIPTOR)
        let pkt := pkt.set_wValue (USB_DESCRIPTOR_MAKE_TYPE_AND_INDEX urb.DescriptorType urb.Index)
        let pkt := pkt.set_wIndex urb.LanguageId
        let pkt := pkt.set_wLength (urb.TransferBufferLength % 65536)
        let irp := { irp with hdr := set_submit_setup hdr pkt, Information := sizeof_usbip_header }
        if !dir_in ∧ urb.TransferBufferLength ≠ 0 then
          match copy_transfer_buffer irp urb with
          | (st, irp) => { status := st, vpdo := vpdo, read_irp := irp, irp := urb_irp }
        else
          { status := STATUS_SUCCESS, vpdo := vpdo, read_irp := irp, irp := urb_irp }

def urb_control_get_status_request (env : Helpers) (vpdo : vpdo_dev_t) (irp urb_irp : IRP)
    (urb : URB) (recipient : Nat) : urb_result :=
  if !get_usbip_header irp then
    { status := STATUS_BUFFER_TOO_SMALL, vpdo := vpdo, read_irp := irp, irp := urb_irp }
  else
    let TransferFlags := USBD_DEFAULT_PIPE_TRANSFER ||| USBD_TRANSFER_DIRECTION_IN
    match env.set_cmd_submit_usbip_header vpdo irp.hdr EP0 TransferFlags urb.TransferBufferLength with
    | (err, vpdo, hdr) =>
      if err ≠ 0 then
        { status := err, vpdo := vpdo, read_irp := { irp with hdr := hdr }, irp := urb_irp }
      else
        let pkt := get_submit_setup hdr
        let pkt := pkt.set_bmRequestType (USB_DIR_IN ||| USB_TYPE_STANDARD ||| recipient)
        let pkt := pkt.set_bRequest USB_REQUEST_GET_STATUS
        let pkt := pkt.set_wIndex urb.Index
        let pkt := pkt.set_wLength (urb.TransferBufferLength % 65536) -- must be 2
        { status := STATUS_SUCCESS, vpdo := vpdo,
          read_irp := { irp with hdr := set_submit_setup hdr pkt, Information := sizeof_usbip_header },
          irp := urb_irp }

def urb_control_vendor_class_request (env : Helpers) (vpdo : vpdo_dev_t) (irp urb_irp : IRP)
    (urb : URB) (type recipient : Nat) : urb_result :=
  if !get_usbip_header irp then
    { status := STATUS_BUFFER_TOO_SMALL, vpdo := vpdo, read_irp := irp, irp := urb_irp }
  else
    match env.set_cmd_submit_usbip_header vpdo irp.hdr EP0
        (urb.TransferFlags ||| USBD_DEFAULT_PIPE_TRANSFER) urb.TransferBufferLength with
    | (err, vpdo, hdr) =>
      if err ≠ 0 then
        { status := err, vpdo := vpdo, read_irp := { irp with hdr := hdr }, irp := urb_irp }
      else
        let dir_out := env.is_transfer_direction_out hdr
        let pkt := get_submit_setup hdr
        let pkt := pkt.set_bmRequestType
          ((if dir_out then USB_DIR_OUT else USB_DIR_IN) ||| type ||| recipient)
        let pkt := pkt.set_bRequest urb.Request
        let pkt := pkt.set_wValue urb.Value
        let pkt := pkt.set_wIndex urb.Index
        let pkt := pkt.set_wLength (urb.TransferBufferLength % 65536)
        let irp := { irp with hdr := set_submit_setup hdr pkt, Information := sizeof_usbip_header }
        if dir_out ∧ urb.TransferBufferLength ≠ 0 then
          match copy_transfer_buffer irp urb with
          | (st, irp) => { status := st, vpdo := vpdo, read_irp := irp, irp := urb_irp }
        else
          { status := STATUS_SUCCESS, vpdo := vpdo, read_irp := irp, irp := urb_irp }

def vendor_device (env : Helpers) (vpdo : vpdo_dev_t) (irp urb_irp : IRP) (urb : URB) : urb_result :=
  urb_control_vendor_class_request env vpdo irp urb_irp urb USB_TYPE_VENDOR USB_RECIP_DEVICE

def vendor_interface (env : Helpers) (vpdo : vpdo_dev_t) (irp urb_irp : IRP) (urb : URB) : urb_result :=
  urb_control_vendor_class_request env vpdo irp urb_irp urb USB_TYPE_VENDOR USB_RECIP_INTERFACE

def vendor_endpoint (env : Helpers) (vpdo : vpdo_dev_t) (irp urb_irp : IRP) (urb : URB) : urb_result :=
  urb_control_vendor_class_request env vpdo irp urb_irp urb USB_TYPE_VENDOR USB_RECIP_ENDPOINT

def vendor_other (env : Helpers) (vpdo : vpdo_dev_t) (irp urb_irp : IRP) (urb : URB) : urb_result :=
  urb_control_vendor_class_request env vpdo irp urb_irp urb USB_TYPE_VENDOR USB_RECIP_OTHER

def class_device (env : Helpers) (vpdo : vpdo_dev_t) (irp urb_irp : IRP) (urb : URB) : urb_result :=
  urb_control_vendor_class_request env vpdo irp urb_irp urb USB_TYPE_CLASS USB_RECIP_DEVICE

def class_interface (env : Helpers) (vpdo : vpdo_dev_t) (irp urb_irp : IRP) (urb : URB) : urb_result :=
  urb_control_vendor_class_request env vpdo irp urb_irp urb USB_TYPE_CLASS USB_RECIP_INTERFACE

def class_endpoint (env : Helpers) (vpdo : vpdo_dev_t) (irp urb_irp : IRP) (urb : URB) : urb_result :=
  urb_control_vendor_class_request env vpdo irp urb_irp urb USB_TYPE_CLASS USB_RECIP_ENDPOINT

def class_other (env : Helpers) (vpdo : vpdo_dev_t) (irp urb_irp : IRP) (urb : URB) : urb_result :=
  urb_control_vendor_class_request env vpdo irp urb_irp urb USB_TYPE_CLASS USB_RECIP_OTHER

def urb_select_configuration (env : Helpers) (vpdo : vpdo_dev_t) (irp urb_irp : IRP)
    (urb : URB) : urb_result :=
  if !get_usbip_header irp then
    { status := STATUS_BUFFER_TOO_SMALL, vpdo := vpdo, read_irp := irp, irp := urb_irp }
  else
    let cd := urb.ConfigurationDescriptor
    let TransferFlags := USBD_DEFAULT_PIPE_TRANSFER ||| USBD_TRANSFER_DIRECTION_OUT
    match env.set_cmd_submit_usbip_header vpdo irp.hdr EP0 TransferFlags 0 with
    | (err, vpdo, hdr) =>
      if err ≠ 0 then
        { status := err, vpdo := vpdo, read_irp := { irp with hdr := hdr }, irp := urb_irp }
      else
        let pkt := get_submit_setup hdr
        let pkt := pkt.set_bmRequestType (USB_DIR_OUT ||| USB_TYPE_STANDARD ||| USB_RECIP_DEVICE)
        let pkt := pkt.set_bRequest USB_REQUEST_SET_CONFIGURATION
        let pkt := pkt.set_wValue
          (match cd with
           | some c => c.bConfigurationValue
           | none => 0)
        { status := STATUS_SUCCESS, vpdo := vpdo,
          read_irp := { irp with hdr := set_submit_setup hdr pkt, Information := sizeof_usbip_header },
          irp := urb_irp }

def urb_select_interface (env : Helpers) (vpdo : vpdo_dev_t) (irp urb_irp : IRP)
    (urb : URB) : urb_result :=
  if !get_usbip_header irp then
    { status := STATUS_BUFFER_TOO_SMALL, vpdo := vpdo, read_irp := irp, irp := urb_irp }
  else
    let TransferFlags := USBD_DEFAULT_PIPE_TRANSFER ||| USBD_TRANSFER_DIRECTION_OUT
    match env.set_cmd_submit_usbip_header vpdo irp.hdr EP0 TransferFlags 0 with
    | (err, vpdo, hdr) =>
      if err ≠ 0 then
        { status := err, vpdo := vpdo, read_irp := { irp with hdr := hdr }, irp := urb_irp }
      else
        let pkt := get_submit_setup hdr
        let pkt := pkt.set_bmRequestType (USB_DIR_OUT ||| USB_TYPE_STANDARD ||| USB_RECIP_INTERFACE)
        let pkt := pkt.set_bRequest USB_REQUEST_SET_INTERFACE
        let pkt := pkt.set_wValue urb.Interface.AlternateSetting
        let pkt := pkt.set_wIndex urb.Interface.InterfaceNumber
        { status := STATUS_SUCCESS, vpdo := vpdo,
          read_irp := { irp with hdr := set_submit_setup hdr pkt, Information := sizeof_usbip_header },
          irp := urb_irp }

def urb_bulk_or_interrupt_transfer (env : Helpers) (vpdo : vpdo_dev_t) (irp urb_irp : IRP)
    (urb : URB) : urb_result :=
  let type := env.get_endpoint_type urb.PipeHandle
  if ¬(type = UsbdPipeTypeBulk ∨ type = UsbdPipeTypeInterrupt) then
    { status := STATUS_INVALID_PARAMETER, vpdo := vpdo, read_irp := irp, irp := urb_irp }
  else if !get_usbip_header irp then
    { status := STATUS_BUFFER_TOO_SMALL, vpdo := vpdo, read_irp := irp, irp := urb_irp }
  else
    match env.set_cmd_submit_usbip_header vpdo irp.hdr urb.PipeHandle urb.TransferFlags
        urb.TransferBufferLength with
    | (err, vpdo, hdr) =>
      if err ≠ 0 then
        { status := err, vpdo := vpdo, read_irp := { irp with hdr := hdr }, irp := urb_irp }
      else
        let urb_irp := set_pipe_handle urb_irp urb.PipeHandle
        let irp := { irp with hdr := hdr, Information := sizeof_usbip_header }
        if urb.TransferBufferLength ≠ 0 ∧ env.is_transfer_direction_out hdr then
          match copy_transfer_buffer irp urb with
          | (st, irp) => { status := st, vpdo := vpdo, read_irp := irp, irp := urb_irp }
        else
          { status := STATUS_SUCCESS, vpdo := vpdo, read_irp := irp, irp := urb_irp }

/-- The function `urb_isoch_transfer`.  In `get_irp_buffer_size(irp) - TRANSFERRED(irp)`
the `ULONG` is converted to `ULONG_PTR` and the difference is taken there. -/
def urb_isoch_transfer (env : Helpers) (vpdo : vpdo_dev_t) (irp urb_irp : IRP)
    (urb : URB) : urb_result :=
  let type := env.get_endpoint_type urb.PipeHandle
  if type ≠ UsbdPipeTypeIsochronous then
    { status := STATUS_INVALID_PARAMETER, vpdo := vpdo, read_irp := irp, irp := urb_irp }
  else if !get_usbip_header irp then
    { status := STATUS_BUFFER_TOO_SMALL, vpdo := vpdo, read_irp := irp, irp := urb_irp }
  else
    match env.set_cmd_submit_usbip_header vpdo irp.hdr urb.PipeHandle
        (urb.TransferFlags ||| USBD_START_ISO_TRANSFER_ASAP) urb.TransferBufferLength with
    | (err, vpdo, hdr) =>
      if err ≠ 0 then
        { status := err, vpdo := vpdo, read_irp := { irp with hdr := hdr }, irp := urb_irp }
      else
        let urb_irp := set_pipe_handle urb_irp urb.PipeHandle
        let hdr := { hdr with cmd_submit :=
          { hdr.cmd_submit with start_frame := urb.StartFrame,
                                number_of_packets := urb.NumberOfPackets } }
        let irp := { irp with hdr := hdr, Information := sizeof_usbip_header }
        let sz := get_payload_size env urb
        if (get_irp_buffer_size irp + 2 ^ 64 - irp.Information) % 2 ^ 64 ≥ sz then
          match copy_payload env sizeof_usbip_header irp urb sz with
          | (st, irp) => { status := st, vpdo := vpdo, read_irp := irp, irp := urb_irp }
        else
          { status := STATUS_SUCCESS, vpdo := vpdo, read_irp := irp, irp := urb_irp }

def urb_control_transfer_any (env : Helpers) (vpdo : vpdo_dev_t) (irp urb_irp : IRP)
    (urb : URB) : urb_result :=
  if !get_usbip_header irp then
    { status := STATUS_BUFFER_TOO_SMALL, vpdo := vpdo, read_irp := irp, irp := urb_irp }
  else
    match env.set_cmd_submit_usbip_header vpdo irp.hdr urb.PipeHandle urb.TransferFlags
        urb.TransferBufferLength with
    | (err, vpdo, hdr) =>
      if err ≠ 0 then
        { status := err, vpdo := vpdo, read_irp := { irp with hdr := hdr }, irp := urb_irp }
      else
        let urb_irp := set_pipe_handle urb_irp urb.PipeHandle
        let dir_out := env.is_transfer_direction_out hdr
        if dir_out ≠ env.is_transfer_dir_out urb then
          { status := STATUS_INVALID_PARAMETER, vpdo := vpdo,
            read_irp := { irp with hdr := hdr }, irp := urb_irp }
        else
          let hdr := { hdr with cmd_submit := { hdr.cmd_submit with setup := urb.SetupPacket } }
          let irp := { irp with hdr := hdr, Information := sizeof_usbip_header }
          if dir_out ∧ urb.TransferBufferLength ≠ 0 then
            match copy_transfer_buffer irp urb with
            | (st, irp) => { status := st, vpdo := vpdo, read_irp := irp, irp := urb_irp }
          else
            { status := STATUS_SUCCESS, vpdo := vpdo, read_irp := irp, irp := urb_irp }

def urb_function_unexpected (_env : Helpers) (vpdo : vpdo_dev_t) (irp urb_irp : IRP)
    (_urb : URB) : urb_result :=
  { status := STATUS_INTERNAL_ERROR, vpdo := vpdo, read_irp := irp, irp := urb_irp }

def get_descriptor_from_device (env : Helpers) (vpdo : vpdo_dev_t) (irp urb_irp : IRP) (urb : URB) :
    urb_result :=
  urb_control_descriptor_request env vpdo irp urb_irp urb (decide (USB_DIR_IN ≠ 0)) USB_RECIP_DEVICE

def set_descriptor_to_device (env : Helpers) (vpdo : vpdo_dev_t) (irp urb_irp : IRP) (urb : URB) :
    urb_result :=
  urb_control_descriptor_request env vpdo irp urb_irp urb (decide (USB_DIR_OUT ≠ 0)) USB_RECIP_DEVICE

def get_descriptor_from_interface (env : Helpers) (vpdo : vpdo_dev_t) (irp urb_irp : IRP) (urb : URB) :
    urb_result :=
  urb_control_descriptor_request env vpdo irp urb_irp urb (decide (USB_DIR_IN ≠ 0)) USB_RECIP_INTERFACE

def set_descriptor_to_interface (env : Helpers) (vpdo : vpdo_dev_t) (irp urb_irp : IRP) (urb : URB) :
    urb_result :=
  urb_control_descriptor_request env vpdo irp urb_irp urb (decide (USB_DIR_OUT ≠ 0)) USB_RECIP_INTERFACE

def get_descriptor_from_endpoint (env : Helpers) (vpdo : vpdo_dev_t) (irp urb_irp : IRP) (urb : URB) :
    urb_result :=
  urb_control_descriptor_request env vpdo irp urb_irp urb (decide (USB_DIR_IN ≠ 0)) USB_RECIP_ENDPOINT

def set_descriptor_to_endpoint (env : Helpers) (vpdo : vpdo_dev_t) (irp urb_irp : IRP) (urb : URB) :
    urb_result :=
  urb_control_descriptor_request env vpdo irp urb_irp urb (decide (USB_DIR_OUT ≠ 0)) USB_RECIP_ENDPOINT

def urb_control_feature_request (env : Helpers) (vpdo : vpdo_dev_t) (irp urb_irp : IRP)
    (urb : URB) (bRequest recipient : Nat) : urb_result :=
  if !get_usbip_header irp then
    { status := STATUS_BUFFER_TOO_SMALL, vpdo := vpdo, read_irp := irp, irp := urb_irp }
  else
    let TransferFlags := USBD_DEFAULT_PIPE_TRANSFER ||| USBD_TRANSFER_DIRECTION_OUT
    match env.set_cmd_submit_usbip_header vpdo irp.hdr EP0 TransferFlags 0 with
    | (err, vpdo, hdr) =>
      if err ≠ 0 then
        { status := err, vpdo := vpdo, read_irp := { irp with hdr := hdr }, irp := urb_irp }
      else
        let pkt := get_submit_setup hdr
        let pkt := pkt.set_bmRequestType (USB_DIR_OUT ||| USB_TYPE_STANDARD ||| recipient)
        let pkt := pkt.set_bRequest bRequest
        let pkt := pkt.set_wValue urb.FeatureSelector
        let pkt := pkt.set_wIndex urb.Index
        { status := STATUS_SUCCESS, vpdo := vpdo,
          read_irp := { irp with hdr := set_submit_setup hdr pkt, Information := sizeof_usbip_header },
          irp := urb_irp }

def set_feature_to_device (env : Helpers) (vpdo : vpdo_dev_t) (irp urb_irp : IRP) (urb : URB) :
    urb_result :=
  urb_control_feature_request env vpdo irp urb_irp urb USB_REQUEST_SET_FEATURE USB_RECIP_DEVICE

def set_feature_to_interface (env : Helpers) (vpdo : vpdo_dev_t) (irp urb_irp : IRP) (urb : URB) :
    urb_result :=
  urb_control_feature_request env vpdo irp urb_irp urb USB_REQUEST_SET_FEATURE USB_RECIP_INTERFACE

def set_feature_to_endpoint (env : Helpers) (vpdo : vpdo_dev_t) (irp urb_irp : IRP) (urb : URB) :
    urb_result :=
  urb_control_feature_request env vpdo irp urb_irp urb USB_REQUEST_SET_FEATURE USB_RECIP_ENDPOINT

def set_feature_to_other (env : Helpers) (vpdo : vpdo_dev_t) (irp urb_irp : IRP) (urb : URB) :
    urb_result :=
  urb_control_feature_request env vpdo irp urb_irp urb USB_REQUEST_SET_FEATURE USB_RECIP_OTHER

def clear_feature_to_device (env : Helpers) (vpdo : vpdo_dev_t) (irp urb_irp : IRP) (urb : URB) :
    urb_result :=
  urb_control_feature_request env vpdo irp urb_irp urb USB_REQUEST_CLEAR_FEATURE USB_RECIP_DEVICE

def clear_feature_to_interface (env : Helpers) (vpdo : vpdo_dev_t) (irp urb_irp : IRP) (urb : URB) :
    urb_result :=
  urb_control_feature_request env vpdo irp urb_irp urb USB_REQUEST_CLEAR_FEATURE USB_RECIP_INTERFACE

def clear_feature_to_endpoint (env : Helpers) (vpdo : vpdo_dev_t) (irp urb_irp : IRP) (urb : URB) :
    urb_result :=
  urb_control_feature_request env vpdo irp urb_irp urb USB_REQUEST_CLEAR_FEATURE USB_RECIP_ENDPOINT

def clear_feature_to_other (env : Helpers) (vpdo : vpdo_dev_t) (irp urb_irp : IRP) (urb : URB) :
    urb_result :=
  urb_control_feature_request env vpdo irp urb_irp urb USB_REQUEST_CLEAR_FEATURE USB_RECIP_OTHER

def get_configuration (env : Helpers) (vpdo : vpdo_dev_t) (irp urb_irp : IRP) (urb : URB) :
    urb_result :=
  if !get_usbip_header irp then
    { status := STATUS_BUFFER_TOO_SMALL, vpdo := vpdo, read_irp := irp, irp := urb_irp }
  else
    let TransferFlags := USBD_DEFAULT_PIPE_TRANSFER ||| USBD_TRANSFER_DIRECTION_IN
    match env.set_cmd_submit_usbip_header vpdo irp.hdr EP0 TransferFlags urb.TransferBufferLength with
    | (err, vpdo, hdr) =>
      if err ≠ 0 then
        { status := err, vpdo := vpdo, read_irp := { irp with hdr := hdr }, irp := urb_irp }
      else
        let pkt := get_submit_setup hdr
        let pkt := pkt.set_bmRequestType (USB_DIR_IN ||| USB_TYPE_STANDARD ||| USB_RECIP_DEVICE)
        let pkt := pkt.set_bRequest USB_REQUEST_GET_CONFIGURATION
        let pkt := pkt.set_wLength (urb.TransferBufferLength % 65536) -- must be 1
        { status := STATUS_SUCCESS, vpdo := vpdo,
          read_irp := { irp with hdr := set_submit_setup hdr pkt, Information := sizeof_usbip_header },
          irp := urb_irp }

def get_interface (env : Helpers) (vpdo : vpdo_dev_t) (irp urb_irp : IRP) (urb : URB) :
    urb_result :=
  if !get_usbip_header irp then
    { status := STATUS_BUFFER_TOO_SMALL, vpdo := vpdo, read_irp := irp, irp := urb_irp }
  else
    let TransferFlags := USBD_DEFAULT_PIPE_TRANSFER ||| USBD_TRANSFER_DIRECTION_IN
    match env.set_cmd_submit_usbip_header vpdo irp.hdr EP0 TransferFlags urb.TransferBufferLength with
    | (err, vpdo, hdr) =>
      if err ≠ 0 then
        { status := err, vpdo := vpdo, read_irp := { irp with hdr := hdr }, irp := urb_irp }
      else
        let pkt := get_submit_setup hdr
        let pkt := pkt.set_bmRequestType (USB_DIR_IN ||| USB_TYPE_STANDARD ||| USB_RECIP_INTERFACE)
        let pkt := pkt.set_bRequest USB_REQUEST_GET_INTERFACE
        let pkt := pkt.set_wIndex urb.GetInterface_Interface
        let pkt := pkt.set_wLength (urb.TransferBufferLength % 65536) -- must be 1
        { status := STATUS_SUCCESS, vpdo := vpdo,
          read_irp := { irp with hdr := set_submit_setup hdr pkt, Information := sizeof_usbip_header },
          irp := urb_irp }

def get_status_from_device (env : Helpers) (vpdo : vpdo_dev_t) (irp urb_irp : IRP) (urb : URB) :
    urb_result :=
  urb_control_get_status_request env vpdo irp urb_irp urb USB_RECIP_DEVICE

def get_status_from_interface (env : Helpers) (vpdo : vpdo_dev_t) (irp urb_irp : IRP) (urb : URB) :
    urb_result :=
  urb_control_get_status_request env vpdo irp urb_irp urb USB_RECIP_INTERFACE

def get_status_from_endpoint (env : Helpers) (vpdo : vpdo_dev_t) (irp urb_irp : IRP) (urb : URB) :
    urb_result :=
  urb_control_get_status_request env vpdo irp urb_irp urb USB_RECIP_ENDPOINT

def get_status_from_other (env : Helpers) (vpdo : vpdo_dev_t) (irp urb_irp : IRP) (urb : URB) :
    urb_result :=
  urb_control_get_status_request env vpdo irp urb_irp urb USB_RECIP_OTHER

abbrev urb_function_t := Helpers → vpdo_dev_t → IRP → IRP → URB → urb_result

/-- The dispatch table `urb_functions[]`, entry by entry in the order of the source;
`none` is `nullptr`. -/
def urb_functions : List (Option urb_function_t) :=
  [ some urb_select_configuration,
    some urb_select_interface,
    some urb_function_unexpected, -- URB_FUNCTION_ABORT_PIPE, urb_pipe_request

    some urb_function_unexpected, -- URB_FUNCTION_TAKE_FRAME_LENGTH_CONTROL
    some urb_function_unexpected, -- URB_FUNCTION_RELEASE_FRAME_LENGTH_CONTROL

    some urb_function_unexpected, -- URB_FUNCTION_GET_FRAME_LENGTH
    some urb_function_unexpected, -- URB_FUNCTION_SET_FRAME_LENGTH
    some urb_function_unexpected, -- URB_FUNCTION_GET_CURRENT_FRAME_NUMBER

    some urb_control_transfer_any,
    some urb_bulk_or_interrupt_transfer,
    some urb_isoch_transfer,

    some get_descriptor_from_device,
    some set_descriptor_to_device,

    some set_feature_to_device,
    some set_feature_to_interface,
    some set_feature_to_endpoint,

    some clear_feature_to_device,
    some clear_feature_to_interface,
    some clear_feature_to_endpoint,

    some get_status_from_device,
    some get_status_from_interface,
    some get_status_from_endpoint,

    none, -- URB_FUNCTION_RESERVED_0X0016

    some vendor_device,
    some vendor_interface,
    some vendor_endpoint,

    some class_device,
    some class_interface,
    some class_endpoint,

    none, -- URB_FUNCTION_RESERVE_0X001D

    some sync_reset_pipe_and_clear_stall, -- urb_pipe_request

    some class_other,
    some vendor_other,

    some get_status_from_other,

    some set_feature_to_other,
    some clear_feature_to_other,

    some get_descriptor_from_endpoint,
    some set_descriptor_to_endpoint,

    some get_configuration, -- URB_FUNCTION_GET_CONFIGURATION
    some get_interface, -- URB_FUNCTION_GET_INTERFACE

    some get_descriptor_from_interface,
    some set_descriptor_to_interface,

    some urb_function_unexpected, -- URB_FUNCTION_GET_MS_FEATURE_DESCRIPTOR

    none, -- URB_FUNCTION_RESERVE_0X002B
    none, -- URB_FUNCTION_RESERVE_0X002C
    none, -- URB_FUNCTION_RESERVE_0X002D
    none, -- URB_FUNCTION_RESERVE_0X002E
    none, -- URB_FUNCTION_RESERVE_0X002F

    some urb_function_unexpected, -- URB_FUNCTION_SYNC_RESET_PIPE, urb_pipe_request
    some urb_function_unexpected, -- URB_FUNCTION_SYNC_CLEAR_STALL, urb_pipe_request
    some urb_control_transfer_any, -- URB_FUNCTION_CONTROL_TRANSFER_EX

    none, -- URB_FUNCTION_RESERVE_0X0033
    none, -- URB_FUNCTION_RESERVE_0X0034

    some urb_function_unexpected, -- URB_FUNCTION_OPEN_STATIC_STREAMS
    some urb_function_unexpected, -- URB_FUNCTION_CLOSE_STATIC_STREAMS, urb_pipe_request
    some urb_bulk_or_interrupt_transfer, -- URB_FUNCTION_BULK_OR_INTERRUPT_TRANSFER_USING_CHAINED_MDL
    some urb_isoch_transfer, -- URB_FUNCTION_ISOCH_TRANSFER_USING_CHAINED_MDL

    none, -- 0x0039
    none, -- 0x003A
    none, -- 0x003B
    none, -- 0x003C

    some urb_function_unexpected -- URB_FUNCTION_GET_ISOCH_PIPE_TRANSFER_PATH_DELAYS
  ]

def usb_submit_urb (env : Helpers) (vpdo : vpdo_dev_t) (read_irp irp : IRP) : urb_result :=
  match irp.urb with
  | none =>
    { status := STATUS_INVALID_DEVICE_REQUEST, vpdo := vpdo, read_irp := read_irp, irp := irp }
  | some urb =>
    let func := urb.UrbHeader.Function
    let pfunc := if func < urb_functions.length then urb_functions.getD func none else none
    match pfunc with
    | some f => f env vpdo read_irp irp urb
    | none =>
      { status := STATUS_INVALID_PARAMETER, vpdo := vpdo, read_irp := read_irp, irp := irp }

/-! ## read.cpp: the header and payload phases of a read -/

def usb_reset_port (env : Helpers) (vpdo : vpdo_dev_t) (irp : IRP) : NTSTATUS × vpdo_dev_t × IRP :=
  if !get_usbip_header irp then
    (STATUS_BUFFER_TOO_SMALL, vpdo, irp)
  else
    let TransferFlags := USBD_DEFAULT_PIPE_TRANSFER ||| USBD_TRANSFER_DIRECTION_OUT
    match env.set_cmd_submit_usbip_header vpdo irp.hdr EP0 TransferFlags 0 with
    | (err, vpdo, hdr) =>
      if err ≠ 0 then
        (err, vpdo, { irp with hdr := hdr })
      else
        let pkt := get_submit_setup hdr
        let pkt := pkt.set_bmRequestType USB_RT_PORT
        let pkt := pkt.set_bRequest USB_REQUEST_SET_FEATURE
        let pkt := pkt.set_wValue USB_PORT_FEAT_RESET
        (STATUS_SUCCESS, vpdo,
          { irp with hdr := set_submit_setup hdr pkt, Information := sizeof_usbip_header })

def get_descriptor_from_node_connection (env : Helpers) (vpdo : vpdo_dev_t)
    (read_irp irp : IRP) : NTSTATUS × vpdo_dev_t × IRP :=
  if !get_usbip_header read_irp then
    (STATUS_BUFFER_TOO_SMALL, vpdo, read_irp)
  else
    let r := irp.descriptor_request
    let data_sz := irp.OutputBufferLength
    let TransferFlags :=
      USBD_DEFAULT_PIPE_TRANSFER ||| USBD_SHORT_TRANSFER_OK ||| USBD_TRANSFER_DIRECTION_IN
    match env.set_cmd_submit_usbip_header vpdo read_irp.hdr EP0 TransferFlags data_sz with
    | (err, vpdo, hdr) =>
      if err ≠ 0 then
        (err, vpdo, { read_irp with hdr := hdr })
      else
        let pkt := get_submit_setup hdr
        let pkt := pkt.set_bmRequestType (USB_DIR_IN ||| USB_TYPE_STANDARD ||| USB_RECIP_DEVICE)
        let pkt := pkt.set_bRequest USB_REQUEST_GET_DESCRIPTOR
        let pkt := pkt.set_wValue r.SetupPacket.wValue
        let pkt := pkt.set_wIndex r.SetupPacket.wIndex
        let pkt := pkt.set_wLength r.SetupPacket.wLength
        (STATUS_SUCCESS, vpdo,
          { read_irp with hdr := set_submit_setup hdr pkt, Information := sizeof_usbip_header })

def cmd_submit (env : Helpers) (vpdo : vpdo_dev_t) (read_irp irp : IRP) : urb_result :=
  let ioctl_code := irp.IoControlCode
  if ioctl_code = IOCTL_INTERNAL_USB_SUBMIT_URB then
    usb_submit_urb env vpdo read_irp irp
  else if ioctl_code = IOCTL_INTERNAL_USB_RESET_PORT then
    match usb_reset_port env vpdo read_irp with
    | (st, vpdo, read_irp) => { status := st, vpdo := vpdo, read_irp := read_irp, irp := irp }
  else if ioctl_code = IOCTL_USB_GET_DESCRIPTOR_FROM_NODE_CONNECTION then
    match get_descriptor_from_node_connection env vpdo read_irp irp with
    | (st, vpdo, read_irp) => { status := st, vpdo := vpdo, read_irp := read_irp, irp := irp }
  else
    { status := STATUS_INVALID_PARAMETER, vpdo := vpdo, read_irp := read_irp, irp := irp }

def cmd_unlink (env : Helpers) (vpdo : vpdo_dev_t) (irp : IRP) (seqnum_unlink : Nat) :
    NTSTATUS × vpdo_dev_t × IRP :=
  if !get_usbip_header irp then
    (STATUS_INVALID_PARAMETER, vpdo, irp)
  else
    match env.set_cmd_unlink_usbip_header vpdo irp.hdr seqnum_unlink with
    | (vpdo, hdr) =>
      (STATUS_SUCCESS, vpdo,
        { irp with hdr := hdr, Information := (irp.Information + sizeof_usbip_header) % 2 ^ 64 })

def read_payload (env : Helpers) (read_irp irp : IRP) : NTSTATUS × IRP :=
  match irp.urb with
  | none => (STATUS_INVALID_DEVICE_REQUEST, read_irp)
  | some urb =>
    let f := urb.UrbHeader.Function
    if f = URB_FUNCTION_ISOCH_TRANSFER then
      urb_isoch_transfer_payload env read_irp urb
    else if f = URB_FUNCTION_BULK_OR_INTERRUPT_TRANSFER ∨
        f = URB_FUNCTION_CONTROL_TRANSFER ∨
        f = URB_FUNCTION_CONTROL_TRANSFER_EX ∨
        f = URB_FUNCTION_SET_DESCRIPTOR_TO_DEVICE ∨
        f = URB_FUNCTION_SET_DESCRIPTOR_TO_INTERFACE ∨
        f = URB_FUNCTION_SET_DESCRIPTOR_TO_ENDPOINT ∨
        f = URB_FUNCTION_CLASS_DEVICE ∨
        f = URB_FUNCTION_CLASS_INTERFACE ∨
        f = URB_FUNCTION_CLASS_ENDPOINT ∨
        f = URB_FUNCTION_CLASS_OTHER ∨
        f = URB_FUNCTION_VENDOR_DEVICE ∨
        f = URB_FUNCTION_VENDOR_INTERFACE ∨
        f = URB_FUNCTION_VENDOR_ENDPOINT ∨
        f = URB_FUNCTION_VENDOR_OTHER then
      transfer_payload read_irp urb
    else
      (STATUS_INVALID_PARAMETER, read_irp)

def abort_read_payload (vpdo : vpdo_dev_t) (read_irp : IRP) : NTSTATUS × vpdo_dev_t × IRP :=
  (STATUS_REQUEST_ABORTED, { vpdo with seqnum_payload := 0 }, { read_irp with Information := 0 })

/-! ## Completion of IRPs and the queues of a device -/

/-- The routine through which an IRP is completed. -/
inductive completion_routine where
  | CompleteRequest
  | complete_internal_ioctl
  | complete_canceled_irp
deriving Inhabited, DecidableEq, Repr

/-- One completion of an IRP: the routine called, the IRP and the status it is completed
with.  A call of the read path yields the list of its completions, in program order. -/
structure completion where
  routine : completion_routine
  irp : IRP
  status : NTSTATUS
deriving Inhabited

/-- Modelled from the spec: `complete_internal_ioctl(irp, status)` of internal_ioctl.h,
not among the sources: the IRP of a URB is completed with `status`. -/
def complete_internal_ioctl (irp : IRP) (status : NTSTATUS) : completion :=
  { routine := completion_routine.complete_internal_ioctl, irp := irp, status := status }

/-- Modelled from the spec: `complete_canceled_irp(vpdo, irp)` of irp.h, not among the
sources: a record cancelled by the host is completed with cancelled status. -/
def complete_canceled_irp (irp : IRP) : completion :=
  { routine := completion_routine.complete_canceled_irp, irp := irp, status := STATUS_CANCELLED }

/-- The call `CompleteRequest(irp, status)`. -/
def CompleteRequest (irp : IRP) (status : NTSTATUS) : completion :=
  { routine := completion_routine.CompleteRequest, irp := irp, status := status }

/-- The completions made by `complete_read(irp, status)`. -/
def complete_read (irp : IRP) (status : NTSTATUS) : List completion :=
  if status ≠ STATUS_PENDING then [CompleteRequest irp status] else []

def get_seqnum_unlink (irp : IRP) : Nat := irp.seqnum_unlink

def get_seqnum (irp : IRP) : Nat := irp.seqnum

def set_seqnum (irp : IRP) (seqnum : Nat) : IRP := { irp with seqnum := seqnum }

def set_seqnum_unlink (irp : IRP) (seqnum : Nat) : IRP := { irp with seqnum_unlink := seqnum }

/-- Modelled from the spec: `IoCsqInsertIrp` on a queue of csq.cpp (not among the
sources), also `IoCsqInsertIrpEx` without an insert context: the queues are FIFOs, a
record is appended behind the records already queued. -/
def IoCsqInsertIrp (q : List IRP) (irp : IRP) : List IRP := q ++ [irp]

/-- Modelled from the spec: `IoCsqInsertIrpEx` with the insert context `InsertHead()`:
the record becomes the oldest of the queue. -/
def InsertHead (q : List IRP) (irp : IRP) : List IRP := irp :: q

/-- The oldest record of `q` that satisfies `p`, and `q` without it. -/
def remove_first (p : IRP → Bool) : List IRP → Option IRP × List IRP
  | [] => (none, [])
  | x :: xs =>
    if p x then (some x, xs)
    else
      match remove_first p xs with
      | (r, ys) => (r, x :: ys)

/-- The peek context `make_peek_context(seqnum)`. -/
def make_peek_context (seqnum : Nat) : Option Nat := some seqnum

/-- Modelled from the spec: `IoCsqRemoveNextIrp` on a queue of csq.cpp.  Without a peek
context, or with the context of sequence number zero, the oldest record is removed and
returned; with the context of a non-zero sequence number, the oldest record that has this
sequence number. -/
def IoCsqRemoveNextIrp (q : List IRP) (ctx : Option Nat) : Option IRP × List IRP :=
  match ctx with
  | none => remove_first (fun _ => true) q
  | some seqnum =>
    if seqnum = 0 then remove_first (fun _ => true) q
    else remove_first (fun irp => get_seqnum irp == seqnum) q

/-- Modelled from the spec: `enqueue_rx_unlink_irp` of csq.h: the cancelled record is
appended to the queue of records whose unlink command is due. -/
def enqueue_rx_unlink_irp (vpdo : vpdo_dev_t) (irp : IRP) : vpdo_dev_t :=
  { vpdo with rx_unlink_irps := vpdo.rx_unlink_irps ++ [irp] }

/-- Modelled from the spec: `dequeue_rx_unlink_irp` of csq.h: the oldest record whose
unlink command is due is removed and returned. -/
def dequeue_rx_unlink_irp (vpdo : vpdo_dev_t) : Option IRP × vpdo_dev_t :=
  match vpdo.rx_unlink_irps with
  | [] => (none, vpdo)
  | x :: xs => (some x, { vpdo with rx_unlink_irps := xs })

/-- Modelled from the spec: `IoCsqInsertIrpEx` on `read_irp_csq` with the insert context
`InsertIfRxEmpty()` (csq.cpp, `rx_unlink_unavail`): the read IRP is queued and zero is
returned when no record waits to be read; otherwise nothing is queued and a status other
than zero is returned. -/
def InsertIfRxEmpty (vpdo : vpdo_dev_t) (read_irp : IRP) : NTSTATUS × vpdo_dev_t :=
  if vpdo.rx_irps_csq.isEmpty ∧ vpdo.rx_unlink_irps.isEmpty then
    (STATUS_SUCCESS, { vpdo with read_irp_csq := vpdo.read_irp_csq ++ [read_irp] })
  else
    (0xC0000001, vpdo)

/-! ## read.cpp: reading a record -/

/-- The function `post_read`.  A null `hdr` is dereferenced only where the source asserts
that it is not null; the device is left as it is there. -/
def post_read (env : Helpers) (vpdo : vpdo_dev_t) (hdr : Option usbip_header) (irp : IRP) :
    vpdo_dev_t :=
  if vpdo.seqnum_payload ≠ 0 then
    { vpdo with seqnum_payload := 0, tx_irps_csq := IoCsqInsertIrp vpdo.tx_irps_csq irp }
  else
    match hdr with
    | none => vpdo
    | some hdr =>
      let seqnum := hdr.base.seqnum
      let irp := set_seqnum irp seqnum
      if get_seqnum_unlink irp ≠ 0 then
        vpdo
      else if env.get_pdu_payload_size hdr ≠ 0 then
        { vpdo with seqnum_payload := seqnum, rx_irps_csq := InsertHead vpdo.rx_irps_csq irp }
      else
        { vpdo with tx_irps_csq := IoCsqInsertIrp vpdo.tx_irps_csq irp }

/-- What a call of the read path leaves behind: its return value, the device, the read
IRP and the completions it made. -/
structure read_result where
  status : NTSTATUS
  vpdo : vpdo_dev_t
  read_irp : IRP
  completed : List completion
deriving Inhabited

def do_read (env : Helpers) (vpdo : vpdo_dev_t) (read_irp irp : IRP) (from_read : Bool) :
    read_result :=
  let read_hdr := decide (vpdo.seqnum_payload = 0)
  let seqnum_unlink := get_seqnum_unlink irp
  let r : urb_result :=
    if seqnum_unlink ≠ 0 then
      match cmd_unlink env vpdo read_irp seqnum_unlink with
      | (st, vpdo, read_irp) => { status := st, vpdo := vpdo, read_irp := read_irp, irp := irp }
    else if read_hdr then
      cmd_submit env vpdo read_irp irp
    else
      match read_payload env read_irp irp with
      | (st, read_irp) => { status := st, vpdo := vpdo, read_irp := read_irp, irp := irp }
  let err := r.status
  if err = 0 then
    let hdr :=
      if read_hdr ∧ try_get_irp_buffer r.read_irp sizeof_usbip_header then some r.read_irp.hdr
      else none
    let vpdo := post_read env r.vpdo hdr r.irp
    { status := err, vpdo := vpdo, read_irp := r.read_irp,
      completed := if !from_read then complete_read r.read_irp err else [] }
  else
    let completed := if from_read then [complete_internal_ioctl r.irp err] else []
    if !read_hdr then
      match abort_read_payload r.vpdo r.read_irp with
      | (err, vpdo, read_irp) =>
        { status := err, vpdo := vpdo, read_irp := read_irp,
          completed := completed ++ (if !from_read then complete_read read_irp err else []) }
    else
      { status := err, vpdo := r.vpdo, read_irp := r.read_irp,
        completed := completed ++ (if !from_read then complete_read r.read_irp err else []) }

def dequeue_rx_irp (vpdo : vpdo_dev_t) (seqnum_payload : Nat) : Option IRP × vpdo_dev_t :=
  match (if seqnum_payload = 0 then dequeue_rx_unlink_irp vpdo else (none, vpdo)) with
  | (some irp, vpdo) => (some irp, vpdo)
  | (none, vpdo) =>
    let ctx := make_peek_context seqnum_payload
    match IoCsqRemoveNextIrp vpdo.rx_irps_csq ctx with
    | (irp, q) => (irp, { vpdo with rx_irps_csq := q })

/-- The function `process_read_irp`; `fuel` bounds the number of rounds of its loop and
`none` is returned when the bound is reached. -/
def process_read_irp (env : Helpers) : Nat → vpdo_dev_t → IRP → Option read_result
  | 0, _, _ => none
  | fuel + 1, vpdo, read_irp =>
    let seqnum_payload := vpdo.seqnum_payload
    match dequeue_rx_irp vpdo seqnum_payload with
    | (some irp, vpdo) => some (do_read env vpdo read_irp irp true)
    | (none, vpdo) =>
      if seqnum_payload ≠ 0 then
        match abort_read_payload vpdo read_irp with
        | (st, vpdo, read_irp) =>
          some { status := st, vpdo := vpdo, read_irp := read_irp, completed := [] }
      else
        match InsertIfRxEmpty vpdo read_irp with
        | (st, vpdo) =>
          if st ≠ 0 then process_read_irp env fuel vpdo read_irp
          else some { status := STATUS_PENDING, vpdo := vpdo, read_irp := read_irp, completed := [] }

/-- What `send_to_server` leaves behind: its return value, the device and the
completions it made. -/
structure send_result where
  status : NTSTATUS
  vpdo : vpdo_dev_t
  completed : List completion
deriving Inhabited

/-- The function `send_to_server`.  `next_irp == irp` compares addresses; clearing the
context of the IRP does not move it. -/
def send_to_server (env : Helpers) (vpdo : vpdo_dev_t) (irp : IRP) (unlink : Bool) : send_result :=
  let irp := { env.clear_context irp unlink with id := irp.id }
  let vpdo :=
    if unlink then enqueue_rx_unlink_irp vpdo irp
    else { vpdo with rx_irps_csq := IoCsqInsertIrp vpdo.rx_irps_csq irp }
  let status := STATUS_PENDING
  match IoCsqRemoveNextIrp vpdo.read_irp_csq none with
  | (none, _) => { status := status, vpdo := vpdo, completed := [] }
  | (some read_irp, q) =>
    let vpdo := { vpdo with read_irp_csq := q }
    let seqnum_payload := vpdo.seqnum_payload
    match dequeue_rx_irp vpdo seqnum_payload with
    | (some next_irp, vpdo) =>
      let r := do_read env vpdo read_irp next_irp false
      let err := r.status
      if err ≠ 0 then
        if next_irp.id = irp.id then
          { status := err, vpdo := r.vpdo, completed := r.completed }
        else if unlink then
          { status := status, vpdo := r.vpdo,
            completed := r.completed ++ [complete_canceled_irp next_irp] }
        else
          { status := status, vpdo := r.vpdo,
            completed := r.completed ++ [complete_internal_ioctl next_irp err] }
      else
        { status := status, vpdo := r.vpdo, completed := r.completed }
    | (none, vpdo) =>
      if seqnum_payload ≠ 0 then
        match abort_read_payload vpdo read_irp with
        | (err, vpdo, read_irp) =>
          { status := status, vpdo := vpdo, completed := [CompleteRequest read_irp err] }
      else
        { status := status,
          vpdo := { vpdo with read_irp_csq := IoCsqInsertIrp vpdo.read_irp_csq read_irp },
          completed := [] }

def send_cmd_unlink (env : Helpers) (vpdo : vpdo_dev_t) (irp : IRP) : send_result :=
  let seqnum := get_seqnum irp
  let irp := set_seqnum_unlink irp seqnum
  send_to_server env vpdo irp true

/-- The PnP states of a device object (the enumeration `pnp_state`). -/
inductive pnp_state where
  | NotStarted
  | Started
  | StopPending
  | Stopped
  | RemovePending
  | SurpriseRemovePending
  | Removed
deriving Inhabited, DecidableEq, Repr

/-- The virtual hub: the devices plugged into it. -/
structure vhub_dev_t where
  vpdos : List vpdo_dev_t
deriving Inhabited

/-- The virtual host controller; `vhub` is what `vhub_from_vhci` yields. -/
structure vhci_dev_t where
  PnPState : pnp_state
  vhub : Option vhub_dev_t
deriving Inhabited

/-- What `vhci_read` leaves behind: its return value, the device of the file (if any),
the read IRP and the completions it made. -/
structure vhci_read_result where
  status : NTSTATUS
  vpdo : Option vpdo_dev_t
  irp : IRP
  completed : List completion
deriving Inhabited

/-- The function `vhci_read`.  `vhci` is what `to_vhci_or_null(devobj)` yields and `fs`
the device that `irpstack->FileObject->FsContext` points to; `fuel` bounds the loop of
`process_read_irp`. -/
def vhci_read (env : Helpers) (fuel : Nat) (vhci : Option vhci_dev_t) (fs : Option vpdo_dev_t)
    (irp : IRP) : Option vhci_read_result :=
  match vhci with
  | none =>
    some { status := STATUS_INVALID_DEVICE_REQUEST, vpdo := fs, irp := irp,
           completed := [CompleteRequest irp STATUS_INVALID_DEVICE_REQUEST] }
  | some vhci =>
    let status := STATUS_NO_SUCH_DEVICE
    if vhci.PnPState ≠ pnp_state.Removed then
      match fs with
      | some vpdo =>
        if vpdo.unplugged then
          some { status := STATUS_DEVICE_NOT_CONNECTED, vpdo := some vpdo, irp := irp,
                 completed := complete_read irp STATUS_DEVICE_NOT_CONNECTED }
        else
          match process_read_irp env fuel vpdo irp with
          | none => none
          | some r =>
            some { status := r.status, vpdo := some r.vpdo, irp := r.read_irp,
                   completed := r.completed ++ complete_read r.read_irp r.status }
      | none =>
        some { status := status, vpdo := none, irp := irp, completed := complete_read irp status }
    else
      some { status := status, vpdo := fs, irp := irp, completed := complete_read irp status }

/-! ## plugin.cpp -/

abbrev STATUS_UNSUCCESSFUL : NTSTATUS := 0xC0000001
abbrev STATUS_END_OF_FILE : NTSTATUS := 0xC0000011

/-- The value of `sizeof(USB_CONFIGURATION_DESCRIPTOR)` (usbspec.h), the size of the member
`dscr_conf` of `vhci_pluginfo_t`. -/
abbrev sizeof_USB_CONFIGURATION_DESCRIPTOR : Nat := 9

/-- The plug request `vhci_pluginfo_t`; in memory the rest of the configuration
descriptor follows `dscr_conf`. -/
structure vhci_pluginfo_t where
  devid : Nat
  port : Int
  wserial : List Nat
  dscr_dev : USB_DEVICE_DESCRIPTOR
  dscr_conf : USB_CONFIGURATION_DESCRIPTOR
deriving Inhabited

/-- A file object; `FsContext` is the device it points to. -/
structure FILE_OBJECT where
  FsContext : Option vpdo_dev_t
deriving Inhabited

/-- The calls by which a plug touches the bus. -/
inductive plug_event where
  | vhub_get_empty_port
  | vdev_create
  | IoDeleteDevice
  | IoInvalidateDeviceRelations
deriving Inhabited, DecidableEq, Repr

/-- The functions and sizes that plugin.cpp uses and whose definitions (vhub.h, usbdsc.h,
usb_util.h, strutil.h, usbip_vhci_api.h, the kernel) are not among the sources.
`sizeof_pluginfo` is `sizeof(vhci_pluginfo_t)`; `vhub_get_empty_port` yields a free port or
a negative number; `vdev_create` yields the fresh device or null; `ExAllocatePoolWithTag n`
tells whether `n` bytes can be allocated; `dsc_find_next_intf cfg` is the call
`dsc_find_next_intf(cfg, nullptr)`, the first interface descriptor of a configuration. -/
structure PlugHelpers where
  sizeof_pluginfo : Nat
  is_valid_dsc : USB_DEVICE_DESCRIPTOR → Bool
  get_usb_speed : Nat → Nat
  dsc_find_next_intf : USB_CONFIGURATION_DESCRIPTOR → Option USB_INTERFACE_DESCRIPTOR
  vhub_get_empty_port : Option vhub_dev_t → Int
  vdev_create : Option vpdo_dev_t
  ExAllocatePoolWithTag : Nat → Bool
  libdrv_strdupW : List Nat → Option (List Nat)

/-- Modelled from the spec: `vhub_attach_vpdo` of vhub.h, not among the sources: the
device joins the devices of the hub. -/
def vhub_attach_vpdo (vhub : Option vhub_dev_t) (vpdo : vpdo_dev_t) : Option vhub_dev_t :=
  match vhub with
  | none => none
  | some h => some { h with vpdos := h.vpdos ++ [vpdo] }

/-- The function `vhci_init_vpdo`: the fields of the device it sets, and the hub the
device is attached to. -/
def vhci_init_vpdo (vhub : Option vhub_dev_t) (vpdo : vpdo_dev_t) :
    vpdo_dev_t × Option vhub_dev_t :=
  let vpdo := { vpdo with plugged := true, current_intf_num := 0, current_intf_alt := 0 }
  (vpdo, vhub_attach_vpdo vhub vpdo)

def setup_vpdo_with_descriptor (ph : PlugHelpers) (vpdo : vpdo_dev_t)
    (d : USB_DEVICE_DESCRIPTOR) : NTSTATUS × vpdo_dev_t :=
  if ph.is_valid_dsc d then
    let vpdo := { vpdo with descriptor := d }
    let vpdo := { vpdo with speed := ph.get_usb_speed d.bcdUSB }
    let vpdo := { vpdo with bDeviceClass := d.bDeviceClass,
                            bDeviceSubClass := d.bDeviceSubClass,
                            bDeviceProtocol := d.bDeviceProtocol }
    (STATUS_SUCCESS, vpdo)
  else
    (STATUS_INVALID_PARAMETER, vpdo)

def setup_vpdo_with_dsc_conf (ph : PlugHelpers) (vpdo : vpdo_dev_t)
    (d : USB_CONFIGURATION_DESCRIPTOR) : NTSTATUS × vpdo_dev_t :=
  let vpdo :=
    { vpdo with actconfig := if ph.ExAllocatePoolWithTag d.wTotalLength then some d else none }
  match vpdo.actconfig with
  | none => (STATUS_INSUFFICIENT_RESOURCES, vpdo)
  | some actconfig =>
    if vpdo.bDeviceClass ≠ 0 ∨ vpdo.bDeviceSubClass ≠ 0 ∨ vpdo.bDeviceProtocol ≠ 0 then
      (STATUS_SUCCESS, vpdo)
    else
      match ph.dsc_find_next_intf actconfig with
      | some i =>
        (STATUS_SUCCESS,
          { vpdo with bDeviceClass := i.bInterfaceClass,
                      bDeviceSubClass := i.bInterfaceSubClass,
                      bDeviceProtocol := i.bInterfaceProtocol })
      | none => (STATUS_INVALID_PARAMETER, vpdo)

/-- What `vhci_plugin_vpdo` leaves behind: its return value, the controller, the plug
request (its `port` is written), the file object and the calls made to the bus. -/
structure plugin_result where
  status : NTSTATUS
  vhci : vhci_dev_t
  pluginfo : vhci_pluginfo_t
  fo : FILE_OBJECT
  events : List plug_event
deriving Inhabited

/-- The function `vhci_plugin_vpdo`.  `inlen` is a `ULONG`; the right side of the second
comparison is computed in `size_t`. -/
def vhci_plugin_vpdo (ph : PlugHelpers) (vhci : vhci_dev_t) (pluginfo : vhci_pluginfo_t)
    (inlen : Nat) (fo : FILE_OBJECT) : plugin_result :=
  if inlen < ph.sizeof_pluginfo then
    { status := STATUS_INVALID_PARAMETER, vhci := vhci, pluginfo := pluginfo, fo := fo,
      events := [] }
  else
    let wTotalLength := pluginfo.dscr_conf.wTotalLength
    if inlen ≠ ((ph.sizeof_pluginfo + wTotalLength) % 2 ^ 64 + 2 ^ 64
        - sizeof_USB_CONFIGURATION_DESCRIPTOR) % 2 ^ 64 then
      { status := STATUS_INVALID_PARAMETER, vhci := vhci, pluginfo := pluginfo, fo := fo,
        events := [] }
    else
      let pluginfo := { pluginfo with port := ph.vhub_get_empty_port vhci.vhub }
      let events := [plug_event.vhub_get_empty_port]
      if pluginfo.port < 0 then
        { status := STATUS_END_OF_FILE, vhci := vhci, pluginfo := pluginfo, fo := fo,
          events := events }
      else
        let events := events ++ [plug_event.vdev_create]
        match ph.vdev_create with
        | none =>
          { status := STATUS_UNSUCCESSFUL, vhci := vhci, pluginfo := pluginfo, fo := fo,
            events := events }
        | some vpdo =>
          match setup_vpdo_with_descriptor ph vpdo pluginfo.dscr_dev with
          | (err, vpdo) =>
            if err ≠ 0 then
              { status := err, vhci := vhci, pluginfo := pluginfo, fo := fo,
                events := events ++ [plug_event.IoDeleteDevice] }
            else
              match setup_vpdo_with_dsc_conf ph vpdo pluginfo.dscr_conf with
              | (err, vpdo) =>
                if err ≠ 0 then
                  { status := err, vhci := vhci, pluginfo := pluginfo, fo := fo,
                    events := events ++ [plug_event.IoDeleteDevice] }
                else
                  let vpdo :=
                    { vpdo with SerialNumberUser :=
                        if pluginfo.wserial.headD 0 ≠ 0 then ph.libdrv_strdupW pluginfo.wserial
                        else none }
                  if fo.FsContext.isSome then
                    { status := STATUS_INVALID_PARAMETER, vhci := vhci, pluginfo := pluginfo,
                      fo := fo, events := events ++ [plug_event.IoDeleteDevice] }
                  else
                    let vpdo := { vpdo with port := pluginfo.port, devid := pluginfo.devid }
                    match vhci_init_vpdo vhci.vhub vpdo with
                    | (vpdo, vhub) =>
                      { status := STATUS_SUCCESS, vhci := { vhci with vhub := vhub },
                        pluginfo := pluginfo, fo := { fo with FsContext := some vpdo },
                        events := events ++ [plug_event.IoInvalidateDeviceRelations] }

/-- Modelled from the spec: `vhub_mark_unplugged_all_vpdos` of vhub.h, not among the
sources: the unplugged flag of every device of the hub is set. -/
def vhub_mark_unplugged_all_vpdos (vhub : vhub_dev_t) : vhub_dev_t :=
  { vhub with vpdos := vhub.vpdos.map fun v => { v with unplugged := true } }

/-- Modelled from the spec: `vhub_find_vpdo` of vhub.h, not among the sources: the device
of the hub that is bound to the port, or null. -/
def vhub_find_vpdo (vhub : vhub_dev_t) (port : Int) : Option vpdo_dev_t :=
  vhub.vpdos.find? fun v => decide (v.port = port)

/-- The devices `l` with the unplugged flag of the first one bound to `port` set. -/
def mark_unplugged_first (port : Int) : List vpdo_dev_t → List vpdo_dev_t
  | [] => []
  | v :: vs =>
    if v.port = port then { v with unplugged := true } :: vs
    else v :: mark_unplugged_first port vs

/-- Modelled from the spec: `vhub_mark_unplugged_vpdo` of vhub.h, not among the sources:
the unplugged flag of the device is set; the device is known by its port, which is unique
within the bus. -/
def vhub_mark_unplugged_vpdo (vhub : vhub_dev_t) (vpdo : vpdo_dev_t) : vhub_dev_t :=
  { vhub with vpdos := mark_unplugged_first vpdo.port vhub.vpdos }

/-- The function `vhci_unplug_port`; `port` is a `CHAR`.  The reference count that
`vdev_del_ref` drops is not part of the state. -/
def vhci_unplug_port (vhci : vhci_dev_t) (port : Int) : NTSTATUS × vhci_dev_t :=
  match vhci.vhub with
  | none => (STATUS_NO_SUCH_DEVICE, vhci)
  | some vhub =>
    if port < 0 then
      (STATUS_SUCCESS, { vhci with vhub := some (vhub_mark_unplugged_all_vpdos vhub) })
    else
      match vhub_find_vpdo vhub port with
      | none => (STATUS_NO_SUCH_DEVICE, vhci)
      | some vpdo =>
        (STATUS_SUCCESS, { vhci with vhub := some (vhub_mark_unplugged_vpdo vhub vpdo) })

/-! ## Observations on the stores of a read buffer -/

/-- The packet descriptors among the stores, in the order they were stored. -/
def emitted_descriptors (l : List (Nat × Store)) : List usbip_iso_packet_descriptor :=
  l.filterMap fun s =>
    match s.2 with
    | Store.iso d => some d
    | Store.bytes _ => none

/-- The `length` fields of the packet descriptors among the stores. -/
def emitted_lengths (l : List (Nat × Store)) : List Nat :=
  (emitted_descriptors l).map fun d => d.length

/-! ## A reference instance of the helpers, and sample requests -/

/-- Modelled from the spec: the helpers of proto.h and usbd_helper.h, which are not among
the sources.  A pipe handle is taken to hold the endpoint address in its low byte (bit 7
set for IN) and the pipe type above it, zero being EP0.  The header builder fills in the
fields the spec lists for a submit (command 1, the next sequence number of the device, the
device id, direction 0 for OUT and 1 for IN, the endpoint number, the flags and the buffer
length) and zeroes the setup bytes; for EP0 the direction is that of the transfer flags,
otherwise the pipe handle is authoritative.  The direction of a control transfer is bit 7
of the first setup byte.  The unlink header has command 2, the next sequence number of
the device and the sequence number to unlink.  The payload of a submit is the transfer
buffer for OUT and the packet descriptors of an isochronous transfer; an unlink has none.
Clearing the context of an IRP zeroes its sequence number and pipe handle, and its unlink
sequence number unless that is to be kept. -/
def spec_helpers : Helpers where
  is_endpoint_direction_out h := decide (h % 256 < 128)
  get_endpoint_type h := h / 256 % 4
  get_endpoint_address h := h % 256
  set_cmd_submit_usbip_header vpdo _h pipe TransferFlags TransferBufferLength :=
    let dir_in := if pipe = EP0 then decide (TransferFlags % 2 = 1) else decide (pipe % 256 ≥ 128)
    (STATUS_SUCCESS, { vpdo with seqnum := vpdo.seqnum + 1 },
      { (default : usbip_header) with
        base := { command := 1, seqnum := vpdo.seqnum + 1, devid := vpdo.devid,
                  direction := if dir_in then 1 else 0, ep := pipe % 16 },
        cmd_submit := { transfer_flags := TransferFlags,
                        transfer_buffer_length := TransferBufferLength,
                        start_frame := 0, number_of_packets := 0, interval := 0,
                        setup := ⟨0, 0, 0, 0, 0, 0, 0, 0⟩ } })
  is_transfer_direction_out hdr := decide (hdr.base.direction = 0)
  is_transfer_dir_out urb := decide (urb.SetupPacket.b0 < 128)
  set_cmd_unlink_usbip_header vpdo h seqnum_unlink :=
    ({ vpdo with seqnum := vpdo.seqnum + 1 },
      { h with
        base := { command := 2, seqnum := vpdo.seqnum + 1, devid := vpdo.devid,
                  direction := 0, ep := 0 },
        cmd_unlink := { seqnum := seqnum_unlink } })
  get_pdu_payload_size hdr :=
    if hdr.base.command = 1 then
      (if hdr.base.direction = 0 then hdr.cmd_submit.transfer_buffer_length else 0) +
        hdr.cmd_submit.number_of_packets * sizeof_usbip_iso_packet_descriptor
    else 0
  get_pdu_size hdr :=
    sizeof_usbip_header +
      (if hdr.base.command = 1 then
        (if hdr.base.direction = 0 then hdr.cmd_submit.transfer_buffer_length else 0) +
          hdr.cmd_submit.number_of_packets * sizeof_usbip_iso_packet_descriptor
       else 0)
  clear_context irp skip_unlink :=
    { irp with seqnum := 0, pipe_handle := 0,
               seqnum_unlink := if skip_unlink then irp.seqnum_unlink else 0 }

/-- A read IRP with a buffer of `len` bytes and nothing transferred yet. -/
def read_irp_of_size (len : Nat) : IRP :=
  { (default : IRP) with Length := len, Information := 0 }

/-- An IRP that carries the URB `urb`. -/
def urb_irp_of (urb : URB) : IRP :=
  { (default : IRP) with IoControlCode := IOCTL_INTERNAL_USB_SUBMIT_URB, urb := some urb }

/-- An isochronous URB on pipe `pipe` with a transfer buffer of `len` zero bytes and the
packet offsets `offsets`. -/
def isoch_urb (pipe : USBD_PIPE_HANDLE) (len : Nat) (offsets : List Nat) : URB :=
  { (default : URB) with
    UrbHeader := { Function := URB_FUNCTION_ISOCH_TRANSFER },
    PipeHandle := pipe,
    TransferBufferLength := len,
    TransferBuffer := some (List.replicate len 0),
    NumberOfPackets := offsets.length,
    IsoPacket := fun i => { Offset := offsets.getD i 0, Length := 0, Status := 0 } }

/-! ## Definitions used to state and to instantiate the theorems -/

/-- The offset that ends packet `i`: the offset of packet `i + 1`, or the length of the
transfer buffer for the last packet. -/
def iso_next_offset (r : URB) (i : Nat) : Nat :=
  if i + 1 < r.NumberOfPackets then (r.IsoPacket (i + 1)).Offset else r.TransferBufferLength

/-- The test the loop makes on packet `i`. -/
def iso_packet_ok (r : URB) (i : Nat) : Prop :=
  iso_next_offset r i ≥ (r.IsoPacket i).Offset ∧ iso_next_offset r i ≤ r.TransferBufferLength

instance (r : URB) (i : Nat) : Decidable (iso_packet_ok r i) := by
  unfold iso_packet_ok; infer_instance

/-- The descriptor the loop stores for packet `i`. -/
def iso_descriptor (r : URB) (i : Nat) : usbip_iso_packet_descriptor :=
  { offset := (r.IsoPacket i).Offset,
    length := iso_next_offset r i - (r.IsoPacket i).Offset,
    actual_length := 0, status := 0 }

/-- A URB that carries nothing but its function code. -/
def urb_of_function (f : Nat) : URB :=
  { (default : URB) with UrbHeader := { Function := f } }

/-- A control-transfer URB on the default pipe with the given transfer flags, first setup
byte and a transfer buffer of `len` zero bytes. -/
def control_urb (flags b0 len : Nat) : URB :=
  { (default : URB) with
    UrbHeader := { Function := URB_FUNCTION_CONTROL_TRANSFER },
    PipeHandle := EP0,
    TransferFlags := flags,
    TransferBufferLength := len,
    TransferBuffer := some (List.replicate len 0),
    SetupPacket := ⟨b0, 6, 0, 1, 0, 0, len % 256, len / 256 % 256⟩ }

/-- The setup bytes of the header that a dispatched request leaves in the read buffer. -/
def submit_setup (res : urb_result) : SetupBytes := res.read_irp.hdr.cmd_submit.setup

/-- A get/set-descriptor URB with the given function code, descriptor type, index,
language id and buffer length. -/
def descriptor_urb (f type index lang len : Nat) : URB :=
  { (default : URB) with
    UrbHeader := { Function := f },
    TransferBufferLength := len,
    TransferBuffer := some (List.replicate len 0),
    DescriptorType := type, Index := index, LanguageId := lang }

/-- A feature URB with the given function code, feature selector and index. -/
def feature_urb (f selector index : Nat) : URB :=
  { (default : URB) with
    UrbHeader := { Function := f }, FeatureSelector := selector, Index := index }

/-- A get-status URB with the given function code, index and buffer length. -/
def get_status_urb (f index len : Nat) : URB :=
  { (default : URB) with
    UrbHeader := { Function := f },
    TransferBufferLength := len,
    TransferBuffer := some (List.replicate len 0),
    Index := index }

/-- A vendor or class URB with the given function code, transfer flags, request, value,
index and a transfer buffer of `len` zero bytes. -/
def vendor_class_urb (f flags request value index len : Nat) : URB :=
  { (default : URB) with
    UrbHeader := { Function := f },
    TransferFlags := flags,
    TransferBufferLength := len,
    TransferBuffer := some (List.replicate len 0),
    Request := request, Value := value, Index := index }

/-- A select-configuration URB for the configuration descriptor `cd`. -/
def select_configuration_urb (cd : Option USB_CONFIGURATION_DESCRIPTOR) : URB :=
  { (default : URB) with
    UrbHeader := { Function := URB_FUNCTION_SELECT_CONFIGURATION },
    ConfigurationDescriptor := cd }

/-- The statuses with which the header phase and the payload phase of a read fail:
invalid-parameter, insufficient-resources, internal-error, buffer-too-small,
invalid-device-request, and whatever `set_cmd_submit_usbip_header` returns. -/
def read_failure_status (env : Helpers) (st : NTSTATUS) : Prop :=
  st = STATUS_INVALID_PARAMETER ∨ st = STATUS_INSUFFICIENT_RESOURCES ∨
  st = STATUS_INTERNAL_ERROR ∨ st = STATUS_BUFFER_TOO_SMALL ∨
  st = STATUS_INVALID_DEVICE_REQUEST ∨
  ∃ vpdo hdr pipe TransferFlags TransferBufferLength,
    st = (env.set_cmd_submit_usbip_header vpdo hdr pipe TransferFlags TransferBufferLength).1

/-- A status is that of a phase of a read: success, or one of the failures. -/
def read_phase_status (env : Helpers) (st : NTSTATUS) : Prop :=
  st = STATUS_SUCCESS ∨ read_failure_status env st

/-- The status `err` that `do_read` gets from the phase it runs: the UNLINK header, the
header of a submit or the payload. -/
def do_read_err (env : Helpers) (vpdo : vpdo_dev_t) (read_irp irp : IRP) : NTSTATUS :=
  if get_seqnum_unlink irp ≠ 0 then (cmd_unlink env vpdo read_irp (get_seqnum_unlink irp)).1
  else if vpdo.seqnum_payload = 0 then (cmd_submit env vpdo read_irp irp).status
  else (read_payload env read_irp irp).1

/-- The URB IRP as the phase run by `do_read` leaves it (a handler may record the pipe
handle in its context). -/
def do_read_irp (env : Helpers) (vpdo : vpdo_dev_t) (read_irp irp : IRP) : IRP :=
  if get_seqnum_unlink irp ≠ 0 then irp
  else if vpdo.seqnum_payload = 0 then (cmd_submit env vpdo read_irp irp).irp
  else irp

/-- A reference instance of the helpers of plugin.cpp, used to evaluate the functions on
sample requests: the fixed part of a plug request takes 64 bytes, a device descriptor is
valid when its length is 18 and its type is 1, a configuration with at least one interface
starts with an interface descriptor of class 3, subclass 1, protocol 2, the free port is
the one after the devices of the hub, and no allocation fails. -/
def spec_plug_helpers : PlugHelpers where
  sizeof_pluginfo := 64
  is_valid_dsc := fun d => decide (d.bLength = 18 ∧ d.bDescriptorType = 1)
  get_usb_speed := fun bcdUSB => if bcdUSB < 0x0200 then 1 else 2
  dsc_find_next_intf := fun cfg =>
    if cfg.bNumInterfaces = 0 then none
    else some { bInterfaceNumber := 0, bAlternateSetting := 0, bInterfaceClass := 3,
                bInterfaceSubClass := 1, bInterfaceProtocol := 2 }
  vhub_get_empty_port := fun vhub =>
    match vhub with
    | none => -1
    | some h => (h.vpdos.length : Int) + 1
  vdev_create := some default
  ExAllocatePoolWithTag := fun _ => true
  libdrv_strdupW := fun s => some s

/-- A plug request whose configuration descriptor announces `wTotalLength` bytes and
`bNumInterfaces` interfaces, for a device descriptor with the given class, subclass and
protocol. -/
def plug_request (wTotalLength bNumInterfaces cls sub proto : Nat) : vhci_pluginfo_t :=
  { devid := 0x10002, port := 0, wserial := [0],
    dscr_dev := { bLength := 18, bDescriptorType := 1, bcdUSB := 0x0200,
                  bDeviceClass := cls, bDeviceSubClass := sub, bDeviceProtocol := proto },
    dscr_conf := { wTotalLength := wTotalLength, bNumInterfaces := bNumInterfaces,
                   bConfigurationValue := 1 } }

/-- A controller in the started state with a hub of the given devices. -/
def started_vhci (vpdos : List vpdo_dev_t) : vhci_dev_t :=
  { PnPState := pnp_state.Started, vhub := some { vpdos := vpdos } }

/-- A device bound to `port`, not unplugged. -/
def vpdo_on_port (port : Int) : vpdo_dev_t :=
  { (default : vpdo_dev_t) with port := port, plugged := true, unplugged := false }

/-- The ports of the devices of the hub whose unplugged flag is set. -/
def unplugged_ports (vhci : vhci_dev_t) : List Int :=
  match vhci.vhub with
  | none => []
  | some h => (h.vpdos.filter fun v => v.unplugged).map fun v => v.port

/-- A record (the IRP of a URB) with identity `id`, sequence number `seqnum` and unlink
sequence number `seqnum_unlink`. -/
def record (id seqnum seqnum_unlink : Nat) : IRP :=
  { (default : IRP) with id := id, seqnum := seqnum, seqnum_unlink := seqnum_unlink,
                         IoControlCode := IOCTL_INTERNAL_USB_SUBMIT_URB }

/-- A device with the payload marker `seqnum_payload`, the pending-submit records `rx`, the
cancel-pending records `rx_unlink` and the queued read IRPs `reads`, oldest first. -/
def vpdo_with_queues (seqnum_payload : Nat) (rx rx_unlink reads : List IRP) : vpdo_dev_t :=
  { (default : vpdo_dev_t) with seqnum_payload := seqnum_payload, rx_irps_csq := rx,
                                rx_unlink_irps := rx_unlink, read_irp_csq := reads }

/-- Routine, status and identity of the IRP of each completion. -/
def completion_log (l : List completion) : List (completion_routine × NTSTATUS × Nat) :=
  l.map fun c => (c.routine, c.status, c.irp.id)

/-! ## strutil.cpp -/

/-- A counted string `UNICODE_STRING`: `Length` and `MaximumLength` are byte counts
(`USHORT`), `Buffer` the memory the string points to, one `WCHAR` per index. -/
structure UNICODE_STRING where
  Length : Nat
  MaximumLength : Nat
  Buffer : Nat → Nat

/-- The value of `sizeof(WCHAR)`. -/
abbrev sizeof_WCHAR : Nat := 2

/-- The loop of `libdrv::strrchr`, entered with `i = n - 1`: it runs while `i >= 0`, that
is while `n >= 1`, and `--i` takes `n + 1` to `n`.  The result is converted to `USHORT`. -/
def strrchr_loop (s : UNICODE_STRING) (ch : Nat) : Nat → Nat
  | 0 => 0
  | i + 1 =>
    if s.Buffer i = ch then (i + 1) % 2 ^ 16
    else strrchr_loop s ch i

/-- The function `libdrv::strrchr`; `cch` is a `LONG`. -/
def strrchr (s : UNICODE_STRING) (ch : Nat) : Nat :=
  let cch := s.Length / sizeof_WCHAR
  strrchr_loop s ch cch

/-- A counted string that holds the characters `l`, with no room to spare. -/
def unicode_string_of (l : List Nat) : UNICODE_STRING :=
  { Length := 2 * l.length, MaximumLength := 2 * l.length, Buffer := fun i => l.getD i 0 }

/-- The byte behind the last byte that a store covers in the read buffer. -/
def store_end (s : Nat × Store) : Nat :=
  match s.2 with
  | Store.bytes b => s.1 + b.length
  | Store.iso _ => s.1 + sizeof_usbip_iso_packet_descriptor

/-- An isochronous URB on pipe `pipe` with `n` packets, all at offset 0, and an empty
transfer buffer. -/
def isoch_urb_packets (pipe : USBD_PIPE_HANDLE) (n : Nat) : URB :=
  { (default : URB) with
    UrbHeader := { Function := URB_FUNCTION_ISOCH_TRANSFER },
    PipeHandle := pipe,
    TransferBufferLength := 0,
    TransferBuffer := some [],
    NumberOfPackets := n,
    IsoPacket := fun _ => { Offset := 0, Length := 0, Status := 0 } }

/-- A bulk or interrupt URB with function code `f` on pipe `pipe` with a transfer buffer
of `len` zero bytes. -/
def bulk_urb (f : Nat) (pipe : USBD_PIPE_HANDLE) (flags len : Nat) : URB :=
  { (default : URB) with
    UrbHeader := { Function := f },
    PipeHandle := pipe,
    TransferFlags := flags,
    TransferBufferLength := len,
    TransferBuffer := some (List.replicate len 0),
    TransferBufferMDL := some { MappedSystemVa := some (List.replicate len 0) } }

/-- The device states `v` and `w` have the same queues and the same payload marker. -/
def same_queues (v w : vpdo_dev_t) : Prop :=
  w.seqnum_payload = v.seqnum_payload ∧ w.rx_irps_csq = v.rx_irps_csq ∧
  w.rx_unlink_irps = v.rx_unlink_irps ∧ w.tx_irps_csq = v.tx_irps_csq ∧
  w.read_irp_csq = v.read_irp_csq

/-- What the theorems on the queues assume of the header builders of pdu.h, which are not
among the sources: building a header draws the next sequence number of the device and
touches neither its queues nor its payload marker. -/
def helpers_keep_queues (env : Helpers) : Prop :=
  (∀ vpdo hdr pipe flags len,
    same_queues vpdo (env.set_cmd_submit_usbip_header vpdo hdr pipe flags len).2.1) ∧
  (∀ vpdo hdr seqnum_unlink,
    same_queues vpdo (env.set_cmd_unlink_usbip_header vpdo hdr seqnum_unlink).1)

/-- What a header-phase handler leaves alone: queues and marker of the device, the IRP of
the URB but for its pipe handle, the size of the read buffer; and it succeeds only on a
read buffer with room for a header. -/
def urb_result_frame (vpdo : vpdo_dev_t) (irp urb_irp : IRP) (res : urb_result) : Prop :=
  same_queues vpdo res.vpdo ∧
  (res.irp = urb_irp ∨ ∃ h, res.irp = set_pipe_handle urb_irp h) ∧
  res.read_irp.Length = irp.Length ∧
  (res.status = STATUS_SUCCESS → sizeof_usbip_header ≤ irp.Length)

/-- The phase that `do_read` runs and what it leaves behind: the UNLINK header, the header
of a submit or the payload. -/
def do_read_phase (env : Helpers) (vpdo : vpdo_dev_t) (read_irp irp : IRP) : urb_result :=
  if get_seqnum_unlink irp ≠ 0 then
    { status := (cmd_unlink env vpdo read_irp (get_seqnum_unlink irp)).1,
      vpdo := (cmd_unlink env vpdo read_irp (get_seqnum_unlink irp)).2.1,
      read_irp := (cmd_unlink env vpdo read_irp (get_seqnum_unlink irp)).2.2, irp := irp }
  else if vpdo.seqnum_payload = 0 then cmd_submit env vpdo read_irp irp
  else
    { status := (read_payload env read_irp irp).1, vpdo := vpdo,
      read_irp := (read_payload env read_irp irp).2, irp := irp }

/-! ## The reads of a device, one after the other -/

/-- What one call of `do_read` is seen to do: `read_hdr` as the function computes it, the
identity and the unlink sequence number of the record it is called with, and the status
it returns. -/
structure read_event where
  read_hdr : Bool
  id : Nat
  seqnum_unlink : Nat
  status : NTSTATUS
deriving Inhabited, DecidableEq, Repr

def do_read_event (env : Helpers) (vpdo : vpdo_dev_t) (read_irp irp : IRP) (from_read : Bool) :
    read_event :=
  { read_hdr := decide (vpdo.seqnum_payload = 0), id := irp.id,
    seqnum_unlink := get_seqnum_unlink irp,
    status := (do_read env vpdo read_irp irp from_read).status }

/-- The calls of `do_read` that `process_read_irp` makes, along the same rounds. -/
def process_read_irp_events (env : Helpers) : Nat → vpdo_dev_t → IRP → List read_event
  | 0, _, _ => []
  | fuel + 1, vpdo, read_irp =>
    let seqnum_payload := vpdo.seqnum_payload
    match dequeue_rx_irp vpdo seqnum_payload with
    | (some irp, vpdo) => [do_read_event env vpdo read_irp irp true]
    | (none, vpdo) =>
      if seqnum_payload ≠ 0 then []
      else
        match InsertIfRxEmpty vpdo read_irp with
        | (st, vpdo) =>
          if st ≠ 0 then process_read_irp_events env fuel vpdo read_irp else []

/-- The calls of `do_read` that `send_to_server` makes. -/
def send_to_server_events (env : Helpers) (vpdo : vpdo_dev_t) (irp : IRP) (unlink : Bool) :
    List read_event :=
  let irp := { env.clear_context irp unlink with id := irp.id }
  let vpdo :=
    if unlink then enqueue_rx_unlink_irp vpdo irp
    else { vpdo with rx_irps_csq := IoCsqInsertIrp vpdo.rx_irps_csq irp }
  match IoCsqRemoveNextIrp vpdo.read_irp_csq none with
  | (none, _) => []
  | (some read_irp, q) =>
    let vpdo := { vpdo with read_irp_csq := q }
    let seqnum_payload := vpdo.seqnum_payload
    match dequeue_rx_irp vpdo seqnum_payload with
    | (some next_irp, vpdo) => [do_read_event env vpdo read_irp next_irp false]
    | (none, _) => []

/-- One operation on the read side of a device: a read (`vhci_read` of a plugged device,
that is `process_read_irp`), the submission of a record (`send_to_server` without
unlink), the cancellation of a record in flight (`send_cmd_unlink`), and the removal of
queued IRPs by cancellation. -/
inductive device_op where
  | read (read_irp : IRP)
  | send (irp : IRP)
  | unlink (irp : IRP)
  | cancel (keep : IRP → Bool)

/-- Modelled from the spec: the cancellation of queued IRPs (csq.cpp, not among the
sources): the cancelled IRPs, those that `keep` rejects, are removed from the queues they
wait in; the marker is left as it is. -/
def cancel_queued (vpdo : vpdo_dev_t) (keep : IRP → Bool) : vpdo_dev_t :=
  { vpdo with rx_irps_csq := vpdo.rx_irps_csq.filter keep,
              rx_unlink_irps := vpdo.rx_unlink_irps.filter keep,
              read_irp_csq := vpdo.read_irp_csq.filter keep }

/-- The device after one operation; a read that runs out of `fuel` leaves it as it is. -/
def device_step (env : Helpers) (fuel : Nat) (vpdo : vpdo_dev_t) : device_op → vpdo_dev_t
  | device_op.read read_irp =>
    match process_read_irp env fuel vpdo read_irp with
    | some r => r.vpdo
    | none => vpdo
  | device_op.send irp => (send_to_server env vpdo irp false).vpdo
  | device_op.unlink irp => (send_cmd_unlink env vpdo irp).vpdo
  | device_op.cancel keep => cancel_queued vpdo keep

/-- The calls of `do_read` made by one operation. -/
def device_events (env : Helpers) (fuel : Nat) (vpdo : vpdo_dev_t) : device_op → List read_event
  | device_op.read read_irp => process_read_irp_events env fuel vpdo read_irp
  | device_op.send irp => send_to_server_events env vpdo irp false
  | device_op.unlink irp =>
    send_to_server_events env vpdo (set_seqnum_unlink irp (get_seqnum irp)) true
  | device_op.cancel _ => []

/-- The device after the operations `ops`, one after the other. -/
def device_run (env : Helpers) (fuel : Nat) : vpdo_dev_t → List device_op → vpdo_dev_t
  | vpdo, [] => vpdo
  | vpdo, op :: ops => device_run env fuel (device_step env fuel vpdo op) ops

/-- The calls of `do_read` made by the operations `ops`, in the order they are made. -/
def device_trace (env : Helpers) (fuel : Nat) : vpdo_dev_t → List device_op → List read_event
  | _, [] => []
  | vpdo, op :: ops =>
    device_events env fuel vpdo op ++ device_trace env fuel (device_step env fuel vpdo op) ops

/-- No record of the queue carries a sequence number or an unlink sequence number. -/
def rx_clean (q : List IRP) : Prop :=
  ∀ r ∈ q, get_seqnum_unlink r = 0 ∧ get_seqnum r = 0

/-- The context that `clear_context` leaves in a record that is not an unlink: neither a
sequence number nor an unlink sequence number. -/
def clear_context_clears (env : Helpers) : Prop :=
  ∀ irp : IRP, get_seqnum_unlink (env.clear_context irp false) = 0 ∧
    get_seqnum (env.clear_context irp false) = 0

/-- The event `e0` is a successful header-phase read of the record `id` as a submit. -/
def header_read_of (e0 : read_event) (id : Nat) : Prop :=
  e0.read_hdr = true ∧ e0.seqnum_unlink = 0 ∧ e0.status = STATUS_SUCCESS ∧ e0.id = id

/-- Every call of `do_read` in `t` satisfies the assertion of `do_read`, that the record
carries no unlink sequence number or a header is read, and every payload-phase call comes
directly after the successful header-phase read of the same record. -/
def payload_after_header (t : List read_event) : Prop :=
  ∀ (pre : List read_event) (e : read_event) (post : List read_event),
    t = pre ++ e :: post →
    (e.seqnum_unlink = 0 ∨ e.read_hdr = true) ∧
    (e.read_hdr = false →
      ∃ (pre0 : List read_event) (e0 : read_event), pre = pre0 ++ [e0] ∧ header_read_of e0 e.id)

/-- What holds of the calls `hist` made so far, the marker `m` and the rx queue `rx`: the
queue is clean, or the marker is armed and the oldest record of the queue is the record
of the last call, a successful header-phase read, with the marker as sequence number. -/
def reads_inv (hist : List read_event) (m : Nat) (rx : List IRP) : Prop :=
  payload_after_header hist ∧
  (rx_clean rx ∨
    (m ≠ 0 ∧ ∃ (h : IRP) (t : List IRP), rx = h :: t ∧ get_seqnum_unlink h = 0 ∧
      get_seqnum h = m ∧ rx_clean t ∧
      ∃ (pre0 : List read_event) (e0 : read_event), hist = pre0 ++ [e0] ∧ header_read_of e0 h.id))

/-- A record that awaits the read of its payload: the IRP `id` with the sequence number
`seqnum` and a bulk OUT URB of `len` bytes whose buffer is described by an MDL that cannot
be mapped. -/
def unmapped_bulk_record (id seqnum len : Nat) : IRP :=
  { urb_irp_of
      { bulk_urb URB_FUNCTION_BULK_OR_INTERRUPT_TRANSFER 0x202 0 len with
        TransferBuffer := none, TransferBufferMDL := some { MappedSystemVa := none } } with
    id := id, seqnum := seqnum }

/-! # Theorems -/

/-! ## The descriptor loop of `do_copy_payload` -/

theorem do_copy_payload_loop_succ (r : URB) (n i dsc sum : Nat) (out : List (Nat × Store)) :
    do_copy_payload_loop r (n + 1) i dsc sum out =
      if iso_packet_ok r i then
        do_copy_payload_loop r n (i + 1) (dsc + 16)
          ((sum + (iso_descriptor r i).length) % 2 ^ 32) (out ++ [(dsc, Store.iso (iso_descriptor r i))])
      else (STATUS_INVALID_PARAMETER, sum, out) := by
  simp only [do_copy_payload_loop, iso_packet_ok, iso_next_offset, iso_descriptor]

theorem do_copy_payload_loop_ok (r : URB) :
    ∀ (n i dsc sum : Nat) (out : List (Nat × Store)),
      (∀ k, k < n → iso_packet_ok r (i + k)) →
      (do_copy_payload_loop r n i dsc sum out).1 = STATUS_SUCCESS ∧
      (do_copy_payload_loop r n i dsc sum out).2.2 =
        out ++ (List.range n).map fun k => (dsc + 16 * k, Store.iso (iso_descriptor r (i + k))) := by
  intro n
  induction n with
  | zero => intro i dsc sum out _; simp [do_copy_payload_loop]
  | succ n ih =>
    intro i dsc sum out h
    have h0 : iso_packet_ok r i := by simpa using h 0 (Nat.succ_pos n)
    have hrest : ∀ k, k < n → iso_packet_ok r (i + 1 + k) := by
      intro k hk
      have := h (k + 1) (Nat.succ_lt_succ hk)
      rwa [show i + 1 + k = i + (k + 1) by omega]
    rw [do_copy_payload_loop_succ, if_pos h0]
    obtain ⟨h1, h2⟩ := ih (i + 1) (dsc + 16) ((sum + (iso_descriptor r i).length) % 2 ^ 32)
      (out ++ [(dsc, Store.iso (iso_descriptor r i))]) hrest
    refine ⟨h1, ?_⟩
    rw [h2, List.range_succ_eq_map, List.map_cons, List.map_map, List.append_assoc]
    congr 1
    simp only [List.singleton_append, Nat.mul_zero, Nat.add_zero, List.cons.injEq, true_and]
    apply List.map_congr_left
    intro k _
    simp only [Function.comp]
    rw [show dsc + 16 + 16 * k = dsc + 16 * (k + 1) by omega,
        show i + 1 + k = i + (k + 1) by omega]

theorem do_copy_payload_loop_bad (r : URB) :
    ∀ (n i dsc sum : Nat) (out : List (Nat × Store)),
      (∃ k, k < n ∧ ¬ iso_packet_ok r (i + k)) →
      (do_copy_payload_loop r n i dsc sum out).1 = STATUS_INVALID_PARAMETER := by
  intro n
  induction n with
  | zero => intro i dsc sum out h; obtain ⟨k, hk, _⟩ := h; omega
  | succ n ih =>
    intro i dsc sum out h
    rw [do_copy_payload_loop_succ]
    by_cases h0 : iso_packet_ok r i
    · rw [if_pos h0]
      apply ih
      obtain ⟨k, hk, hbad⟩ := h
      cases k with
      | zero => exact absurd h0 (by simpa using hbad)
      | succ k =>
        refine ⟨k, by omega, ?_⟩
        rwa [show i + 1 + k = i + (k + 1) by omega]
    · rw [if_neg h0]

/-- The running sum of the loop: modulo `2^32` it grows by the lengths stored. -/
theorem do_copy_payload_loop_sum (r : URB) :
    ∀ (n i dsc sum : Nat) (out : List (Nat × Store)),
      (∀ k, k < n → iso_packet_ok r (i + k)) →
      (do_copy_payload_loop r n i dsc sum out).2.1 % 2 ^ 32 =
        (sum + ((List.range n).map fun k => (iso_descriptor r (i + k)).length).sum) % 2 ^ 32 := by
  intro n
  induction n with
  | zero => intro i dsc sum out _; simp [do_copy_payload_loop]
  | succ n ih =>
    intro i dsc sum out h
    have h0 : iso_packet_ok r i := by simpa using h 0 (Nat.succ_pos n)
    have hrest : ∀ k, k < n → iso_packet_ok r (i + 1 + k) := by
      intro k hk
      have := h (k + 1) (Nat.succ_lt_succ hk)
      rwa [show i + 1 + k = i + (k + 1) by omega]
    rw [do_copy_payload_loop_succ, if_pos h0, ih _ _ _ _ hrest,
      List.range_succ_eq_map, List.map_cons, List.map_map, List.sum_cons]
    have e : (List.map (fun k => (iso_descriptor r (i + 1 + k)).length) (List.range n)) =
        (List.map ((fun k => (iso_descriptor r (i + k)).length) ∘ Nat.succ) (List.range n)) := by
      apply List.map_congr_left
      intro k _
      simp only [Function.comp]
      rw [show i + 1 + k = i + (k + 1) by omega]
    rw [e]
    simp only [Nat.add_zero]
    omega

theorem do_copy_payload_loop_congr (r r2 : URB) (hp : r2.IsoPacket = r.IsoPacket)
    (hn : r2.NumberOfPackets = r.NumberOfPackets)
    (hl : r2.TransferBufferLength = r.TransferBufferLength) :
    ∀ (n i dsc sum : Nat) (out : List (Nat × Store)),
      do_copy_payload_loop r2 n i dsc sum out = do_copy_payload_loop r n i dsc sum out := by
  intro n
  induction n with
  | zero => intro i dsc sum out; rfl
  | succ n ih =>
    intro i dsc sum out
    simp only [do_copy_payload_loop, hp, hn, hl, ih]

/-- With a source buffer at hand `do_copy_payload` is its loop, started behind the bytes
it copied. -/
theorem do_copy_payload_of_buffer (env : Helpers) (dst : Nat) (r : URB) (src : List Nat)
    (hsrc : get_urb_buffer
      (if r.UrbHeader.Function == URB_FUNCTION_ISOCH_TRANSFER_USING_CHAINED_MDL then none
       else r.TransferBuffer) r.TransferBufferMDL = some src)
    (buf_sz : Nat)
    (hsz : buf_sz = if env.is_endpoint_direction_out r.PipeHandle then r.TransferBufferLength else 0) :
    (do_copy_payload env dst r).status =
        (do_copy_payload_loop r r.NumberOfPackets 0 (dst + buf_sz) 0
          [(dst, Store.bytes (src.take buf_sz))]).1 ∧
    (do_copy_payload env dst r).stores =
        (do_copy_payload_loop r r.NumberOfPackets 0 (dst + buf_sz) 0
          [(dst, Store.bytes (src.take buf_sz))]).2.2 ∧
    (do_copy_payload env dst r).sum =
        (do_copy_payload_loop r r.NumberOfPackets 0 (dst + buf_sz) 0
          [(dst, Store.bytes (src.take buf_sz))]).2.1 ∧
    ((do_copy_payload env dst r).status = STATUS_SUCCESS →
      (do_copy_payload env dst r).transferred = (buf_sz % 2 ^ 32 + r.NumberOfPackets * 16) % 2 ^ 32) := by
  subst hsz
  simp only [do_copy_payload, hsrc]
  generalize do_copy_payload_loop r _ _ _ _ _ = l
  by_cases herr : l.1 = STATUS_SUCCESS
  · simp [herr]
  · simp [herr]

theorem do_copy_payload_no_buffer (env : Helpers) (dst : Nat) (r : URB)
    (hsrc : get_urb_buffer
      (if r.UrbHeader.Function == URB_FUNCTION_ISOCH_TRANSFER_USING_CHAINED_MDL then none
       else r.TransferBuffer) r.TransferBufferMDL = none) :
    (do_copy_payload env dst r).status = STATUS_INSUFFICIENT_RESOURCES := by
  simp only [do_copy_payload, hsrc]

/-- A successful `do_copy_payload` had a source buffer and found every packet in order. -/
theorem do_copy_payload_success (env : Helpers) (dst : Nat) (r : URB)
    (h : (do_copy_payload env dst r).status = STATUS_SUCCESS) :
    (∃ src, get_urb_buffer
      (if r.UrbHeader.Function == URB_FUNCTION_ISOCH_TRANSFER_USING_CHAINED_MDL then none
       else r.TransferBuffer) r.TransferBufferMDL = some src) ∧
    ∀ k, k < r.NumberOfPackets → iso_packet_ok r k := by
  constructor
  · cases hsrc : get_urb_buffer
      (if r.UrbHeader.Function == URB_FUNCTION_ISOCH_TRANSFER_USING_CHAINED_MDL then none
       else r.TransferBuffer) r.TransferBufferMDL with
    | none =>
      rw [do_copy_payload_no_buffer env dst r hsrc] at h
      exact absurd h (by decide)
    | some src => exact ⟨src, rfl⟩
  · cases hsrc : get_urb_buffer
      (if r.UrbHeader.Function == URB_FUNCTION_ISOCH_TRANSFER_USING_CHAINED_MDL then none
       else r.TransferBuffer) r.TransferBufferMDL with
    | none =>
      rw [do_copy_payload_no_buffer env dst r hsrc] at h
      exact absurd h (by decide)
    | some src =>
      by_contra hbad
      push_neg at hbad
      obtain ⟨k, hk, hk2⟩ := hbad
      have h1 := (do_copy_payload_of_buffer env dst r src hsrc _ rfl).1
      rw [do_copy_payload_loop_bad r _ _ _ _ _ ⟨k, hk, by simpa using hk2⟩] at h1
      rw [h1] at h
      exact absurd h (by decide)

theorem emitted_descriptors_map_iso {α : Type} (l : List α) (f : α → Nat)
    (g : α → usbip_iso_packet_descriptor) :
    emitted_descriptors (l.map fun k => (f k, Store.iso (g k))) = l.map g := by
  induction l with
  | nil => rfl
  | cons a l ih =>
    simp only [emitted_descriptors, List.map_cons, List.filterMap_cons] at ih ⊢
    rw [ih]

/-- The stores of a successful `do_copy_payload`: the bytes copied, then one descriptor
for each packet, sixteen bytes apart. -/
theorem do_copy_payload_stores (env : Helpers) (dst : Nat) (r : URB) (src : List Nat)
    (hsrc : get_urb_buffer
      (if r.UrbHeader.Function == URB_FUNCTION_ISOCH_TRANSFER_USING_CHAINED_MDL then none
       else r.TransferBuffer) r.TransferBufferMDL = some src)
    (h : (do_copy_payload env dst r).status = STATUS_SUCCESS) (buf_sz : Nat)
    (hsz : buf_sz = if env.is_endpoint_direction_out r.PipeHandle then r.TransferBufferLength else 0) :
    (do_copy_payload env dst r).stores =
      (dst, Store.bytes (src.take buf_sz)) ::
        (List.range r.NumberOfPackets).map fun k =>
          (dst + buf_sz + 16 * k, Store.iso (iso_descriptor r k)) := by
  have hok := (do_copy_payload_success env dst r h).2
  have h2 := (do_copy_payload_of_buffer env dst r src hsrc buf_sz hsz).2.1
  rw [h2, (do_copy_payload_loop_ok r _ 0 _ _ _ (by simpa using hok)).2]
  simp

theorem emitted_descriptors_do_copy_payload (env : Helpers) (dst : Nat) (r : URB)
    (h : (do_copy_payload env dst r).status = STATUS_SUCCESS) :
    emitted_descriptors (do_copy_payload env dst r).stores =
      (List.range r.NumberOfPackets).map (iso_descriptor r) := by
  obtain ⟨src, hsrc⟩ := (do_copy_payload_success env dst r h).1
  rw [do_copy_payload_stores env dst r src hsrc h _ rfl]
  have := emitted_descriptors_map_iso (List.range r.NumberOfPackets)
    (fun k => dst + (if env.is_endpoint_direction_out r.PipeHandle then r.TransferBufferLength else 0)
      + 16 * k) (iso_descriptor r)
  simp only [emitted_descriptors, List.filterMap_cons] at this ⊢
  exact this

/-! ## C1 .. C4: the isochronous payload -/

/-- C1, evaluated on the code: for the isochronous URB with one packet at offset 5 and a
transfer buffer of 10 bytes `do_copy_payload` returns STATUS_SUCCESS, stores one
descriptor of length 5, and both the local `sum` and the sum of the stored lengths are 5
while `TransferBufferLength` is 10, so the final `NT_ASSERT(sum == r.TransferBufferLength)`
does not hold. -/
theorem do_copy_payload_sum_differs :
    (do_copy_payload spec_helpers 0 (isoch_urb 0x181 10 [5])).status = STATUS_SUCCESS ∧
    emitted_lengths (do_copy_payload spec_helpers 0 (isoch_urb 0x181 10 [5])).stores = [5] ∧
    (emitted_lengths (do_copy_payload spec_helpers 0 (isoch_urb 0x181 10 [5])).stores).sum = 5 ∧
    (do_copy_payload spec_helpers 0 (isoch_urb 0x181 10 [5])).sum = 5 ∧
    (isoch_urb 0x181 10 [5]).TransferBufferLength = 10 := by
  decide

/-- C2: when `do_copy_payload` succeeds on a URB with N packets it has stored N packet
descriptors, and for every i < N descriptor i has `offset = IsoPacket[i].Offset`,
`length` = the next offset (`IsoPacket[i+1].Offset` for i < N-1, `TransferBufferLength`
for i = N-1) minus `IsoPacket[i].Offset`, a difference that is not negative, and
`actual_length = 0`, `status = 0`. -/
theorem do_copy_payload_descriptor (env : Helpers) (dst : Nat) (r : URB)
    (h : (do_copy_payload env dst r).status = STATUS_SUCCESS) (i : Nat)
    (hi : i < r.NumberOfPackets) :
    (emitted_descriptors (do_copy_payload env dst r).stores).length = r.NumberOfPackets ∧
    (r.IsoPacket i).Offset ≤
      (if i + 1 < r.NumberOfPackets then (r.IsoPacket (i + 1)).Offset
       else r.TransferBufferLength) ∧
    (emitted_descriptors (do_copy_payload env dst r).stores)[i]? =
      some { offset := (r.IsoPacket i).Offset,
             length := (if i + 1 < r.NumberOfPackets then (r.IsoPacket (i + 1)).Offset
                        else r.TransferBufferLength) - (r.IsoPacket i).Offset,
             actual_length := 0, status := 0 } := by
  rw [emitted_descriptors_do_copy_payload env dst r h]
  refine ⟨by simp, ?_, ?_⟩
  · exact ((do_copy_payload_success env dst r h).2 i hi).1
  · rw [List.getElem?_map, List.getElem?_range hi]
    rfl

/-- C2, scenario S3: the offsets 0, 10, 30 in a transfer buffer of 45 bytes give the
lengths 10, 20, 15; the last descriptor is the one the theorem describes. -/
theorem do_copy_payload_descriptor_witness :
    ((do_copy_payload spec_helpers 0 (isoch_urb 0x181 45 [0, 10, 30])).status = STATUS_SUCCESS ∧
     emitted_lengths (do_copy_payload spec_helpers 0 (isoch_urb 0x181 45 [0, 10, 30])).stores
       = [10, 20, 15]) ∧
    ((emitted_descriptors
        (do_copy_payload spec_helpers 0 (isoch_urb 0x181 45 [0, 10, 30])).stores).length = 3 ∧
     30 ≤ 45 ∧
     (emitted_descriptors
        (do_copy_payload spec_helpers 0 (isoch_urb 0x181 45 [0, 10, 30])).stores)[2]? =
       some { offset := 30, length := 15, actual_length := 0, status := 0 }) :=
  ⟨by decide,
   do_copy_payload_descriptor spec_helpers 0 (isoch_urb 0x181 45 [0, 10, 30]) (by decide) 2
     (by decide)⟩

/-- C3: with a source buffer at hand, `do_copy_payload` returns STATUS_INVALID_PARAMETER
if and only if for some packet i < N the next offset (`IsoPacket[i+1].Offset` for
i < N-1, `TransferBufferLength` for i = N-1) is below `IsoPacket[i].Offset` or above
`TransferBufferLength`; and it returns STATUS_SUCCESS if and only if there is no such
packet. -/
theorem do_copy_payload_status (env : Helpers) (dst : Nat) (r : URB)
    (hbuf : (get_urb_buffer
      (if r.UrbHeader.Function == URB_FUNCTION_ISOCH_TRANSFER_USING_CHAINED_MDL then none
       else r.TransferBuffer) r.TransferBufferMDL).isSome = true) :
    ((do_copy_payload env dst r).status = STATUS_INVALID_PARAMETER ↔
      ∃ i, i < r.NumberOfPackets ∧
        ((if i + 1 < r.NumberOfPackets then (r.IsoPacket (i + 1)).Offset
          else r.TransferBufferLength) < (r.IsoPacket i).Offset ∨
         (if i + 1 < r.NumberOfPackets then (r.IsoPacket (i + 1)).Offset
          else r.TransferBufferLength) > r.TransferBufferLength)) ∧
    ((do_copy_payload env dst r).status = STATUS_SUCCESS ↔
      ¬ ∃ i, i < r.NumberOfPackets ∧
        ((if i + 1 < r.NumberOfPackets then (r.IsoPacket (i + 1)).Offset
          else r.TransferBufferLength) < (r.IsoPacket i).Offset ∨
         (if i + 1 < r.NumberOfPackets then (r.IsoPacket (i + 1)).Offset
          else r.TransferBufferLength) > r.TransferBufferLength)) := by
  obtain ⟨src, hsrc⟩ := Option.isSome_iff_exists.mp hbuf
  have hst := (do_copy_payload_of_buffer env dst r src hsrc _ rfl).1
  have hbad : (∃ i, i < r.NumberOfPackets ∧
        ((if i + 1 < r.NumberOfPackets then (r.IsoPacket (i + 1)).Offset
          else r.TransferBufferLength) < (r.IsoPacket i).Offset ∨
         (if i + 1 < r.NumberOfPackets then (r.IsoPacket (i + 1)).Offset
          else r.TransferBufferLength) > r.TransferBufferLength)) ↔
      ∃ k, k < r.NumberOfPackets ∧ ¬ iso_packet_ok r k := by
    constructor
    · rintro ⟨i, hi, hor⟩
      refine ⟨i, hi, ?_⟩
      simp only [iso_packet_ok, iso_next_offset]
      omega
    · rintro ⟨i, hi, hnot⟩
      refine ⟨i, hi, ?_⟩
      simp only [iso_packet_ok, iso_next_offset] at hnot
      omega
  rw [hbad, hst]
  by_cases hex : ∃ k, k < r.NumberOfPackets ∧ ¬ iso_packet_ok r k
  · have := do_copy_payload_loop_bad r r.NumberOfPackets 0
      (dst + if env.is_endpoint_direction_out r.PipeHandle then r.TransferBufferLength else 0) 0
      [(dst, Store.bytes (src.take
        (if env.is_endpoint_direction_out r.PipeHandle then r.TransferBufferLength else 0)))]
      (by simpa using hex)
    rw [this]
    simp [hex]
  · have hall : ∀ k, k < r.NumberOfPackets → iso_packet_ok r (0 + k) := by
      intro k hk
      by_contra hk2
      exact hex ⟨k, hk, by simpa using hk2⟩
    have := (do_copy_payload_loop_ok r r.NumberOfPackets 0
      (dst + if env.is_endpoint_direction_out r.PipeHandle then r.TransferBufferLength else 0) 0
      [(dst, Store.bytes (src.take
        (if env.is_endpoint_direction_out r.PipeHandle then r.TransferBufferLength else 0)))]
      hall).1
    rw [this]
    simp [hex]

/-- C3 at concrete inputs: the offsets 0, 11 in a buffer of 10 bytes are rejected (the
second offset lies beyond the buffer), the offsets 0, 10, 30 in 45 bytes are accepted. -/
theorem do_copy_payload_status_witness :
    (do_copy_payload spec_helpers 0 (isoch_urb 0x181 10 [0, 11])).status
      = STATUS_INVALID_PARAMETER ∧
    (do_copy_payload spec_helpers 0 (isoch_urb 0x181 45 [0, 10, 30])).status = STATUS_SUCCESS :=
  ⟨(do_copy_payload_status spec_helpers 0 (isoch_urb 0x181 10 [0, 11]) (by decide)).1.2
      ⟨0, by decide, by decide⟩,
   by decide⟩

/-- C4: when `do_copy_payload` succeeds, the bytes it copies come from the source buffer
and, for an OUT pipe, are the first `TransferBufferLength` bytes of it, followed by N
packet descriptors sixteen bytes apart, the first at byte `TransferBufferLength`; for an
IN pipe no byte is copied (the copy has length zero) and the N descriptors start at
byte 0.  In both cases `*transferred` equals `get_payload_size(r)`, and the result does
not depend on `TransferFlags`. -/
theorem do_copy_payload_layout (env : Helpers) (dst : Nat) (r : URB)
    (h : (do_copy_payload env dst r).status = STATUS_SUCCESS) :
    (∃ (src : List Nat) (d : Nat → usbip_iso_packet_descriptor),
      get_urb_buffer
        (if r.UrbHeader.Function == URB_FUNCTION_ISOCH_TRANSFER_USING_CHAINED_MDL then none
         else r.TransferBuffer) r.TransferBufferMDL = some src ∧
      (env.is_endpoint_direction_out r.PipeHandle = true →
        (do_copy_payload env dst r).stores =
          (dst, Store.bytes (src.take r.TransferBufferLength)) ::
            (List.range r.NumberOfPackets).map fun i =>
              (dst + r.TransferBufferLength + 16 * i, Store.iso (d i))) ∧
      (env.is_endpoint_direction_out r.PipeHandle = false →
        (do_copy_payload env dst r).stores =
          (dst, Store.bytes []) ::
            (List.range r.NumberOfPackets).map fun i => (dst + 16 * i, Store.iso (d i)))) ∧
    (do_copy_payload env dst r).transferred = get_payload_size env r ∧
    ∀ flags, do_copy_payload env dst { r with TransferFlags := flags } = do_copy_payload env dst r := by
  obtain ⟨src, hsrc⟩ := (do_copy_payload_success env dst r h).1
  refine ⟨⟨src, iso_descriptor r, hsrc, ?_, ?_⟩, ?_, ?_⟩
  · intro hout
    rw [do_copy_payload_stores env dst r src hsrc h r.TransferBufferLength (by simp [hout])]
  · intro hin
    rw [do_copy_payload_stores env dst r src hsrc h 0 (by simp [hin])]
    simp
  · rw [(do_copy_payload_of_buffer env dst r src hsrc _ rfl).2.2.2 h]
    simp only [get_payload_size, sizeof_usbip_iso_packet_descriptor]
    split <;> omega
  · intro flags
    simp only [do_copy_payload,
      do_copy_payload_loop_congr r { r with TransferFlags := flags } rfl rfl rfl]

/-- C4 at concrete inputs: an OUT and an IN isochronous URB with three packets (offsets
0, 10, 30, buffer of 45 bytes).  OUT transfers 45 + 3 * 16 bytes with the descriptors at
bytes 45, 61, 77; IN (scenario S3) transfers 3 * 16 bytes with the descriptors at bytes
0, 16, 32. -/
theorem do_copy_payload_layout_witness :
    ((do_copy_payload spec_helpers 0 (isoch_urb 0x101 45 [0, 10, 30])).transferred = 93 ∧
     (do_copy_payload spec_helpers 0 (isoch_urb 0x101 45 [0, 10, 30])).stores.map Prod.fst
       = [0, 45, 61, 77] ∧
     (do_copy_payload spec_helpers 0 (isoch_urb 0x181 45 [0, 10, 30])).transferred = 48 ∧
     (do_copy_payload spec_helpers 0 (isoch_urb 0x181 45 [0, 10, 30])).stores.map Prod.fst
       = [0, 0, 16, 32]) ∧
    (do_copy_payload spec_helpers 0 (isoch_urb 0x101 45 [0, 10, 30])).transferred =
      get_payload_size spec_helpers (isoch_urb 0x101 45 [0, 10, 30]) :=
  ⟨by decide,
   (do_copy_payload_layout spec_helpers 0 (isoch_urb 0x101 45 [0, 10, 30]) (by decide)).2.1⟩

/-! ## The dispatch of `usb_submit_urb` -/

theorem usb_submit_urb_some (env : Helpers) (vpdo : vpdo_dev_t) (read_irp irp : IRP) (urb : URB)
    (hurb : irp.urb = some urb) (g : urb_function_t)
    (hg : (if urb.UrbHeader.Function < urb_functions.length
           then urb_functions.getD urb.UrbHeader.Function none else none) = some g) :
    usb_submit_urb env vpdo read_irp irp = g env vpdo read_irp irp urb := by
  simp only [usb_submit_urb, hurb, hg]

theorem usb_submit_urb_none (env : Helpers) (vpdo : vpdo_dev_t) (read_irp irp : IRP) (urb : URB)
    (hurb : irp.urb = some urb)
    (hg : (if urb.UrbHeader.Function < urb_functions.length
           then urb_functions.getD urb.UrbHeader.Function none else none) = none) :
    usb_submit_urb env vpdo read_irp irp =
      { status := STATUS_INVALID_PARAMETER, vpdo := vpdo, read_irp := read_irp, irp := irp } := by
  simp only [usb_submit_urb, hurb, hg]

theorem urb_functions_length : urb_functions.length = 62 := rfl

/-- C5: for a URB whose function code is one of the twelve that the table sends to
`urb_function_unexpected`, `usb_submit_urb` returns STATUS_INTERNAL_ERROR; for a reserved
code (a null entry of the table) and for a code at or beyond the end of the table
(0x3E and up) it returns STATUS_INVALID_PARAMETER.  In both cases the read IRP is left as
it was, so its bytes-transferred count stays 0. -/
theorem usb_submit_urb_unhandled (env : Helpers) (vpdo : vpdo_dev_t) (read_irp irp : IRP)
    (urb : URB) (hurb : irp.urb = some urb) (h0 : read_irp.Information = 0) :
    (urb.UrbHeader.Function ∈
        [URB_FUNCTION_ABORT_PIPE, URB_FUNCTION_TAKE_FRAME_LENGTH_CONTROL,
         URB_FUNCTION_RELEASE_FRAME_LENGTH_CONTROL, URB_FUNCTION_GET_FRAME_LENGTH,
         URB_FUNCTION_SET_FRAME_LENGTH, URB_FUNCTION_GET_CURRENT_FRAME_NUMBER,
         URB_FUNCTION_GET_MS_FEATURE_DESCRIPTOR, URB_FUNCTION_SYNC_RESET_PIPE,
         URB_FUNCTION_SYNC_CLEAR_STALL, URB_FUNCTION_OPEN_STATIC_STREAMS,
         URB_FUNCTION_CLOSE_STATIC_STREAMS, URB_FUNCTION_GET_ISOCH_PIPE_TRANSFER_PATH_DELAYS] →
      (usb_submit_urb env vpdo read_irp irp).status = STATUS_INTERNAL_ERROR ∧
      (usb_submit_urb env vpdo read_irp irp).read_irp = read_irp ∧
      (usb_submit_urb env vpdo read_irp irp).read_irp.Information = 0) ∧
    (urb.UrbHeader.Function ∈
        [0x16, 0x1D, 0x2B, 0x2C, 0x2D, 0x2E, 0x2F, 0x33, 0x34, 0x39, 0x3A, 0x3B, 0x3C] ∨
      urb.UrbHeader.Function ≥ 0x3E →
      (usb_submit_urb env vpdo read_irp irp).status = STATUS_INVALID_PARAMETER ∧
      (usb_submit_urb env vpdo read_irp irp).read_irp = read_irp ∧
      (usb_submit_urb env vpdo read_irp irp).read_irp.Information = 0) := by
  constructor
  · intro hf
    have hg : (if urb.UrbHeader.Function < urb_functions.length
        then urb_functions.getD urb.UrbHeader.Function none else none)
        = some urb_function_unexpected := by
      simp only [List.mem_cons, List.mem_singleton, List.not_mem_nil, or_false] at hf
      rcases hf with hf | hf | hf | hf | hf | hf | hf | hf | hf | hf | hf | hf <;>
        (rw [hf]; rfl)
    rw [usb_submit_urb_some env vpdo read_irp irp urb hurb _ hg]
    exact ⟨rfl, rfl, h0⟩
  · intro hf
    have hg : (if urb.UrbHeader.Function < urb_functions.length
        then urb_functions.getD urb.UrbHeader.Function none else none) = none := by
      rcases hf with hf | hf
      · simp only [List.mem_cons, List.mem_singleton, List.not_mem_nil, or_false] at hf
        rcases hf with hf | hf | hf | hf | hf | hf | hf | hf | hf | hf | hf | hf | hf <;>
          (rw [hf]; rfl)
      · rw [urb_functions_length, if_neg (by omega)]
    rw [usb_submit_urb_none env vpdo read_irp irp urb hurb hg]
    exact ⟨rfl, rfl, h0⟩

/-- C5 at concrete inputs: GET_CURRENT_FRAME_NUMBER is unexpected, 0x16 is reserved. -/
theorem usb_submit_urb_unhandled_witness :
    ((urb_irp_of (urb_of_function URB_FUNCTION_GET_CURRENT_FRAME_NUMBER)).urb
        = some (urb_of_function URB_FUNCTION_GET_CURRENT_FRAME_NUMBER) ∧
     (read_irp_of_size 48).Information = 0) ∧
    (usb_submit_urb spec_helpers default (read_irp_of_size 48)
        (urb_irp_of (urb_of_function URB_FUNCTION_GET_CURRENT_FRAME_NUMBER))).status
      = STATUS_INTERNAL_ERROR ∧
    (usb_submit_urb spec_helpers default (read_irp_of_size 48)
        (urb_irp_of (urb_of_function 0x16))).status = STATUS_INVALID_PARAMETER :=
  ⟨⟨rfl, rfl⟩,
   ((usb_submit_urb_unhandled spec_helpers default (read_irp_of_size 48)
      (urb_irp_of (urb_of_function URB_FUNCTION_GET_CURRENT_FRAME_NUMBER))
      (urb_of_function URB_FUNCTION_GET_CURRENT_FRAME_NUMBER) rfl rfl).1 (by decide)).1,
   by decide⟩

/-! ## Copying the transfer buffer behind the header -/

theorem copy_transfer_buffer_hdr (irp : IRP) (urb : URB) :
    (copy_transfer_buffer irp urb).2.hdr = irp.hdr := by
  simp only [copy_transfer_buffer, do_copy_transfer_buffer]
  split
  · split <;> rfl
  · rfl

/-- What `copy_transfer_buffer` does to a read IRP that holds the header and nothing
else: it leaves it alone, or it appends the bytes of the transfer buffer behind the
header. -/
theorem copy_transfer_buffer_cases (irp : IRP) (urb : URB)
    (hinfo : irp.Information = sizeof_usbip_header) :
    ((copy_transfer_buffer irp urb).2.stores = irp.stores ∧
     (copy_transfer_buffer irp urb).2.Information = sizeof_usbip_header) ∨
    ∃ buf, get_urb_buffer
        (if urb.UrbHeader.Function == URB_FUNCTION_BULK_OR_INTERRUPT_TRANSFER_USING_CHAINED_MDL
         then none else urb.TransferBuffer) urb.TransferBufferMDL = some buf ∧
      (copy_transfer_buffer irp urb).2.stores =
        irp.stores ++ [(sizeof_usbip_header, Store.bytes (buf.take urb.TransferBufferLength))] ∧
      (copy_transfer_buffer irp urb).2.Information =
        (sizeof_usbip_header + urb.TransferBufferLength) % 2 ^ 64 := by
  simp only [copy_transfer_buffer, do_copy_transfer_buffer, hinfo]
  split
  · cases hb : get_urb_buffer
        (if urb.UrbHeader.Function == URB_FUNCTION_BULK_OR_INTERRUPT_TRANSFER_USING_CHAINED_MDL
         then none else urb.TransferBuffer) urb.TransferBufferMDL with
    | none =>
      left
      exact ⟨rfl, hinfo⟩
    | some buf =>
      right
      exact ⟨buf, rfl, rfl, rfl⟩
  · left
    exact ⟨rfl, hinfo⟩

/-! ## C6, C7: control transfers -/

/-- C6: when the read buffer holds a header and the header is built successfully, but the
direction the header carries differs from the direction of the setup packet of the URB,
`urb_control_transfer_any` returns STATUS_INVALID_PARAMETER and leaves the
bytes-transferred count of the read IRP as it was (0 when it was 0). -/
theorem urb_control_transfer_any_direction (env : Helpers) (vpdo : vpdo_dev_t)
    (irp urb_irp : IRP) (urb : URB)
    (hbuf : irp.Length ≥ sizeof_usbip_header)
    (hhdr : (env.set_cmd_submit_usbip_header vpdo irp.hdr urb.PipeHandle urb.TransferFlags
      urb.TransferBufferLength).1 = STATUS_SUCCESS)
    (hdir : env.is_transfer_direction_out
        (env.set_cmd_submit_usbip_header vpdo irp.hdr urb.PipeHandle urb.TransferFlags
          urb.TransferBufferLength).2.2 ≠ env.is_transfer_dir_out urb) :
    (urb_control_transfer_any env vpdo irp urb_irp urb).status = STATUS_INVALID_PARAMETER ∧
    (urb_control_transfer_any env vpdo irp urb_irp urb).read_irp.Information = irp.Information ∧
    (irp.Information = 0 →
      (urb_control_transfer_any env vpdo irp urb_irp urb).read_irp.Information = 0) := by
  rcases hset : env.set_cmd_submit_usbip_header vpdo irp.hdr urb.PipeHandle urb.TransferFlags
    urb.TransferBufferLength with ⟨err, vpdo2, hdr⟩
  rw [hset] at hhdr hdir
  simp only at hhdr hdir
  have hlen : get_usbip_header irp = true := by
    simp only [get_usbip_header, try_get_irp_buffer, get_irp_buffer_size]
    exact decide_eq_true hbuf
  simp only [urb_control_transfer_any, hlen, hset, hhdr]
  simp [hdir]

/-- C6 at a concrete input: transfer flags that say OUT with a setup packet that says IN. -/
theorem urb_control_transfer_any_direction_witness :
    (urb_control_transfer_any spec_helpers default (read_irp_of_size 48)
        (urb_irp_of (control_urb USBD_TRANSFER_DIRECTION_OUT 0x80 18))
        (control_urb USBD_TRANSFER_DIRECTION_OUT 0x80 18)).status = STATUS_INVALID_PARAMETER ∧
    (urb_control_transfer_any spec_helpers default (read_irp_of_size 48)
        (urb_irp_of (control_urb USBD_TRANSFER_DIRECTION_OUT 0x80 18))
        (control_urb USBD_TRANSFER_DIRECTION_OUT 0x80 18)).read_irp.Information = 0 :=
  ⟨(urb_control_transfer_any_direction spec_helpers default (read_irp_of_size 48)
      (urb_irp_of (control_urb USBD_TRANSFER_DIRECTION_OUT 0x80 18))
      (control_urb USBD_TRANSFER_DIRECTION_OUT 0x80 18) (by decide) (by decide) (by decide)).1,
   by decide⟩

/-- C7: when `urb_control_transfer_any` succeeds, the setup bytes of the header it leaves
in the read buffer are the eight bytes of the URB's `SetupPacket`; unless the header says
OUT and `TransferBufferLength` is non-zero, nothing is stored behind the header and 48
bytes are transferred; and in every case either nothing is stored behind the header, or
the header says OUT, `TransferBufferLength` is non-zero and what is stored is the transfer
buffer, at byte 48. -/
theorem urb_control_transfer_any_setup (env : Helpers) (vpdo : vpdo_dev_t)
    (irp urb_irp : IRP) (urb : URB)
    (h : (urb_control_transfer_any env vpdo irp urb_irp urb).status = STATUS_SUCCESS) :
    (urb_control_transfer_any env vpdo irp urb_irp urb).read_irp.hdr.cmd_submit.setup
      = urb.SetupPacket ∧
    (urb_control_transfer_any env vpdo irp urb_irp urb).read_irp.hdr.cmd_submit.setup.toList
      = urb.SetupPacket.toList ∧
    (¬ (env.is_transfer_direction_out
          (env.set_cmd_submit_usbip_header vpdo irp.hdr urb.PipeHandle urb.TransferFlags
            urb.TransferBufferLength).2.2 = true ∧ urb.TransferBufferLength ≠ 0) →
      (urb_control_transfer_any env vpdo irp urb_irp urb).read_irp.stores = irp.stores ∧
      (urb_control_transfer_any env vpdo irp urb_irp urb).read_irp.Information
        = sizeof_usbip_header) ∧
    (((urb_control_transfer_any env vpdo irp urb_irp urb).read_irp.stores = irp.stores ∧
      (urb_control_transfer_any env vpdo irp urb_irp urb).read_irp.Information
        = sizeof_usbip_header) ∨
     (env.is_transfer_direction_out
          (env.set_cmd_submit_usbip_header vpdo irp.hdr urb.PipeHandle urb.TransferFlags
            urb.TransferBufferLength).2.2 = true ∧ urb.TransferBufferLength ≠ 0 ∧
      ∃ buf, get_urb_buffer
          (if urb.UrbHeader.Function == URB_FUNCTION_BULK_OR_INTERRUPT_TRANSFER_USING_CHAINED_MDL
           then none else urb.TransferBuffer) urb.TransferBufferMDL = some buf ∧
        (urb_control_transfer_any env vpdo irp urb_irp urb).read_irp.stores =
          irp.stores ++ [(sizeof_usbip_header, Store.bytes (buf.take urb.TransferBufferLength))] ∧
        (urb_control_transfer_any env vpdo irp urb_irp urb).read_irp.Information =
          (sizeof_usbip_header + urb.TransferBufferLength) % 2 ^ 64)) := by
  rcases hset : env.set_cmd_submit_usbip_header vpdo irp.hdr urb.PipeHandle urb.TransferFlags
    urb.TransferBufferLength with ⟨err, vpdo2, hdr⟩
  simp only [urb_control_transfer_any, hset] at h ⊢
  by_cases hlen : get_usbip_header irp = true
  swap
  · simp [hlen] at h
  simp only [hlen, Bool.not_true, Bool.false_eq_true, if_false] at h ⊢
  by_cases herr : err = 0
  swap
  · simp only [herr, ne_eq, not_false_eq_true, if_true] at h
  simp only [herr, ne_eq, not_true_eq_false, if_false] at h ⊢
  by_cases hd : env.is_transfer_direction_out hdr = env.is_transfer_dir_out urb
  swap
  · simp [hd] at h
  simp only [hd, not_true_eq_false, if_false] at h ⊢
  by_cases hout : env.is_transfer_dir_out urb = true ∧ ¬ urb.TransferBufferLength = 0
  · simp only [hout, not_false_eq_true, and_self, if_true, not_true_eq_false,
      IsEmpty.forall_iff, true_and] at h ⊢
    have hc := copy_transfer_buffer_cases
      { irp with
        hdr := { hdr with cmd_submit := { hdr.cmd_submit with setup := urb.SetupPacket } },
        Information := sizeof_usbip_header } urb rfl
    refine ⟨?_, ?_, ?_⟩
    · rw [copy_transfer_buffer_hdr]
    · rw [copy_transfer_buffer_hdr]
    · rcases hc with hc | ⟨buf, hb, hs, hi⟩
      · left; exact hc
      · right; exact ⟨buf, hb, hs, hi⟩
  · simp only [hout, if_false, not_false_eq_true, forall_true_left, and_self, true_and, true_or]

/-- C7 at concrete inputs: a control IN transfer (GET_DESCRIPTOR, 18 bytes) puts the setup
packet into the header and stores nothing behind it; a control OUT transfer of 4 bytes
into a read buffer of 52 bytes stores the 4 bytes at byte 48. -/
theorem urb_control_transfer_any_setup_witness :
    ((urb_control_transfer_any spec_helpers default (read_irp_of_size 48)
        (urb_irp_of (control_urb USBD_TRANSFER_DIRECTION_IN 0x80 18))
        (control_urb USBD_TRANSFER_DIRECTION_IN 0x80 18)).status = STATUS_SUCCESS ∧
     (urb_control_transfer_any spec_helpers default (read_irp_of_size 48)
        (urb_irp_of (control_urb USBD_TRANSFER_DIRECTION_IN 0x80 18))
        (control_urb USBD_TRANSFER_DIRECTION_IN 0x80 18)).read_irp.stores = [] ∧
     (urb_control_transfer_any spec_helpers default (read_irp_of_size 52)
        (urb_irp_of (control_urb USBD_TRANSFER_DIRECTION_OUT 0x00 4))
        (control_urb USBD_TRANSFER_DIRECTION_OUT 0x00 4)).read_irp.stores
       = [(48, Store.bytes [0, 0, 0, 0])]) ∧
    (urb_control_transfer_any spec_helpers default (read_irp_of_size 48)
        (urb_irp_of (control_urb USBD_TRANSFER_DIRECTION_IN 0x80 18))
        (control_urb USBD_TRANSFER_DIRECTION_IN 0x80 18)).read_irp.hdr.cmd_submit.setup.toList
      = [0x80, 6, 0, 1, 0, 0, 18, 0] :=
  ⟨by decide,
   (urb_control_transfer_any_setup spec_helpers default (read_irp_of_size 48)
      (urb_irp_of (control_urb USBD_TRANSFER_DIRECTION_IN 0x80 18))
      (control_urb USBD_TRANSFER_DIRECTION_IN 0x80 18) (by decide)).2.1⟩

/-! ## C8 .. C10: descriptor, feature and status requests -/

theorem USB_DESCRIPTOR_MAKE_TYPE_AND_INDEX_eq (d i : Nat) (hd : d < 256) (hi : i < 256) :
    USB_DESCRIPTOR_MAKE_TYPE_AND_INDEX d i = d <<< 8 ||| i := by
  have h1 : d <<< 8 < 2 ^ 16 := by rw [Nat.shiftLeft_eq]; omega
  have h2 : i < 2 ^ 16 := by omega
  have h3 := Nat.or_lt_two_pow h1 h2
  unfold USB_DESCRIPTOR_MAKE_TYPE_AND_INDEX
  rw [Nat.mod_eq_of_lt (by omega : d <<< 8 < 65536), Nat.mod_eq_of_lt (by omega)]

/-- The setup bytes that a successful `urb_control_descriptor_request` leaves in the
header: those of the header as built, with the five fields stored over them. -/
theorem urb_control_descriptor_request_setup (env : Helpers) (vpdo : vpdo_dev_t)
    (irp urb_irp : IRP) (urb : URB) (dir_in : Bool) (recipient : Nat)
    (h : (urb_control_descriptor_request env vpdo irp urb_irp urb dir_in recipient).status
      = STATUS_SUCCESS) :
    (urb_control_descriptor_request env vpdo irp urb_irp urb dir_in recipient).read_irp.hdr.cmd_submit.setup
      = (((((get_submit_setup (env.set_cmd_submit_usbip_header vpdo irp.hdr EP0
              (USBD_DEFAULT_PIPE_TRANSFER |||
                (if dir_in then USBD_SHORT_TRANSFER_OK ||| USBD_TRANSFER_DIRECTION_IN
                 else USBD_TRANSFER_DIRECTION_OUT)) urb.TransferBufferLength).2.2).set_bmRequestType
            ((if dir_in then USB_DIR_IN else USB_DIR_OUT) ||| USB_TYPE_STANDARD ||| recipient)).set_bRequest
            (if dir_in then USB_REQUEST_GET_DESCRIPTOR else USB_REQUEST_SET_DESCRIPTOR)).set_wValue
            (USB_DESCRIPTOR_MAKE_TYPE_AND_INDEX urb.DescriptorType urb.Index)).set_wIndex
            urb.LanguageId).set_wLength (urb.TransferBufferLength % 65536) := by
  rcases hset : env.set_cmd_submit_usbip_header vpdo irp.hdr EP0
      (USBD_DEFAULT_PIPE_TRANSFER |||
        (if dir_in then USBD_SHORT_TRANSFER_OK ||| USBD_TRANSFER_DIRECTION_IN
         else USBD_TRANSFER_DIRECTION_OUT)) urb.TransferBufferLength with ⟨err, vpdo2, hdr⟩
  simp only [urb_control_descriptor_request, hset] at h ⊢
  by_cases hlen : get_usbip_header irp = true
  swap
  · simp [hlen] at h
  simp only [hlen, Bool.not_true, Bool.false_eq_true, if_false] at h ⊢
  by_cases herr : err = 0
  swap
  · simp only [herr, ne_eq, not_false_eq_true, if_true] at h
  simp only [herr, ne_eq, not_true_eq_false, if_false] at h ⊢
  split
  · rw [copy_transfer_buffer_hdr]
    rfl
  · rfl

/-- C8, as stated, fails on the code: a GET_DESCRIPTOR_FROM_DEVICE URB with a transfer
buffer of 65536 bytes is translated successfully and gets `wLength = 0`, not 65536. -/
theorem get_descriptor_wLength_truncated :
    (usb_submit_urb spec_helpers default (read_irp_of_size 48)
      (urb_irp_of (descriptor_urb URB_FUNCTION_GET_DESCRIPTOR_FROM_DEVICE 2 0 0 65536))).status
      = STATUS_SUCCESS ∧
    (submit_setup (usb_submit_urb spec_helpers default (read_irp_of_size 48)
      (urb_irp_of (descriptor_urb URB_FUNCTION_GET_DESCRIPTOR_FROM_DEVICE 2 0 0 65536)))).wLength
      = 0 ∧
    (descriptor_urb URB_FUNCTION_GET_DESCRIPTOR_FROM_DEVICE 2 0 0 65536).TransferBufferLength
      = 65536 := by
  decide

/-- C8, amended: for each of the six get/set-descriptor function codes, a URB that
`usb_submit_urb` translates successfully gets the setup packet bmRequestType = (IN 0x80
for get, OUT 0x00 for set) | STANDARD | recipient, bRequest = GET_DESCRIPTOR (6) for get
and SET_DESCRIPTOR (7) for set, wValue = (DescriptorType << 8) | Index, wIndex =
LanguageId, and wLength = the low 16 bits of TransferBufferLength, which is
TransferBufferLength itself when that is at most 0xFFFF. -/
theorem usb_submit_urb_descriptor_setup (env : Helpers) (vpdo : vpdo_dev_t) (read_irp irp : IRP)
    (urb : URB) (hurb : irp.urb = some urb) (dir_in : Bool) (recipient : Nat)
    (hf : (urb.UrbHeader.Function, dir_in, recipient) ∈
      [(URB_FUNCTION_GET_DESCRIPTOR_FROM_DEVICE, true, USB_RECIP_DEVICE),
       (URB_FUNCTION_SET_DESCRIPTOR_TO_DEVICE, false, USB_RECIP_DEVICE),
       (URB_FUNCTION_GET_DESCRIPTOR_FROM_INTERFACE, true, USB_RECIP_INTERFACE),
       (URB_FUNCTION_SET_DESCRIPTOR_TO_INTERFACE, false, USB_RECIP_INTERFACE),
       (URB_FUNCTION_GET_DESCRIPTOR_FROM_ENDPOINT, true, USB_RECIP_ENDPOINT),
       (URB_FUNCTION_SET_DESCRIPTOR_TO_ENDPOINT, false, USB_RECIP_ENDPOINT)])
    (htype : urb.DescriptorType < 256) (hindex : urb.Index < 256)
    (hlang : urb.LanguageId < 65536)
    (hok : (usb_submit_urb env vpdo read_irp irp).status = STATUS_SUCCESS) :
    (submit_setup (usb_submit_urb env vpdo read_irp irp)).bmRequestType =
      ((if dir_in then USB_DIR_IN else USB_DIR_OUT) ||| USB_TYPE_STANDARD ||| recipient) ∧
    (submit_setup (usb_submit_urb env vpdo read_irp irp)).bRequest =
      (if dir_in then USB_REQUEST_GET_DESCRIPTOR else USB_REQUEST_SET_DESCRIPTOR) ∧
    (submit_setup (usb_submit_urb env vpdo read_irp irp)).wValue =
      (urb.DescriptorType <<< 8 ||| urb.Index) ∧
    (submit_setup (usb_submit_urb env vpdo read_irp irp)).wIndex = urb.LanguageId ∧
    (submit_setup (usb_submit_urb env vpdo read_irp irp)).wLength =
      urb.TransferBufferLength % 65536 ∧
    (urb.TransferBufferLength ≤ 0xFFFF →
      (submit_setup (usb_submit_urb env vpdo read_irp irp)).wLength = urb.TransferBufferLength) := by
  have hsub : usb_submit_urb env vpdo read_irp irp =
      urb_control_descriptor_request env vpdo read_irp irp urb dir_in recipient := by
    simp only [List.mem_cons, List.mem_singleton, List.not_mem_nil, or_false, Prod.mk.injEq] at hf
    rcases hf with ⟨h1, h2, h3⟩ | ⟨h1, h2, h3⟩ | ⟨h1, h2, h3⟩ | ⟨h1, h2, h3⟩ | ⟨h1, h2, h3⟩ |
      ⟨h1, h2, h3⟩ <;>
    · subst h2 h3
      exact usb_submit_urb_some env vpdo read_irp irp urb hurb _ (by rw [h1]; rfl)
  rw [hsub] at hok ⊢
  have hv := USB_DESCRIPTOR_MAKE_TYPE_AND_INDEX_eq urb.DescriptorType urb.Index htype hindex
  have hv2 : urb.DescriptorType <<< 8 ||| urb.Index < 65536 := by
    have h1 : urb.DescriptorType <<< 8 < 2 ^ 16 := by rw [Nat.shiftLeft_eq]; omega
    have := Nat.or_lt_two_pow h1 (by omega : urb.Index < 2 ^ 16)
    omega
  have hrec : recipient < 4 ∧ (dir_in = true ∨ dir_in = false) := by
    simp only [List.mem_cons, List.mem_singleton, List.not_mem_nil, or_false, Prod.mk.injEq] at hf
    rcases hf with ⟨_, h2, h3⟩ | ⟨_, h2, h3⟩ | ⟨_, h2, h3⟩ | ⟨_, h2, h3⟩ | ⟨_, h2, h3⟩ |
      ⟨_, h2, h3⟩ <;>
    · subst h2 h3
      exact ⟨by decide, by decide⟩
  have hbm : ((if dir_in then USB_DIR_IN else USB_DIR_OUT) ||| USB_TYPE_STANDARD ||| recipient)
      < 256 := by
    obtain ⟨hr, hd⟩ := hrec
    rcases hd with hd | hd <;> subst hd <;> interval_cases recipient <;> decide
  simp only [submit_setup, urb_control_descriptor_request_setup env vpdo read_irp irp urb dir_in
    recipient hok, hv, SetupBytes.set_bmRequestType, SetupBytes.set_bRequest,
    SetupBytes.set_wValue, SetupBytes.set_wIndex, SetupBytes.set_wLength,
    SetupBytes.bmRequestType, SetupBytes.bRequest, SetupBytes.wValue, SetupBytes.wIndex,
    SetupBytes.wLength]
  refine ⟨Nat.mod_eq_of_lt hbm, ?_, ?_, ?_, ?_, ?_⟩
  · cases dir_in <;> rfl
  · omega
  · omega
  · omega
  · intro hle
    omega

/-- C8 at a concrete input, scenario S1: GET_DESCRIPTOR_FROM_DEVICE with DescriptorType 1,
Index 0, LanguageId 0 and a buffer of 18 bytes yields the setup bytes
80 06 00 01 00 00 12 00. -/
theorem usb_submit_urb_descriptor_setup_witness :
    ((usb_submit_urb spec_helpers default (read_irp_of_size 48)
        (urb_irp_of (descriptor_urb URB_FUNCTION_GET_DESCRIPTOR_FROM_DEVICE 1 0 0 18))).status
       = STATUS_SUCCESS ∧
     (submit_setup (usb_submit_urb spec_helpers default (read_irp_of_size 48)
        (urb_irp_of (descriptor_urb URB_FUNCTION_GET_DESCRIPTOR_FROM_DEVICE 1 0 0 18)))).toList
       = [0x80, 0x06, 0x00, 0x01, 0x00, 0x00, 0x12, 0x00]) ∧
    (submit_setup (usb_submit_urb spec_helpers default (read_irp_of_size 48)
        (urb_irp_of (descriptor_urb URB_FUNCTION_GET_DESCRIPTOR_FROM_DEVICE 1 0 0 18)))).wLength
      = 18 :=
  ⟨by decide,
   (usb_submit_urb_descriptor_setup spec_helpers default (read_irp_of_size 48)
      (urb_irp_of (descriptor_urb URB_FUNCTION_GET_DESCRIPTOR_FROM_DEVICE 1 0 0 18))
      (descriptor_urb URB_FUNCTION_GET_DESCRIPTOR_FROM_DEVICE 1 0 0 18) rfl true USB_RECIP_DEVICE
      (by decide) (by decide) (by decide) (by decide) (by decide)).2.2.2.2.2 (by decide)⟩

/-- C9, evaluated on the code: the table holds `set_feature_to_other` at index 0x22 and
`clear_feature_to_other` at index 0x23, so a URB_FUNCTION_SET_FEATURE_TO_OTHER (0x23) URB
is sent with bRequest = CLEAR_FEATURE (1) and a URB_FUNCTION_CLEAR_FEATURE_TO_OTHER (0x22)
URB with bRequest = SET_FEATURE (3). -/
theorem feature_to_other_swapped :
    (usb_submit_urb spec_helpers default (read_irp_of_size 48)
      (urb_irp_of (feature_urb URB_FUNCTION_SET_FEATURE_TO_OTHER 4 1))).status
      = STATUS_SUCCESS ∧
    (submit_setup (usb_submit_urb spec_helpers default (read_irp_of_size 48)
      (urb_irp_of (feature_urb URB_FUNCTION_SET_FEATURE_TO_OTHER 4 1)))).bRequest
      = USB_REQUEST_CLEAR_FEATURE ∧
    (submit_setup (usb_submit_urb spec_helpers default (read_irp_of_size 48)
      (urb_irp_of (feature_urb URB_FUNCTION_SET_FEATURE_TO_OTHER 4 1)))).toList
      = [0x03, 0x01, 0x04, 0x00, 0x01, 0x00, 0x00, 0x00] ∧
    (usb_submit_urb spec_helpers default (read_irp_of_size 48)
      (urb_irp_of (feature_urb URB_FUNCTION_CLEAR_FEATURE_TO_OTHER 4 1))).status
      = STATUS_SUCCESS ∧
    (submit_setup (usb_submit_urb spec_helpers default (read_irp_of_size 48)
      (urb_irp_of (feature_urb URB_FUNCTION_CLEAR_FEATURE_TO_OTHER 4 1)))).bRequest
      = USB_REQUEST_SET_FEATURE := by
  decide

/-- C10, evaluated on the code: a GET_STATUS_FROM_DEVICE URB with a transfer buffer of 4
bytes is translated successfully with bmRequestType = 0x80, bRequest = GET_STATUS and
`wLength = 4`: the length is taken from the URB, it is not 2. -/
theorem get_status_wLength_from_urb :
    (usb_submit_urb spec_helpers default (read_irp_of_size 48)
      (urb_irp_of (get_status_urb URB_FUNCTION_GET_STATUS_FROM_DEVICE 0 4))).status
      = STATUS_SUCCESS ∧
    (submit_setup (usb_submit_urb spec_helpers default (read_irp_of_size 48)
      (urb_irp_of (get_status_urb URB_FUNCTION_GET_STATUS_FROM_DEVICE 0 4)))).toList
      = [0x80, 0x00, 0x00, 0x00, 0x00, 0x00, 0x04, 0x00] ∧
    (submit_setup (usb_submit_urb spec_helpers default (read_irp_of_size 48)
      (urb_irp_of (get_status_urb URB_FUNCTION_GET_STATUS_FROM_DEVICE 0 4)))).wLength = 4 := by
  decide

/-! ## What the feature and status handlers do, for every request -/

theorem urb_control_feature_request_result (env : Helpers) (vpdo : vpdo_dev_t)
    (irp urb_irp : IRP) (urb : URB) (bRequest recipient : Nat)
    (h : (urb_control_feature_request env vpdo irp urb_irp urb bRequest recipient).status
      = STATUS_SUCCESS) :
    (urb_control_feature_request env vpdo irp urb_irp urb bRequest recipient).read_irp.hdr.cmd_submit.setup
      = ((((get_submit_setup (env.set_cmd_submit_usbip_header vpdo irp.hdr EP0
              (USBD_DEFAULT_PIPE_TRANSFER ||| USBD_TRANSFER_DIRECTION_OUT) 0).2.2).set_bmRequestType
            (USB_DIR_OUT ||| USB_TYPE_STANDARD ||| recipient)).set_bRequest bRequest).set_wValue
            urb.FeatureSelector).set_wIndex urb.Index ∧
    (urb_control_feature_request env vpdo irp urb_irp urb bRequest recipient).read_irp.stores
      = irp.stores ∧
    (urb_control_feature_request env vpdo irp urb_irp urb bRequest recipient).read_irp.Information
      = sizeof_usbip_header := by
  rcases hset : env.set_cmd_submit_usbip_header vpdo irp.hdr EP0
      (USBD_DEFAULT_PIPE_TRANSFER ||| USBD_TRANSFER_DIRECTION_OUT) 0 with ⟨err, vpdo2, hdr⟩
  simp only [urb_control_feature_request, hset] at h ⊢
  by_cases hlen : get_usbip_header irp = true
  swap
  · simp [hlen] at h
  simp only [hlen, Bool.not_true, Bool.false_eq_true, if_false] at h ⊢
  by_cases herr : err = 0
  swap
  · simp only [herr, ne_eq, not_false_eq_true, if_true] at h
  simp only [herr, ne_eq, not_true_eq_false, if_false] at h ⊢
  refine ⟨?_, ?_, ?_⟩ <;> trivial

/-- The setup packet of each of the eight feature function codes as the table dispatches
them: the request is SET_FEATURE for 0x0D, 0x0E, 0x0F and for 0x22, CLEAR_FEATURE for
0x10, 0x11, 0x12 and for 0x23; bmRequestType = OUT | STANDARD | recipient,
wValue = FeatureSelector, wIndex = Index, nothing is stored behind the header and 48
bytes are transferred. -/
theorem usb_submit_urb_feature_setup (env : Helpers) (vpdo : vpdo_dev_t) (read_irp irp : IRP)
    (urb : URB) (hurb : irp.urb = some urb) (bRequest recipient : Nat)
    (hf : (urb.UrbHeader.Function, bRequest, recipient) ∈
      [(URB_FUNCTION_SET_FEATURE_TO_DEVICE, USB_REQUEST_SET_FEATURE, USB_RECIP_DEVICE),
       (URB_FUNCTION_SET_FEATURE_TO_INTERFACE, USB_REQUEST_SET_FEATURE, USB_RECIP_INTERFACE),
       (URB_FUNCTION_SET_FEATURE_TO_ENDPOINT, USB_REQUEST_SET_FEATURE, USB_RECIP_ENDPOINT),
       (URB_FUNCTION_CLEAR_FEATURE_TO_DEVICE, USB_REQUEST_CLEAR_FEATURE, USB_RECIP_DEVICE),
       (URB_FUNCTION_CLEAR_FEATURE_TO_INTERFACE, USB_REQUEST_CLEAR_FEATURE, USB_RECIP_INTERFACE),
       (URB_FUNCTION_CLEAR_FEATURE_TO_ENDPOINT, USB_REQUEST_CLEAR_FEATURE, USB_RECIP_ENDPOINT),
       (URB_FUNCTION_CLEAR_FEATURE_TO_OTHER, USB_REQUEST_SET_FEATURE, USB_RECIP_OTHER),
       (URB_FUNCTION_SET_FEATURE_TO_OTHER, USB_REQUEST_CLEAR_FEATURE, USB_RECIP_OTHER)])
    (hsel : urb.FeatureSelector < 65536) (hindex : urb.Index < 65536)
    (hok : (usb_submit_urb env vpdo read_irp irp).status = STATUS_SUCCESS) :
    (submit_setup (usb_submit_urb env vpdo read_irp irp)).bmRequestType =
      (USB_DIR_OUT ||| USB_TYPE_STANDARD ||| recipient) ∧
    (submit_setup (usb_submit_urb env vpdo read_irp irp)).bRequest = bRequest ∧
    (submit_setup (usb_submit_urb env vpdo read_irp irp)).wValue = urb.FeatureSelector ∧
    (submit_setup (usb_submit_urb env vpdo read_irp irp)).wIndex = urb.Index ∧
    (usb_submit_urb env vpdo read_irp irp).read_irp.stores = read_irp.stores ∧
    (usb_submit_urb env vpdo read_irp irp).read_irp.Information = sizeof_usbip_header := by
  have hsub : usb_submit_urb env vpdo read_irp irp =
      urb_control_feature_request env vpdo read_irp irp urb bRequest recipient := by
    simp only [List.mem_cons, List.mem_singleton, List.not_mem_nil, or_false, Prod.mk.injEq] at hf
    rcases hf with ⟨h1, h2, h3⟩ | ⟨h1, h2, h3⟩ | ⟨h1, h2, h3⟩ | ⟨h1, h2, h3⟩ | ⟨h1, h2, h3⟩ |
      ⟨h1, h2, h3⟩ | ⟨h1, h2, h3⟩ | ⟨h1, h2, h3⟩ <;>
    · subst h2 h3
      exact usb_submit_urb_some env vpdo read_irp irp urb hurb _ (by rw [h1]; rfl)
  rw [hsub] at hok ⊢
  have hrec : recipient < 4 ∧ bRequest < 4 := by
    simp only [List.mem_cons, List.mem_singleton, List.not_mem_nil, or_false, Prod.mk.injEq] at hf
    rcases hf with ⟨_, h2, h3⟩ | ⟨_, h2, h3⟩ | ⟨_, h2, h3⟩ | ⟨_, h2, h3⟩ | ⟨_, h2, h3⟩ |
      ⟨_, h2, h3⟩ | ⟨_, h2, h3⟩ | ⟨_, h2, h3⟩ <;>
    · subst h2 h3
      exact ⟨by decide, by decide⟩
  have hbm : (USB_DIR_OUT ||| USB_TYPE_STANDARD ||| recipient) < 256 := by
    obtain ⟨hr, _⟩ := hrec
    interval_cases recipient <;> decide
  obtain ⟨hs, hst, hinf⟩ :=
    urb_control_feature_request_result env vpdo read_irp irp urb bRequest recipient hok
  simp only [submit_setup, hs, SetupBytes.set_bmRequestType, SetupBytes.set_bRequest,
    SetupBytes.set_wValue, SetupBytes.set_wIndex, SetupBytes.bmRequestType,
    SetupBytes.bRequest, SetupBytes.wValue, SetupBytes.wIndex]
  refine ⟨Nat.mod_eq_of_lt hbm, ?_, ?_, ?_, hst, hinf⟩
  · omega
  · omega
  · omega

theorem urb_control_get_status_request_result (env : Helpers) (vpdo : vpdo_dev_t)
    (irp urb_irp : IRP) (urb : URB) (recipient : Nat)
    (h : (urb_control_get_status_request env vpdo irp urb_irp urb recipient).status
      = STATUS_SUCCESS) :
    (urb_control_get_status_request env vpdo irp urb_irp urb recipient).read_irp.hdr.cmd_submit.setup
      = ((((get_submit_setup (env.set_cmd_submit_usbip_header vpdo irp.hdr EP0
              (USBD_DEFAULT_PIPE_TRANSFER ||| USBD_TRANSFER_DIRECTION_IN)
              urb.TransferBufferLength).2.2).set_bmRequestType
            (USB_DIR_IN ||| USB_TYPE_STANDARD ||| recipient)).set_bRequest
            USB_REQUEST_GET_STATUS).set_wIndex urb.Index).set_wLength
            (urb.TransferBufferLength % 65536) := by
  rcases hset : env.set_cmd_submit_usbip_header vpdo irp.hdr EP0
      (USBD_DEFAULT_PIPE_TRANSFER ||| USBD_TRANSFER_DIRECTION_IN) urb.TransferBufferLength
    with ⟨err, vpdo2, hdr⟩
  simp only [urb_control_get_status_request, hset] at h ⊢
  by_cases hlen : get_usbip_header irp = true
  swap
  · simp [hlen] at h
  simp only [hlen, Bool.not_true, Bool.false_eq_true, if_false] at h ⊢
  by_cases herr : err = 0
  swap
  · simp only [herr, ne_eq, not_false_eq_true, if_true] at h
  simp only [herr, ne_eq, not_true_eq_false, if_false] at h ⊢
  rfl

/-- The setup packet of each of the four get-status function codes: bmRequestType =
IN | STANDARD | recipient, bRequest = GET_STATUS, wIndex = Index and wLength = the low 16
bits of TransferBufferLength, which is 2 when the URB's TransferBufferLength is 2. -/
theorem usb_submit_urb_get_status_setup (env : Helpers) (vpdo : vpdo_dev_t) (read_irp irp : IRP)
    (urb : URB) (hurb : irp.urb = some urb) (recipient : Nat)
    (hf : (urb.UrbHeader.Function, recipient) ∈
      [(URB_FUNCTION_GET_STATUS_FROM_DEVICE, USB_RECIP_DEVICE),
       (URB_FUNCTION_GET_STATUS_FROM_INTERFACE, USB_RECIP_INTERFACE),
       (URB_FUNCTION_GET_STATUS_FROM_ENDPOINT, USB_RECIP_ENDPOINT),
       (URB_FUNCTION_GET_STATUS_FROM_OTHER, USB_RECIP_OTHER)])
    (hindex : urb.Index < 65536)
    (hok : (usb_submit_urb env vpdo read_irp irp).status = STATUS_SUCCESS) :
    (submit_setup (usb_submit_urb env vpdo read_irp irp)).bmRequestType =
      (USB_DIR_IN ||| USB_TYPE_STANDARD ||| recipient) ∧
    (submit_setup (usb_submit_urb env vpdo read_irp irp)).bRequest = USB_REQUEST_GET_STATUS ∧
    (submit_setup (usb_submit_urb env vpdo read_irp irp)).wIndex = urb.Index ∧
    (submit_setup (usb_submit_urb env vpdo read_irp irp)).wLength =
      urb.TransferBufferLength % 65536 ∧
    (urb.TransferBufferLength = 2 →
      (submit_setup (usb_submit_urb env vpdo read_irp irp)).wLength = 2) := by
  have hsub : usb_submit_urb env vpdo read_irp irp =
      urb_control_get_status_request env vpdo read_irp irp urb recipient := by
    simp only [List.mem_cons, List.mem_singleton, List.not_mem_nil, or_false, Prod.mk.injEq] at hf
    rcases hf with ⟨h1, h3⟩ | ⟨h1, h3⟩ | ⟨h1, h3⟩ | ⟨h1, h3⟩ <;>
    · subst h3
      exact usb_submit_urb_some env vpdo read_irp irp urb hurb _ (by rw [h1]; rfl)
  rw [hsub] at hok ⊢
  have hrec : recipient < 4 := by
    simp only [List.mem_cons, List.mem_singleton, List.not_mem_nil, or_false, Prod.mk.injEq] at hf
    rcases hf with ⟨_, h3⟩ | ⟨_, h3⟩ | ⟨_, h3⟩ | ⟨_, h3⟩ <;>
    · subst h3
      decide
  have hbm : (USB_DIR_IN ||| USB_TYPE_STANDARD ||| recipient) < 256 := by
    interval_cases recipient <;> decide
  simp only [submit_setup,
    urb_control_get_status_request_result env vpdo read_irp irp urb recipient hok,
    SetupBytes.set_bmRequestType, SetupBytes.set_bRequest, SetupBytes.set_wIndex,
    SetupBytes.set_wLength, SetupBytes.bmRequestType, SetupBytes.bRequest, SetupBytes.wIndex,
    SetupBytes.wLength]
  refine ⟨Nat.mod_eq_of_lt hbm, ?_, ?_, ?_, ?_⟩
  · rfl
  · omega
  · omega
  · intro h2
    omega

/-! ## C11, C12: vendor and class requests, select configuration -/

/-- What a successful `urb_control_vendor_class_request` leaves in the read IRP: the
header as built with the five setup fields stored over it, and behind the header either
nothing, or, for OUT with a non-zero length, the transfer buffer. -/
theorem urb_control_vendor_class_request_result (env : Helpers) (vpdo : vpdo_dev_t)
    (irp urb_irp : IRP) (urb : URB) (type recipient : Nat)
    (h : (urb_control_vendor_class_request env vpdo irp urb_irp urb type recipient).status
      = STATUS_SUCCESS) :
    (urb_control_vendor_class_request env vpdo irp urb_irp urb type recipient).read_irp.hdr.cmd_submit.setup
      = (((((get_submit_setup (env.set_cmd_submit_usbip_header vpdo irp.hdr EP0
              (urb.TransferFlags ||| USBD_DEFAULT_PIPE_TRANSFER)
              urb.TransferBufferLength).2.2).set_bmRequestType
            ((if env.is_transfer_direction_out (env.set_cmd_submit_usbip_header vpdo irp.hdr EP0
                (urb.TransferFlags ||| USBD_DEFAULT_PIPE_TRANSFER)
                urb.TransferBufferLength).2.2 then USB_DIR_OUT else USB_DIR_IN)
              ||| type ||| recipient)).set_bRequest urb.Request).set_wValue urb.Value).set_wIndex
            urb.Index).set_wLength (urb.TransferBufferLength % 65536) ∧
    (¬ (env.is_transfer_direction_out (env.set_cmd_submit_usbip_header vpdo irp.hdr EP0
          (urb.TransferFlags ||| USBD_DEFAULT_PIPE_TRANSFER)
          urb.TransferBufferLength).2.2 = true ∧ urb.TransferBufferLength ≠ 0) →
      (urb_control_vendor_class_request env vpdo irp urb_irp urb type recipient).read_irp.stores
        = irp.stores ∧
      (urb_control_vendor_class_request env vpdo irp urb_irp urb type recipient).read_irp.Information
        = sizeof_usbip_header) ∧
    (((urb_control_vendor_class_request env vpdo irp urb_irp urb type recipient).read_irp.stores
        = irp.stores ∧
      (urb_control_vendor_class_request env vpdo irp urb_irp urb type recipient).read_irp.Information
        = sizeof_usbip_header) ∨
     ∃ buf, get_urb_buffer
        (if urb.UrbHeader.Function == URB_FUNCTION_BULK_OR_INTERRUPT_TRANSFER_USING_CHAINED_MDL
         then none else urb.TransferBuffer) urb.TransferBufferMDL = some buf ∧
      (urb_control_vendor_class_request env vpdo irp urb_irp urb type recipient).read_irp.stores =
        irp.stores ++ [(sizeof_usbip_header, Store.bytes (buf.take urb.TransferBufferLength))] ∧
      (urb_control_vendor_class_request env vpdo irp urb_irp urb type recipient).read_irp.Information =
        (sizeof_usbip_header + urb.TransferBufferLength) % 2 ^ 64) := by
  rcases hset : env.set_cmd_submit_usbip_header vpdo irp.hdr EP0
      (urb.TransferFlags ||| USBD_DEFAULT_PIPE_TRANSFER) urb.TransferBufferLength
    with ⟨err, vpdo2, hdr⟩
  simp only [urb_control_vendor_class_request, hset] at h ⊢
  by_cases hlen : get_usbip_header irp = true
  swap
  · simp [hlen] at h
  simp only [hlen, Bool.not_true, Bool.false_eq_true, if_false] at h ⊢
  by_cases herr : err = 0
  swap
  · simp only [herr, ne_eq, not_false_eq_true, if_true] at h
  simp only [herr, ne_eq, not_true_eq_false, if_false] at h ⊢
  by_cases hout : env.is_transfer_direction_out hdr = true ∧ ¬ urb.TransferBufferLength = 0
  · simp only [hout, not_false_eq_true, and_self, if_true, not_true_eq_false,
      IsEmpty.forall_iff, true_and] at h ⊢
    refine ⟨?_, ?_⟩
    · rw [copy_transfer_buffer_hdr]
      rfl
    · exact copy_transfer_buffer_cases _ urb rfl
  · simp only [hout, if_false, not_false_eq_true, forall_true_left, and_self, true_and, true_or,
      and_true]
    rfl

/-- C11, as stated, fails on the code: a URB_FUNCTION_VENDOR_DEVICE URB with a transfer
buffer of 65536 bytes is translated successfully and gets `wLength = 0`, not 65536. -/
theorem vendor_wLength_truncated :
    (usb_submit_urb spec_helpers default (read_irp_of_size 48)
      (urb_irp_of (vendor_class_urb URB_FUNCTION_VENDOR_DEVICE USBD_TRANSFER_DIRECTION_IN
        1 2 3 65536))).status = STATUS_SUCCESS ∧
    (submit_setup (usb_submit_urb spec_helpers default (read_irp_of_size 48)
      (urb_irp_of (vendor_class_urb URB_FUNCTION_VENDOR_DEVICE USBD_TRANSFER_DIRECTION_IN
        1 2 3 65536)))).wLength = 0 ∧
    (vendor_class_urb URB_FUNCTION_VENDOR_DEVICE USBD_TRANSFER_DIRECTION_IN
        1 2 3 65536).TransferBufferLength = 65536 := by
  decide

/-- C11, amended: for each of the eight vendor and class function codes, a URB that
`usb_submit_urb` translates successfully gets the setup packet bmRequestType =
direction | (VENDOR 0x40 or CLASS 0x20 according to the function code) | the recipient of
the function code, where the direction is OUT exactly when the header as built says OUT,
bRequest = Request, wValue = Value, wIndex = Index and wLength = the low 16 bits of
TransferBufferLength (TransferBufferLength itself when that is at most 0xFFFF); unless the
header says OUT and TransferBufferLength is non-zero nothing is stored behind the header,
and what is stored there otherwise is the transfer buffer, at byte 48. -/
theorem usb_submit_urb_vendor_class_setup (env : Helpers) (vpdo : vpdo_dev_t)
    (read_irp irp : IRP) (urb : URB) (hurb : irp.urb = some urb) (type recipient : Nat)
    (hf : (urb.UrbHeader.Function, type, recipient) ∈
      [(URB_FUNCTION_VENDOR_DEVICE, USB_TYPE_VENDOR, USB_RECIP_DEVICE),
       (URB_FUNCTION_VENDOR_INTERFACE, USB_TYPE_VENDOR, USB_RECIP_INTERFACE),
       (URB_FUNCTION_VENDOR_ENDPOINT, USB_TYPE_VENDOR, USB_RECIP_ENDPOINT),
       (URB_FUNCTION_VENDOR_OTHER, USB_TYPE_VENDOR, USB_RECIP_OTHER),
       (URB_FUNCTION_CLASS_DEVICE, USB_TYPE_CLASS, USB_RECIP_DEVICE),
       (URB_FUNCTION_CLASS_INTERFACE, USB_TYPE_CLASS, USB_RECIP_INTERFACE),
       (URB_FUNCTION_CLASS_ENDPOINT, USB_TYPE_CLASS, USB_RECIP_ENDPOINT),
       (URB_FUNCTION_CLASS_OTHER, USB_TYPE_CLASS, USB_RECIP_OTHER)])
    (hreq : urb.Request < 256) (hval : urb.Value < 65536) (hindex : urb.Index < 65536)
    (hok : (usb_submit_urb env vpdo read_irp irp).status = STATUS_SUCCESS) :
    (submit_setup (usb_submit_urb env vpdo read_irp irp)).bmRequestType =
      ((if env.is_transfer_direction_out (env.set_cmd_submit_usbip_header vpdo read_irp.hdr EP0
            (urb.TransferFlags ||| USBD_DEFAULT_PIPE_TRANSFER) urb.TransferBufferLength).2.2
        then USB_DIR_OUT else USB_DIR_IN) ||| type ||| recipient) ∧
    (submit_setup (usb_submit_urb env vpdo read_irp irp)).bRequest = urb.Request ∧
    (submit_setup (usb_submit_urb env vpdo read_irp irp)).wValue = urb.Value ∧
    (submit_setup (usb_submit_urb env vpdo read_irp irp)).wIndex = urb.Index ∧
    (submit_setup (usb_submit_urb env vpdo read_irp irp)).wLength =
      urb.TransferBufferLength % 65536 ∧
    (urb.TransferBufferLength ≤ 0xFFFF →
      (submit_setup (usb_submit_urb env vpdo read_irp irp)).wLength = urb.TransferBufferLength) ∧
    (¬ (env.is_transfer_direction_out (env.set_cmd_submit_usbip_header vpdo read_irp.hdr EP0
          (urb.TransferFlags ||| USBD_DEFAULT_PIPE_TRANSFER)
          urb.TransferBufferLength).2.2 = true ∧ urb.TransferBufferLength ≠ 0) →
      (usb_submit_urb env vpdo read_irp irp).read_irp.stores = read_irp.stores ∧
      (usb_submit_urb env vpdo read_irp irp).read_irp.Information = sizeof_usbip_header) ∧
    (((usb_submit_urb env vpdo read_irp irp).read_irp.stores = read_irp.stores ∧
      (usb_submit_urb env vpdo read_irp irp).read_irp.Information = sizeof_usbip_header) ∨
     ∃ buf, get_urb_buffer
        (if urb.UrbHeader.Function == URB_FUNCTION_BULK_OR_INTERRUPT_TRANSFER_USING_CHAINED_MDL
         then none else urb.TransferBuffer) urb.TransferBufferMDL = some buf ∧
      (usb_submit_urb env vpdo read_irp irp).read_irp.stores =
        read_irp.stores ++
          [(sizeof_usbip_header, Store.bytes (buf.take urb.TransferBufferLength))] ∧
      (usb_submit_urb env vpdo read_irp irp).read_irp.Information =
        (sizeof_usbip_header + urb.TransferBufferLength) % 2 ^ 64) := by
  have hsub : usb_submit_urb env vpdo read_irp irp =
      urb_control_vendor_class_request env vpdo read_irp irp urb type recipient := by
    simp only [List.mem_cons, List.mem_singleton, List.not_mem_nil, or_false, Prod.mk.injEq] at hf
    rcases hf with ⟨h1, h2, h3⟩ | ⟨h1, h2, h3⟩ | ⟨h1, h2, h3⟩ | ⟨h1, h2, h3⟩ | ⟨h1, h2, h3⟩ |
      ⟨h1, h2, h3⟩ | ⟨h1, h2, h3⟩ | ⟨h1, h2, h3⟩ <;>
    · subst h2 h3
      exact usb_submit_urb_some env vpdo read_irp irp urb hurb _ (by rw [h1]; rfl)
  rw [hsub] at hok ⊢
  have hrec : recipient < 4 ∧ (type = USB_TYPE_VENDOR ∨ type = USB_TYPE_CLASS) := by
    simp only [List.mem_cons, List.mem_singleton, List.not_mem_nil, or_false, Prod.mk.injEq] at hf
    rcases hf with ⟨_, h2, h3⟩ | ⟨_, h2, h3⟩ | ⟨_, h2, h3⟩ | ⟨_, h2, h3⟩ | ⟨_, h2, h3⟩ |
      ⟨_, h2, h3⟩ | ⟨_, h2, h3⟩ | ⟨_, h2, h3⟩ <;>
    · subst h2 h3
      exact ⟨by decide, by decide⟩
  have hbm : ∀ b : Bool, ((if b then USB_DIR_OUT else USB_DIR_IN) ||| type ||| recipient) < 256 := by
    obtain ⟨hr, ht⟩ := hrec
    intro b
    rcases ht with ht | ht <;> subst ht <;> cases b <;> interval_cases recipient <;> decide
  obtain ⟨hs, hno, hpay⟩ :=
    urb_control_vendor_class_request_result env vpdo read_irp irp urb type recipient hok
  simp only [submit_setup, hs, SetupBytes.set_bmRequestType, SetupBytes.set_bRequest,
    SetupBytes.set_wValue, SetupBytes.set_wIndex, SetupBytes.set_wLength,
    SetupBytes.bmRequestType, SetupBytes.bRequest, SetupBytes.wValue, SetupBytes.wIndex,
    SetupBytes.wLength]
  refine ⟨Nat.mod_eq_of_lt (hbm _), ?_, ?_, ?_, ?_, ?_, hno, hpay⟩
  · omega
  · omega
  · omega
  · omega
  · intro hle
    omega

/-- C11 at concrete inputs: a vendor IN request to the device gets the setup bytes
C0 01 02 00 03 00 08 00; a class OUT request of 4 bytes to an interface, read into a
buffer of 52 bytes, gets 21 05 00 00 01 00 04 00 and its 4 bytes at byte 48. -/
theorem usb_submit_urb_vendor_class_setup_witness :
    ((usb_submit_urb spec_helpers default (read_irp_of_size 48)
        (urb_irp_of (vendor_class_urb URB_FUNCTION_VENDOR_DEVICE USBD_TRANSFER_DIRECTION_IN
          1 2 3 8))).status = STATUS_SUCCESS ∧
     (submit_setup (usb_submit_urb spec_helpers default (read_irp_of_size 48)
        (urb_irp_of (vendor_class_urb URB_FUNCTION_VENDOR_DEVICE USBD_TRANSFER_DIRECTION_IN
          1 2 3 8)))).toList = [0xC0, 0x01, 0x02, 0x00, 0x03, 0x00, 0x08, 0x00] ∧
     (submit_setup (usb_submit_urb spec_helpers default (read_irp_of_size 52)
        (urb_irp_of (vendor_class_urb URB_FUNCTION_CLASS_INTERFACE USBD_TRANSFER_DIRECTION_OUT
          5 0 1 4)))).toList = [0x21, 0x05, 0x00, 0x00, 0x01, 0x00, 0x04, 0x00] ∧
     (usb_submit_urb spec_helpers default (read_irp_of_size 52)
        (urb_irp_of (vendor_class_urb URB_FUNCTION_CLASS_INTERFACE USBD_TRANSFER_DIRECTION_OUT
          5 0 1 4))).read_irp.stores = [(48, Store.bytes [0, 0, 0, 0])]) ∧
    (submit_setup (usb_submit_urb spec_helpers default (read_irp_of_size 48)
        (urb_irp_of (vendor_class_urb URB_FUNCTION_VENDOR_DEVICE USBD_TRANSFER_DIRECTION_IN
          1 2 3 8)))).wLength = 8 :=
  ⟨by decide,
   (usb_submit_urb_vendor_class_setup spec_helpers default (read_irp_of_size 48)
      (urb_irp_of (vendor_class_urb URB_FUNCTION_VENDOR_DEVICE USBD_TRANSFER_DIRECTION_IN
        1 2 3 8))
      (vendor_class_urb URB_FUNCTION_VENDOR_DEVICE USBD_TRANSFER_DIRECTION_IN 1 2 3 8) rfl
      USB_TYPE_VENDOR USB_RECIP_DEVICE (by decide) (by decide) (by decide) (by decide)
      (by decide)).2.2.2.2.2.1 (by decide)⟩

theorem urb_select_configuration_result (env : Helpers) (vpdo : vpdo_dev_t)
    (irp urb_irp : IRP) (urb : URB)
    (h : (urb_select_configuration env vpdo irp urb_irp urb).status = STATUS_SUCCESS) :
    (urb_select_configuration env vpdo irp urb_irp urb).read_irp =
      { irp with
        hdr := set_submit_setup (env.set_cmd_submit_usbip_header vpdo irp.hdr EP0
            (USBD_DEFAULT_PIPE_TRANSFER ||| USBD_TRANSFER_DIRECTION_OUT) 0).2.2
          ((((get_submit_setup (env.set_cmd_submit_usbip_header vpdo irp.hdr EP0
              (USBD_DEFAULT_PIPE_TRANSFER ||| USBD_TRANSFER_DIRECTION_OUT) 0).2.2).set_bmRequestType
            (USB_DIR_OUT ||| USB_TYPE_STANDARD ||| USB_RECIP_DEVICE)).set_bRequest
            USB_REQUEST_SET_CONFIGURATION).set_wValue
            (match urb.ConfigurationDescriptor with
             | some c => c.bConfigurationValue
             | none => 0)),
        Information := sizeof_usbip_header } := by
  rcases hset : env.set_cmd_submit_usbip_header vpdo irp.hdr EP0
      (USBD_DEFAULT_PIPE_TRANSFER ||| USBD_TRANSFER_DIRECTION_OUT) 0 with ⟨err, vpdo2, hdr⟩
  simp only [urb_select_configuration, hset] at h ⊢
  by_cases hlen : get_usbip_header irp = true
  swap
  · simp [hlen] at h
  simp only [hlen, Bool.not_true, Bool.false_eq_true, if_false] at h ⊢
  by_cases herr : err = 0
  swap
  · simp only [herr, ne_eq, not_false_eq_true, if_true] at h
  simp only [herr, ne_eq, not_true_eq_false, if_false] at h ⊢

/-- C12: a select-configuration URB that `usb_submit_urb` translates successfully leaves
in the read buffer the header that `set_cmd_submit_usbip_header` builds for EP0 with
transfer length 0, with only its setup bytes changed: bmRequestType = OUT | STANDARD |
DEVICE (0x00), bRequest = SET_CONFIGURATION (9), wValue = bConfigurationValue of the
configuration descriptor, or 0 when the descriptor pointer is null.  Exactly 48 bytes are
transferred and nothing is stored behind the header. -/
theorem usb_submit_urb_select_configuration (env : Helpers) (vpdo : vpdo_dev_t)
    (read_irp irp : IRP) (urb : URB) (hurb : irp.urb = some urb)
    (hf : urb.UrbHeader.Function = URB_FUNCTION_SELECT_CONFIGURATION)
    (hcfg : ∀ cd, urb.ConfigurationDescriptor = some cd → cd.bConfigurationValue < 256)
    (hok : (usb_submit_urb env vpdo read_irp irp).status = STATUS_SUCCESS) :
    (usb_submit_urb env vpdo read_irp irp).read_irp.hdr =
      set_submit_setup (env.set_cmd_submit_usbip_header vpdo read_irp.hdr EP0
          (USBD_DEFAULT_PIPE_TRANSFER ||| USBD_TRANSFER_DIRECTION_OUT) 0).2.2
        (submit_setup (usb_submit_urb env vpdo read_irp irp)) ∧
    (submit_setup (usb_submit_urb env vpdo read_irp irp)).bmRequestType =
      (USB_DIR_OUT ||| USB_TYPE_STANDARD ||| USB_RECIP_DEVICE) ∧
    (submit_setup (usb_submit_urb env vpdo read_irp irp)).bmRequestType = 0x00 ∧
    (submit_setup (usb_submit_urb env vpdo read_irp irp)).bRequest
      = USB_REQUEST_SET_CONFIGURATION ∧
    (∀ cd, urb.ConfigurationDescriptor = some cd →
      (submit_setup (usb_submit_urb env vpdo read_irp irp)).wValue = cd.bConfigurationValue) ∧
    (urb.ConfigurationDescriptor = none →
      (submit_setup (usb_submit_urb env vpdo read_irp irp)).wValue = 0) ∧
    (usb_submit_urb env vpdo read_irp irp).read_irp.Information = sizeof_usbip_header ∧
    (usb_submit_urb env vpdo read_irp irp).read_irp.stores = read_irp.stores := by
  have hsub : usb_submit_urb env vpdo read_irp irp =
      urb_select_configuration env vpdo read_irp irp urb :=
    usb_submit_urb_some env vpdo read_irp irp urb hurb _ (by rw [hf]; rfl)
  rw [hsub] at hok ⊢
  have hr := urb_select_configuration_result env vpdo read_irp irp urb hok
  simp only [submit_setup, hr, set_submit_setup, SetupBytes.set_bmRequestType,
    SetupBytes.set_bRequest, SetupBytes.set_wValue, SetupBytes.bmRequestType,
    SetupBytes.bRequest, SetupBytes.wValue]
  refine ⟨trivial, by decide, by decide, by decide, ?_, ?_, trivial, trivial⟩
  · intro cd hcd
    have := hcfg cd hcd
    simp only [hcd]
    omega
  · intro hnone
    simp only [hnone]

/-- C12 at a concrete input: selecting configuration 1 gives endpoint 0, transfer length 0
and the setup bytes 00 09 01 00 00 00 00 00, with 48 bytes transferred. -/
theorem usb_submit_urb_select_configuration_witness :
    ((usb_submit_urb spec_helpers default (read_irp_of_size 48)
        (urb_irp_of (select_configuration_urb (some ⟨25, 1, 1⟩)))).status = STATUS_SUCCESS ∧
     (usb_submit_urb spec_helpers default (read_irp_of_size 48)
        (urb_irp_of (select_configuration_urb (some ⟨25, 1, 1⟩)))).read_irp.hdr.base.ep = 0 ∧
     (usb_submit_urb spec_helpers default (read_irp_of_size 48)
        (urb_irp_of (select_configuration_urb
          (some ⟨25, 1, 1⟩)))).read_irp.hdr.cmd_submit.transfer_buffer_length = 0 ∧
     (submit_setup (usb_submit_urb spec_helpers default (read_irp_of_size 48)
        (urb_irp_of (select_configuration_urb (some ⟨25, 1, 1⟩))))).toList
       = [0x00, 0x09, 0x01, 0x00, 0x00, 0x00, 0x00, 0x00]) ∧
    (usb_submit_urb spec_helpers default (read_irp_of_size 48)
        (urb_irp_of (select_configuration_urb (some ⟨25, 1, 1⟩)))).read_irp.Information
      = sizeof_usbip_header :=
  ⟨by decide,
   (usb_submit_urb_select_configuration spec_helpers default (read_irp_of_size 48)
      (urb_irp_of (select_configuration_urb (some ⟨25, 1, 1⟩)))
      (select_configuration_urb (some ⟨25, 1, 1⟩)) rfl rfl
      (by intro cd hcd; cases hcd; decide) (by decide)).2.2.2.2.2.2.1⟩

/-! ## C13: an isochronous URB with a bad packet table -/

/-- With a source buffer at hand, a packet that fails the test of the loop makes
`do_copy_payload` return STATUS_INVALID_PARAMETER. -/
theorem do_copy_payload_bad (env : Helpers) (dst : Nat) (r : URB)
    (hbuf : (get_urb_buffer
      (if r.UrbHeader.Function == URB_FUNCTION_ISOCH_TRANSFER_USING_CHAINED_MDL then none
       else r.TransferBuffer) r.TransferBufferMDL).isSome = true)
    (hbad : ∃ i, i < r.NumberOfPackets ∧
        ((if i + 1 < r.NumberOfPackets then (r.IsoPacket (i + 1)).Offset
          else r.TransferBufferLength) < (r.IsoPacket i).Offset ∨
         (if i + 1 < r.NumberOfPackets then (r.IsoPacket (i + 1)).Offset
          else r.TransferBufferLength) > r.TransferBufferLength)) :
    (do_copy_payload env dst r).status = STATUS_INVALID_PARAMETER := by
  obtain ⟨src, hsrc⟩ := Option.isSome_iff_exists.mp hbuf
  rw [(do_copy_payload_of_buffer env dst r src hsrc _ rfl).1]
  apply do_copy_payload_loop_bad
  obtain ⟨i, hi, hor⟩ := hbad
  refine ⟨i, hi, ?_⟩
  simp only [iso_packet_ok, iso_next_offset, Nat.zero_add]
  omega

theorem copy_payload_bad (env : Helpers) (dst : Nat) (irp : IRP) (r : URB) (expected : Nat)
    (hbuf : (get_urb_buffer
      (if r.UrbHeader.Function == URB_FUNCTION_ISOCH_TRANSFER_USING_CHAINED_MDL then none
       else r.TransferBuffer) r.TransferBufferMDL).isSome = true)
    (hbad : ∃ i, i < r.NumberOfPackets ∧
        ((if i + 1 < r.NumberOfPackets then (r.IsoPacket (i + 1)).Offset
          else r.TransferBufferLength) < (r.IsoPacket i).Offset ∨
         (if i + 1 < r.NumberOfPackets then (r.IsoPacket (i + 1)).Offset
          else r.TransferBufferLength) > r.TransferBufferLength)) :
    (copy_payload env dst irp r expected).1 = STATUS_INVALID_PARAMETER := by
  have h := do_copy_payload_bad env dst r hbuf hbad
  simp only [copy_payload, h]
  rfl

/-- C13, on the code: the header phase looks at the packet table only when the read buffer
has room for the payload.  For the isochronous IN URB with the packet offsets 0, 11 in a
transfer buffer of 10 bytes (the second offset lies beyond the buffer), a read into a
buffer of 48 bytes returns STATUS_SUCCESS from the header phase with the 48 bytes of the
header transferred.  Wherever the packet table is looked at, the same URB is rejected: a
read into a buffer of 80 bytes, which has room for the header and the two descriptors,
returns STATUS_INVALID_PARAMETER from the header phase (with the bytes-transferred count
at 48, not 0), and the payload-phase read into a buffer of 32 bytes returns
STATUS_INVALID_PARAMETER. -/
theorem cmd_submit_isoch_bad_layout_accepted :
    (cmd_submit spec_helpers default (read_irp_of_size 48)
      (urb_irp_of (isoch_urb 0x181 10 [0, 11]))).status = STATUS_SUCCESS ∧
    (cmd_submit spec_helpers default (read_irp_of_size 48)
      (urb_irp_of (isoch_urb 0x181 10 [0, 11]))).read_irp.Information = 48 ∧
    (cmd_submit spec_helpers default (read_irp_of_size 80)
      (urb_irp_of (isoch_urb 0x181 10 [0, 11]))).status = STATUS_INVALID_PARAMETER ∧
    (cmd_submit spec_helpers default (read_irp_of_size 80)
      (urb_irp_of (isoch_urb 0x181 10 [0, 11]))).read_irp.Information = 48 ∧
    get_payload_size spec_helpers (isoch_urb 0x181 10 [0, 11]) = 32 ∧
    (read_payload spec_helpers (read_irp_of_size 32)
      (urb_irp_of (isoch_urb 0x181 10 [0, 11]))).1 = STATUS_INVALID_PARAMETER := by
  decide

/-- The same for every URB: for an isochronous URB on an isochronous pipe whose packet
table has a bad layout, whose source buffer is at hand and whose header is built
successfully: when
the read buffer has room for the header and the whole payload, the header-phase call
`cmd_submit` returns STATUS_INVALID_PARAMETER; when it has room for the header but not
for the whole payload, `cmd_submit` returns STATUS_SUCCESS with the 48 bytes of the
header transferred and nothing stored behind them, and it is the payload-phase call
`read_payload` that never succeeds for this URB and returns STATUS_INVALID_PARAMETER
whenever its buffer has room for the payload. -/
theorem cmd_submit_isoch_bad_layout (env : Helpers) (vpdo : vpdo_dev_t) (read_irp irp : IRP)
    (urb : URB) (hioctl : irp.IoControlCode = IOCTL_INTERNAL_USB_SUBMIT_URB)
    (hurb : irp.urb = some urb)
    (hf : urb.UrbHeader.Function = URB_FUNCTION_ISOCH_TRANSFER ∨
      urb.UrbHeader.Function = URB_FUNCTION_ISOCH_TRANSFER_USING_CHAINED_MDL)
    (htype : env.get_endpoint_type urb.PipeHandle = UsbdPipeTypeIsochronous)
    (hlen : sizeof_usbip_header ≤ read_irp.Length) (hlen32 : read_irp.Length < 2 ^ 32)
    (hhdr : (env.set_cmd_submit_usbip_header vpdo read_irp.hdr urb.PipeHandle
      (urb.TransferFlags ||| USBD_START_ISO_TRANSFER_ASAP) urb.TransferBufferLength).1
        = STATUS_SUCCESS)
    (hbuf : (get_urb_buffer
      (if urb.UrbHeader.Function == URB_FUNCTION_ISOCH_TRANSFER_USING_CHAINED_MDL then none
       else urb.TransferBuffer) urb.TransferBufferMDL).isSome = true)
    (hbad : ∃ i, i < urb.NumberOfPackets ∧
        ((if i + 1 < urb.NumberOfPackets then (urb.IsoPacket (i + 1)).Offset
          else urb.TransferBufferLength) < (urb.IsoPacket i).Offset ∨
         (if i + 1 < urb.NumberOfPackets then (urb.IsoPacket (i + 1)).Offset
          else urb.TransferBufferLength) > urb.TransferBufferLength)) :
    (read_irp.Length - sizeof_usbip_header ≥ get_payload_size env urb →
      (cmd_submit env vpdo read_irp irp).status = STATUS_INVALID_PARAMETER) ∧
    (read_irp.Length - sizeof_usbip_header < get_payload_size env urb →
      (cmd_submit env vpdo read_irp irp).status = STATUS_SUCCESS ∧
      (cmd_submit env vpdo read_irp irp).read_irp.Information = sizeof_usbip_header ∧
      (cmd_submit env vpdo read_irp irp).read_irp.stores = read_irp.stores) ∧
    (∀ payload_irp : IRP,
      (read_payload env payload_irp irp).1 ≠ STATUS_SUCCESS ∧
      (urb.UrbHeader.Function = URB_FUNCTION_ISOCH_TRANSFER →
        payload_irp.Length ≥ get_payload_size env urb →
        (read_payload env payload_irp irp).1 = STATUS_INVALID_PARAMETER)) := by
  have hsub : cmd_submit env vpdo read_irp irp = urb_isoch_transfer env vpdo read_irp irp urb := by
    simp only [cmd_submit, hioctl, if_true]
    rcases hf with hf | hf <;>
      exact usb_submit_urb_some env vpdo read_irp irp urb hurb _ (by rw [hf]; rfl)
  rcases hset : env.set_cmd_submit_usbip_header vpdo read_irp.hdr urb.PipeHandle
      (urb.TransferFlags ||| USBD_START_ISO_TRANSFER_ASAP) urb.TransferBufferLength
    with ⟨err, vpdo2, hdr⟩
  rw [hset] at hhdr
  simp only at hhdr
  have hget : get_usbip_header read_irp = true := by
    simp only [get_usbip_header, try_get_irp_buffer, get_irp_buffer_size]
    exact decide_eq_true hlen
  have hsz : (read_irp.Length + 2 ^ 64 - sizeof_usbip_header) % 2 ^ 64 =
      read_irp.Length - sizeof_usbip_header := by
    simp only [sizeof_usbip_header] at hlen ⊢
    omega
  refine ⟨?_, ?_, ?_⟩
  · intro hroom
    rw [hsub]
    simp only [urb_isoch_transfer, htype, hget, hset, hhdr, get_irp_buffer_size, hsz]
    simp only [ne_eq, not_true_eq_false, if_false, Bool.not_true, Bool.false_eq_true, ge_iff_le,
      hroom, if_true]
    exact copy_payload_bad env _ _ urb _ hbuf hbad
  · intro hsmall
    rw [hsub]
    simp only [urb_isoch_transfer, htype, hget, hset, hhdr, get_irp_buffer_size, hsz]
    simp only [ne_eq, not_true_eq_false, if_false, Bool.not_true, Bool.false_eq_true, ge_iff_le,
      Nat.not_le.mpr hsmall]
    exact ⟨trivial, trivial, trivial⟩
  · intro payload_irp
    simp only [read_payload, hurb]
    rcases hf with hf | hf
    · simp only [hf, if_true]
      simp only [urb_isoch_transfer_payload]
      by_cases hp : try_get_irp_buffer payload_irp (get_payload_size env urb) = true
      · simp only [hp, if_true]
        rw [copy_payload_bad env _ _ urb _ hbuf hbad]
        exact ⟨by decide, fun _ _ => rfl⟩
      · simp only [hp, Bool.false_eq_true, if_false]
        refine ⟨by decide, fun _ hge => ?_⟩
        exfalso
        apply hp
        simp only [try_get_irp_buffer, get_irp_buffer_size]
        exact decide_eq_true hge
    · simp only [hf]
      rw [if_neg (by decide), if_neg (by decide)]
      refine ⟨?_, fun h => absurd h (by decide)⟩
      show STATUS_INVALID_PARAMETER ≠ STATUS_SUCCESS
      decide

/-- At concrete inputs: the offsets 0, 11 in a transfer buffer of 10 bytes; a read
buffer of 80 bytes has room for the header and the two descriptors, and the header phase
returns STATUS_INVALID_PARAMETER. -/
theorem cmd_submit_isoch_bad_layout_witness :
    ((urb_irp_of (isoch_urb 0x181 10 [0, 11])).IoControlCode = IOCTL_INTERNAL_USB_SUBMIT_URB ∧
     spec_helpers.get_endpoint_type (isoch_urb 0x181 10 [0, 11]).PipeHandle
       = UsbdPipeTypeIsochronous ∧
     get_payload_size spec_helpers (isoch_urb 0x181 10 [0, 11]) = 32) ∧
    (cmd_submit spec_helpers default (read_irp_of_size 80)
      (urb_irp_of (isoch_urb 0x181 10 [0, 11]))).status = STATUS_INVALID_PARAMETER :=
  ⟨by decide,
   (cmd_submit_isoch_bad_layout spec_helpers default (read_irp_of_size 80)
      (urb_irp_of (isoch_urb 0x181 10 [0, 11])) (isoch_urb 0x181 10 [0, 11]) rfl rfl
      (Or.inl rfl) (by decide) (by decide) (by decide) (by decide) (by decide)
      ⟨1, by decide, by decide⟩).1 (by decide)⟩

/-! ## C14: the statuses of the read path -/

theorem read_phase_status_success (env : Helpers) : read_phase_status env STATUS_SUCCESS :=
  Or.inl rfl

theorem read_phase_status_invalid_parameter (env : Helpers) :
    read_phase_status env STATUS_INVALID_PARAMETER :=
  Or.inr (Or.inl rfl)

theorem read_phase_status_insufficient_resources (env : Helpers) :
    read_phase_status env STATUS_INSUFFICIENT_RESOURCES :=
  Or.inr (Or.inr (Or.inl rfl))

theorem read_phase_status_internal_error (env : Helpers) :
    read_phase_status env STATUS_INTERNAL_ERROR :=
  Or.inr (Or.inr (Or.inr (Or.inl rfl)))

theorem read_phase_status_buffer_too_small (env : Helpers) :
    read_phase_status env STATUS_BUFFER_TOO_SMALL :=
  Or.inr (Or.inr (Or.inr (Or.inr (Or.inl rfl))))

theorem read_phase_status_invalid_device_request (env : Helpers) :
    read_phase_status env STATUS_INVALID_DEVICE_REQUEST :=
  Or.inr (Or.inr (Or.inr (Or.inr (Or.inr (Or.inl rfl)))))

theorem read_phase_status_header (env : Helpers) (vpdo : vpdo_dev_t) (hdr : usbip_header)
    (pipe flags len : Nat) (err : NTSTATUS) (v : vpdo_dev_t) (h : usbip_header)
    (hset : env.set_cmd_submit_usbip_header vpdo hdr pipe flags len = (err, v, h)) :
    read_phase_status env err :=
  Or.inr (Or.inr (Or.inr (Or.inr (Or.inr (Or.inr
    ⟨vpdo, hdr, pipe, flags, len, by rw [hset]⟩)))))

theorem do_copy_transfer_buffer_status (env : Helpers) (dst : Nat) (urb : URB) (irp : IRP) :
    read_phase_status env (do_copy_transfer_buffer dst urb irp).1 := by
  simp only [do_copy_transfer_buffer]
  split
  · exact read_phase_status_success env
  · exact read_phase_status_insufficient_resources env

theorem copy_transfer_buffer_status (env : Helpers) (irp : IRP) (urb : URB) :
    read_phase_status env (copy_transfer_buffer irp urb).1 := by
  simp only [copy_transfer_buffer]
  split
  · exact do_copy_transfer_buffer_status env _ urb irp
  · exact read_phase_status_success env

theorem do_copy_payload_loop_status (r : URB) :
    ∀ (n i dsc sum : Nat) (out : List (Nat × Store)),
      (do_copy_payload_loop r n i dsc sum out).1 = STATUS_SUCCESS ∨
      (do_copy_payload_loop r n i dsc sum out).1 = STATUS_INVALID_PARAMETER := by
  intro n
  induction n with
  | zero => intro i dsc sum out; left; rfl
  | succ n ih =>
    intro i dsc sum out
    rw [do_copy_payload_loop_succ]
    split
    · exact ih _ _ _ _
    · right; rfl

theorem do_copy_payload_status_cases (env : Helpers) (dst : Nat) (r : URB) :
    read_phase_status env (do_copy_payload env dst r).status := by
  cases hsrc : get_urb_buffer
      (if r.UrbHeader.Function == URB_FUNCTION_ISOCH_TRANSFER_USING_CHAINED_MDL then none
       else r.TransferBuffer) r.TransferBufferMDL with
  | none =>
    rw [do_copy_payload_no_buffer env dst r hsrc]
    exact read_phase_status_insufficient_resources env
  | some src =>
    rw [(do_copy_payload_of_buffer env dst r src hsrc _ rfl).1]
    rcases do_copy_payload_loop_status r r.NumberOfPackets 0
      (dst + if env.is_endpoint_direction_out r.PipeHandle then r.TransferBufferLength else 0) 0
      [(dst, Store.bytes (src.take
        (if env.is_endpoint_direction_out r.PipeHandle then r.TransferBufferLength else 0)))]
      with h | h
    · rw [h]; exact read_phase_status_success env
    · rw [h]; exact read_phase_status_invalid_parameter env

theorem copy_payload_status (env : Helpers) (dst : Nat) (irp : IRP) (r : URB) (expected : Nat) :
    read_phase_status env (copy_payload env dst irp r expected).1 := by
  have h := do_copy_payload_status_cases env dst r
  simp only [copy_payload]
  split <;> exact h

theorem transfer_payload_status (env : Helpers) (irp : IRP) (urb : URB) :
    read_phase_status env (transfer_payload irp urb).1 := by
  simp only [transfer_payload]
  split
  · exact do_copy_transfer_buffer_status env _ urb irp
  · exact read_phase_status_buffer_too_small env

theorem urb_isoch_transfer_payload_status (env : Helpers) (irp : IRP) (urb : URB) :
    read_phase_status env (urb_isoch_transfer_payload env irp urb).1 := by
  simp only [urb_isoch_transfer_payload]
  split
  · exact copy_payload_status env _ irp urb _
  · exact read_phase_status_buffer_too_small env

theorem read_payload_status (env : Helpers) (read_irp irp : IRP) :
    read_phase_status env (read_payload env read_irp irp).1 := by
  simp only [read_payload]
  split
  · exact read_phase_status_invalid_device_request env
  · split
    · exact urb_isoch_transfer_payload_status env read_irp _
    · split
      · exact transfer_payload_status env read_irp _
      · exact read_phase_status_invalid_parameter env

theorem cmd_unlink_status (env : Helpers) (vpdo : vpdo_dev_t) (irp : IRP) (seqnum_unlink : Nat) :
    (cmd_unlink env vpdo irp seqnum_unlink).1 = STATUS_SUCCESS ∨
    (cmd_unlink env vpdo irp seqnum_unlink).1 = STATUS_INVALID_PARAMETER := by
  simp only [cmd_unlink]
  split
  · right; rfl
  · left; rfl

theorem urb_control_descriptor_request_status (env : Helpers) (vpdo : vpdo_dev_t)
    (irp urb_irp : IRP) (urb : URB) (dir_in : Bool) (recipient : Nat) :
    read_phase_status env
      (urb_control_descriptor_request env vpdo irp urb_irp urb dir_in recipient).status := by
  rcases hset : env.set_cmd_submit_usbip_header vpdo irp.hdr EP0
      (USBD_DEFAULT_PIPE_TRANSFER |||
        (if dir_in then USBD_SHORT_TRANSFER_OK ||| USBD_TRANSFER_DIRECTION_IN
         else USBD_TRANSFER_DIRECTION_OUT)) urb.TransferBufferLength with ⟨err, v, h⟩
  have herr := read_phase_status_header env _ _ _ _ _ err v h hset
  simp only [urb_control_descriptor_request, hset]
  split_ifs <;> first
    | exact herr
    | exact read_phase_status_success env
    | exact read_phase_status_buffer_too_small env
    | exact read_phase_status_invalid_parameter env
    | exact copy_transfer_buffer_status env _ _

theorem urb_control_get_status_request_status (env : Helpers) (vpdo : vpdo_dev_t)
    (irp urb_irp : IRP) (urb : URB) (recipient : Nat) :
    read_phase_status env
      (urb_control_get_status_request env vpdo irp urb_irp urb recipient).status := by
  rcases hset : env.set_cmd_submit_usbip_header vpdo irp.hdr EP0
      (USBD_DEFAULT_PIPE_TRANSFER ||| USBD_TRANSFER_DIRECTION_IN) urb.TransferBufferLength
    with ⟨err, v, h⟩
  have herr := read_phase_status_header env _ _ _ _ _ err v h hset
  simp only [urb_control_get_status_request, hset]
  split_ifs <;> first
    | exact herr
    | exact read_phase_status_success env
    | exact read_phase_status_buffer_too_small env

theorem urb_control_vendor_class_request_status (env : Helpers) (vpdo : vpdo_dev_t)
    (irp urb_irp : IRP) (urb : URB) (type recipient : Nat) :
    read_phase_status env
      (urb_control_vendor_class_request env vpdo irp urb_irp urb type recipient).status := by
  rcases hset : env.set_cmd_submit_usbip_header vpdo irp.hdr EP0
      (urb.TransferFlags ||| USBD_DEFAULT_PIPE_TRANSFER) urb.TransferBufferLength
    with ⟨err, v, h⟩
  have herr := read_phase_status_header env _ _ _ _ _ err v h hset
  simp only [urb_control_vendor_class_request, hset]
  split_ifs <;> first
    | exact herr
    | exact read_phase_status_success env
    | exact read_phase_status_buffer_too_small env
    | exact copy_transfer_buffer_status env _ _

theorem urb_control_feature_request_status (env : Helpers) (vpdo : vpdo_dev_t)
    (irp urb_irp : IRP) (urb : URB) (bRequest recipient : Nat) :
    read_phase_status env
      (urb_control_feature_request env vpdo irp urb_irp urb bRequest recipient).status := by
  rcases hset : env.set_cmd_submit_usbip_header vpdo irp.hdr EP0
      (USBD_DEFAULT_PIPE_TRANSFER ||| USBD_TRANSFER_DIRECTION_OUT) 0 with ⟨err, v, h⟩
  have herr := read_phase_status_header env _ _ _ _ _ err v h hset
  simp only [urb_control_feature_request, hset]
  split_ifs <;> first
    | exact herr
    | exact read_phase_status_success env
    | exact read_phase_status_buffer_too_small env

theorem urb_select_configuration_status (env : Helpers) (vpdo : vpdo_dev_t)
    (irp urb_irp : IRP) (urb : URB) :
    read_phase_status env (urb_select_configuration env vpdo irp urb_irp urb).status := by
  rcases hset : env.set_cmd_submit_usbip_header vpdo irp.hdr EP0
      (USBD_DEFAULT_PIPE_TRANSFER ||| USBD_TRANSFER_DIRECTION_OUT) 0 with ⟨err, v, h⟩
  have herr := read_phase_status_header env _ _ _ _ _ err v h hset
  simp only [urb_select_configuration, hset]
  split_ifs <;> first
    | exact herr
    | exact read_phase_status_success env
    | exact read_phase_status_buffer_too_small env

theorem urb_select_interface_status (env : Helpers) (vpdo : vpdo_dev_t)
    (irp urb_irp : IRP) (urb : URB) :
    read_phase_status env (urb_select_interface env vpdo irp urb_irp urb).status := by
  rcases hset : env.set_cmd_submit_usbip_header vpdo irp.hdr EP0
      (USBD_DEFAULT_PIPE_TRANSFER ||| USBD_TRANSFER_DIRECTION_OUT) 0 with ⟨err, v, h⟩
  have herr := read_phase_status_header env _ _ _ _ _ err v h hset
  simp only [urb_select_interface, hset]
  split_ifs <;> first
    | exact herr
    | exact read_phase_status_success env
    | exact read_phase_status_buffer_too_small env

theorem sync_reset_pipe_and_clear_stall_status (env : Helpers) (vpdo : vpdo_dev_t)
    (irp urb_irp : IRP) (urb : URB) :
    read_phase_status env (sync_reset_pipe_and_clear_stall env vpdo irp urb_irp urb).status := by
  rcases hset : env.set_cmd_submit_usbip_header vpdo irp.hdr EP0
      (USBD_DEFAULT_PIPE_TRANSFER ||| USBD_TRANSFER_DIRECTION_OUT) 0 with ⟨err, v, h⟩
  have herr := read_phase_status_header env _ _ _ _ _ err v h hset
  simp only [sync_reset_pipe_and_clear_stall, hset]
  split_ifs <;> first
    | exact herr
    | exact read_phase_status_success env
    | exact read_phase_status_buffer_too_small env

theorem get_configuration_status (env : Helpers) (vpdo : vpdo_dev_t)
    (irp urb_irp : IRP) (urb : URB) :
    read_phase_status env (get_configuration env vpdo irp urb_irp urb).status := by
  rcases hset : env.set_cmd_submit_usbip_header vpdo irp.hdr EP0
      (USBD_DEFAULT_PIPE_TRANSFER ||| USBD_TRANSFER_DIRECTION_IN) urb.TransferBufferLength
    with ⟨err, v, h⟩
  have herr := read_phase_status_header env _ _ _ _ _ err v h hset
  simp only [get_configuration, hset]
  split_ifs <;> first
    | exact herr
    | exact read_phase_status_success env
    | exact read_phase_status_buffer_too_small env

theorem get_interface_status (env : Helpers) (vpdo : vpdo_dev_t)
    (irp urb_irp : IRP) (urb : URB) :
    read_phase_status env (get_interface env vpdo irp urb_irp urb).status := by
  rcases hset : env.set_cmd_submit_usbip_header vpdo irp.hdr EP0
      (USBD_DEFAULT_PIPE_TRANSFER ||| USBD_TRANSFER_DIRECTION_IN) urb.TransferBufferLength
    with ⟨err, v, h⟩
  have herr := read_phase_status_header env _ _ _ _ _ err v h hset
  simp only [get_interface, hset]
  split_ifs <;> first
    | exact herr
    | exact read_phase_status_success env
    | exact read_phase_status_buffer_too_small env

theorem urb_bulk_or_interrupt_transfer_status (env : Helpers) (vpdo : vpdo_dev_t)
    (irp urb_irp : IRP) (urb : URB) :
    read_phase_status env (urb_bulk_or_interrupt_transfer env vpdo irp urb_irp urb).status := by
  rcases hset : env.set_cmd_submit_usbip_header vpdo irp.hdr urb.PipeHandle urb.TransferFlags
      urb.TransferBufferLength with ⟨err, v, h⟩
  have herr := read_phase_status_header env _ _ _ _ _ err v h hset
  simp only [urb_bulk_or_interrupt_transfer, hset]
  split_ifs <;> first
    | exact herr
    | exact read_phase_status_success env
    | exact read_phase_status_buffer_too_small env
    | exact read_phase_status_invalid_parameter env
    | exact copy_transfer_buffer_status env _ _

theorem urb_isoch_transfer_status (env : Helpers) (vpdo : vpdo_dev_t)
    (irp urb_irp : IRP) (urb : URB) :
    read_phase_status env (urb_isoch_transfer env vpdo irp urb_irp urb).status := by
  rcases hset : env.set_cmd_submit_usbip_header vpdo irp.hdr urb.PipeHandle
      (urb.TransferFlags ||| USBD_START_ISO_TRANSFER_ASAP) urb.TransferBufferLength
    with ⟨err, v, h⟩
  have herr := read_phase_status_header env _ _ _ _ _ err v h hset
  simp only [urb_isoch_transfer, hset]
  split_ifs <;> first
    | exact herr
    | exact read_phase_status_success env
    | exact read_phase_status_buffer_too_small env
    | exact read_phase_status_invalid_parameter env
    | exact copy_payload_status env _ _ _ _

theorem urb_control_transfer_any_status (env : Helpers) (vpdo : vpdo_dev_t)
    (irp urb_irp : IRP) (urb : URB) :
    read_phase_status env (urb_control_transfer_any env vpdo irp urb_irp urb).status := by
  rcases hset : env.set_cmd_submit_usbip_header vpdo irp.hdr urb.PipeHandle urb.TransferFlags
      urb.TransferBufferLength with ⟨err, v, h⟩
  have herr := read_phase_status_header env _ _ _ _ _ err v h hset
  simp only [urb_control_transfer_any, hset]
  split_ifs <;> first
    | exact herr
    | exact read_phase_status_success env
    | exact read_phase_status_buffer_too_small env
    | exact read_phase_status_invalid_parameter env
    | exact copy_transfer_buffer_status env _ _

theorem usb_reset_port_status (env : Helpers) (vpdo : vpdo_dev_t) (irp : IRP) :
    read_phase_status env (usb_reset_port env vpdo irp).1 := by
  rcases hset : env.set_cmd_submit_usbip_header vpdo irp.hdr EP0
      (USBD_DEFAULT_PIPE_TRANSFER ||| USBD_TRANSFER_DIRECTION_OUT) 0 with ⟨err, v, h⟩
  have herr := read_phase_status_header env _ _ _ _ _ err v h hset
  simp only [usb_reset_port, hset]
  split_ifs <;> first
    | exact herr
    | exact read_phase_status_success env
    | exact read_phase_status_buffer_too_small env

theorem get_descriptor_from_node_connection_status (env : Helpers) (vpdo : vpdo_dev_t)
    (read_irp irp : IRP) :
    read_phase_status env (get_descriptor_from_node_connection env vpdo read_irp irp).1 := by
  rcases hset : env.set_cmd_submit_usbip_header vpdo read_irp.hdr EP0
      (USBD_DEFAULT_PIPE_TRANSFER ||| USBD_SHORT_TRANSFER_OK ||| USBD_TRANSFER_DIRECTION_IN)
      irp.OutputBufferLength with ⟨err, v, h⟩
  have herr := read_phase_status_header env _ _ _ _ _ err v h hset
  simp only [get_descriptor_from_node_connection, hset]
  split_ifs <;> first
    | exact herr
    | exact read_phase_status_success env
    | exact read_phase_status_buffer_too_small env

theorem urb_function_unexpected_status (env : Helpers) (vpdo : vpdo_dev_t)
    (irp urb_irp : IRP) (urb : URB) :
    read_phase_status env (urb_function_unexpected env vpdo irp urb_irp urb).status :=
  read_phase_status_internal_error env

theorem urb_functions_status (env : Helpers) (vpdo : vpdo_dev_t) (irp urb_irp : IRP) (urb : URB) :
    ∀ o ∈ urb_functions, ∀ g : urb_function_t, o = some g →
      read_phase_status env (g env vpdo irp urb_irp urb).status := by
  simp only [urb_functions, List.forall_mem_cons, List.not_mem_nil, false_imp_iff,
    implies_true, and_true]
  repeat' constructor
  all_goals intro g hg
  all_goals first
    | (cases hg
       simp only [vendor_device, vendor_interface, vendor_endpoint, vendor_other,
         class_device, class_interface, class_endpoint, class_other,
         get_descriptor_from_device, set_descriptor_to_device,
         get_descriptor_from_interface, set_descriptor_to_interface,
         get_descriptor_from_endpoint, set_descriptor_to_endpoint,
         set_feature_to_device, set_feature_to_interface, set_feature_to_endpoint,
         set_feature_to_other, clear_feature_to_device, clear_feature_to_interface,
         clear_feature_to_endpoint, clear_feature_to_other,
         get_status_from_device, get_status_from_interface, get_status_from_endpoint,
         get_status_from_other,
         urb_function_unexpected_status, urb_select_configuration_status,
         urb_select_interface_status, urb_control_transfer_any_status,
         urb_bulk_or_interrupt_transfer_status, urb_isoch_transfer_status,
         sync_reset_pipe_and_clear_stall_status, get_configuration_status,
         get_interface_status, urb_control_descriptor_request_status,
         urb_control_get_status_request_status, urb_control_vendor_class_request_status,
         urb_control_feature_request_status])
    | cases hg

theorem usb_submit_urb_status (env : Helpers) (vpdo : vpdo_dev_t) (read_irp irp : IRP) :
    read_phase_status env (usb_submit_urb env vpdo read_irp irp).status := by
  cases hurb : irp.urb with
  | none =>
    simp only [usb_submit_urb, hurb]
    exact read_phase_status_invalid_device_request env
  | some urb =>
    cases hg : (if urb.UrbHeader.Function < urb_functions.length
           then urb_functions.getD urb.UrbHeader.Function none else none) with
    | none =>
      rw [usb_submit_urb_none env vpdo read_irp irp urb hurb hg]
      exact read_phase_status_invalid_parameter env
    | some g =>
      rw [usb_submit_urb_some env vpdo read_irp irp urb hurb g hg]
      by_cases hlt : urb.UrbHeader.Function < urb_functions.length
      · rw [if_pos hlt, List.getD_eq_getElem _ _ hlt] at hg
        exact urb_functions_status env vpdo read_irp irp urb _ (List.getElem_mem hlt) g hg
      · rw [if_neg hlt] at hg
        exact absurd hg (by simp)

theorem cmd_submit_status (env : Helpers) (vpdo : vpdo_dev_t) (read_irp irp : IRP) :
    read_phase_status env (cmd_submit env vpdo read_irp irp).status := by
  simp only [cmd_submit]
  split_ifs
  · exact usb_submit_urb_status env vpdo read_irp irp
  · exact usb_reset_port_status env vpdo read_irp
  · exact get_descriptor_from_node_connection_status env vpdo read_irp irp
  · exact read_phase_status_invalid_parameter env

theorem read_failure_of_phase (env : Helpers) (st : NTSTATUS)
    (h : read_phase_status env st) (hne : st ≠ 0) : read_failure_status env st := by
  rcases h with h | h
  · exact absurd h hne
  · exact h

theorem do_read_err_status (env : Helpers) (vpdo : vpdo_dev_t) (read_irp irp : IRP) :
    read_phase_status env (do_read_err env vpdo read_irp irp) := by
  simp only [do_read_err]
  split_ifs
  · rcases cmd_unlink_status env vpdo read_irp (get_seqnum_unlink irp) with h | h
    · rw [h]; exact read_phase_status_success env
    · rw [h]; exact read_phase_status_invalid_parameter env
  · exact cmd_submit_status env vpdo read_irp irp
  · exact read_payload_status env read_irp irp

theorem do_read_true_completed (env : Helpers) (vpdo : vpdo_dev_t) (read_irp irp : IRP) :
    (do_read env vpdo read_irp irp true).completed =
      if do_read_err env vpdo read_irp irp = 0 then []
      else [complete_internal_ioctl (do_read_irp env vpdo read_irp irp)
              (do_read_err env vpdo read_irp irp)] := by
  simp only [do_read, do_read_err, do_read_irp, Bool.not_true, Bool.false_eq_true, if_false, if_true,
    List.append_nil]
  split_ifs <;> simp_all

theorem do_read_result_status (env : Helpers) (vpdo : vpdo_dev_t) (read_irp irp : IRP)
    (from_read : Bool) :
    (do_read env vpdo read_irp irp from_read).status =
      if do_read_err env vpdo read_irp irp = 0 then STATUS_SUCCESS
      else if vpdo.seqnum_payload ≠ 0 then STATUS_REQUEST_ABORTED
      else do_read_err env vpdo read_irp irp := by
  simp only [do_read, do_read_err, abort_read_payload]
  split_ifs <;> simp_all

theorem do_read_false_completed (env : Helpers) (vpdo : vpdo_dev_t) (read_irp irp : IRP) :
    ∀ c ∈ (do_read env vpdo read_irp irp false).completed,
      c.routine = completion_routine.CompleteRequest := by
  intro c hc
  simp only [do_read, complete_read, CompleteRequest, Bool.not_false, Bool.false_eq_true,
    if_false, if_true, List.nil_append] at hc
  split_ifs at hc <;> simp_all

theorem do_read_result_status_cases (env : Helpers) (vpdo : vpdo_dev_t) (read_irp irp : IRP)
    (from_read : Bool) (hne : (do_read env vpdo read_irp irp from_read).status ≠ 0) :
    read_failure_status env (do_read env vpdo read_irp irp from_read).status ∨
    (do_read env vpdo read_irp irp from_read).status = STATUS_REQUEST_ABORTED := by
  rw [do_read_result_status] at hne ⊢
  split_ifs at hne ⊢ with h0 h1
  · exact absurd rfl hne
  · right; rfl
  · left; exact read_failure_of_phase env _ (do_read_err_status env vpdo read_irp irp) h0

theorem send_to_server_statuses (env : Helpers) (vpdo : vpdo_dev_t) (irp : IRP) (unlink : Bool) :
    ((send_to_server env vpdo irp unlink).status = STATUS_PENDING ∨
      read_failure_status env (send_to_server env vpdo irp unlink).status ∨
      (send_to_server env vpdo irp unlink).status = STATUS_REQUEST_ABORTED) ∧
    ∀ c ∈ (send_to_server env vpdo irp unlink).completed,
      (c.routine = completion_routine.complete_internal_ioctl →
        c.status ≠ STATUS_SUCCESS ∧
        (read_failure_status env c.status ∨ c.status = STATUS_REQUEST_ABORTED)) ∧
      (c.routine = completion_routine.complete_canceled_irp → c.status = STATUS_CANCELLED) := by
  simp only [send_to_server]
  split
  · exact ⟨Or.inl rfl, fun c hc => absurd hc (List.not_mem_nil c)⟩
  · split
    · rename_i next_irp vpdo2 _
      split_ifs with herr hid hun
      · refine ⟨Or.inr (do_read_result_status_cases env _ _ _ false herr), ?_⟩
        intro c hc
        have hr := do_read_false_completed env _ _ _ c hc
        constructor <;> intro h <;> rw [hr] at h <;> cases h
      · refine ⟨Or.inl rfl, ?_⟩
        intro c hc
        rcases List.mem_append.1 hc with hc | hc
        · have hr := do_read_false_completed env _ _ _ c hc
          constructor <;> intro h <;> rw [hr] at h <;> cases h
        · rw [List.mem_singleton] at hc
          subst hc
          exact ⟨fun h => (by cases h), fun _ => rfl⟩
      · refine ⟨Or.inl rfl, ?_⟩
        intro c hc
        rcases List.mem_append.1 hc with hc | hc
        · have hr := do_read_false_completed env _ _ _ c hc
          constructor <;> intro h <;> rw [hr] at h <;> cases h
        · rw [List.mem_singleton] at hc
          subst hc
          exact ⟨fun _ => ⟨herr, do_read_result_status_cases env _ _ _ false herr⟩,
            fun h => (by cases h)⟩
      · refine ⟨Or.inl rfl, ?_⟩
        intro c hc
        have hr := do_read_false_completed env _ _ _ c hc
        constructor <;> intro h <;> rw [hr] at h <;> cases h
    · split_ifs
      all_goals first
        | exact ⟨Or.inl rfl, fun c hc => absurd hc (List.not_mem_nil c)⟩
        | (refine ⟨Or.inl rfl, ?_⟩
           intro c hc
           rw [List.mem_singleton] at hc
           subst hc
           exact ⟨fun h => (by cases h), fun h => (by cases h)⟩)

theorem do_read_from_read_completed (env : Helpers) (vpdo : vpdo_dev_t) (read_irp irp : IRP) :
    ∀ c ∈ (do_read env vpdo read_irp irp true).completed,
      c.routine = completion_routine.complete_internal_ioctl ∧
      c.status ≠ STATUS_SUCCESS ∧ read_failure_status env c.status := by
  intro c hc
  rw [do_read_true_completed] at hc
  split_ifs at hc with h0
  · exact absurd hc (List.not_mem_nil c)
  · rw [List.mem_singleton] at hc
    subst hc
    exact ⟨rfl, h0, read_failure_of_phase env _ (do_read_err_status env vpdo read_irp irp) h0⟩

/-- Statuses that the read path gives a URB by its own `return` statements: a URB read
into a read buffer that is smaller than a header (here a buffer of 0 bytes and a GET_DESCRIPTOR URB) is completed by `do_read`,
called with `from_read = true`, through `complete_internal_ioctl` with
STATUS_BUFFER_TOO_SMALL, and an IRP that carries no URB is completed with
STATUS_INVALID_DEVICE_REQUEST; neither status is among device-not-connected, cancelled,
invalid-parameter, insufficient-resources and internal-error. -/
theorem do_read_surfaces_other_status :
    (do_read spec_helpers default (read_irp_of_size 0)
        (urb_irp_of (descriptor_urb URB_FUNCTION_GET_DESCRIPTOR_FROM_DEVICE 1 0 0 18))
        true).completed.map (fun c => (c.routine, c.status)) =
      [(completion_routine.complete_internal_ioctl, STATUS_BUFFER_TOO_SMALL)] ∧
    (do_read spec_helpers default (read_irp_of_size 48)
        { (default : IRP) with IoControlCode := IOCTL_INTERNAL_USB_SUBMIT_URB, urb := none }
        true).completed.map (fun c => (c.routine, c.status)) =
      [(completion_routine.complete_internal_ioctl, STATUS_INVALID_DEVICE_REQUEST)] ∧
    STATUS_BUFFER_TOO_SMALL ∉
      [STATUS_DEVICE_NOT_CONNECTED, STATUS_CANCELLED, STATUS_INVALID_PARAMETER,
        STATUS_INSUFFICIENT_RESOURCES, STATUS_INTERNAL_ERROR] ∧
    STATUS_INVALID_DEVICE_REQUEST ∉
      [STATUS_DEVICE_NOT_CONNECTED, STATUS_CANCELLED, STATUS_INVALID_PARAMETER,
        STATUS_INSUFFICIENT_RESOURCES, STATUS_INTERNAL_ERROR] := by
  decide

/-- The statuses of the read path: every completion that `do_read`, called with
`from_read = true`, makes is a completion of the URB through `complete_internal_ioctl` with a failure status that
is one of invalid-parameter, insufficient-resources, internal-error, buffer-too-small,
invalid-device-request or a status returned by `set_cmd_submit_usbip_header`.  The value
`send_to_server` returns is STATUS_PENDING, one of these failure statuses or
STATUS_REQUEST_ABORTED; a URB it completes through `complete_internal_ioctl` gets one of
these failure statuses or STATUS_REQUEST_ABORTED, and a URB it completes through
`complete_canceled_irp` gets STATUS_CANCELLED. -/
theorem read_path_failure_statuses (env : Helpers) (vpdo : vpdo_dev_t) (read_irp irp : IRP)
    (unlink : Bool) :
    (∀ c ∈ (do_read env vpdo read_irp irp true).completed,
      c.routine = completion_routine.complete_internal_ioctl ∧
      c.status ≠ STATUS_SUCCESS ∧ read_failure_status env c.status) ∧
    ((send_to_server env vpdo irp unlink).status = STATUS_PENDING ∨
      read_failure_status env (send_to_server env vpdo irp unlink).status ∨
      (send_to_server env vpdo irp unlink).status = STATUS_REQUEST_ABORTED) ∧
    ∀ c ∈ (send_to_server env vpdo irp unlink).completed,
      (c.routine = completion_routine.complete_internal_ioctl →
        c.status ≠ STATUS_SUCCESS ∧
        (read_failure_status env c.status ∨ c.status = STATUS_REQUEST_ABORTED)) ∧
      (c.routine = completion_routine.complete_canceled_irp → c.status = STATUS_CANCELLED) :=
  ⟨do_read_from_read_completed env vpdo read_irp irp,
    send_to_server_statuses env vpdo irp unlink⟩

/-! ## C15: the length check of a plug request -/

/-- C15: for a plug request with a `wTotalLength` that fits an unsigned 16-bit field and a
fixed part `sizeof(vhci_pluginfo_t)` that contains its member `dscr_conf` (at least 9
bytes) and fits 32 bits: whenever `inlen` is below the fixed part or differs from
`sizeof(fixed part) + wTotalLength - 9`, `vhci_plugin_vpdo` returns
STATUS_INVALID_PARAMETER with no call made to the bus (no port asked for, no device
created) and the controller, the request and the file object as they were; otherwise the
first thing it does is to ask for a port.  The 64-bit expression of the source equals the
exact value, and every request that gets past the checks has `wTotalLength >= 9` and
`inlen = sizeof(fixed part) + wTotalLength - 9`. -/
theorem vhci_plugin_vpdo_inlen (ph : PlugHelpers) (vhci : vhci_dev_t)
    (pluginfo : vhci_pluginfo_t) (inlen : Nat) (fo : FILE_OBJECT)
    (hS : sizeof_USB_CONFIGURATION_DESCRIPTOR ≤ ph.sizeof_pluginfo)
    (hS32 : ph.sizeof_pluginfo < 2 ^ 32)
    (hw : pluginfo.dscr_conf.wTotalLength < 2 ^ 16) :
    ((inlen < ph.sizeof_pluginfo ∨
        inlen ≠ ph.sizeof_pluginfo + pluginfo.dscr_conf.wTotalLength
                  - sizeof_USB_CONFIGURATION_DESCRIPTOR) →
      vhci_plugin_vpdo ph vhci pluginfo inlen fo =
        { status := STATUS_INVALID_PARAMETER, vhci := vhci, pluginfo := pluginfo, fo := fo,
          events := [] }) ∧
    (¬ (inlen < ph.sizeof_pluginfo ∨
        inlen ≠ ph.sizeof_pluginfo + pluginfo.dscr_conf.wTotalLength
                  - sizeof_USB_CONFIGURATION_DESCRIPTOR) →
      (vhci_plugin_vpdo ph vhci pluginfo inlen fo).events.head? =
        some plug_event.vhub_get_empty_port) ∧
    ((ph.sizeof_pluginfo + pluginfo.dscr_conf.wTotalLength) % 2 ^ 64 + 2 ^ 64
        - sizeof_USB_CONFIGURATION_DESCRIPTOR) % 2 ^ 64 =
      ph.sizeof_pluginfo + pluginfo.dscr_conf.wTotalLength
        - sizeof_USB_CONFIGURATION_DESCRIPTOR ∧
    ((vhci_plugin_vpdo ph vhci pluginfo inlen fo).events ≠ [] →
      sizeof_USB_CONFIGURATION_DESCRIPTOR ≤ pluginfo.dscr_conf.wTotalLength ∧
      inlen = ph.sizeof_pluginfo + pluginfo.dscr_conf.wTotalLength
                - sizeof_USB_CONFIGURATION_DESCRIPTOR) := by
  have hexact : ((ph.sizeof_pluginfo + pluginfo.dscr_conf.wTotalLength) % 2 ^ 64 + 2 ^ 64
        - sizeof_USB_CONFIGURATION_DESCRIPTOR) % 2 ^ 64 =
      ph.sizeof_pluginfo + pluginfo.dscr_conf.wTotalLength
        - sizeof_USB_CONFIGURATION_DESCRIPTOR := by
    simp only [sizeof_USB_CONFIGURATION_DESCRIPTOR] at hS ⊢
    omega
  refine ⟨?_, ?_, hexact, ?_⟩
  · intro h
    simp only [vhci_plugin_vpdo, hexact]
    rcases h with h | h
    · rw [if_pos h]
    · split_ifs <;> rfl
  · intro h
    have h1 : ¬ inlen < ph.sizeof_pluginfo := fun h1 => h (Or.inl h1)
    have h2 : ¬ inlen ≠ ph.sizeof_pluginfo + pluginfo.dscr_conf.wTotalLength
                  - sizeof_USB_CONFIGURATION_DESCRIPTOR := fun h2 => h (Or.inr h2)
    simp only [vhci_plugin_vpdo, hexact, if_neg h1, if_neg h2]
    repeat' split
    all_goals rfl
  · intro hev
    by_cases h1 : inlen < ph.sizeof_pluginfo
    · simp only [vhci_plugin_vpdo, if_pos h1] at hev
      exact absurd rfl hev
    · by_cases h2 : inlen ≠ ph.sizeof_pluginfo + pluginfo.dscr_conf.wTotalLength
                  - sizeof_USB_CONFIGURATION_DESCRIPTOR
      · simp only [vhci_plugin_vpdo, hexact, if_neg h1, if_pos h2] at hev
        exact absurd rfl hev
      · have h3 := not_not.1 h2
        refine ⟨?_, h3⟩
        simp only [sizeof_USB_CONFIGURATION_DESCRIPTOR] at hS h3 ⊢
        omega

/-- C15 at concrete inputs, with a fixed part of 64 bytes and `wTotalLength = 25`: with
`inlen = 80 = 64 + 25 - 9` the plug succeeds; with `inlen = 79` and with `inlen = 63` the
result is STATUS_INVALID_PARAMETER and no call is made to the bus. -/
theorem vhci_plugin_vpdo_inlen_witness :
    (vhci_plugin_vpdo spec_plug_helpers (started_vhci []) (plug_request 25 1 0 0 0) 80
      default).status = STATUS_SUCCESS ∧
    (vhci_plugin_vpdo spec_plug_helpers (started_vhci []) (plug_request 25 1 0 0 0) 80
      default).events.head? = some plug_event.vhub_get_empty_port ∧
    (vhci_plugin_vpdo spec_plug_helpers (started_vhci []) (plug_request 25 1 0 0 0) 79
      default).status = STATUS_INVALID_PARAMETER ∧
    (vhci_plugin_vpdo spec_plug_helpers (started_vhci []) (plug_request 25 1 0 0 0) 79
      default).events = [] ∧
    (vhci_plugin_vpdo spec_plug_helpers (started_vhci []) (plug_request 25 1 0 0 0) 63
      default).events = [] :=
  ⟨by decide,
   (vhci_plugin_vpdo_inlen spec_plug_helpers (started_vhci []) (plug_request 25 1 0 0 0) 80
      default (by decide) (by decide) (by decide)).2.1 (by decide),
   by decide, by decide, by decide⟩

/-! ## C16: class, subclass and protocol of a plugged device -/

theorem setup_vpdo_with_descriptor_success (ph : PlugHelpers) (vpdo : vpdo_dev_t)
    (d : USB_DEVICE_DESCRIPTOR)
    (h1 : (setup_vpdo_with_descriptor ph vpdo d).1 = STATUS_SUCCESS) :
    ph.is_valid_dsc d = true ∧
    (setup_vpdo_with_descriptor ph vpdo d).2.bDeviceClass = d.bDeviceClass ∧
    (setup_vpdo_with_descriptor ph vpdo d).2.bDeviceSubClass = d.bDeviceSubClass ∧
    (setup_vpdo_with_descriptor ph vpdo d).2.bDeviceProtocol = d.bDeviceProtocol := by
  by_cases hv : ph.is_valid_dsc d = true
  · simp only [setup_vpdo_with_descriptor, hv, if_true]
    refine ⟨?_, ?_, ?_, ?_⟩ <;> trivial
  · rw [Bool.not_eq_true] at hv
    simp only [setup_vpdo_with_descriptor, hv, Bool.false_eq_true, if_false] at h1
    exact absurd h1 (by decide)

theorem setup_vpdo_with_dsc_conf_cases (ph : PlugHelpers) (v : vpdo_dev_t)
    (c : USB_CONFIGURATION_DESCRIPTOR) :
    (ph.ExAllocatePoolWithTag c.wTotalLength = false →
      (setup_vpdo_with_dsc_conf ph v c).1 = STATUS_INSUFFICIENT_RESOURCES) ∧
    (ph.ExAllocatePoolWithTag c.wTotalLength = true →
      (v.bDeviceClass ≠ 0 ∨ v.bDeviceSubClass ≠ 0 ∨ v.bDeviceProtocol ≠ 0) →
      setup_vpdo_with_dsc_conf ph v c = (STATUS_SUCCESS, { v with actconfig := some c })) ∧
    (ph.ExAllocatePoolWithTag c.wTotalLength = true →
      ¬ (v.bDeviceClass ≠ 0 ∨ v.bDeviceSubClass ≠ 0 ∨ v.bDeviceProtocol ≠ 0) →
      ∀ i, ph.dsc_find_next_intf c = some i →
      setup_vpdo_with_dsc_conf ph v c =
        (STATUS_SUCCESS,
          { v with actconfig := some c, bDeviceClass := i.bInterfaceClass,
                   bDeviceSubClass := i.bInterfaceSubClass,
                   bDeviceProtocol := i.bInterfaceProtocol })) ∧
    (ph.ExAllocatePoolWithTag c.wTotalLength = true →
      ¬ (v.bDeviceClass ≠ 0 ∨ v.bDeviceSubClass ≠ 0 ∨ v.bDeviceProtocol ≠ 0) →
      ph.dsc_find_next_intf c = none →
      setup_vpdo_with_dsc_conf ph v c =
        (STATUS_INVALID_PARAMETER, { v with actconfig := some c })) := by
  refine ⟨?_, ?_, ?_, ?_⟩
  · intro ha
    simp only [setup_vpdo_with_dsc_conf, ha, Bool.false_eq_true, if_false]
  · intro ha hnz
    simp only [setup_vpdo_with_dsc_conf, ha, if_true, if_pos hnz]
  · intro ha hz i hi
    simp only [setup_vpdo_with_dsc_conf, ha, if_true, if_neg hz, hi]
  · intro ha hz hi
    simp only [setup_vpdo_with_dsc_conf, ha, if_true, if_neg hz, hi]

theorem setup_vpdo_with_dsc_conf_success (ph : PlugHelpers) (v : vpdo_dev_t)
    (c : USB_CONFIGURATION_DESCRIPTOR)
    (h2 : (setup_vpdo_with_dsc_conf ph v c).1 = STATUS_SUCCESS) :
    ph.ExAllocatePoolWithTag c.wTotalLength = true ∧
    ((v.bDeviceClass ≠ 0 ∨ v.bDeviceSubClass ≠ 0 ∨ v.bDeviceProtocol ≠ 0) ∨
      ∃ i, ph.dsc_find_next_intf c = some i) := by
  have hc := setup_vpdo_with_dsc_conf_cases ph v c
  cases ha : ph.ExAllocatePoolWithTag c.wTotalLength with
  | false =>
    rw [hc.1 ha] at h2
    exact absurd h2 (by decide)
  | true =>
    refine ⟨rfl, ?_⟩
    by_cases hnz : v.bDeviceClass ≠ 0 ∨ v.bDeviceSubClass ≠ 0 ∨ v.bDeviceProtocol ≠ 0
    · exact Or.inl hnz
    · right
      cases hi : ph.dsc_find_next_intf c with
      | none =>
        rw [hc.2.2.2 ha hnz hi] at h2
        exact absurd h2 (show STATUS_INVALID_PARAMETER ≠ STATUS_SUCCESS by decide)
      | some i => exact ⟨i, rfl⟩

/-- C16: let the first setup step of a plug, `setup_vpdo_with_descriptor`, succeed on the
device descriptor `d`, and run the second, `setup_vpdo_with_dsc_conf`, on the
configuration descriptor `c`.  If the second step succeeds too: when bDeviceClass,
bDeviceSubClass and bDeviceProtocol of `d` are all zero, the configuration has a first
interface descriptor and class, subclass and protocol of the device are those of that
interface; when one of the three is not zero, all three are the values of `d`.  If all
three are zero and the configuration has no interface descriptor, the second step never
succeeds: it returns STATUS_INVALID_PARAMETER once the copy of the configuration is
allocated (STATUS_INSUFFICIENT_RESOURCES comes first when the allocation fails), and a plug
that passed the length checks, got a port and a device object returns that status after
deleting the device object, with the file object untouched. -/
theorem setup_vpdo_class_codes (ph : PlugHelpers) (vpdo : vpdo_dev_t)
    (d : USB_DEVICE_DESCRIPTOR) (c : USB_CONFIGURATION_DESCRIPTOR)
    (h1 : (setup_vpdo_with_descriptor ph vpdo d).1 = STATUS_SUCCESS) :
    ((setup_vpdo_with_dsc_conf ph (setup_vpdo_with_descriptor ph vpdo d).2 c).1
        = STATUS_SUCCESS →
      ((d.bDeviceClass = 0 ∧ d.bDeviceSubClass = 0 ∧ d.bDeviceProtocol = 0) →
        ∃ i, ph.dsc_find_next_intf c = some i ∧
          (setup_vpdo_with_dsc_conf ph (setup_vpdo_with_descriptor ph vpdo d).2 c).2.bDeviceClass
            = i.bInterfaceClass ∧
          (setup_vpdo_with_dsc_conf ph
            (setup_vpdo_with_descriptor ph vpdo d).2 c).2.bDeviceSubClass
            = i.bInterfaceSubClass ∧
          (setup_vpdo_with_dsc_conf ph
            (setup_vpdo_with_descriptor ph vpdo d).2 c).2.bDeviceProtocol
            = i.bInterfaceProtocol) ∧
      (¬ (d.bDeviceClass = 0 ∧ d.bDeviceSubClass = 0 ∧ d.bDeviceProtocol = 0) →
        (setup_vpdo_with_dsc_conf ph (setup_vpdo_with_descriptor ph vpdo d).2 c).2.bDeviceClass
          = d.bDeviceClass ∧
        (setup_vpdo_with_dsc_conf ph (setup_vpdo_with_descriptor ph vpdo d).2 c).2.bDeviceSubClass
          = d.bDeviceSubClass ∧
        (setup_vpdo_with_dsc_conf ph (setup_vpdo_with_descriptor ph vpdo d).2 c).2.bDeviceProtocol
          = d.bDeviceProtocol)) ∧
    ((d.bDeviceClass = 0 ∧ d.bDeviceSubClass = 0 ∧ d.bDeviceProtocol = 0) →
      ph.dsc_find_next_intf c = none →
      (setup_vpdo_with_dsc_conf ph (setup_vpdo_with_descriptor ph vpdo d).2 c).1
        ≠ STATUS_SUCCESS ∧
      (ph.ExAllocatePoolWithTag c.wTotalLength = true →
        (setup_vpdo_with_dsc_conf ph (setup_vpdo_with_descriptor ph vpdo d).2 c).1
          = STATUS_INVALID_PARAMETER) ∧
      (ph.ExAllocatePoolWithTag c.wTotalLength = false →
        (setup_vpdo_with_dsc_conf ph (setup_vpdo_with_descriptor ph vpdo d).2 c).1
          = STATUS_INSUFFICIENT_RESOURCES) ∧
      (ph.ExAllocatePoolWithTag c.wTotalLength = true →
        ∀ (vhci : vhci_dev_t) (pluginfo : vhci_pluginfo_t) (inlen : Nat) (fo : FILE_OBJECT),
          pluginfo.dscr_dev = d → pluginfo.dscr_conf = c → ph.vdev_create = some vpdo →
          (vhci_plugin_vpdo ph vhci pluginfo inlen fo).events.head?
            = some plug_event.vhub_get_empty_port →
          0 ≤ ph.vhub_get_empty_port vhci.vhub →
          (vhci_plugin_vpdo ph vhci pluginfo inlen fo).status = STATUS_INVALID_PARAMETER ∧
          (vhci_plugin_vpdo ph vhci pluginfo inlen fo).events =
            [plug_event.vhub_get_empty_port, plug_event.vdev_create,
              plug_event.IoDeleteDevice] ∧
          (vhci_plugin_vpdo ph vhci pluginfo inlen fo).fo = fo)) := by
  obtain ⟨hv, hcl, hsub, hpr⟩ := setup_vpdo_with_descriptor_success ph vpdo d h1
  have hc := setup_vpdo_with_dsc_conf_cases ph (setup_vpdo_with_descriptor ph vpdo d).2 c
  refine ⟨?_, ?_⟩
  · intro h2
    obtain ⟨ha, hor⟩ := setup_vpdo_with_dsc_conf_success ph _ c h2
    refine ⟨?_, ?_⟩
    · intro hz
      have hnz : ¬ ((setup_vpdo_with_descriptor ph vpdo d).2.bDeviceClass ≠ 0 ∨
          (setup_vpdo_with_descriptor ph vpdo d).2.bDeviceSubClass ≠ 0 ∨
          (setup_vpdo_with_descriptor ph vpdo d).2.bDeviceProtocol ≠ 0) := by
        rw [hcl, hsub, hpr, hz.1, hz.2.1, hz.2.2]
        decide
      rcases hor with hor | ⟨i, hi⟩
      · exact absurd hor hnz
      · refine ⟨i, hi, ?_⟩
        rw [hc.2.2.1 ha hnz i hi]
        exact ⟨rfl, rfl, rfl⟩
    · intro hz
      have hnz : (setup_vpdo_with_descriptor ph vpdo d).2.bDeviceClass ≠ 0 ∨
          (setup_vpdo_with_descriptor ph vpdo d).2.bDeviceSubClass ≠ 0 ∨
          (setup_vpdo_with_descriptor ph vpdo d).2.bDeviceProtocol ≠ 0 := by
        rw [hcl, hsub, hpr]
        by_contra hcon
        apply hz
        refine ⟨?_, ?_, ?_⟩ <;> by_contra hne
        · exact hcon (Or.inl hne)
        · exact hcon (Or.inr (Or.inl hne))
        · exact hcon (Or.inr (Or.inr hne))
      rw [hc.2.1 ha hnz]
      exact ⟨hcl, hsub, hpr⟩
  · intro hz hnone
    have hnz : ¬ ((setup_vpdo_with_descriptor ph vpdo d).2.bDeviceClass ≠ 0 ∨
        (setup_vpdo_with_descriptor ph vpdo d).2.bDeviceSubClass ≠ 0 ∨
        (setup_vpdo_with_descriptor ph vpdo d).2.bDeviceProtocol ≠ 0) := by
      rw [hcl, hsub, hpr, hz.1, hz.2.1, hz.2.2]
      decide
    have hinv : ph.ExAllocatePoolWithTag c.wTotalLength = true →
        (setup_vpdo_with_dsc_conf ph (setup_vpdo_with_descriptor ph vpdo d).2 c).1
          = STATUS_INVALID_PARAMETER := by
      intro ha
      rw [hc.2.2.2 ha hnz hnone]
    refine ⟨?_, hinv, hc.1, ?_⟩
    · cases ha : ph.ExAllocatePoolWithTag c.wTotalLength with
      | false => rw [hc.1 ha]; decide
      | true => rw [hinv ha]; decide
    · intro ha vhci pluginfo inlen fo hd hcf hdev hev hport
      have h2 := hinv ha
      subst hd hcf
      by_cases hl1 : inlen < ph.sizeof_pluginfo
      · simp only [vhci_plugin_vpdo, if_pos hl1] at hev
        exact absurd hev (by simp)
      by_cases hl2 : inlen ≠ ((ph.sizeof_pluginfo + pluginfo.dscr_conf.wTotalLength) % 2 ^ 64
          + 2 ^ 64 - sizeof_USB_CONFIGURATION_DESCRIPTOR) % 2 ^ 64
      · simp only [vhci_plugin_vpdo, if_neg hl1, if_pos hl2] at hev
        exact absurd hev (by simp)
      have hp : ¬ ph.vhub_get_empty_port vhci.vhub < 0 := not_lt.2 hport
      have h1z : ¬ (setup_vpdo_with_descriptor ph vpdo pluginfo.dscr_dev).1 ≠ 0 :=
        not_not.2 h1
      have hinz : STATUS_INVALID_PARAMETER ≠ 0 := by decide
      have h2z : (setup_vpdo_with_dsc_conf ph
          (setup_vpdo_with_descriptor ph vpdo pluginfo.dscr_dev).2 pluginfo.dscr_conf).1
          ≠ 0 := by rw [h2]; decide
      simp only [vhci_plugin_vpdo, if_neg hl1, if_neg hl2, if_neg hp, hdev,
        if_neg h1z, if_pos h2z, h2, if_pos hinz]
      exact ⟨trivial, rfl, trivial⟩

/-- C16 at concrete inputs: a device descriptor with class, subclass and protocol 0 and a
configuration whose first interface has 3, 1, 2 gives a device with 3, 1, 2; a device
descriptor with class 0xFF keeps 0xFF, 0, 0; with all three zero and a configuration
without interfaces the plug returns STATUS_INVALID_PARAMETER. -/
theorem setup_vpdo_class_codes_witness :
    (setup_vpdo_with_descriptor spec_plug_helpers default
      (plug_request 25 1 0 0 0).dscr_dev).1 = STATUS_SUCCESS ∧
    (∃ i, spec_plug_helpers.dsc_find_next_intf (plug_request 25 1 0 0 0).dscr_conf = some i ∧
      (setup_vpdo_with_dsc_conf spec_plug_helpers
        (setup_vpdo_with_descriptor spec_plug_helpers default
          (plug_request 25 1 0 0 0).dscr_dev).2
        (plug_request 25 1 0 0 0).dscr_conf).2.bDeviceClass = i.bInterfaceClass ∧
      (setup_vpdo_with_dsc_conf spec_plug_helpers
        (setup_vpdo_with_descriptor spec_plug_helpers default
          (plug_request 25 1 0 0 0).dscr_dev).2
        (plug_request 25 1 0 0 0).dscr_conf).2.bDeviceSubClass = i.bInterfaceSubClass ∧
      (setup_vpdo_with_dsc_conf spec_plug_helpers
        (setup_vpdo_with_descriptor spec_plug_helpers default
          (plug_request 25 1 0 0 0).dscr_dev).2
        (plug_request 25 1 0 0 0).dscr_conf).2.bDeviceProtocol = i.bInterfaceProtocol) ∧
    (vhci_plugin_vpdo spec_plug_helpers (started_vhci []) (plug_request 25 1 0 0 0) 80
      default).fo.FsContext.map
        (fun v => (v.bDeviceClass, v.bDeviceSubClass, v.bDeviceProtocol)) = some (3, 1, 2) ∧
    (vhci_plugin_vpdo spec_plug_helpers (started_vhci []) (plug_request 25 1 0xFF 0 0) 80
      default).fo.FsContext.map
        (fun v => (v.bDeviceClass, v.bDeviceSubClass, v.bDeviceProtocol)) = some (0xFF, 0, 0) ∧
    (vhci_plugin_vpdo spec_plug_helpers (started_vhci []) (plug_request 25 0 0 0 0) 80
      default).status = STATUS_INVALID_PARAMETER :=
  ⟨by decide,
   ((setup_vpdo_class_codes spec_plug_helpers default (plug_request 25 1 0 0 0).dscr_dev
      (plug_request 25 1 0 0 0).dscr_conf (by decide)).1 (by decide)).1 (by decide),
   by decide, by decide, by decide⟩

/-! ## C17: unplugging a port -/

theorem vhub_find_vpdo_none (vhub : vhub_dev_t) (p : Int)
    (h : ∀ v ∈ vhub.vpdos, v.port ≠ p) : vhub_find_vpdo vhub p = none := by
  simp only [vhub_find_vpdo, List.find?_eq_none, decide_eq_true_eq]
  exact h

theorem vhub_find_vpdo_some (vhub : vhub_dev_t) (p : Int)
    (h : ∃ v ∈ vhub.vpdos, v.port = p) :
    ∃ v, vhub_find_vpdo vhub p = some v ∧ v.port = p := by
  cases hf : vhub_find_vpdo vhub p with
  | none =>
    simp only [vhub_find_vpdo, List.find?_eq_none, decide_eq_true_eq] at hf
    obtain ⟨v, hv, hp⟩ := h
    exact absurd hp (hf v hv)
  | some v =>
    refine ⟨v, rfl, ?_⟩
    simp only [vhub_find_vpdo] at hf
    have := List.find?_some hf
    simpa using this

theorem mark_unplugged_first_split (p : Int) :
    ∀ l : List vpdo_dev_t, (∃ v ∈ l, v.port = p) →
      ∃ l1 v l2, l = l1 ++ v :: l2 ∧ v.port = p ∧ (∀ u ∈ l1, u.port ≠ p) ∧
        mark_unplugged_first p l = l1 ++ { v with unplugged := true } :: l2
  | [], h => by
    obtain ⟨v, hv, _⟩ := h
    exact absurd hv (List.not_mem_nil v)
  | a :: l, h => by
    by_cases ha : a.port = p
    · refine ⟨[], a, l, rfl, ha, fun u hu => absurd hu (List.not_mem_nil u), ?_⟩
      simp only [mark_unplugged_first, if_pos ha, List.nil_append]
    · have h2 : ∃ v ∈ l, v.port = p := by
        obtain ⟨v, hv, hp⟩ := h
        rcases List.mem_cons.1 hv with hv | hv
        · subst hv; exact absurd hp ha
        · exact ⟨v, hv, hp⟩
      obtain ⟨l1, v, l2, hl, hp, hl1, hm⟩ := mark_unplugged_first_split p l h2
      refine ⟨a :: l1, v, l2, by rw [hl]; rfl, hp, ?_, ?_⟩
      · intro u hu
        rcases List.mem_cons.1 hu with hu | hu
        · subst hu; exact ha
        · exact hl1 u hu
      · simp only [mark_unplugged_first, if_neg ha, hm, List.cons_append]

/-- C17: for a controller whose hub is alive and a signed port number `p`: if `p < 0`,
`vhci_unplug_port` returns STATUS_SUCCESS and every device of the hub has its unplugged
flag set, nothing else changed; if `p >= 0` and a device is bound to port `p`, it returns
STATUS_SUCCESS and the unplugged flag of the first device bound to `p` is set, every other
device and every other field left as it was; if no device is bound to `p`, it returns
STATUS_NO_SUCH_DEVICE and the controller is as it was. -/
theorem vhci_unplug_port_cases (vhci : vhci_dev_t) (vhub : vhub_dev_t) (p : Int)
    (hhub : vhci.vhub = some vhub) :
    (p < 0 →
      vhci_unplug_port vhci p =
        (STATUS_SUCCESS,
          { vhci with vhub := some (
            { vhub with vpdos := vhub.vpdos.map fun v => { v with unplugged := true } }) }) ∧
      ∀ v2 ∈ ((vhci_unplug_port vhci p).2.vhub.map fun h => h.vpdos).getD [],
        v2.unplugged = true) ∧
    (0 ≤ p → (∃ v ∈ vhub.vpdos, v.port = p) →
      (vhci_unplug_port vhci p).1 = STATUS_SUCCESS ∧
      ∃ l1 v l2, vhub.vpdos = l1 ++ v :: l2 ∧ v.port = p ∧ (∀ u ∈ l1, u.port ≠ p) ∧
        (vhci_unplug_port vhci p).2 =
          { vhci with vhub := some (
            { vhub with vpdos := l1 ++ { v with unplugged := true } :: l2 }) }) ∧
    (0 ≤ p → (∀ v ∈ vhub.vpdos, v.port ≠ p) →
      vhci_unplug_port vhci p = (STATUS_NO_SUCH_DEVICE, vhci)) := by
  refine ⟨?_, ?_, ?_⟩
  · intro hp
    have he : vhci_unplug_port vhci p =
        (STATUS_SUCCESS,
          { vhci with vhub := some (
            { vhub with vpdos := vhub.vpdos.map fun v => { v with unplugged := true } }) }) := by
      simp only [vhci_unplug_port, hhub, if_pos hp, vhub_mark_unplugged_all_vpdos]
    refine ⟨he, ?_⟩
    rw [he]
    intro v2 hv2
    simp only [Option.map_some', Option.getD_some, List.mem_map] at hv2
    obtain ⟨v, _, hv⟩ := hv2
    rw [← hv]
  · intro hp hex
    have hnp : ¬ p < 0 := not_lt.2 hp
    obtain ⟨v0, hf, hv0⟩ := vhub_find_vpdo_some vhub p hex
    obtain ⟨l1, v, l2, hl, hvp, hl1, hm⟩ := mark_unplugged_first_split p vhub.vpdos hex
    have he : vhci_unplug_port vhci p =
        (STATUS_SUCCESS,
          { vhci with vhub := some (vhub_mark_unplugged_vpdo vhub v0) }) := by
      simp only [vhci_unplug_port, hhub, if_neg hnp, hf]
    rw [he]
    refine ⟨rfl, l1, v, l2, hl, hvp, hl1, ?_⟩
    simp only [vhub_mark_unplugged_vpdo, hv0, hm]
  · intro hp hno
    have hnp : ¬ p < 0 := not_lt.2 hp
    simp only [vhci_unplug_port, hhub, if_neg hnp, vhub_find_vpdo_none vhub p hno]

/-- C17 at concrete inputs, for a hub with devices on the ports 1, 2 and 3: unplugging
port 2 marks the device on port 2 only, unplugging port -1 marks all three, and unplugging
port 5 gives STATUS_NO_SUCH_DEVICE with no device marked. -/
theorem vhci_unplug_port_cases_witness :
    (started_vhci [vpdo_on_port 1, vpdo_on_port 2, vpdo_on_port 3]).vhub =
      some { vpdos := [vpdo_on_port 1, vpdo_on_port 2, vpdo_on_port 3] } ∧
    (vhci_unplug_port (started_vhci [vpdo_on_port 1, vpdo_on_port 2, vpdo_on_port 3]) 2).1
      = STATUS_SUCCESS ∧
    unplugged_ports
      (vhci_unplug_port (started_vhci [vpdo_on_port 1, vpdo_on_port 2, vpdo_on_port 3]) 2).2
      = [2] ∧
    unplugged_ports
      (vhci_unplug_port (started_vhci [vpdo_on_port 1, vpdo_on_port 2, vpdo_on_port 3]) (-1)).2
      = [1, 2, 3] ∧
    (vhci_unplug_port (started_vhci [vpdo_on_port 1, vpdo_on_port 2, vpdo_on_port 3]) 5).1
      = STATUS_NO_SUCH_DEVICE ∧
    unplugged_ports
      (vhci_unplug_port (started_vhci [vpdo_on_port 1, vpdo_on_port 2, vpdo_on_port 3]) 5).2
      = [] :=
  ⟨rfl,
   ((vhci_unplug_port_cases (started_vhci [vpdo_on_port 1, vpdo_on_port 2, vpdo_on_port 3])
      { vpdos := [vpdo_on_port 1, vpdo_on_port 2, vpdo_on_port 3] } 2 rfl).2.1 (by decide)
      ⟨vpdo_on_port 2, by simp, rfl⟩).1,
   by decide, by decide, by decide, by decide⟩

/-! ## C18: a read on an unplugged device, on a removed controller, without a device -/

/-- C18: on a controller that is not in the Removed state, a read on a device whose
unplugged flag is set is completed with STATUS_DEVICE_NOT_CONNECTED, whatever the bound on
the loop: the only completion is that of the read IRP, the device (its queues and its
payload marker) and the read IRP (its bytes-transferred count) are as they were.  When the
controller is in the Removed state or the file has no device attached, the read is
completed with STATUS_NO_SUCH_DEVICE, and device and read IRP are as they were. -/
theorem vhci_read_unplugged (env : Helpers) (fuel : Nat) (vhci : vhci_dev_t)
    (fs : Option vpdo_dev_t) (irp : IRP) :
    (vhci.PnPState ≠ pnp_state.Removed →
      ∀ vpdo, fs = some vpdo → vpdo.unplugged = true →
        vhci_read env fuel (some vhci) fs irp =
          some { status := STATUS_DEVICE_NOT_CONNECTED, vpdo := some vpdo, irp := irp,
                 completed := [CompleteRequest irp STATUS_DEVICE_NOT_CONNECTED] }) ∧
    (vhci.PnPState = pnp_state.Removed ∨ fs = none →
      vhci_read env fuel (some vhci) fs irp =
        some { status := STATUS_NO_SUCH_DEVICE, vpdo := fs, irp := irp,
               completed := [CompleteRequest irp STATUS_NO_SUCH_DEVICE] }) := by
  refine ⟨?_, ?_⟩
  · intro hst vpdo hfs hun
    subst hfs
    simp only [vhci_read, if_pos hst, hun, if_true, complete_read]
    rfl
  · intro h
    by_cases hst : vhci.PnPState = pnp_state.Removed
    · simp only [vhci_read, hst, ne_eq, not_true_eq_false, if_false, complete_read]
      rfl
    · rcases h with h | h
      · exact absurd h hst
      · subst h
        simp only [vhci_read, ne_eq, hst, not_false_eq_true, if_true, complete_read]
        rfl

/-! ## C19: the next record to send -/

theorem remove_first_some (p : IRP → Bool) :
    ∀ (q : List IRP) (irp : IRP), (remove_first p q).1 = some irp → irp ∈ q ∧ p irp = true
  | [], irp, h => by
    simp only [remove_first] at h
    exact absurd h (by simp)
  | x :: xs, irp, h => by
    by_cases hp : p x = true
    · simp only [remove_first, hp, if_true, Option.some.injEq] at h
      subst h
      exact ⟨List.mem_cons_self _ _, hp⟩
    · simp only [remove_first, hp, Bool.false_eq_true, if_false] at h
      obtain ⟨hm, hq⟩ := remove_first_some p xs irp h
      exact ⟨List.mem_cons_of_mem _ hm, hq⟩

theorem remove_first_none (p : IRP → Bool) :
    ∀ q : List IRP, (∀ irp ∈ q, p irp = false) → (remove_first p q).1 = none
  | [], _ => rfl
  | x :: xs, h => by
    have hx : p x = false := h x (List.mem_cons_self _ _)
    simp only [remove_first, hx, Bool.false_eq_true, if_false]
    exact remove_first_none p xs fun irp hi => h irp (List.mem_cons_of_mem _ hi)

theorem remove_first_true_cons (x : IRP) (xs : List IRP) :
    remove_first (fun _ => true) (x :: xs) = (some x, xs) := by
  simp only [remove_first, if_true]

/-- C19, as stated, fails on the code: with the payload marker at 7 (the header of URB 7
is sent, its payload is due), a cancel-pending record in the unlink queue and the record
of URB 7 in the submit queue, `dequeue_rx_irp` returns the record of URB 7 and leaves the
cancel-pending record queued; and when the record of URB 7 is gone from the submit queue
it returns none although the cancel-pending queue is not empty. -/
theorem dequeue_rx_irp_skips_unlink :
    ((dequeue_rx_irp (vpdo_with_queues 7 [record 2 7 0] [record 1 3 3] []) 7).1.map
      fun i => i.id) = some 2 ∧
    ((dequeue_rx_irp (vpdo_with_queues 7 [record 2 7 0] [record 1 3 3] []) 7).2.rx_unlink_irps.map
      fun i => i.id) = [1] ∧
    ((dequeue_rx_irp (vpdo_with_queues 7 [] [record 1 3 3] []) 7).1.map
      fun i => i.id) = none ∧
    ((dequeue_rx_irp (vpdo_with_queues 7 [] [record 1 3 3] []) 7).2.rx_unlink_irps.map
      fun i => i.id) = [1] := by
  decide

/-- C19, amended: called with the payload marker of the device.  When the marker is zero
(no payload is due), `dequeue_rx_irp` removes and returns the oldest cancel-pending
record whenever the cancel-pending queue is not empty, in preference to any
pending-submit record; otherwise the oldest pending-submit record; and it returns none
exactly when both queues are empty, leaving the device as it was.  When the marker is not
zero, the cancel-pending queue is left alone: the result is the oldest pending-submit
record whose sequence number is the marker, and none when there is no such record. -/
theorem dequeue_rx_irp_cases (vpdo : vpdo_dev_t) (seqnum_payload : Nat) :
    (seqnum_payload = 0 →
      (∀ u us, vpdo.rx_unlink_irps = u :: us →
        dequeue_rx_irp vpdo seqnum_payload = (some u, { vpdo with rx_unlink_irps := us })) ∧
      (vpdo.rx_unlink_irps = [] → ∀ r rs, vpdo.rx_irps_csq = r :: rs →
        dequeue_rx_irp vpdo seqnum_payload = (some r, { vpdo with rx_irps_csq := rs })) ∧
      (vpdo.rx_unlink_irps = [] → vpdo.rx_irps_csq = [] →
        dequeue_rx_irp vpdo seqnum_payload = (none, vpdo)) ∧
      ((dequeue_rx_irp vpdo seqnum_payload).1 = none ↔
        vpdo.rx_unlink_irps = [] ∧ vpdo.rx_irps_csq = [])) ∧
    (seqnum_payload ≠ 0 →
      (dequeue_rx_irp vpdo seqnum_payload).2.rx_unlink_irps = vpdo.rx_unlink_irps ∧
      (dequeue_rx_irp vpdo seqnum_payload).1 =
        (remove_first (fun irp => get_seqnum irp == seqnum_payload) vpdo.rx_irps_csq).1 ∧
      (∀ irp, (dequeue_rx_irp vpdo seqnum_payload).1 = some irp →
        irp ∈ vpdo.rx_irps_csq ∧ get_seqnum irp = seqnum_payload) ∧
      ((∀ irp ∈ vpdo.rx_irps_csq, get_seqnum irp ≠ seqnum_payload) →
        (dequeue_rx_irp vpdo seqnum_payload).1 = none)) := by
  refine ⟨?_, ?_⟩
  · intro h0
    subst h0
    have hA : ∀ u us, vpdo.rx_unlink_irps = u :: us →
        dequeue_rx_irp vpdo 0 = (some u, { vpdo with rx_unlink_irps := us }) := by
      intro u us hu
      simp only [dequeue_rx_irp, dequeue_rx_unlink_irp, hu, if_true]
    have hB : vpdo.rx_unlink_irps = [] → ∀ r rs, vpdo.rx_irps_csq = r :: rs →
        dequeue_rx_irp vpdo 0 = (some r, { vpdo with rx_irps_csq := rs }) := by
      intro hu r rs hr
      simp only [dequeue_rx_irp, dequeue_rx_unlink_irp, hu, if_true, make_peek_context,
        IoCsqRemoveNextIrp, hr, remove_first_true_cons]
    have hC : vpdo.rx_unlink_irps = [] → vpdo.rx_irps_csq = [] →
        dequeue_rx_irp vpdo 0 = (none, vpdo) := by
      intro hu hr
      cases vpdo
      simp only at hu hr
      subst hu
      subst hr
      rfl
    refine ⟨hA, hB, hC, ?_⟩
    constructor
    · intro hn
      cases hu : vpdo.rx_unlink_irps with
      | cons u us =>
        rw [hA u us hu] at hn
        exact absurd hn (by simp)
      | nil =>
        cases hr : vpdo.rx_irps_csq with
        | cons r rs =>
          rw [hB hu r rs hr] at hn
          exact absurd hn (by simp)
        | nil => exact ⟨rfl, rfl⟩
    · intro h
      rw [hC h.1 h.2]
  · intro hne
    have hE : dequeue_rx_irp vpdo seqnum_payload =
        ((remove_first (fun irp => get_seqnum irp == seqnum_payload) vpdo.rx_irps_csq).1,
          { vpdo with rx_irps_csq :=
            (remove_first (fun irp => get_seqnum irp == seqnum_payload) vpdo.rx_irps_csq).2 }) := by
      simp only [dequeue_rx_irp, if_neg hne, make_peek_context, IoCsqRemoveNextIrp]
    rw [hE]
    refine ⟨rfl, rfl, ?_, ?_⟩
    · intro irp hi
      obtain ⟨hm, hp⟩ := remove_first_some _ _ irp hi
      exact ⟨hm, by simpa using hp⟩
    · intro hall
      exact remove_first_none _ _ fun irp hi => by simpa using hall irp hi

/-! ## C20: a cancelled record whose UNLINK header cannot be emitted -/

theorem cmd_unlink_small_buffer (env : Helpers) (vpdo : vpdo_dev_t) (irp : IRP)
    (seqnum_unlink : Nat) (hbuf : get_irp_buffer_size irp < sizeof_usbip_header) :
    cmd_unlink env vpdo irp seqnum_unlink = (STATUS_INVALID_PARAMETER, vpdo, irp) := by
  have hh : get_usbip_header irp = false := by
    simp only [get_usbip_header, try_get_irp_buffer, decide_eq_false_iff_not, not_le,
      ge_iff_le]
    exact hbuf
  simp only [cmd_unlink, hh, Bool.not_false, if_true]

theorem do_read_unlink_small_buffer (env : Helpers) (vpdo : vpdo_dev_t) (read_irp irp : IRP)
    (hun : get_seqnum_unlink irp ≠ 0)
    (hbuf : get_irp_buffer_size read_irp < sizeof_usbip_header) :
    (do_read env vpdo read_irp irp true).completed =
      [complete_internal_ioctl irp STATUS_INVALID_PARAMETER] := by
  have herr : do_read_err env vpdo read_irp irp = STATUS_INVALID_PARAMETER := by
    simp only [do_read_err, if_pos hun, cmd_unlink_small_buffer env vpdo read_irp _ hbuf]
  have hirp : do_read_irp env vpdo read_irp irp = irp := by
    simp only [do_read_irp, if_pos hun]
  rw [do_read_true_completed, herr, hirp]
  rfl

/-- C20, on the code: a record that carries a non-zero unlink sequence number and whose
UNLINK header cannot be emitted because the read buffer is smaller than a header is
completed by `do_read`, called with `from_read = true`, through `complete_internal_ioctl`
with STATUS_INVALID_PARAMETER, which is not the cancelled status; this is what
`process_read_irp` does with the oldest cancel-pending record when no payload is due. -/
theorem do_read_unlink_not_cancelled (env : Helpers) (vpdo : vpdo_dev_t) (read_irp irp : IRP)
    (hun : get_seqnum_unlink irp ≠ 0)
    (hbuf : get_irp_buffer_size read_irp < sizeof_usbip_header) :
    (do_read env vpdo read_irp irp true).completed =
      [complete_internal_ioctl irp STATUS_INVALID_PARAMETER] ∧
    (complete_internal_ioctl irp STATUS_INVALID_PARAMETER).status ≠ STATUS_CANCELLED ∧
    (∀ (fuel : Nat) (v : vpdo_dev_t) (us : List IRP),
      v.seqnum_payload = 0 → v.rx_unlink_irps = irp :: us →
      (process_read_irp env (fuel + 1) v read_irp).map (fun r => r.completed) =
        some [complete_internal_ioctl irp STATUS_INVALID_PARAMETER]) := by
  refine ⟨do_read_unlink_small_buffer env vpdo read_irp irp hun hbuf,
    (show STATUS_INVALID_PARAMETER ≠ STATUS_CANCELLED by decide), ?_⟩
  intro fuel v us h0 hq
  have hd : dequeue_rx_irp v v.seqnum_payload = (some irp, { v with rx_unlink_irps := us }) := by
    simp only [dequeue_rx_irp, dequeue_rx_unlink_irp, h0, hq, if_true]
  simp only [process_read_irp, hd, Option.map_some',
    do_read_unlink_small_buffer env _ read_irp irp hun hbuf]

/-- C20 at concrete inputs: a read with a buffer of 10 bytes on a device whose only
waiting record is a cancelled URB (unlink sequence number 5) completes that record through
`complete_internal_ioctl` with STATUS_INVALID_PARAMETER; the failure branch of
`send_to_server`, entered for another cancelled record with the same read IRP queued,
completes it through `complete_canceled_irp` with STATUS_CANCELLED. -/
theorem do_read_unlink_not_cancelled_witness :
    get_seqnum_unlink (record 1 5 5) ≠ 0 ∧
    get_irp_buffer_size (read_irp_of_size 10) < sizeof_usbip_header ∧
    (process_read_irp spec_helpers 1 (vpdo_with_queues 0 [] [record 1 5 5] [])
        (read_irp_of_size 10)).map (fun r => r.completed) =
      some [complete_internal_ioctl (record 1 5 5) STATUS_INVALID_PARAMETER] ∧
    ((process_read_irp spec_helpers 1 (vpdo_with_queues 0 [] [record 1 5 5] [])
        (read_irp_of_size 10)).map fun r => completion_log r.completed) =
      some [(completion_routine.complete_internal_ioctl, STATUS_INVALID_PARAMETER, 1)] ∧
    completion_log
      (send_to_server spec_helpers
        (vpdo_with_queues 0 [] [record 1 5 5] [read_irp_of_size 10]) (record 2 6 6)
        true).completed =
      [(completion_routine.CompleteRequest, STATUS_INVALID_PARAMETER, 0),
       (completion_routine.complete_canceled_irp, STATUS_CANCELLED, 1)] :=
  ⟨by decide, by decide,
   (do_read_unlink_not_cancelled spec_helpers default (read_irp_of_size 10) (record 1 5 5)
      (by decide) (by decide)).2.2 0 (vpdo_with_queues 0 [] [record 1 5 5] []) [] rfl rfl,
   by decide, by decide⟩

/-! ## C30: the last occurrence of a character in a counted string -/

theorem strrchr_loop_spec (s : UNICODE_STRING) (ch : Nat) :
    ∀ n, n < 2 ^ 16 →
      (strrchr_loop s ch n = 0 ↔ ∀ i, i < n → s.Buffer i ≠ ch) ∧
      (strrchr_loop s ch n ≠ 0 →
        1 ≤ strrchr_loop s ch n ∧ strrchr_loop s ch n ≤ n ∧
        s.Buffer (strrchr_loop s ch n - 1) = ch ∧
        ∀ j, strrchr_loop s ch n ≤ j → j < n → s.Buffer j ≠ ch) := by
  intro n
  induction n with
  | zero =>
    intro _
    simp [strrchr_loop]
  | succ n ih =>
    intro hn
    obtain ⟨ih1, ih2⟩ := ih (by omega)
    by_cases hc : s.Buffer n = ch
    · have hv : strrchr_loop s ch (n + 1) = n + 1 := by
        simp only [strrchr_loop, if_pos hc]
        exact Nat.mod_eq_of_lt hn
      rw [hv]
      refine ⟨⟨fun h => absurd h (by omega), fun h => absurd hc (h n (by omega))⟩, ?_⟩
      intro _
      refine ⟨by omega, le_refl _, by simpa using hc, ?_⟩
      intro j hj1 hj2
      omega
    · have hv : strrchr_loop s ch (n + 1) = strrchr_loop s ch n := by
        simp only [strrchr_loop, if_neg hc]
      rw [hv]
      refine ⟨⟨?_, ?_⟩, ?_⟩
      · intro h i hi
        by_cases hin : i = n
        · subst hin; exact hc
        · exact ih1.1 h i (by omega)
      · intro h
        exact ih1.2 fun i hi => h i (by omega)
      · intro hne
        obtain ⟨h1, h2, h3, h4⟩ := ih2 hne
        refine ⟨h1, by omega, h3, ?_⟩
        intro j hj1 hj2
        by_cases hjn : j = n
        · subst hjn; exact hc
        · exact h4 j hj1 (by omega)

/-- C30: for a counted string whose `Length` fits a `USHORT` and every character `ch`,
`libdrv::strrchr` returns 0 exactly when `ch` does not occur among the first `Length / 2`
characters; otherwise it returns `r` with `1 <= r <= Length / 2`, `Buffer[r - 1] = ch` and
no `ch` at an index in `[r, Length / 2)`: the 1-based position of the last occurrence.
The conversion to `USHORT` does not change the value. -/
theorem strrchr_last_occurrence (s : UNICODE_STRING) (ch : Nat) (hlen : s.Length ≤ 65535) :
    (strrchr s ch = 0 ↔ ∀ i, i < s.Length / 2 → s.Buffer i ≠ ch) ∧
    (strrchr s ch ≠ 0 →
      1 ≤ strrchr s ch ∧ strrchr s ch ≤ s.Length / 2 ∧
      s.Buffer (strrchr s ch - 1) = ch ∧
      ∀ j, strrchr s ch ≤ j → j < s.Length / 2 → s.Buffer j ≠ ch) ∧
    strrchr s ch < 2 ^ 16 := by
  have hn : s.Length / 2 < 2 ^ 16 := by omega
  obtain ⟨h1, h2⟩ := strrchr_loop_spec s ch (s.Length / 2) hn
  refine ⟨h1, h2, ?_⟩
  by_cases h0 : strrchr s ch = 0
  · rw [h0]; decide
  · have := (h2 h0).2.1
    simp only [strrchr, sizeof_WCHAR] at this ⊢
    omega

/-- C30 at concrete inputs: in the string of the characters 97, 47, 98, 47, 99 the last 47
is the fourth character, 100 does not occur, and the empty string gives 0. -/
theorem strrchr_last_occurrence_witness :
    (unicode_string_of [97, 47, 98, 47, 99]).Length ≤ 65535 ∧
    strrchr (unicode_string_of [97, 47, 98, 47, 99]) 47 = 4 ∧
    strrchr (unicode_string_of [97, 47, 98, 47, 99]) 100 = 0 ∧
    strrchr (unicode_string_of []) 47 = 0 ∧
    (strrchr (unicode_string_of [97, 47, 98, 47, 99]) 47 ≠ 0 →
      (unicode_string_of [97, 47, 98, 47, 99]).Buffer
        (strrchr (unicode_string_of [97, 47, 98, 47, 99]) 47 - 1) = 47) :=
  ⟨by decide, by decide, by decide, by decide,
   fun h => ((strrchr_last_occurrence (unicode_string_of [97, 47, 98, 47, 99]) 47
      (by decide)).2.1 h).2.2.1⟩

/-! ## C28: offsets and lengths of a successful isochronous payload -/

theorem iso_lengths_telescope (r : URB)
    (hok : ∀ k, k < r.NumberOfPackets → iso_packet_ok r k) :
    ∀ n, n < r.NumberOfPackets →
      ((List.range (n + 1)).map fun k => (iso_descriptor r k).length).sum
        + (r.IsoPacket 0).Offset = iso_next_offset r n := by
  intro n
  induction n with
  | zero =>
    intro h0
    have h := (hok 0 h0).1
    have hr : List.range (0 + 1) = [0] := rfl
    rw [hr]
    simp only [List.map_cons, List.map_nil, List.sum_cons, List.sum_nil, iso_descriptor]
    omega
  | succ n ih =>
    intro hn
    have h1 := ih (by omega)
    have h2 := (hok (n + 1) hn).1
    have h3 : iso_next_offset r n = (r.IsoPacket (n + 1)).Offset := by
      simp only [iso_next_offset, if_pos hn]
    rw [List.range_succ, List.map_append, List.sum_append]
    simp only [List.map_cons, List.map_nil, List.sum_cons, List.sum_nil, iso_descriptor]
      at h1 ⊢
    omega

theorem do_copy_payload_loop_sum_lt (r : URB) :
    ∀ (n i dsc sum : Nat) (out : List (Nat × Store)), sum < 2 ^ 32 →
      (do_copy_payload_loop r n i dsc sum out).2.1 < 2 ^ 32 := by
  intro n
  induction n with
  | zero => intro i dsc sum out h; simpa [do_copy_payload_loop] using h
  | succ n ih =>
    intro i dsc sum out h
    rw [do_copy_payload_loop_succ]
    split
    · exact ih _ _ _ _ (Nat.mod_lt _ (by decide))
    · exact h

/-- C28: when `do_copy_payload` succeeds on an isochronous URB with N >= 1 packets and a
`TransferBufferLength` that fits 32 bits, the packet offsets are non-decreasing, the last
offset is at most `TransferBufferLength`, every descriptor stored has `offset + length` at
most `TransferBufferLength`, and the sum of the stored lengths is
`TransferBufferLength - IsoPacket[0].Offset`; the 32-bit local `sum` holds this value,
which is below 2^32, so the additions did not wrap. -/
theorem do_copy_payload_offsets (env : Helpers) (dst : Nat) (r : URB)
    (h : (do_copy_payload env dst r).status = STATUS_SUCCESS)
    (hn : 1 ≤ r.NumberOfPackets) (hl : r.TransferBufferLength < 2 ^ 32) :
    (∀ i, i + 1 < r.NumberOfPackets → (r.IsoPacket i).Offset ≤ (r.IsoPacket (i + 1)).Offset) ∧
    (r.IsoPacket (r.NumberOfPackets - 1)).Offset ≤ r.TransferBufferLength ∧
    (∀ d ∈ emitted_descriptors (do_copy_payload env dst r).stores,
      d.offset + d.length ≤ r.TransferBufferLength) ∧
    (emitted_lengths (do_copy_payload env dst r).stores).sum =
      r.TransferBufferLength - (r.IsoPacket 0).Offset ∧
    (do_copy_payload env dst r).sum = r.TransferBufferLength - (r.IsoPacket 0).Offset ∧
    (emitted_lengths (do_copy_payload env dst r).stores).sum < 2 ^ 32 := by
  obtain ⟨⟨src, hsrc⟩, hok⟩ := do_copy_payload_success env dst r h
  have hlast : iso_next_offset r (r.NumberOfPackets - 1) = r.TransferBufferLength := by
    simp only [iso_next_offset]
    rw [if_neg (by omega)]
  have htel := iso_lengths_telescope r hok (r.NumberOfPackets - 1) (by omega)
  rw [show r.NumberOfPackets - 1 + 1 = r.NumberOfPackets by omega, hlast] at htel
  have hlen : emitted_lengths (do_copy_payload env dst r).stores =
      (List.range r.NumberOfPackets).map fun k => (iso_descriptor r k).length := by
    simp only [emitted_lengths, emitted_descriptors_do_copy_payload env dst r h, List.map_map]
    rfl
  have hsum : (emitted_lengths (do_copy_payload env dst r).stores).sum =
      r.TransferBufferLength - (r.IsoPacket 0).Offset := by
    rw [hlen]; omega
  refine ⟨?_, ?_, ?_, hsum, ?_, by rw [hsum]; omega⟩
  · intro i hi
    have := (hok i (by omega)).1
    simpa only [iso_next_offset, if_pos hi, ge_iff_le] using this
  · have := (hok (r.NumberOfPackets - 1) (by omega)).1
    rw [hlast] at this
    exact this
  · intro d hd
    rw [emitted_descriptors_do_copy_payload env dst r h, List.mem_map] at hd
    obtain ⟨k, hk, rfl⟩ := hd
    have hk2 := hok k (List.mem_range.1 hk)
    simp only [iso_descriptor]
    have h1 := hk2.1
    have h2 := hk2.2
    omega
  · have h3 := (do_copy_payload_of_buffer env dst r src hsrc _ rfl).2.2.1
    have h4 := do_copy_payload_loop_sum r r.NumberOfPackets 0
      (dst + (if env.is_endpoint_direction_out r.PipeHandle then r.TransferBufferLength else 0)) 0
      [(dst, Store.bytes (src.take
        (if env.is_endpoint_direction_out r.PipeHandle then r.TransferBufferLength else 0)))]
      (by simpa using hok)
    have h5 := do_copy_payload_loop_sum_lt r r.NumberOfPackets 0
      (dst + (if env.is_endpoint_direction_out r.PipeHandle then r.TransferBufferLength else 0)) 0
      [(dst, Store.bytes (src.take
        (if env.is_endpoint_direction_out r.PipeHandle then r.TransferBufferLength else 0)))]
      (by decide)
    rw [h3]
    rw [Nat.mod_eq_of_lt h5] at h4
    rw [h4]
    simp only [Nat.zero_add]
    omega

/-- C28 at concrete inputs: the offsets 5, 10, 30 in a transfer buffer of 45 bytes give
the lengths 5, 20, 15, whose sum is 40 = 45 - 5. -/
theorem do_copy_payload_offsets_witness :
    (do_copy_payload spec_helpers 0 (isoch_urb 0x181 45 [5, 10, 30])).status = STATUS_SUCCESS ∧
    emitted_lengths (do_copy_payload spec_helpers 0 (isoch_urb 0x181 45 [5, 10, 30])).stores
      = [5, 20, 15] ∧
    (emitted_lengths (do_copy_payload spec_helpers 0 (isoch_urb 0x181 45 [5, 10, 30])).stores).sum
      = (isoch_urb 0x181 45 [5, 10, 30]).TransferBufferLength
        - ((isoch_urb 0x181 45 [5, 10, 30]).IsoPacket 0).Offset :=
  ⟨by decide, by decide,
   (do_copy_payload_offsets spec_helpers 0 (isoch_urb 0x181 45 [5, 10, 30]) (by decide)
      (by decide) (by decide)).2.2.2.1⟩

/-! ## C27: the payload size of an isochronous URB and the space that was checked -/

theorem do_copy_payload_loop_stores_within (r : URB) :
    ∀ (n i dsc sum : Nat) (out : List (Nat × Store)),
      ∀ s ∈ (do_copy_payload_loop r n i dsc sum out).2.2,
        s ∈ out ∨ (dsc ≤ s.1 ∧ store_end s ≤ dsc + 16 * n) := by
  intro n
  induction n with
  | zero =>
    intro i dsc sum out s hs
    simp only [do_copy_payload_loop] at hs
    exact Or.inl hs
  | succ n ih =>
    intro i dsc sum out s hs
    rw [do_copy_payload_loop_succ] at hs
    split at hs
    · rcases ih _ _ _ _ s hs with h | h
      · rcases List.mem_append.1 h with h | h
        · exact Or.inl h
        · rw [List.mem_singleton] at h
          subst h
          right
          simp only [store_end, sizeof_usbip_iso_packet_descriptor]
          omega
      · right
        omega
    · exact Or.inl hs

theorem do_copy_payload_stores_within (env : Helpers) (dst : Nat) (r : URB) :
    ∀ s ∈ (do_copy_payload env dst r).stores,
      dst ≤ s.1 ∧
      store_end s ≤ dst +
        ((if env.is_endpoint_direction_out r.PipeHandle then r.TransferBufferLength else 0)
          + 16 * r.NumberOfPackets) := by
  intro s hs
  cases hsrc : get_urb_buffer
      (if r.UrbHeader.Function == URB_FUNCTION_ISOCH_TRANSFER_USING_CHAINED_MDL then none
       else r.TransferBuffer) r.TransferBufferMDL with
  | none =>
    simp only [do_copy_payload, hsrc] at hs
    exact absurd hs (List.not_mem_nil s)
  | some src =>
    rw [(do_copy_payload_of_buffer env dst r src hsrc _ rfl).2.1] at hs
    rcases do_copy_payload_loop_stores_within r _ _ _ _ _ s hs with h | h
    · rw [List.mem_singleton] at h
      subst h
      have := List.length_take_le
        (if env.is_endpoint_direction_out r.PipeHandle then r.TransferBufferLength else 0) src
      simp only [store_end]
      omega
    · omega

theorem do_copy_payload_all_ok (env : Helpers) (dst : Nat) (r : URB) (src : List Nat)
    (hsrc : get_urb_buffer
      (if r.UrbHeader.Function == URB_FUNCTION_ISOCH_TRANSFER_USING_CHAINED_MDL then none
       else r.TransferBuffer) r.TransferBufferMDL = some src)
    (hok : ∀ k, k < r.NumberOfPackets → iso_packet_ok r k) :
    (do_copy_payload env dst r).status = STATUS_SUCCESS := by
  rw [(do_copy_payload_of_buffer env dst r src hsrc _ rfl).1]
  exact (do_copy_payload_loop_ok r _ 0 _ _ _ (by simpa using hok)).1

/-- C27, on the code: the size that `get_payload_size` returns wraps modulo 2^32 and
defeats the size check that is made with it.  For the isochronous IN URB with 2^28 packets
`get_payload_size` returns 0 while `NumberOfPackets * 16` is 2^32; the size check of
`urb_isoch_transfer_payload` passes for a read buffer of 16 bytes, `do_copy_payload`
succeeds, and among its stores is the descriptor of packet 1 at byte 16, behind the end of
the read buffer. -/
theorem get_payload_size_wraps :
    get_payload_size spec_helpers (isoch_urb_packets 0x181 (2 ^ 28)) = 0 ∧
    (isoch_urb_packets 0x181 (2 ^ 28)).NumberOfPackets * 16 = 2 ^ 32 ∧
    try_get_irp_buffer (read_irp_of_size 16)
      (get_payload_size spec_helpers (isoch_urb_packets 0x181 (2 ^ 28))) = true ∧
    (do_copy_payload spec_helpers 0 (isoch_urb_packets 0x181 (2 ^ 28))).status
      = STATUS_SUCCESS ∧
    (16, Store.iso ⟨0, 0, 0, 0⟩) ∈
      (do_copy_payload spec_helpers 0 (isoch_urb_packets 0x181 (2 ^ 28))).stores ∧
    get_irp_buffer_size (read_irp_of_size 16) ≤ 16 := by
  have hok : ∀ k, k < (isoch_urb_packets 0x181 (2 ^ 28)).NumberOfPackets →
      iso_packet_ok (isoch_urb_packets 0x181 (2 ^ 28)) k := by
    intro k _
    simp [iso_packet_ok, iso_next_offset, isoch_urb_packets]
  have hst := do_copy_payload_all_ok spec_helpers 0 (isoch_urb_packets 0x181 (2 ^ 28)) [] rfl hok
  refine ⟨by decide, by decide, by decide, hst, ?_, by decide⟩
  rw [do_copy_payload_stores spec_helpers 0 (isoch_urb_packets 0x181 (2 ^ 28)) [] rfl hst 0 rfl]
  refine List.mem_cons_of_mem _ (List.mem_map.2 ⟨1, List.mem_range.2 (by decide), ?_⟩)
  simp [iso_descriptor, iso_next_offset, isoch_urb_packets]

/-- Where the sum does not wrap: for every isochronous URB for which `NumberOfPackets * 16 +
(TransferBufferLength if the pipe is OUT, else 0)` is below 2^32, `get_payload_size`
returns exactly this number, every store of `do_copy_payload` lies within that many bytes
from its destination, and whenever the size check of `urb_isoch_transfer_payload` or of
`urb_isoch_transfer` passes, every store made lies within the read buffer. -/
theorem get_payload_size_exact (env : Helpers) (r : URB)
    (hsz : r.NumberOfPackets * 16 +
      (if env.is_endpoint_direction_out r.PipeHandle then r.TransferBufferLength else 0)
        < 2 ^ 32) :
    get_payload_size env r = r.NumberOfPackets * 16 +
      (if env.is_endpoint_direction_out r.PipeHandle then r.TransferBufferLength else 0) ∧
    (∀ dst, ∀ s ∈ (do_copy_payload env dst r).stores,
      dst ≤ s.1 ∧ store_end s ≤ dst + get_payload_size env r) ∧
    (∀ irp : IRP, ∀ s ∈ (urb_isoch_transfer_payload env irp r).2.stores,
      s ∈ irp.stores ∨ store_end s ≤ get_irp_buffer_size irp) ∧
    (∀ (vpdo : vpdo_dev_t) (irp urb_irp : IRP), get_irp_buffer_size irp < 2 ^ 64 →
      ∀ s ∈ (urb_isoch_transfer env vpdo irp urb_irp r).read_irp.stores,
        s ∈ irp.stores ∨
          (sizeof_usbip_header ≤ s.1 ∧ store_end s ≤ get_irp_buffer_size irp)) := by
  have hg : get_payload_size env r = r.NumberOfPackets * 16 +
      (if env.is_endpoint_direction_out r.PipeHandle then r.TransferBufferLength else 0) := by
    by_cases hd : env.is_endpoint_direction_out r.PipeHandle = true
    · simp only [get_payload_size, sizeof_usbip_iso_packet_descriptor, hd, if_true] at hsz ⊢
      omega
    · simp only [get_payload_size, sizeof_usbip_iso_packet_descriptor, hd, if_false,
        Bool.false_eq_true] at hsz ⊢
      omega
  have hw : ∀ dst, ∀ s ∈ (do_copy_payload env dst r).stores,
      dst ≤ s.1 ∧ store_end s ≤ dst + get_payload_size env r := by
    intro dst s hs
    have := do_copy_payload_stores_within env dst r s hs
    rw [hg]
    omega
  refine ⟨hg, hw, ?_, ?_⟩
  · intro irp s hs
    simp only [urb_isoch_transfer_payload] at hs
    split at hs
    · rename_i hchk
      simp only [try_get_irp_buffer, decide_eq_true_eq, ge_iff_le] at hchk
      simp only [copy_payload] at hs
      split at hs
      all_goals
        simp only [List.mem_append] at hs
        rcases hs with hs | hs
        · exact Or.inl hs
        · right
          have := (hw 0 s hs).2
          omega
    · exact Or.inl hs
  · intro vpdo irp urb_irp hlen s hs
    rcases hset : env.set_cmd_submit_usbip_header vpdo irp.hdr r.PipeHandle
        (r.TransferFlags ||| USBD_START_ISO_TRANSFER_ASAP) r.TransferBufferLength
      with ⟨err, v, h⟩
    simp only [urb_isoch_transfer, hset] at hs
    split_ifs at hs with h1 h2 h3 h4
    all_goals first
      | exact Or.inl hs
      | skip
    simp only [get_usbip_header, try_get_irp_buffer, Bool.not_eq_true', decide_eq_false_iff_not,
      not_not, ge_iff_le, get_irp_buffer_size] at h2
    simp only [get_irp_buffer_size, sizeof_usbip_header] at h4 h2 hlen
    simp only [copy_payload] at hs
    split_ifs at hs
    all_goals
      simp only [List.mem_append] at hs
      rcases hs with hs | hs
      · exact Or.inl hs
      · right
        have := hw sizeof_usbip_header s hs
        simp only [get_irp_buffer_size, sizeof_usbip_header] at this ⊢
        omega

/-- At concrete inputs: for the OUT URB with three packets and a transfer buffer of 45
bytes the payload size is 3 * 16 + 45 = 93, and a payload read into a buffer of 93 bytes
stores nothing behind byte 93. -/
theorem get_payload_size_exact_witness :
    (isoch_urb 0x101 45 [0, 10, 30]).NumberOfPackets * 16 +
      (if spec_helpers.is_endpoint_direction_out (isoch_urb 0x101 45 [0, 10, 30]).PipeHandle
       then (isoch_urb 0x101 45 [0, 10, 30]).TransferBufferLength else 0) < 2 ^ 32 ∧
    get_payload_size spec_helpers (isoch_urb 0x101 45 [0, 10, 30]) = 93 ∧
    (urb_isoch_transfer_payload spec_helpers (read_irp_of_size 93)
      (isoch_urb 0x101 45 [0, 10, 30])).1 = STATUS_SUCCESS ∧
    ((urb_isoch_transfer_payload spec_helpers (read_irp_of_size 93)
      (isoch_urb 0x101 45 [0, 10, 30])).2.stores.map store_end) = [45, 61, 77, 93] ∧
    (∀ s ∈ (urb_isoch_transfer_payload spec_helpers (read_irp_of_size 93)
        (isoch_urb 0x101 45 [0, 10, 30])).2.stores,
      s ∈ (read_irp_of_size 93).stores ∨ store_end s ≤ get_irp_buffer_size (read_irp_of_size 93)) :=
  ⟨by decide, by decide, by decide, by decide,
   (get_payload_size_exact spec_helpers (isoch_urb 0x101 45 [0, 10, 30]) (by decide)).2.2.1
      (read_irp_of_size 93)⟩

/-! ## C23: the bytes transferred for a bulk or interrupt URB -/

theorem urb_bulk_or_interrupt_transfer_result (env : Helpers) (vpdo : vpdo_dev_t)
    (irp urb_irp : IRP) (urb : URB)
    (hb : sizeof_usbip_header ≤ irp.Length) (hb32 : irp.Length < 2 ^ 32)
    (hn : urb.TransferBufferLength < 2 ^ 32)
    (hok : (urb_bulk_or_interrupt_transfer env vpdo irp urb_irp urb).status = STATUS_SUCCESS) :
    (urb_bulk_or_interrupt_transfer env vpdo irp urb_irp urb).read_irp.hdr =
      (env.set_cmd_submit_usbip_header vpdo irp.hdr urb.PipeHandle urb.TransferFlags
        urb.TransferBufferLength).2.2 ∧
    ((urb.TransferBufferLength ≠ 0 ∧
        env.is_transfer_direction_out
          (urb_bulk_or_interrupt_transfer env vpdo irp urb_irp urb).read_irp.hdr = true ∧
        urb.TransferBufferLength ≤ irp.Length - sizeof_usbip_header) →
      (urb_bulk_or_interrupt_transfer env vpdo irp urb_irp urb).read_irp.Information =
        sizeof_usbip_header + urb.TransferBufferLength) ∧
    (¬ (urb.TransferBufferLength ≠ 0 ∧
        env.is_transfer_direction_out
          (urb_bulk_or_interrupt_transfer env vpdo irp urb_irp urb).read_irp.hdr = true ∧
        urb.TransferBufferLength ≤ irp.Length - sizeof_usbip_header) →
      (urb_bulk_or_interrupt_transfer env vpdo irp urb_irp urb).read_irp.Information =
        sizeof_usbip_header ∧
      (urb_bulk_or_interrupt_transfer env vpdo irp urb_irp urb).read_irp.stores = irp.stores) := by
  rcases hset : env.set_cmd_submit_usbip_header vpdo irp.hdr urb.PipeHandle urb.TransferFlags
      urb.TransferBufferLength with ⟨err, v, h⟩
  have hh : get_usbip_header irp = true := by
    simp only [get_usbip_header, try_get_irp_buffer, get_irp_buffer_size, decide_eq_true_eq]
    exact hb
  simp only [urb_bulk_or_interrupt_transfer, hset, hh, Bool.not_true, Bool.false_eq_true,
    if_false] at hok ⊢
  by_cases htype : ¬(env.get_endpoint_type urb.PipeHandle = UsbdPipeTypeBulk ∨
      env.get_endpoint_type urb.PipeHandle = UsbdPipeTypeInterrupt)
  · rw [if_pos htype] at hok
    exact absurd hok (show STATUS_INVALID_PARAMETER ≠ STATUS_SUCCESS by decide)
  rw [if_neg htype] at hok ⊢
  by_cases herr : err ≠ 0
  · rw [if_pos herr] at hok
    exact absurd hok herr
  rw [if_neg herr] at hok ⊢
  by_cases hout : urb.TransferBufferLength ≠ 0 ∧ env.is_transfer_direction_out h = true
  · rw [if_pos hout] at hok ⊢
    have hhdr := copy_transfer_buffer_hdr
      { irp with hdr := h, Information := sizeof_usbip_header } urb
    simp only [copy_transfer_buffer, get_irp_buffer_size, sizeof_usbip_header] at hok hhdr ⊢
    simp only [sizeof_usbip_header] at hb
    have e1 : (irp.Length + 2 ^ 32 - 48 % 2 ^ 32) % 2 ^ 32 = irp.Length - 48 := by omega
    rw [e1] at hok hhdr ⊢
    by_cases hroom : irp.Length - 48 ≥ urb.TransferBufferLength
    · rw [if_pos hroom] at hok hhdr ⊢
      simp only [do_copy_transfer_buffer] at hok hhdr ⊢
      cases hbuf : get_urb_buffer
          (if urb.UrbHeader.Function == URB_FUNCTION_BULK_OR_INTERRUPT_TRANSFER_USING_CHAINED_MDL
           then none else urb.TransferBuffer) urb.TransferBufferMDL with
      | none =>
        rw [hbuf] at hok
        exact absurd hok (show STATUS_INSUFFICIENT_RESOURCES ≠ STATUS_SUCCESS by decide)
      | some buf =>
        refine ⟨rfl, ?_, ?_⟩
        · intro _
          show (48 + urb.TransferBufferLength) % 2 ^ 64 = 48 + urb.TransferBufferLength
          omega
        · intro hneg
          exact absurd ⟨hout.1, hout.2, hroom⟩ hneg
    · rw [if_neg hroom] at hok hhdr ⊢
      refine ⟨rfl, ?_, ?_⟩
      · intro hpos
        exact absurd hpos.2.2 hroom
      · intro _
        exact ⟨rfl, rfl⟩
  · rw [if_neg hout] at hok ⊢
    refine ⟨rfl, ?_, ?_⟩
    · intro hpos
      exact absurd ⟨hpos.1, hpos.2.1⟩ hout
    · intro _
      exact ⟨rfl, rfl⟩

/-- C23: for a bulk or interrupt URB (function code BULK_OR_INTERRUPT_TRANSFER or its
chained-MDL variant) that `usb_submit_urb` translates successfully into a read buffer of
`b >= 48` bytes (`b` and the transfer length `n` fit 32 bits): the bytes transferred are
exactly 48 when the header as built says IN or `n = 0`; when it says OUT and `n > 0` they
are exactly `48 + n` if `n <= b - 48` and exactly 48 otherwise.  So the count is 48 or
`48 + n`, never in between, and it meets the assertion of `debug` whenever the size of the
PDU of the header is `48 + n` for OUT. -/
theorem usb_submit_urb_bulk_bytes (env : Helpers) (vpdo : vpdo_dev_t) (read_irp irp : IRP)
    (urb : URB) (hurb : irp.urb = some urb)
    (hf : urb.UrbHeader.Function = URB_FUNCTION_BULK_OR_INTERRUPT_TRANSFER ∨
      urb.UrbHeader.Function = URB_FUNCTION_BULK_OR_INTERRUPT_TRANSFER_USING_CHAINED_MDL)
    (hb : sizeof_usbip_header ≤ read_irp.Length) (hb32 : read_irp.Length < 2 ^ 32)
    (hn : urb.TransferBufferLength < 2 ^ 32)
    (hok : (usb_submit_urb env vpdo read_irp irp).status = STATUS_SUCCESS) :
    ((env.is_transfer_direction_out (usb_submit_urb env vpdo read_irp irp).read_irp.hdr = false ∨
        urb.TransferBufferLength = 0) →
      (usb_submit_urb env vpdo read_irp irp).read_irp.Information = 48) ∧
    (env.is_transfer_direction_out (usb_submit_urb env vpdo read_irp irp).read_irp.hdr = true →
      0 < urb.TransferBufferLength →
      (urb.TransferBufferLength ≤ read_irp.Length - 48 →
        (usb_submit_urb env vpdo read_irp irp).read_irp.Information
          = 48 + urb.TransferBufferLength) ∧
      (read_irp.Length - 48 < urb.TransferBufferLength →
        (usb_submit_urb env vpdo read_irp irp).read_irp.Information = 48)) ∧
    ((usb_submit_urb env vpdo read_irp irp).read_irp.Information = 48 ∨
      (usb_submit_urb env vpdo read_irp irp).read_irp.Information
        = 48 + urb.TransferBufferLength) ∧
    (env.get_pdu_size (usb_submit_urb env vpdo read_irp irp).read_irp.hdr
        = 48 + (if env.is_transfer_direction_out
                  (usb_submit_urb env vpdo read_irp irp).read_irp.hdr
                then urb.TransferBufferLength else 0) →
      (usb_submit_urb env vpdo read_irp irp).read_irp.Information = sizeof_usbip_header ∨
      ((usb_submit_urb env vpdo read_irp irp).read_irp.Information > sizeof_usbip_header ∧
        (usb_submit_urb env vpdo read_irp irp).read_irp.Information =
          env.get_pdu_size (usb_submit_urb env vpdo read_irp irp).read_irp.hdr)) := by
  have hsub : usb_submit_urb env vpdo read_irp irp =
      urb_bulk_or_interrupt_transfer env vpdo read_irp irp urb := by
    rcases hf with hf | hf
    · exact usb_submit_urb_some env vpdo read_irp irp urb hurb _ (by rw [hf]; rfl)
    · exact usb_submit_urb_some env vpdo read_irp irp urb hurb _ (by rw [hf]; rfl)
  rw [hsub] at hok ⊢
  obtain ⟨_, hfull, hhdr⟩ :=
    urb_bulk_or_interrupt_transfer_result env vpdo read_irp irp urb hb hb32 hn hok
  simp only [sizeof_usbip_header] at hfull hhdr hb ⊢
  generalize (urb_bulk_or_interrupt_transfer env vpdo read_irp irp urb).read_irp = ri at *
  by_cases hc : urb.TransferBufferLength ≠ 0 ∧ env.is_transfer_direction_out ri.hdr = true ∧
      urb.TransferBufferLength ≤ read_irp.Length - 48
  · have hi := hfull hc
    refine ⟨?_, ?_, Or.inr hi, ?_⟩
    · intro h
      rcases h with h | h
      · rw [hc.2.1] at h; exact absurd h (by decide)
      · exact absurd h hc.1
    · intro _ _
      exact ⟨fun _ => hi, fun h => absurd hc.2.2 (by omega)⟩
    · intro hp
      right
      rw [hc.2.1, if_pos rfl] at hp
      have := hc.1
      omega
  · have hi := (hhdr hc).1
    refine ⟨fun _ => hi, ?_, Or.inl hi, fun _ => Or.inl hi⟩
    intro hout hpos
    refine ⟨?_, fun _ => hi⟩
    intro hle
    exact absurd ⟨by omega, hout, hle⟩ hc

/-- C23 at concrete inputs (scenario S2): a bulk OUT URB of 512 bytes on endpoint 2 read
into a buffer of 560 bytes transfers 48 + 512 bytes; read into a buffer of 48 bytes it
transfers the 48 bytes of the header; a bulk IN URB transfers 48 bytes whatever the
buffer. -/
theorem usb_submit_urb_bulk_bytes_witness :
    (usb_submit_urb spec_helpers default (read_irp_of_size 560)
      (urb_irp_of (bulk_urb URB_FUNCTION_BULK_OR_INTERRUPT_TRANSFER 0x202 0 512))).status
      = STATUS_SUCCESS ∧
    (usb_submit_urb spec_helpers default (read_irp_of_size 560)
      (urb_irp_of (bulk_urb URB_FUNCTION_BULK_OR_INTERRUPT_TRANSFER 0x202 0
        512))).read_irp.Information = 48 + 512 ∧
    (usb_submit_urb spec_helpers default (read_irp_of_size 560)
      (urb_irp_of (bulk_urb URB_FUNCTION_BULK_OR_INTERRUPT_TRANSFER 0x202 0
        512))).read_irp.hdr.base.ep = 2 ∧
    (usb_submit_urb spec_helpers default (read_irp_of_size 48)
      (urb_irp_of (bulk_urb URB_FUNCTION_BULK_OR_INTERRUPT_TRANSFER 0x202 0
        512))).read_irp.Information = 48 ∧
    (usb_submit_urb spec_helpers default (read_irp_of_size 560)
      (urb_irp_of (bulk_urb URB_FUNCTION_BULK_OR_INTERRUPT_TRANSFER 0x282 1
        512))).read_irp.Information = 48 :=
  ⟨by decide,
   ((usb_submit_urb_bulk_bytes spec_helpers default (read_irp_of_size 560)
      (urb_irp_of (bulk_urb URB_FUNCTION_BULK_OR_INTERRUPT_TRANSFER 0x202 0 512))
      (bulk_urb URB_FUNCTION_BULK_OR_INTERRUPT_TRANSFER 0x202 0 512) rfl (Or.inl rfl)
      (by decide) (by decide) (by decide) (by decide)).2.1 (by decide) (by decide)).1
      (by decide),
   by decide, by decide, by decide⟩

/-! ## C26: the dispatch of the payload phase -/

/-- C26, on the code: for the two chained-MDL function codes, for which the dispatch table
has the handlers `urb_bulk_or_interrupt_transfer` and `urb_isoch_transfer` and which the
copiers `do_copy_transfer_buffer` and `do_copy_payload` test for, `read_payload` takes its
default branch: it returns STATUS_INVALID_PARAMETER and leaves the read IRP as it was.
For the other fifteen codes named with a payload it calls `urb_isoch_transfer_payload` or
`transfer_payload`. -/
theorem read_payload_chained_mdl (env : Helpers) (read_irp irp : IRP) (urb : URB)
    (hurb : irp.urb = some urb) :
    ((urb.UrbHeader.Function = URB_FUNCTION_BULK_OR_INTERRUPT_TRANSFER_USING_CHAINED_MDL ∨
      urb.UrbHeader.Function = URB_FUNCTION_ISOCH_TRANSFER_USING_CHAINED_MDL) →
      read_payload env read_irp irp = (STATUS_INVALID_PARAMETER, read_irp) ∧
      (urb_functions.getD urb.UrbHeader.Function none).isSome = true) ∧
    (urb.UrbHeader.Function = URB_FUNCTION_ISOCH_TRANSFER →
      read_payload env read_irp irp = urb_isoch_transfer_payload env read_irp urb) ∧
    (urb.UrbHeader.Function ∈
        [URB_FUNCTION_BULK_OR_INTERRUPT_TRANSFER, URB_FUNCTION_CONTROL_TRANSFER,
         URB_FUNCTION_CONTROL_TRANSFER_EX, URB_FUNCTION_SET_DESCRIPTOR_TO_DEVICE,
         URB_FUNCTION_SET_DESCRIPTOR_TO_INTERFACE, URB_FUNCTION_SET_DESCRIPTOR_TO_ENDPOINT,
         URB_FUNCTION_CLASS_DEVICE, URB_FUNCTION_CLASS_INTERFACE, URB_FUNCTION_CLASS_ENDPOINT,
         URB_FUNCTION_CLASS_OTHER, URB_FUNCTION_VENDOR_DEVICE, URB_FUNCTION_VENDOR_INTERFACE,
         URB_FUNCTION_VENDOR_ENDPOINT, URB_FUNCTION_VENDOR_OTHER] →
      read_payload env read_irp irp = transfer_payload read_irp urb) := by
  refine ⟨?_, ?_, ?_⟩
  · intro hf
    rcases hf with hf | hf
    · refine ⟨?_, by rw [hf]; rfl⟩
      simp only [read_payload, hurb, hf]
      rfl
    · refine ⟨?_, by rw [hf]; rfl⟩
      simp only [read_payload, hurb, hf]
      rfl
  · intro hf
    simp only [read_payload, hurb, hf, if_true]
  · intro hf
    simp only [List.mem_cons, List.mem_singleton, List.not_mem_nil, or_false] at hf
    rcases hf with hf | hf | hf | hf | hf | hf | hf | hf | hf | hf | hf | hf | hf | hf <;>
      (simp only [read_payload, hurb, hf]; rfl)

/-- C26 at concrete inputs: a bulk OUT URB of 512 bytes with the chained-MDL function code
is translated into a read buffer of 48 bytes with success, 48 bytes transferred and the
payload marker armed; the read of its payload into a buffer of 512 bytes is aborted and
the URB is completed with STATUS_INVALID_PARAMETER.  With the plain function code the
same read transfers the 512 bytes. -/
theorem read_payload_chained_mdl_witness :
    (urb_irp_of (bulk_urb URB_FUNCTION_BULK_OR_INTERRUPT_TRANSFER_USING_CHAINED_MDL 0x202 0
      512)).urb.map (fun u => u.UrbHeader.Function) = some 0x37 ∧
    (read_payload spec_helpers (read_irp_of_size 512)
      (urb_irp_of (bulk_urb URB_FUNCTION_BULK_OR_INTERRUPT_TRANSFER_USING_CHAINED_MDL 0x202 0
        512))).1 = STATUS_INVALID_PARAMETER ∧
    (do_read spec_helpers default (read_irp_of_size 48)
      (urb_irp_of (bulk_urb URB_FUNCTION_BULK_OR_INTERRUPT_TRANSFER_USING_CHAINED_MDL 0x202 0
        512)) true).status = STATUS_SUCCESS ∧
    (do_read spec_helpers default (read_irp_of_size 48)
      (urb_irp_of (bulk_urb URB_FUNCTION_BULK_OR_INTERRUPT_TRANSFER_USING_CHAINED_MDL 0x202 0
        512)) true).read_irp.Information = 48 ∧
    (do_read spec_helpers default (read_irp_of_size 48)
      (urb_irp_of (bulk_urb URB_FUNCTION_BULK_OR_INTERRUPT_TRANSFER_USING_CHAINED_MDL 0x202 0
        512)) true).vpdo.seqnum_payload = 1 ∧
    ((process_read_irp spec_helpers 1
      (do_read spec_helpers default (read_irp_of_size 48)
        (urb_irp_of (bulk_urb URB_FUNCTION_BULK_OR_INTERRUPT_TRANSFER_USING_CHAINED_MDL 0x202 0
          512)) true).vpdo
      (read_irp_of_size 512)).map fun r => (r.status, completion_log r.completed)) =
      some (STATUS_REQUEST_ABORTED,
        [(completion_routine.complete_internal_ioctl, STATUS_INVALID_PARAMETER, 0)]) ∧
    ((process_read_irp spec_helpers 1
      (do_read spec_helpers default (read_irp_of_size 48)
        (urb_irp_of (bulk_urb URB_FUNCTION_BULK_OR_INTERRUPT_TRANSFER 0x202 0 512)) true).vpdo
      (read_irp_of_size 512)).map fun r => (r.status, r.read_irp.Information)) =
      some (STATUS_SUCCESS, 512) :=
  ⟨rfl,
   congrArg Prod.fst
     ((read_payload_chained_mdl spec_helpers (read_irp_of_size 512)
        (urb_irp_of (bulk_urb URB_FUNCTION_BULK_OR_INTERRUPT_TRANSFER_USING_CHAINED_MDL 0x202 0
          512))
        (bulk_urb URB_FUNCTION_BULK_OR_INTERRUPT_TRANSFER_USING_CHAINED_MDL 0x202 0 512)
        rfl).1 (Or.inl rfl)).1,
   by decide, by decide, by decide, by decide, by decide⟩

/-! ## What the phases of a read leave alone -/

theorem same_queues_refl (v : vpdo_dev_t) : same_queues v v := ⟨rfl, rfl, rfl, rfl, rfl⟩

theorem do_copy_transfer_buffer_length (dst : Nat) (urb : URB) (irp : IRP) :
    (do_copy_transfer_buffer dst urb irp).2.Length = irp.Length ∧
    (do_copy_transfer_buffer dst urb irp).2.hdr = irp.hdr := by
  simp only [do_copy_transfer_buffer]
  split <;> exact ⟨rfl, rfl⟩

theorem copy_transfer_buffer_length (irp : IRP) (urb : URB) :
    (copy_transfer_buffer irp urb).2.Length = irp.Length := by
  simp only [copy_transfer_buffer]
  split
  · exact (do_copy_transfer_buffer_length _ urb irp).1
  · rfl

theorem copy_payload_length (env : Helpers) (dst : Nat) (irp : IRP) (r : URB) (expected : Nat) :
    (copy_payload env dst irp r expected).2.Length = irp.Length ∧
    (copy_payload env dst irp r expected).2.hdr = irp.hdr := by
  simp only [copy_payload]
  split <;> exact ⟨rfl, rfl⟩

theorem get_usbip_header_length (irp : IRP) (h : get_usbip_header irp = true) :
    sizeof_usbip_header ≤ irp.Length := by
  simpa only [get_usbip_header, try_get_irp_buffer, get_irp_buffer_size, decide_eq_true_eq,
    ge_iff_le] using h

theorem get_usbip_header_of_not (irp : IRP) (h : ¬ (!get_usbip_header irp) = true) :
    sizeof_usbip_header ≤ irp.Length := by
  apply get_usbip_header_length
  cases hh : get_usbip_header irp with
  | true => rfl
  | false => rw [hh] at h; exact absurd rfl h



theorem urb_control_descriptor_request_frame (env : Helpers) (hk : helpers_keep_queues env) (vpdo : vpdo_dev_t)
    (irp urb_irp : IRP) (urb : URB) (dir_in : Bool) (recipient : Nat) :
    urb_result_frame vpdo irp urb_irp (urb_control_descriptor_request env vpdo irp urb_irp urb dir_in recipient) := by
  have hq := hk.1 vpdo irp.hdr EP0
      (USBD_DEFAULT_PIPE_TRANSFER |||
        (if dir_in then USBD_SHORT_TRANSFER_OK ||| USBD_TRANSFER_DIRECTION_IN
         else USBD_TRANSFER_DIRECTION_OUT)) urb.TransferBufferLength
  rcases hset : env.set_cmd_submit_usbip_header vpdo irp.hdr EP0
      (USBD_DEFAULT_PIPE_TRANSFER |||
        (if dir_in then USBD_SHORT_TRANSFER_OK ||| USBD_TRANSFER_DIRECTION_IN
         else USBD_TRANSFER_DIRECTION_OUT)) urb.TransferBufferLength with ⟨err, v, h⟩
  rw [hset] at hq
  simp only [urb_control_descriptor_request, hset]
  split_ifs
  all_goals refine ⟨?_, ?_, ?_, fun hs => ?_⟩
  all_goals first
    | exact hq
    | exact same_queues_refl vpdo
    | exact Or.inl rfl
    | exact Or.inr ⟨_, rfl⟩
    | exact copy_transfer_buffer_length _ _
    | exact (copy_payload_length env _ _ _ _).1
    | exact get_usbip_header_of_not irp (by assumption)
    | exact absurd hs (by assumption)
    | exact absurd hs (show STATUS_BUFFER_TOO_SMALL ≠ STATUS_SUCCESS by decide)
    | rfl


theorem urb_control_get_status_request_frame (env : Helpers) (hk : helpers_keep_queues env) (vpdo : vpdo_dev_t)
    (irp urb_irp : IRP) (urb : URB) (recipient : Nat) :
    urb_result_frame vpdo irp urb_irp (urb_control_get_status_request env vpdo irp urb_irp urb recipient) := by
  have hq := hk.1 vpdo irp.hdr EP0
      (USBD_DEFAULT_PIPE_TRANSFER ||| USBD_TRANSFER_DIRECTION_IN) urb.TransferBufferLength
  rcases hset : env.set_cmd_submit_usbip_header vpdo irp.hdr EP0
      (USBD_DEFAULT_PIPE_TRANSFER ||| USBD_TRANSFER_DIRECTION_IN) urb.TransferBufferLength with ⟨err, v, h⟩
  rw [hset] at hq
  simp only [urb_control_get_status_request, hset]
  split_ifs
  all_goals refine ⟨?_, ?_, ?_, fun hs => ?_⟩
  all_goals first
    | exact hq
    | exact same_queues_refl vpdo
    | exact Or.inl rfl
    | exact Or.inr ⟨_, rfl⟩
    | exact copy_transfer_buffer_length _ _
    | exact (copy_payload_length env _ _ _ _).1
    | exact get_usbip_header_of_not irp (by assumption)
    | exact absurd hs (by assumption)
    | exact absurd hs (show STATUS_BUFFER_TOO_SMALL ≠ STATUS_SUCCESS by decide)
    | rfl


theorem urb_control_vendor_class_request_frame (env : Helpers) (hk : helpers_keep_queues env) (vpdo : vpdo_dev_t)
    (irp urb_irp : IRP) (urb : URB) (type recipient : Nat) :
    urb_result_frame vpdo irp urb_irp (urb_control_vendor_class_request env vpdo irp urb_irp urb type recipient) := by
  have hq := hk.1 vpdo irp.hdr EP0
      (urb.TransferFlags ||| USBD_DEFAULT_PIPE_TRANSFER) urb.TransferBufferLength
  rcases hset : env.set_cmd_submit_usbip_header vpdo irp.hdr EP0
      (urb.TransferFlags ||| USBD_DEFAULT_PIPE_TRANSFER) urb.TransferBufferLength with ⟨err, v, h⟩
  rw [hset] at hq
  simp only [urb_control_vendor_class_request, hset]
  split_ifs
  all_goals refine ⟨?_, ?_, ?_, fun hs => ?_⟩
  all_goals first
    | exact hq
    | exact same_queues_refl vpdo
    | exact Or.inl rfl
    | exact Or.inr ⟨_, rfl⟩
    | exact copy_transfer_buffer_length _ _
    | exact (copy_payload_length env _ _ _ _).1
    | exact get_usbip_header_of_not irp (by assumption)
    | exact absurd hs (by assumption)
    | exact absurd hs (show STATUS_BUFFER_TOO_SMALL ≠ STATUS_SUCCESS by decide)
    | rfl


theorem urb_control_feature_request_frame (env : Helpers) (hk : helpers_keep_queues env) (vpdo : vpdo_dev_t)
    (irp urb_irp : IRP) (urb : URB) (bRequest recipient : Nat) :
    urb_result_frame vpdo irp urb_irp (urb_control_feature_request env vpdo irp urb_irp urb bRequest recipient) := by
  have hq := hk.1 vpdo irp.hdr EP0
      (USBD_DEFAULT_PIPE_TRANSFER ||| USBD_TRANSFER_DIRECTION_OUT) 0
  rcases hset : env.set_cmd_submit_usbip_header vpdo irp.hdr EP0
      (USBD_DEFAULT_PIPE_TRANSFER ||| USBD_TRANSFER_DIRECTION_OUT) 0 with ⟨err, v, h⟩
  rw [hset] at hq
  simp only [urb_control_feature_request, hset]
  split_ifs
  all_goals refine ⟨?_, ?_, ?_, fun hs => ?_⟩
  all_goals first
    | exact hq
    | exact same_queues_refl vpdo
    | exact Or.inl rfl
    | exact Or.inr ⟨_, rfl⟩
    | exact copy_transfer_buffer_length _ _
    | exact (copy_payload_length env _ _ _ _).1
    | exact get_usbip_header_of_not irp (by assumption)
    | exact absurd hs (by assumption)
    | exact absurd hs (show STATUS_BUFFER_TOO_SMALL ≠ STATUS_SUCCESS by decide)
    | rfl


theorem urb_select_configuration_frame (env : Helpers) (hk : helpers_keep_queues env) (vpdo : vpdo_dev_t)
    (irp urb_irp : IRP) (urb : URB) :
    urb_result_frame vpdo irp urb_irp (urb_select_configuration env vpdo irp urb_irp urb) := by
  have hq := hk.1 vpdo irp.hdr EP0
      (USBD_DEFAULT_PIPE_TRANSFER ||| USBD_TRANSFER_DIRECTION_OUT) 0
  rcases hset : env.set_cmd_submit_usbip_header vpdo irp.hdr EP0
      (USBD_DEFAULT_PIPE_TRANSFER ||| USBD_TRANSFER_DIRECTION_OUT) 0 with ⟨err, v, h⟩
  rw [hset] at hq
  simp only [urb_select_configuration, hset]
  split_ifs
  all_goals refine ⟨?_, ?_, ?_, fun hs => ?_⟩
  all_goals first
    | exact hq
    | exact same_queues_refl vpdo
    | exact Or.inl rfl
    | exact Or.inr ⟨_, rfl⟩
    | exact copy_transfer_buffer_length _ _
    | exact (copy_payload_length env _ _ _ _).1
    | exact get_usbip_header_of_not irp (by assumption)
    | exact absurd hs (by assumption)
    | exact absurd hs (show STATUS_BUFFER_TOO_SMALL ≠ STATUS_SUCCESS by decide)
    | rfl


theorem urb_select_interface_frame (env : Helpers) (hk : helpers_keep_queues env) (vpdo : vpdo_dev_t)
    (irp urb_irp : IRP) (urb : URB) :
    urb_result_frame vpdo irp urb_irp (urb_select_interface env vpdo irp urb_irp urb) := by
  have hq := hk.1 vpdo irp.hdr EP0
      (USBD_DEFAULT_PIPE_TRANSFER ||| USBD_TRANSFER_DIRECTION_OUT) 0
  rcases hset : env.set_cmd_submit_usbip_header vpdo irp.hdr EP0
      (USBD_DEFAULT_PIPE_TRANSFER ||| USBD_TRANSFER_DIRECTION_OUT) 0 with ⟨err, v, h⟩
  rw [hset] at hq
  simp only [urb_select_interface, hset]
  split_ifs
  all_goals refine ⟨?_, ?_, ?_, fun hs => ?_⟩
  all_goals first
    | exact hq
    | exact same_queues_refl vpdo
    | exact Or.inl rfl
    | exact Or.inr ⟨_, rfl⟩
    | exact copy_transfer_buffer_length _ _
    | exact (copy_payload_length env _ _ _ _).1
    | exact get_usbip_header_of_not irp (by assumption)
    | exact absurd hs (by assumption)
    | exact absurd hs (show STATUS_BUFFER_TOO_SMALL ≠ STATUS_SUCCESS by decide)
    | rfl


theorem sync_reset_pipe_and_clear_stall_frame (env : Helpers) (hk : helpers_keep_queues env) (vpdo : vpdo_dev_t)
    (irp urb_irp : IRP) (urb : URB) :
    urb_result_frame vpdo irp urb_irp (sync_reset_pipe_and_clear_stall env vpdo irp urb_irp urb) := by
  have hq := hk.1 vpdo irp.hdr EP0
      (USBD_DEFAULT_PIPE_TRANSFER ||| USBD_TRANSFER_DIRECTION_OUT) 0
  rcases hset : env.set_cmd_submit_usbip_header vpdo irp.hdr EP0
      (USBD_DEFAULT_PIPE_TRANSFER ||| USBD_TRANSFER_DIRECTION_OUT) 0 with ⟨err, v, h⟩
  rw [hset] at hq
  simp only [sync_reset_pipe_and_clear_stall, hset]
  split_ifs
  all_goals refine ⟨?_, ?_, ?_, fun hs => ?_⟩
  all_goals first
    | exact hq
    | exact same_queues_refl vpdo
    | exact Or.inl rfl
    | exact Or.inr ⟨_, rfl⟩
    | exact copy_transfer_buffer_length _ _
    | exact (copy_payload_length env _ _ _ _).1
    | exact get_usbip_header_of_not irp (by assumption)
    | exact absurd hs (by assumption)
    | exact absurd hs (show STATUS_BUFFER_TOO_SMALL ≠ STATUS_SUCCESS by decide)
    | rfl


theorem get_configuration_frame (env : Helpers) (hk : helpers_keep_queues env) (vpdo : vpdo_dev_t)
    (irp urb_irp : IRP) (urb : URB) :
    urb_result_frame vpdo irp urb_irp (get_configuration env vpdo irp urb_irp urb) := by
  have hq := hk.1 vpdo irp.hdr EP0
      (USBD_DEFAULT_PIPE_TRANSFER ||| USBD_TRANSFER_DIRECTION_IN) urb.TransferBufferLength
  rcases hset : env.set_cmd_submit_usbip_header vpdo irp.hdr EP0
      (USBD_DEFAULT_PIPE_TRANSFER ||| USBD_TRANSFER_DIRECTION_IN) urb.TransferBufferLength with ⟨err, v, h⟩
  rw [hset] at hq
  simp only [get_configuration, hset]
  split_ifs
  all_goals refine ⟨?_, ?_, ?_, fun hs => ?_⟩
  all_goals first
    | exact hq
    | exact same_queues_refl vpdo
    | exact Or.inl rfl
    | exact Or.inr ⟨_, rfl⟩
    | exact copy_transfer_buffer_length _ _
    | exact (copy_payload_length env _ _ _ _).1
    | exact get_usbip_header_of_not irp (by assumption)
    | exact absurd hs (by assumption)
    | exact absurd hs (show STATUS_BUFFER_TOO_SMALL ≠ STATUS_SUCCESS by decide)
    | rfl


theorem get_interface_frame (env : Helpers) (hk : helpers_keep_queues env) (vpdo : vpdo_dev_t)
    (irp urb_irp : IRP) (urb : URB) :
    urb_result_frame vpdo irp urb_irp (get_interface env vpdo irp urb_irp urb) := by
  have hq := hk.1 vpdo irp.hdr EP0
      (USBD_DEFAULT_PIPE_TRANSFER ||| USBD_TRANSFER_DIRECTION_IN) urb.TransferBufferLength
  rcases hset : env.set_cmd_submit_usbip_header vpdo irp.hdr EP0
      (USBD_DEFAULT_PIPE_TRANSFER ||| USBD_TRANSFER_DIRECTION_IN) urb.TransferBufferLength with ⟨err, v, h⟩
  rw [hset] at hq
  simp only [get_interface, hset]
  split_ifs
  all_goals refine ⟨?_, ?_, ?_, fun hs => ?_⟩
  all_goals first
    | exact hq
    | exact same_queues_refl vpdo
    | exact Or.inl rfl
    | exact Or.inr ⟨_, rfl⟩
    | exact copy_transfer_buffer_length _ _
    | exact (copy_payload_length env _ _ _ _).1
    | exact get_usbip_header_of_not irp (by assumption)
    | exact absurd hs (by assumption)
    | exact absurd hs (show STATUS_BUFFER_TOO_SMALL ≠ STATUS_SUCCESS by decide)
    | rfl


theorem urb_bulk_or_interrupt_transfer_frame (env : Helpers) (hk : helpers_keep_queues env) (vpdo : vpdo_dev_t)
    (irp urb_irp : IRP) (urb : URB) :
    urb_result_frame vpdo irp urb_irp (urb_bulk_or_interrupt_transfer env vpdo irp urb_irp urb) := by
  have hq := hk.1 vpdo irp.hdr urb.PipeHandle
      urb.TransferFlags urb.TransferBufferLength
  rcases hset : env.set_cmd_submit_usbip_header vpdo irp.hdr urb.PipeHandle
      urb.TransferFlags urb.TransferBufferLength with ⟨err, v, h⟩
  rw [hset] at hq
  simp only [urb_bulk_or_interrupt_transfer, hset]
  split_ifs
  all_goals refine ⟨?_, ?_, ?_, fun hs => ?_⟩
  all_goals first
    | exact hq
    | exact same_queues_refl vpdo
    | exact Or.inl rfl
    | exact Or.inr ⟨_, rfl⟩
    | exact copy_transfer_buffer_length _ _
    | exact (copy_payload_length env _ _ _ _).1
    | exact get_usbip_header_of_not irp (by assumption)
    | exact absurd hs (by assumption)
    | exact absurd hs (show STATUS_BUFFER_TOO_SMALL ≠ STATUS_SUCCESS by decide)
    | exact absurd hs (show STATUS_INVALID_PARAMETER ≠ STATUS_SUCCESS by decide)
    | rfl


theorem urb_isoch_transfer_frame (env : Helpers) (hk : helpers_keep_queues env) (vpdo : vpdo_dev_t)
    (irp urb_irp : IRP) (urb : URB) :
    urb_result_frame vpdo irp urb_irp (urb_isoch_transfer env vpdo irp urb_irp urb) := by
  have hq := hk.1 vpdo irp.hdr urb.PipeHandle
      (urb.TransferFlags ||| USBD_START_ISO_TRANSFER_ASAP) urb.TransferBufferLength
  rcases hset : env.set_cmd_submit_usbip_header vpdo irp.hdr urb.PipeHandle
      (urb.TransferFlags ||| USBD_START_ISO_TRANSFER_ASAP) urb.TransferBufferLength with ⟨err, v, h⟩
  rw [hset] at hq
  simp only [urb_isoch_transfer, hset]
  split_ifs
  all_goals refine ⟨?_, ?_, ?_, fun hs => ?_⟩
  all_goals first
    | exact hq
    | exact same_queues_refl vpdo
    | exact Or.inl rfl
    | exact Or.inr ⟨_, rfl⟩
    | exact copy_transfer_buffer_length _ _
    | exact (copy_payload_length env _ _ _ _).1
    | exact get_usbip_header_of_not irp (by assumption)
    | exact absurd hs (by assumption)
    | exact absurd hs (show STATUS_BUFFER_TOO_SMALL ≠ STATUS_SUCCESS by decide)
    | exact absurd hs (show STATUS_INVALID_PARAMETER ≠ STATUS_SUCCESS by decide)
    | rfl


theorem urb_control_transfer_any_frame (env : Helpers) (hk : helpers_keep_queues env) (vpdo : vpdo_dev_t)
    (irp urb_irp : IRP) (urb : URB) :
    urb_result_frame vpdo irp urb_irp (urb_control_transfer_any env vpdo irp urb_irp urb) := by
  have hq := hk.1 vpdo irp.hdr urb.PipeHandle
      urb.TransferFlags urb.TransferBufferLength
  rcases hset : env.set_cmd_submit_usbip_header vpdo irp.hdr urb.PipeHandle
      urb.TransferFlags urb.TransferBufferLength with ⟨err, v, h⟩
  rw [hset] at hq
  simp only [urb_control_transfer_any, hset]
  split_ifs
  all_goals refine ⟨?_, ?_, ?_, fun hs => ?_⟩
  all_goals first
    | exact hq
    | exact same_queues_refl vpdo
    | exact Or.inl rfl
    | exact Or.inr ⟨_, rfl⟩
    | exact copy_transfer_buffer_length _ _
    | exact (copy_payload_length env _ _ _ _).1
    | exact get_usbip_header_of_not irp (by assumption)
    | exact absurd hs (by assumption)
    | exact absurd hs (show STATUS_BUFFER_TOO_SMALL ≠ STATUS_SUCCESS by decide)
    | rfl

theorem urb_function_unexpected_frame (env : Helpers) (vpdo : vpdo_dev_t)
    (irp urb_irp : IRP) (urb : URB) :
    urb_result_frame vpdo irp urb_irp (urb_function_unexpected env vpdo irp urb_irp urb) :=
  ⟨same_queues_refl vpdo, Or.inl rfl, rfl,
    fun hs => absurd hs (show STATUS_INTERNAL_ERROR ≠ STATUS_SUCCESS by decide)⟩

theorem urb_functions_frame (env : Helpers) (hk : helpers_keep_queues env) (vpdo : vpdo_dev_t)
    (irp urb_irp : IRP) (urb : URB) :
    ∀ o ∈ urb_functions, ∀ g : urb_function_t, o = some g →
      urb_result_frame vpdo irp urb_irp (g env vpdo irp urb_irp urb) := by
  simp only [urb_functions, List.forall_mem_cons, List.not_mem_nil, false_imp_iff,
    implies_true, and_true]
  repeat' constructor
  all_goals intro g hg
  all_goals first
    | (cases hg
       simp only [vendor_device, vendor_interface, vendor_endpoint, vendor_other,
         class_device, class_interface, class_endpoint, class_other,
         get_descriptor_from_device, set_descriptor_to_device,
         get_descriptor_from_interface, set_descriptor_to_interface,
         get_descriptor_from_endpoint, set_descriptor_to_endpoint,
         set_feature_to_device, set_feature_to_interface, set_feature_to_endpoint,
         set_feature_to_other, clear_feature_to_device, clear_feature_to_interface,
         clear_feature_to_endpoint, clear_feature_to_other,
         get_status_from_device, get_status_from_interface, get_status_from_endpoint,
         get_status_from_other,
         urb_function_unexpected_frame, urb_select_configuration_frame env hk,
         urb_select_interface_frame env hk, urb_control_transfer_any_frame env hk,
         urb_bulk_or_interrupt_transfer_frame env hk, urb_isoch_transfer_frame env hk,
         sync_reset_pipe_and_clear_stall_frame env hk, get_configuration_frame env hk,
         get_interface_frame env hk, urb_control_descriptor_request_frame env hk,
         urb_control_get_status_request_frame env hk,
         urb_control_vendor_class_request_frame env hk,
         urb_control_feature_request_frame env hk])
    | cases hg

theorem usb_submit_urb_frame (env : Helpers) (hk : helpers_keep_queues env) (vpdo : vpdo_dev_t)
    (read_irp irp : IRP) :
    urb_result_frame vpdo read_irp irp (usb_submit_urb env vpdo read_irp irp) := by
  cases hurb : irp.urb with
  | none =>
    simp only [usb_submit_urb, hurb]
    exact ⟨same_queues_refl vpdo, Or.inl rfl, rfl,
      fun hs => absurd hs (show STATUS_INVALID_DEVICE_REQUEST ≠ STATUS_SUCCESS by decide)⟩
  | some urb =>
    cases hg : (if urb.UrbHeader.Function < urb_functions.length
           then urb_functions.getD urb.UrbHeader.Function none else none) with
    | none =>
      rw [usb_submit_urb_none env vpdo read_irp irp urb hurb hg]
      exact ⟨same_queues_refl vpdo, Or.inl rfl, rfl,
        fun hs => absurd hs (show STATUS_INVALID_PARAMETER ≠ STATUS_SUCCESS by decide)⟩
    | some g =>
      rw [usb_submit_urb_some env vpdo read_irp irp urb hurb g hg]
      by_cases hlt : urb.UrbHeader.Function < urb_functions.length
      · rw [if_pos hlt, List.getD_eq_getElem _ _ hlt] at hg
        exact urb_functions_frame env hk vpdo read_irp irp urb _ (List.getElem_mem hlt) g hg
      · rw [if_neg hlt] at hg
        exact absurd hg (by simp)

theorem cmd_submit_frame (env : Helpers) (hk : helpers_keep_queues env) (vpdo : vpdo_dev_t)
    (read_irp irp : IRP) :
    urb_result_frame vpdo read_irp irp (cmd_submit env vpdo read_irp irp) := by
  simp only [cmd_submit]
  split_ifs
  · exact usb_submit_urb_frame env hk vpdo read_irp irp
  · have hq := hk.1 vpdo read_irp.hdr EP0
      (USBD_DEFAULT_PIPE_TRANSFER ||| USBD_TRANSFER_DIRECTION_OUT) 0
    rcases hset : env.set_cmd_submit_usbip_header vpdo read_irp.hdr EP0
      (USBD_DEFAULT_PIPE_TRANSFER ||| USBD_TRANSFER_DIRECTION_OUT) 0 with ⟨err, v, h⟩
    rw [hset] at hq
    simp only [usb_reset_port, hset]
    split_ifs
    all_goals refine ⟨?_, Or.inl rfl, rfl, fun hs => ?_⟩
    all_goals first
      | exact hq
      | exact same_queues_refl vpdo
      | exact get_usbip_header_of_not read_irp (by assumption)
      | exact absurd hs (by assumption)
      | exact absurd hs (show STATUS_BUFFER_TOO_SMALL ≠ STATUS_SUCCESS by decide)
  · have hq := hk.1 vpdo read_irp.hdr EP0
      (USBD_DEFAULT_PIPE_TRANSFER ||| USBD_SHORT_TRANSFER_OK ||| USBD_TRANSFER_DIRECTION_IN)
      irp.OutputBufferLength
    rcases hset : env.set_cmd_submit_usbip_header vpdo read_irp.hdr EP0
      (USBD_DEFAULT_PIPE_TRANSFER ||| USBD_SHORT_TRANSFER_OK ||| USBD_TRANSFER_DIRECTION_IN)
      irp.OutputBufferLength with ⟨err, v, h⟩
    rw [hset] at hq
    simp only [get_descriptor_from_node_connection, hset]
    split_ifs
    all_goals refine ⟨?_, Or.inl rfl, rfl, fun hs => ?_⟩
    all_goals first
      | exact hq
      | exact same_queues_refl vpdo
      | exact get_usbip_header_of_not read_irp (by assumption)
      | exact absurd hs (by assumption)
      | exact absurd hs (show STATUS_BUFFER_TOO_SMALL ≠ STATUS_SUCCESS by decide)
  · exact ⟨same_queues_refl vpdo, Or.inl rfl, rfl,
      fun hs => absurd hs (show STATUS_INVALID_PARAMETER ≠ STATUS_SUCCESS by decide)⟩

theorem read_payload_frame (env : Helpers) (read_irp irp : IRP) :
    (read_payload env read_irp irp).2.Length = read_irp.Length ∧
    (read_payload env read_irp irp).2.hdr = read_irp.hdr := by
  simp only [read_payload]
  split
  · exact ⟨rfl, rfl⟩
  · split_ifs
    · simp only [urb_isoch_transfer_payload]
      split_ifs
      · exact copy_payload_length env _ _ _ _
      · exact ⟨rfl, rfl⟩
    · simp only [transfer_payload]
      split_ifs
      · exact do_copy_transfer_buffer_length _ _ _
      · exact ⟨rfl, rfl⟩
    · exact ⟨rfl, rfl⟩

theorem cmd_unlink_frame (env : Helpers) (hk : helpers_keep_queues env) (vpdo : vpdo_dev_t)
    (irp : IRP) (seqnum_unlink : Nat) :
    same_queues vpdo (cmd_unlink env vpdo irp seqnum_unlink).2.1 ∧
    (cmd_unlink env vpdo irp seqnum_unlink).2.2.Length = irp.Length ∧
    ((cmd_unlink env vpdo irp seqnum_unlink).1 = STATUS_SUCCESS →
      sizeof_usbip_header ≤ irp.Length) := by
  have hq := hk.2 vpdo irp.hdr seqnum_unlink
  unfold cmd_unlink
  split_ifs with hnh
  · exact ⟨same_queues_refl vpdo, rfl, fun hs => absurd hs (by decide)⟩
  · exact ⟨hq, rfl, fun _ => get_usbip_header_of_not irp hnh⟩

theorem do_read_phase_frame (env : Helpers) (hk : helpers_keep_queues env) (vpdo : vpdo_dev_t)
    (read_irp irp : IRP) :
    same_queues vpdo (do_read_phase env vpdo read_irp irp).vpdo ∧
    ((do_read_phase env vpdo read_irp irp).irp = irp ∨
      ∃ h, (do_read_phase env vpdo read_irp irp).irp = set_pipe_handle irp h) ∧
    (do_read_phase env vpdo read_irp irp).read_irp.Length = read_irp.Length ∧
    ((do_read_phase env vpdo read_irp irp).status = STATUS_SUCCESS →
      (get_seqnum_unlink irp ≠ 0 ∨ vpdo.seqnum_payload = 0) →
      sizeof_usbip_header ≤ read_irp.Length) ∧
    (get_seqnum_unlink irp = 0 → vpdo.seqnum_payload ≠ 0 →
      (do_read_phase env vpdo read_irp irp).read_irp.hdr = read_irp.hdr) := by
  simp only [do_read_phase]
  split_ifs with hun hm
  · obtain ⟨h1, h2, h3⟩ := cmd_unlink_frame env hk vpdo read_irp (get_seqnum_unlink irp)
    exact ⟨h1, Or.inl rfl, h2, fun hs _ => h3 hs, fun h0 => absurd h0 hun⟩
  · obtain ⟨h1, h2, h3, h4⟩ := cmd_submit_frame env hk vpdo read_irp irp
    exact ⟨h1, h2, h3, fun hs _ => h4 hs, fun _ hne => absurd hm hne⟩
  · refine ⟨same_queues_refl vpdo, Or.inl rfl, (read_payload_frame env read_irp irp).1, ?_,
      fun _ _ => (read_payload_frame env read_irp irp).2⟩
    intro _ hor
    rcases hor with hor | hor
    · exact absurd (not_not.1 hun) hor
    · exact absurd hor hm

theorem do_read_success (env : Helpers) (vpdo : vpdo_dev_t) (read_irp irp : IRP)
    (from_read : Bool) (h0 : (do_read_phase env vpdo read_irp irp).status = 0) :
    (do_read env vpdo read_irp irp from_read).status = STATUS_SUCCESS ∧
    (do_read env vpdo read_irp irp from_read).vpdo =
      post_read env (do_read_phase env vpdo read_irp irp).vpdo
        (if vpdo.seqnum_payload = 0 ∧
            try_get_irp_buffer (do_read_phase env vpdo read_irp irp).read_irp
              sizeof_usbip_header = true
         then some (do_read_phase env vpdo read_irp irp).read_irp.hdr else none)
        (do_read_phase env vpdo read_irp irp).irp ∧
    (do_read env vpdo read_irp irp from_read).read_irp =
      (do_read_phase env vpdo read_irp irp).read_irp ∧
    (do_read env vpdo read_irp irp from_read).completed =
      (if from_read then []
       else complete_read (do_read_phase env vpdo read_irp irp).read_irp STATUS_SUCCESS) := by
  simp only [do_read_phase] at h0
  simp only [do_read, do_read_phase]
  split_ifs at h0 ⊢ <;> simp_all

theorem do_read_failure (env : Helpers) (vpdo : vpdo_dev_t) (read_irp irp : IRP)
    (from_read : Bool) (h0 : (do_read_phase env vpdo read_irp irp).status ≠ 0) :
    (vpdo.seqnum_payload ≠ 0 →
      (do_read env vpdo read_irp irp from_read).status = STATUS_REQUEST_ABORTED ∧
      (do_read env vpdo read_irp irp from_read).vpdo =
        { (do_read_phase env vpdo read_irp irp).vpdo with seqnum_payload := 0 } ∧
      (do_read env vpdo read_irp irp from_read).read_irp =
        { (do_read_phase env vpdo read_irp irp).read_irp with Information := 0 }) ∧
    (vpdo.seqnum_payload = 0 →
      (do_read env vpdo read_irp irp from_read).status =
        (do_read_phase env vpdo read_irp irp).status ∧
      (do_read env vpdo read_irp irp from_read).vpdo =
        (do_read_phase env vpdo read_irp irp).vpdo ∧
      (do_read env vpdo read_irp irp from_read).read_irp =
        (do_read_phase env vpdo read_irp irp).read_irp) ∧
    (do_read env vpdo read_irp irp from_read).completed =
      (if from_read then
        [complete_internal_ioctl (do_read_phase env vpdo read_irp irp).irp
          (do_read_phase env vpdo read_irp irp).status]
       else []) ++
      (if from_read then []
       else complete_read (do_read env vpdo read_irp irp from_read).read_irp
        (do_read env vpdo read_irp irp from_read).status) := by
  simp only [do_read_phase] at h0
  simp only [do_read, do_read_phase, abort_read_payload]
  split_ifs at h0 ⊢ <;> simp_all

/-! ## C24: the payload marker after a step of `do_read` -/

theorem post_read_payload (env : Helpers) (v : vpdo_dev_t) (hdr : Option usbip_header)
    (irp : IRP) (hm : v.seqnum_payload ≠ 0) :
    post_read env v hdr irp =
      { v with seqnum_payload := 0, tx_irps_csq := IoCsqInsertIrp v.tx_irps_csq irp } := by
  simp only [post_read, if_pos hm]

theorem post_read_header (env : Helpers) (v : vpdo_dev_t) (h : usbip_header)
    (irp : IRP) (hm : v.seqnum_payload = 0) :
    post_read env v (some h) irp =
      if get_seqnum_unlink irp ≠ 0 then v
      else if env.get_pdu_payload_size h ≠ 0 then
        { v with seqnum_payload := h.base.seqnum,
                 rx_irps_csq := InsertHead v.rx_irps_csq (set_seqnum irp h.base.seqnum) }
      else
        { v with tx_irps_csq := IoCsqInsertIrp v.tx_irps_csq (set_seqnum irp h.base.seqnum) } := by
  simp only [post_read, hm, ne_eq, not_true_eq_false, if_false, get_seqnum_unlink, set_seqnum]

/-- The device after a successful header phase (the marker was zero). -/
theorem do_read_header_success (env : Helpers) (hk : helpers_keep_queues env)
    (vpdo : vpdo_dev_t) (read_irp irp : IRP) (from_read : Bool)
    (hm : vpdo.seqnum_payload = 0)
    (h0 : (do_read_phase env vpdo read_irp irp).status = 0) :
    (do_read env vpdo read_irp irp from_read).vpdo =
      if get_seqnum_unlink irp ≠ 0 then (do_read_phase env vpdo read_irp irp).vpdo
      else if env.get_pdu_payload_size (do_read env vpdo read_irp irp from_read).read_irp.hdr ≠ 0
      then
        { (do_read_phase env vpdo read_irp irp).vpdo with
          seqnum_payload := (do_read env vpdo read_irp irp from_read).read_irp.hdr.base.seqnum,
          rx_irps_csq := InsertHead (do_read_phase env vpdo read_irp irp).vpdo.rx_irps_csq
            (set_seqnum (do_read_phase env vpdo read_irp irp).irp
              (do_read env vpdo read_irp irp from_read).read_irp.hdr.base.seqnum) }
      else
        { (do_read_phase env vpdo read_irp irp).vpdo with
          tx_irps_csq := IoCsqInsertIrp (do_read_phase env vpdo read_irp irp).vpdo.tx_irps_csq
            (set_seqnum (do_read_phase env vpdo read_irp irp).irp
              (do_read env vpdo read_irp irp from_read).read_irp.hdr.base.seqnum) } := by
  obtain ⟨_, hv, hri, _⟩ := do_read_success env vpdo read_irp irp from_read h0
  obtain ⟨hq, hirp, hlen, h48, _⟩ := do_read_phase_frame env hk vpdo read_irp irp
  have hbuf : try_get_irp_buffer (do_read_phase env vpdo read_irp irp).read_irp
      sizeof_usbip_header = true := by
    have := h48 h0 (Or.inr hm)
    simp only [try_get_irp_buffer, get_irp_buffer_size, hlen, decide_eq_true_eq, ge_iff_le]
    exact this
  have hm2 : (do_read_phase env vpdo read_irp irp).vpdo.seqnum_payload = 0 := by
    rw [hq.1]; exact hm
  have hun : get_seqnum_unlink (do_read_phase env vpdo read_irp irp).irp
      = get_seqnum_unlink irp := by
    rcases hirp with h | ⟨p, h⟩
    · rw [h]
    · rw [h]; rfl
  rw [hv, hri, if_pos ⟨hm, hbuf⟩, post_read_header env _ _ _ hm2, hun]

theorem do_read_phase_irp_id (env : Helpers) (hk : helpers_keep_queues env)
    (vpdo : vpdo_dev_t) (read_irp irp : IRP) (seqnum : Nat) :
    (set_seqnum (do_read_phase env vpdo read_irp irp).irp seqnum).id = irp.id ∧
    get_seqnum (set_seqnum (do_read_phase env vpdo read_irp irp).irp seqnum) = seqnum ∧
    get_seqnum_unlink (set_seqnum (do_read_phase env vpdo read_irp irp).irp seqnum)
      = get_seqnum_unlink irp ∧
    (do_read_phase env vpdo read_irp irp).irp.id = irp.id := by
  rcases (do_read_phase_frame env hk vpdo read_irp irp).2.1 with h | ⟨p, h⟩
  · rw [h]; exact ⟨rfl, rfl, rfl, rfl⟩
  · rw [h]; exact ⟨rfl, rfl, rfl, rfl⟩

/-- The marker after a step of `do_read`: what it is and where the record went. -/
theorem do_read_marker_cases (env : Helpers) (hk : helpers_keep_queues env)
    (vpdo : vpdo_dev_t) (read_irp irp : IRP) (from_read : Bool) :
    ((do_read env vpdo read_irp irp from_read).status ≠ STATUS_SUCCESS →
      (do_read env vpdo read_irp irp from_read).vpdo.seqnum_payload = 0 ∧
      (do_read env vpdo read_irp irp from_read).vpdo.rx_irps_csq = vpdo.rx_irps_csq ∧
      (do_read env vpdo read_irp irp from_read).vpdo.tx_irps_csq = vpdo.tx_irps_csq) ∧
    (vpdo.seqnum_payload ≠ 0 →
      (do_read env vpdo read_irp irp from_read).status = STATUS_SUCCESS →
      (do_read env vpdo read_irp irp from_read).vpdo.seqnum_payload = 0 ∧
      (do_read env vpdo read_irp irp from_read).vpdo.rx_irps_csq = vpdo.rx_irps_csq ∧
      ∃ r, (do_read env vpdo read_irp irp from_read).vpdo.tx_irps_csq
          = vpdo.tx_irps_csq ++ [r] ∧ r.id = irp.id) ∧
    (vpdo.seqnum_payload = 0 →
      (do_read env vpdo read_irp irp from_read).status = STATUS_SUCCESS →
      (get_seqnum_unlink irp ≠ 0 →
        (do_read env vpdo read_irp irp from_read).vpdo.seqnum_payload = 0 ∧
        (do_read env vpdo read_irp irp from_read).vpdo.rx_irps_csq = vpdo.rx_irps_csq ∧
        (do_read env vpdo read_irp irp from_read).vpdo.tx_irps_csq = vpdo.tx_irps_csq) ∧
      (get_seqnum_unlink irp = 0 →
        env.get_pdu_payload_size (do_read env vpdo read_irp irp from_read).read_irp.hdr ≠ 0 →
        (do_read env vpdo read_irp irp from_read).vpdo.seqnum_payload =
          (do_read env vpdo read_irp irp from_read).read_irp.hdr.base.seqnum ∧
        (do_read env vpdo read_irp irp from_read).vpdo.tx_irps_csq = vpdo.tx_irps_csq ∧
        ∃ r, (do_read env vpdo read_irp irp from_read).vpdo.rx_irps_csq
            = r :: vpdo.rx_irps_csq ∧ r.id = irp.id ∧ get_seqnum_unlink r = 0 ∧
          get_seqnum r = (do_read env vpdo read_irp irp from_read).read_irp.hdr.base.seqnum) ∧
      (get_seqnum_unlink irp = 0 →
        env.get_pdu_payload_size (do_read env vpdo read_irp irp from_read).read_irp.hdr = 0 →
        (do_read env vpdo read_irp irp from_read).vpdo.seqnum_payload = 0 ∧
        (do_read env vpdo read_irp irp from_read).vpdo.rx_irps_csq = vpdo.rx_irps_csq ∧
        ∃ r, (do_read env vpdo read_irp irp from_read).vpdo.tx_irps_csq
            = vpdo.tx_irps_csq ++ [r] ∧ r.id = irp.id)) := by
  obtain ⟨hq, _, _, _, _⟩ := do_read_phase_frame env hk vpdo read_irp irp
  obtain ⟨hq1, hq2, hq3, hq4, hq5⟩ := hq
  by_cases h0 : (do_read_phase env vpdo read_irp irp).status = 0
  · obtain ⟨hst, hv, _, _⟩ := do_read_success env vpdo read_irp irp from_read h0
    refine ⟨fun hne => absurd hst hne, ?_, ?_⟩
    · intro hm _
      have hm2 : (do_read_phase env vpdo read_irp irp).vpdo.seqnum_payload ≠ 0 := by
        rw [hq1]; exact hm
      rw [hv, post_read_payload env _ _ _ hm2]
      exact ⟨rfl, hq2, ⟨(do_read_phase env vpdo read_irp irp).irp,
        by simp only [IoCsqInsertIrp, hq4],
        (do_read_phase_irp_id env hk vpdo read_irp irp 0).2.2.2⟩⟩
    · intro hm _
      have hh := do_read_header_success env hk vpdo read_irp irp from_read hm h0
      refine ⟨?_, ?_, ?_⟩
      · intro hun
        rw [hh, if_pos hun]
        exact ⟨by rw [hq1]; exact hm, hq2, hq4⟩
      · intro hun hp
        rw [hh, if_neg (not_not.2 hun), if_pos hp]
        obtain ⟨hid, hseq, hu, _⟩ := do_read_phase_irp_id env hk vpdo read_irp irp
          (do_read env vpdo read_irp irp from_read).read_irp.hdr.base.seqnum
        exact ⟨rfl, hq4,
          ⟨set_seqnum (do_read_phase env vpdo read_irp irp).irp
              (do_read env vpdo read_irp irp from_read).read_irp.hdr.base.seqnum,
            by simp only [InsertHead, hq2], hid, by rw [hu]; exact hun, hseq⟩⟩
      · intro hun hp
        rw [hh, if_neg (not_not.2 hun), if_neg (not_not.2 hp)]
        obtain ⟨hid, _, _, _⟩ := do_read_phase_irp_id env hk vpdo read_irp irp
          (do_read env vpdo read_irp irp from_read).read_irp.hdr.base.seqnum
        exact ⟨by show (do_read_phase env vpdo read_irp irp).vpdo.seqnum_payload = 0
                  rw [hq1]; exact hm,
          hq2,
          ⟨set_seqnum (do_read_phase env vpdo read_irp irp).irp
              (do_read env vpdo read_irp irp from_read).read_irp.hdr.base.seqnum,
            by simp only [IoCsqInsertIrp, hq4], hid⟩⟩
  · obtain ⟨hf1, hf2, _⟩ := do_read_failure env vpdo read_irp irp from_read h0
    have hfail : (do_read env vpdo read_irp irp from_read).status ≠ STATUS_SUCCESS := by
      by_cases hm : vpdo.seqnum_payload = 0
      · rw [(hf2 hm).1]; exact h0
      · rw [(hf1 hm).1]; decide
    refine ⟨?_, fun _ hs => absurd hs hfail, fun _ hs => absurd hs hfail⟩
    intro _
    by_cases hm : vpdo.seqnum_payload = 0
    · rw [(hf2 hm).2.1]
      exact ⟨by rw [hq1]; exact hm, hq2, hq4⟩
    · rw [(hf1 hm).2.1]
      exact ⟨rfl, hq2, hq4⟩

theorem spec_helpers_keep_queues : helpers_keep_queues spec_helpers :=
  ⟨fun _ _ _ _ _ => ⟨rfl, rfl, rfl, rfl, rfl⟩, fun _ _ _ => ⟨rfl, rfl, rfl, rfl, rfl⟩⟩

/-- C24: let the header builders leave queues and marker of the device alone.  After a
step of `do_read` the payload marker is zero, or it is the sequence number of the record
just read, which is then the head of the rx queue.  It is non-zero only if it was zero
before, the record carries no unlink sequence number, the step succeeded, the PDU of the
header it emitted has a non-zero payload size, the marker is the sequence number of that
header and the record was put in front of the rx queue with that sequence number; and in
that situation the marker is set so.  After a successful payload-phase read (the marker
was non-zero) the marker is zero and the record is the newest of the tx queue. -/
theorem do_read_payload_marker (env : Helpers) (hk : helpers_keep_queues env)
    (vpdo : vpdo_dev_t) (read_irp irp : IRP) (from_read : Bool) :
    ((do_read env vpdo read_irp irp from_read).vpdo.seqnum_payload = 0 ∨
      ∃ r, (do_read env vpdo read_irp irp from_read).vpdo.rx_irps_csq.head? = some r ∧
        get_seqnum r = (do_read env vpdo read_irp irp from_read).vpdo.seqnum_payload ∧
        r.id = irp.id) ∧
    ((do_read env vpdo read_irp irp from_read).vpdo.seqnum_payload ≠ 0 →
      vpdo.seqnum_payload = 0 ∧ get_seqnum_unlink irp = 0 ∧
      (do_read env vpdo read_irp irp from_read).status = STATUS_SUCCESS ∧
      env.get_pdu_payload_size (do_read env vpdo read_irp irp from_read).read_irp.hdr ≠ 0) ∧
    (vpdo.seqnum_payload = 0 → get_seqnum_unlink irp = 0 →
      (do_read env vpdo read_irp irp from_read).status = STATUS_SUCCESS →
      env.get_pdu_payload_size (do_read env vpdo read_irp irp from_read).read_irp.hdr ≠ 0 →
      (do_read env vpdo read_irp irp from_read).vpdo.seqnum_payload =
        (do_read env vpdo read_irp irp from_read).read_irp.hdr.base.seqnum ∧
      ∃ r, (do_read env vpdo read_irp irp from_read).vpdo.rx_irps_csq
          = r :: vpdo.rx_irps_csq ∧ r.id = irp.id ∧
        get_seqnum r = (do_read env vpdo read_irp irp from_read).read_irp.hdr.base.seqnum) ∧
    (vpdo.seqnum_payload ≠ 0 →
      (do_read env vpdo read_irp irp from_read).status = STATUS_SUCCESS →
      (do_read env vpdo read_irp irp from_read).vpdo.seqnum_payload = 0 ∧
      ∃ r, (do_read env vpdo read_irp irp from_read).vpdo.tx_irps_csq
          = vpdo.tx_irps_csq ++ [r] ∧ r.id = irp.id) := by
  obtain ⟨hfail, hpay, hhdr⟩ := do_read_marker_cases env hk vpdo read_irp irp from_read
  have harm : vpdo.seqnum_payload = 0 → get_seqnum_unlink irp = 0 →
      (do_read env vpdo read_irp irp from_read).status = STATUS_SUCCESS →
      env.get_pdu_payload_size (do_read env vpdo read_irp irp from_read).read_irp.hdr ≠ 0 →
      (do_read env vpdo read_irp irp from_read).vpdo.seqnum_payload =
        (do_read env vpdo read_irp irp from_read).read_irp.hdr.base.seqnum ∧
      ∃ r, (do_read env vpdo read_irp irp from_read).vpdo.rx_irps_csq
          = r :: vpdo.rx_irps_csq ∧ r.id = irp.id ∧
        get_seqnum r = (do_read env vpdo read_irp irp from_read).read_irp.hdr.base.seqnum := by
    intro hm hun hs hp
    obtain ⟨h1, _, r, h2, h3, _, h4⟩ := (hhdr hm hs).2.1 hun hp
    exact ⟨h1, r, h2, h3, h4⟩
  have hnz : (do_read env vpdo read_irp irp from_read).vpdo.seqnum_payload ≠ 0 →
      vpdo.seqnum_payload = 0 ∧ get_seqnum_unlink irp = 0 ∧
      (do_read env vpdo read_irp irp from_read).status = STATUS_SUCCESS ∧
      env.get_pdu_payload_size (do_read env vpdo read_irp irp from_read).read_irp.hdr ≠ 0 := by
    intro hne
    by_cases hs : (do_read env vpdo read_irp irp from_read).status = STATUS_SUCCESS
    · by_cases hm : vpdo.seqnum_payload = 0
      · by_cases hun : get_seqnum_unlink irp = 0
        · by_cases hp :
            env.get_pdu_payload_size (do_read env vpdo read_irp irp from_read).read_irp.hdr = 0
          · exact absurd ((hhdr hm hs).2.2 hun hp).1 hne
          · exact ⟨hm, hun, hs, hp⟩
        · exact absurd ((hhdr hm hs).1 hun).1 hne
      · exact absurd (hpay hm hs).1 hne
    · exact absurd (hfail hs).1 hne
  refine ⟨?_, hnz, harm, ?_⟩
  · by_cases hne : (do_read env vpdo read_irp irp from_read).vpdo.seqnum_payload = 0
    · exact Or.inl hne
    · right
      obtain ⟨hm, hun, hs, hp⟩ := hnz hne
      obtain ⟨h1, r, h2, h3, h4⟩ := harm hm hun hs hp
      exact ⟨r, by rw [h2]; rfl, by rw [h4, h1], h3⟩
  · intro hm hs
    obtain ⟨h1, _, r, h2, h3⟩ := hpay hm hs
    exact ⟨h1, r, h2, h3⟩

/-- C24 at concrete inputs: the header of a bulk OUT URB of 512 bytes read into a buffer
of 48 bytes arms the marker with the sequence number 1 of the header and puts the record
in front of the rx queue; the read of the payload that follows resets the marker and
leaves the record on the tx queue; the header of a bulk IN URB does not arm the marker. -/
theorem do_read_payload_marker_witness :
    helpers_keep_queues spec_helpers ∧
    ((do_read spec_helpers default (read_irp_of_size 48)
        (urb_irp_of (bulk_urb URB_FUNCTION_BULK_OR_INTERRUPT_TRANSFER 0x202 0 512))
        true).vpdo.seqnum_payload = 0 ∨
      ∃ r, (do_read spec_helpers default (read_irp_of_size 48)
          (urb_irp_of (bulk_urb URB_FUNCTION_BULK_OR_INTERRUPT_TRANSFER 0x202 0 512))
          true).vpdo.rx_irps_csq.head? = some r ∧
        get_seqnum r = (do_read spec_helpers default (read_irp_of_size 48)
          (urb_irp_of (bulk_urb URB_FUNCTION_BULK_OR_INTERRUPT_TRANSFER 0x202 0 512))
          true).vpdo.seqnum_payload ∧
        r.id = (urb_irp_of (bulk_urb URB_FUNCTION_BULK_OR_INTERRUPT_TRANSFER 0x202 0 512)).id) ∧
    (do_read spec_helpers default (read_irp_of_size 48)
      (urb_irp_of (bulk_urb URB_FUNCTION_BULK_OR_INTERRUPT_TRANSFER 0x202 0 512))
      true).vpdo.seqnum_payload = 1 ∧
    (do_read spec_helpers default (read_irp_of_size 48)
      (urb_irp_of (bulk_urb URB_FUNCTION_BULK_OR_INTERRUPT_TRANSFER 0x202 0 512))
      true).vpdo.rx_irps_csq.map (fun r => r.seqnum) = [1] ∧
    ((process_read_irp spec_helpers 1
      (do_read spec_helpers default (read_irp_of_size 48)
        (urb_irp_of (bulk_urb URB_FUNCTION_BULK_OR_INTERRUPT_TRANSFER 0x202 0 512)) true).vpdo
      (read_irp_of_size 512)).map fun r =>
        (r.status, r.vpdo.seqnum_payload, r.vpdo.rx_irps_csq.length,
          r.vpdo.tx_irps_csq.map fun i => i.seqnum)) =
      some (STATUS_SUCCESS, 0, 0, [1]) ∧
    (do_read spec_helpers default (read_irp_of_size 48)
      (urb_irp_of (bulk_urb URB_FUNCTION_BULK_OR_INTERRUPT_TRANSFER 0x282 1 512))
      true).vpdo.seqnum_payload = 0 :=
  ⟨spec_helpers_keep_queues,
   (do_read_payload_marker spec_helpers spec_helpers_keep_queues default (read_irp_of_size 48)
      (urb_irp_of (bulk_urb URB_FUNCTION_BULK_OR_INTERRUPT_TRANSFER 0x202 0 512)) true).1,
   by decide, by decide, by decide, by decide⟩

/-! ## C29: aborting the read of a payload -/

theorem remove_first_none_eq (p : IRP → Bool) :
    ∀ q : List IRP, (∀ irp ∈ q, p irp = false) → remove_first p q = (none, q)
  | [], _ => rfl
  | x :: xs, h => by
    have hx : p x = false := h x (List.mem_cons_self _ _)
    have ih := remove_first_none_eq p xs fun irp hi => h irp (List.mem_cons_of_mem _ hi)
    simp only [remove_first, hx, Bool.false_eq_true, if_false, ih]

theorem dequeue_rx_irp_payload_gone (v : vpdo_dev_t) (m : Nat) (hm : m ≠ 0)
    (hgone : ∀ r ∈ v.rx_irps_csq, get_seqnum r ≠ m) :
    dequeue_rx_irp v m = (none, v) := by
  have h := remove_first_none_eq (fun irp => get_seqnum irp == m) v.rx_irps_csq
    (fun irp hi => by simpa using hgone irp hi)
  simp only [dequeue_rx_irp, if_neg hm, make_peek_context, IoCsqRemoveNextIrp, h]

theorem process_read_irp_payload_gone (env : Helpers) (fuel : Nat) (vpdo : vpdo_dev_t)
    (read_irp : IRP) (hm : vpdo.seqnum_payload ≠ 0)
    (hgone : ∀ r ∈ vpdo.rx_irps_csq, get_seqnum r ≠ vpdo.seqnum_payload) :
    process_read_irp env (fuel + 1) vpdo read_irp =
      some { status := STATUS_REQUEST_ABORTED, vpdo := { vpdo with seqnum_payload := 0 },
             read_irp := { read_irp with Information := 0 }, completed := [] } := by
  simp only [process_read_irp, dequeue_rx_irp_payload_gone vpdo _ hm hgone, if_pos hm,
    abort_read_payload]

theorem send_to_server_payload_gone (env : Helpers) (vpdo : vpdo_dev_t) (irp read_irp : IRP)
    (rest : List IRP) (unlink : Bool) (hm : vpdo.seqnum_payload ≠ 0)
    (hq : vpdo.read_irp_csq = read_irp :: rest)
    (hgone : ∀ r ∈ vpdo.rx_irps_csq, get_seqnum r ≠ vpdo.seqnum_payload)
    (hnew : unlink = true ∨ get_seqnum (env.clear_context irp unlink) ≠ vpdo.seqnum_payload) :
    (send_to_server env vpdo irp unlink).status = STATUS_PENDING ∧
    (send_to_server env vpdo irp unlink).completed =
      [CompleteRequest { read_irp with Information := 0 } STATUS_REQUEST_ABORTED] ∧
    (send_to_server env vpdo irp unlink).vpdo.seqnum_payload = 0 ∧
    (send_to_server env vpdo irp unlink).vpdo.read_irp_csq = rest := by
  cases unlink with
  | true =>
    have hd := dequeue_rx_irp_payload_gone
      { (enqueue_rx_unlink_irp vpdo { env.clear_context irp true with id := irp.id }) with
        read_irp_csq := rest } vpdo.seqnum_payload hm hgone
    simp only [enqueue_rx_unlink_irp] at hd
    simp only [send_to_server, enqueue_rx_unlink_irp, if_true, hq, IoCsqRemoveNextIrp,
      remove_first, hd, if_pos hm, abort_read_payload]
    exact ⟨trivial, trivial, trivial, trivial⟩
  | false =>
    have hnew2 : get_seqnum (env.clear_context irp false) ≠ vpdo.seqnum_payload := by
      rcases hnew with h | h
      · exact absurd h (by decide)
      · exact h
    have hd := dequeue_rx_irp_payload_gone
      { vpdo with
        rx_irps_csq := IoCsqInsertIrp vpdo.rx_irps_csq
          { env.clear_context irp false with id := irp.id },
        read_irp_csq := rest } vpdo.seqnum_payload hm (by
          intro r hr
          simp only [IoCsqInsertIrp, List.mem_append, List.mem_singleton] at hr
          rcases hr with hr | hr
          · exact hgone r hr
          · rw [hr]; exact hnew2)
    simp only [send_to_server, Bool.false_eq_true, if_false, hq, IoCsqRemoveNextIrp,
      remove_first, if_true, hd, if_pos hm, abort_read_payload]
    exact ⟨trivial, trivial, trivial, trivial⟩

/-- C29: let the header builders leave queues and marker of the device alone and let a
payload be expected (the marker is not zero).  If the record that awaits its payload is
no longer in the rx queue, `process_read_irp` returns STATUS_REQUEST_ABORTED with zero
bytes transferred and the marker reset, `vhci_read` completes the read with that status,
and `send_to_server` completes a queued read IRP with it.  If the payload-phase read of
`do_read` fails, `do_read` returns STATUS_REQUEST_ABORTED with zero bytes transferred and
the marker reset, and, called from `send_to_server`, completes the read IRP with that
status.  After any `do_read` that does not succeed the marker is zero. -/
theorem abort_read_payload_cases (env : Helpers) (hk : helpers_keep_queues env)
    (vpdo : vpdo_dev_t) (hm : vpdo.seqnum_payload ≠ 0) :
    ((∀ r ∈ vpdo.rx_irps_csq, get_seqnum r ≠ vpdo.seqnum_payload) →
      (∀ (fuel : Nat) (read_irp : IRP),
        process_read_irp env (fuel + 1) vpdo read_irp =
          some { status := STATUS_REQUEST_ABORTED, vpdo := { vpdo with seqnum_payload := 0 },
                 read_irp := { read_irp with Information := 0 }, completed := [] }) ∧
      (∀ (fuel : Nat) (read_irp : IRP) (vhci : vhci_dev_t),
        vhci.PnPState ≠ pnp_state.Removed → vpdo.unplugged = false →
        vhci_read env (fuel + 1) (some vhci) (some vpdo) read_irp =
          some { status := STATUS_REQUEST_ABORTED,
                 vpdo := some { vpdo with seqnum_payload := 0 },
                 irp := { read_irp with Information := 0 },
                 completed :=
                  [CompleteRequest { read_irp with Information := 0 } STATUS_REQUEST_ABORTED] }) ∧
      (∀ (irp read_irp : IRP) (rest : List IRP) (unlink : Bool),
        vpdo.read_irp_csq = read_irp :: rest →
        (unlink = true ∨ get_seqnum (env.clear_context irp unlink) ≠ vpdo.seqnum_payload) →
        (send_to_server env vpdo irp unlink).completed =
          [CompleteRequest { read_irp with Information := 0 } STATUS_REQUEST_ABORTED] ∧
        (send_to_server env vpdo irp unlink).vpdo.seqnum_payload = 0)) ∧
    (∀ (read_irp irp : IRP) (from_read : Bool),
      (do_read env vpdo read_irp irp from_read).status ≠ STATUS_SUCCESS →
      (do_read env vpdo read_irp irp from_read).status = STATUS_REQUEST_ABORTED ∧
      (do_read env vpdo read_irp irp from_read).read_irp.Information = 0 ∧
      (do_read env vpdo read_irp irp from_read).vpdo.seqnum_payload = 0 ∧
      (from_read = false →
        (do_read env vpdo read_irp irp from_read).completed =
          [CompleteRequest (do_read env vpdo read_irp irp from_read).read_irp
            STATUS_REQUEST_ABORTED])) ∧
    (∀ (v : vpdo_dev_t) (read_irp irp : IRP) (from_read : Bool),
      (do_read env v read_irp irp from_read).status ≠ STATUS_SUCCESS →
      (do_read env v read_irp irp from_read).vpdo.seqnum_payload = 0) := by
  refine ⟨?_, ?_, ?_⟩
  · intro hgone
    refine ⟨fun fuel read_irp => process_read_irp_payload_gone env fuel vpdo read_irp hm hgone,
      ?_, ?_⟩
    · intro fuel read_irp vhci hst hun
      simp only [vhci_read, if_pos hst, hun, Bool.false_eq_true, if_false,
        process_read_irp_payload_gone env fuel vpdo read_irp hm hgone, complete_read]
      rfl
    · intro irp read_irp rest unlink hq hnew
      obtain ⟨_, h2, h3, _⟩ :=
        send_to_server_payload_gone env vpdo irp read_irp rest unlink hm hq hgone hnew
      exact ⟨h2, h3⟩
  · intro read_irp irp from_read hne
    by_cases h0 : (do_read_phase env vpdo read_irp irp).status = 0
    · exact absurd (do_read_success env vpdo read_irp irp from_read h0).1 hne
    · obtain ⟨hf, _, hc⟩ := do_read_failure env vpdo read_irp irp from_read h0
      obtain ⟨h1, h2, h3⟩ := hf hm
      refine ⟨h1, by rw [h3], by rw [h2], ?_⟩
      intro hfr
      rw [hc, h1, hfr]
      simp only [Bool.false_eq_true, if_false, List.nil_append, complete_read]
      exact if_pos (show STATUS_REQUEST_ABORTED ≠ STATUS_PENDING by decide)
  · intro v read_irp irp from_read hne
    exact ((do_read_marker_cases env hk v read_irp irp from_read).1 hne).1

theorem abort_read_payload_cases_witness :
    helpers_keep_queues spec_helpers ∧ (vpdo_with_queues 7 [] [] []).seqnum_payload ≠ 0 ∧
    ((process_read_irp spec_helpers 1 (vpdo_with_queues 7 [] [] [])
        (read_irp_of_size 512)).map fun r =>
      (r.status, r.vpdo.seqnum_payload, r.read_irp.Information, completion_log r.completed)) =
      some (STATUS_REQUEST_ABORTED, 0, 0, []) :=
  ⟨spec_helpers_keep_queues, by decide, by
    rw [((abort_read_payload_cases spec_helpers spec_helpers_keep_queues
      (vpdo_with_queues 7 [] [] []) (by decide)).1 (by intro r hr; cases hr)).1 0
      (read_irp_of_size 512)]
    rfl⟩

/-! ## C25: the header read that carries the payload -/

theorem dequeue_rx_irp_marker_head (v : vpdo_dev_t) (m : Nat) (r : IRP) (rest : List IRP)
    (hm : m ≠ 0) (hq : v.rx_irps_csq = r :: rest) (hr : get_seqnum r = m) :
    dequeue_rx_irp v m = (some r, { v with rx_irps_csq := rest }) := by
  simp only [dequeue_rx_irp, if_neg hm, make_peek_context, IoCsqRemoveNextIrp, hq,
    remove_first, hr, beq_self_eq_true, if_true]

/-- C25: `post_read` decides from the header alone whether the payload marker is armed, not
from the number of bytes the header-phase read transferred.  Let the header builders leave
queues and marker alone, let no payload be expected, and let `do_read` succeed on a record
without unlink sequence number whose header announces a payload and carries a sequence
number other than zero.  Then, whatever the read has transferred, the marker is armed with
that sequence number, the record is put in front of the rx queue, and the next call of
`process_read_irp` is the payload-phase read of that record: it calls `read_payload`. -/
theorem post_read_arms_whatever_transferred (env : Helpers) (hk : helpers_keep_queues env)
    (vpdo : vpdo_dev_t) (read_irp irp : IRP) (from_read : Bool)
    (hm : vpdo.seqnum_payload = 0) (hun : get_seqnum_unlink irp = 0)
    (hs : (do_read env vpdo read_irp irp from_read).status = STATUS_SUCCESS)
    (hp : env.get_pdu_payload_size (do_read env vpdo read_irp irp from_read).read_irp.hdr ≠ 0)
    (hseq : (do_read env vpdo read_irp irp from_read).read_irp.hdr.base.seqnum ≠ 0) :
    (do_read env vpdo read_irp irp from_read).vpdo.seqnum_payload =
      (do_read env vpdo read_irp irp from_read).read_irp.hdr.base.seqnum ∧
    ∃ r, r.id = irp.id ∧ get_seqnum_unlink r = 0 ∧
      (do_read env vpdo read_irp irp from_read).vpdo.rx_irps_csq = r :: vpdo.rx_irps_csq ∧
      ∀ (fuel : Nat) (next_read : IRP),
        process_read_irp env (fuel + 1) (do_read env vpdo read_irp irp from_read).vpdo next_read =
          some (do_read env
            { (do_read env vpdo read_irp irp from_read).vpdo with
              rx_irps_csq := vpdo.rx_irps_csq } next_read r true) ∧
        (do_read_phase env
            { (do_read env vpdo read_irp irp from_read).vpdo with
              rx_irps_csq := vpdo.rx_irps_csq } next_read r).status =
          (read_payload env next_read r).1 := by
  obtain ⟨_, _, hhdr⟩ := do_read_marker_cases env hk vpdo read_irp irp from_read
  obtain ⟨h1, _, r, h2, h3, h4, h5⟩ := (hhdr hm hs).2.1 hun hp
  refine ⟨h1, r, h3, h4, h2, ?_⟩
  intro fuel next_read
  have hne : (do_read env vpdo read_irp irp from_read).vpdo.seqnum_payload ≠ 0 := by
    rw [h1]; exact hseq
  have hd := dequeue_rx_irp_marker_head (do_read env vpdo read_irp irp from_read).vpdo
    (do_read env vpdo read_irp irp from_read).vpdo.seqnum_payload r vpdo.rx_irps_csq hne h2
    (by rw [h5, h1])
  refine ⟨?_, ?_⟩
  · simp only [process_read_irp, hd]
  · simp only [do_read_phase, h4, ne_eq, not_true_eq_false, if_false, hne]

/-- C25 at concrete inputs: a bulk OUT URB of 8 bytes is read into a buffer of 56 bytes.
The read succeeds and transfers 56 bytes, the whole PDU, with the 8 bytes of the payload
stored behind the header; yet the marker is armed with the sequence number 1 of the
header, and the next read, with a buffer of 8 bytes, succeeds as a payload-phase read and
hands the same 8 bytes to the reader again. -/
theorem post_read_arms_whatever_transferred_witness :
    helpers_keep_queues spec_helpers ∧
    (default : vpdo_dev_t).seqnum_payload = 0 ∧
    get_seqnum_unlink (urb_irp_of (bulk_urb URB_FUNCTION_BULK_OR_INTERRUPT_TRANSFER 0x202 0 8))
      = 0 ∧
    (do_read spec_helpers default (read_irp_of_size 56)
      (urb_irp_of (bulk_urb URB_FUNCTION_BULK_OR_INTERRUPT_TRANSFER 0x202 0 8)) true).status
      = STATUS_SUCCESS ∧
    (do_read spec_helpers default (read_irp_of_size 56)
      (urb_irp_of (bulk_urb URB_FUNCTION_BULK_OR_INTERRUPT_TRANSFER 0x202 0 8))
      true).read_irp.Information = 56 ∧
    spec_helpers.get_pdu_size (do_read spec_helpers default (read_irp_of_size 56)
      (urb_irp_of (bulk_urb URB_FUNCTION_BULK_OR_INTERRUPT_TRANSFER 0x202 0 8))
      true).read_irp.hdr = 56 ∧
    (do_read spec_helpers default (read_irp_of_size 56)
      (urb_irp_of (bulk_urb URB_FUNCTION_BULK_OR_INTERRUPT_TRANSFER 0x202 0 8))
      true).read_irp.stores = [(48, Store.bytes (List.replicate 8 0))] ∧
    (do_read spec_helpers default (read_irp_of_size 56)
      (urb_irp_of (bulk_urb URB_FUNCTION_BULK_OR_INTERRUPT_TRANSFER 0x202 0 8))
      true).vpdo.seqnum_payload = 1 ∧
    ((process_read_irp spec_helpers 1
      (do_read spec_helpers default (read_irp_of_size 56)
        (urb_irp_of (bulk_urb URB_FUNCTION_BULK_OR_INTERRUPT_TRANSFER 0x202 0 8)) true).vpdo
      (read_irp_of_size 8)).map fun r =>
        (r.status, r.read_irp.Information, r.read_irp.stores, r.vpdo.seqnum_payload)) =
      some (STATUS_SUCCESS, 8, [(0, Store.bytes (List.replicate 8 0))], 0) ∧
    (do_read spec_helpers default (read_irp_of_size 56)
      (urb_irp_of (bulk_urb URB_FUNCTION_BULK_OR_INTERRUPT_TRANSFER 0x202 0 8))
      true).vpdo.seqnum_payload =
    (do_read spec_helpers default (read_irp_of_size 56)
      (urb_irp_of (bulk_urb URB_FUNCTION_BULK_OR_INTERRUPT_TRANSFER 0x202 0 8))
      true).read_irp.hdr.base.seqnum :=
  ⟨spec_helpers_keep_queues, by decide, by decide, by decide, by decide, by decide, by decide,
   by decide, by decide,
   (post_read_arms_whatever_transferred spec_helpers spec_helpers_keep_queues default
      (read_irp_of_size 56)
      (urb_irp_of (bulk_urb URB_FUNCTION_BULK_OR_INTERRUPT_TRANSFER 0x202 0 8)) true
      (by decide) (by decide) (by decide) (by decide) (by decide)).1⟩

/-! ## C22: what becomes of a cancelled record once its unlink command is read -/

theorem post_read_other_queues (env : Helpers) (v : vpdo_dev_t) (hdr : Option usbip_header)
    (irp : IRP) :
    (post_read env v hdr irp).rx_unlink_irps = v.rx_unlink_irps ∧
    (post_read env v hdr irp).read_irp_csq = v.read_irp_csq := by
  unfold post_read
  split_ifs
  · exact ⟨rfl, rfl⟩
  · cases hdr with
    | none => exact ⟨rfl, rfl⟩
    | some h =>
      simp only []
      split_ifs <;> exact ⟨rfl, rfl⟩

/-- The function `do_read` leaves the unlink queue and the queue of read IRPs alone. -/
theorem do_read_other_queues (env : Helpers) (hk : helpers_keep_queues env)
    (vpdo : vpdo_dev_t) (read_irp irp : IRP) (from_read : Bool) :
    (do_read env vpdo read_irp irp from_read).vpdo.rx_unlink_irps = vpdo.rx_unlink_irps ∧
    (do_read env vpdo read_irp irp from_read).vpdo.read_irp_csq = vpdo.read_irp_csq := by
  obtain ⟨⟨_, _, hq3, _, hq5⟩, _⟩ := do_read_phase_frame env hk vpdo read_irp irp
  by_cases h0 : (do_read_phase env vpdo read_irp irp).status = 0
  · obtain ⟨_, hv, _, _⟩ := do_read_success env vpdo read_irp irp from_read h0
    rw [hv, (post_read_other_queues env _ _ _).1, (post_read_other_queues env _ _ _).2]
    exact ⟨hq3, hq5⟩
  · obtain ⟨hf1, hf2, _⟩ := do_read_failure env vpdo read_irp irp from_read h0
    by_cases hm : vpdo.seqnum_payload = 0
    · rw [(hf2 hm).2.1]; exact ⟨hq3, hq5⟩
    · rw [(hf1 hm).2.1]; exact ⟨hq3, hq5⟩

theorem dequeue_rx_irp_unlink_head (v : vpdo_dev_t) (r : IRP) (rest : List IRP)
    (hq : v.rx_unlink_irps = r :: rest) :
    dequeue_rx_irp v 0 = (some r, { v with rx_unlink_irps := rest }) := by
  simp only [dequeue_rx_irp, if_true, dequeue_rx_unlink_irp, hq]

/-- What `do_read` does with a record that carries an unlink sequence number while no
payload is expected: marker and queues of the device are left as they are, and when the
read succeeds no completion is made for the record. -/
theorem do_read_unlink_record (env : Helpers) (hk : helpers_keep_queues env)
    (vpdo : vpdo_dev_t) (read_irp irp : IRP) (from_read : Bool)
    (hm : vpdo.seqnum_payload = 0) (hun : get_seqnum_unlink irp ≠ 0) :
    (do_read env vpdo read_irp irp from_read).vpdo.seqnum_payload = 0 ∧
    (do_read env vpdo read_irp irp from_read).vpdo.rx_irps_csq = vpdo.rx_irps_csq ∧
    (do_read env vpdo read_irp irp from_read).vpdo.rx_unlink_irps = vpdo.rx_unlink_irps ∧
    (do_read env vpdo read_irp irp from_read).vpdo.tx_irps_csq = vpdo.tx_irps_csq ∧
    (do_read env vpdo read_irp irp from_read).vpdo.read_irp_csq = vpdo.read_irp_csq ∧
    (sizeof_usbip_header ≤ read_irp.Length →
      (do_read env vpdo read_irp irp from_read).status = STATUS_SUCCESS) ∧
    ((do_read env vpdo read_irp irp from_read).status = STATUS_SUCCESS →
      (do_read env vpdo read_irp irp from_read).completed =
        if from_read then []
        else complete_read (do_read env vpdo read_irp irp from_read).read_irp STATUS_SUCCESS) ∧
    (from_read = false →
      (do_read env vpdo read_irp irp from_read).completed =
        complete_read (do_read env vpdo read_irp irp from_read).read_irp
          (do_read env vpdo read_irp irp from_read).status) := by
  obtain ⟨hfail, _, hhdr⟩ := do_read_marker_cases env hk vpdo read_irp irp from_read
  obtain ⟨ho1, ho2⟩ := do_read_other_queues env hk vpdo read_irp irp from_read
  have hmq : (do_read env vpdo read_irp irp from_read).vpdo.seqnum_payload = 0 ∧
      (do_read env vpdo read_irp irp from_read).vpdo.rx_irps_csq = vpdo.rx_irps_csq ∧
      (do_read env vpdo read_irp irp from_read).vpdo.tx_irps_csq = vpdo.tx_irps_csq := by
    by_cases hs : (do_read env vpdo read_irp irp from_read).status = STATUS_SUCCESS
    · exact (hhdr hm hs).1 hun
    · exact hfail hs
  refine ⟨hmq.1, hmq.2.1, ho1, hmq.2.2, ho2, ?_, ?_, ?_⟩
  · intro hlen
    have h0 : (do_read_phase env vpdo read_irp irp).status = 0 := by
      have hb : get_usbip_header read_irp = true := by
        simp only [get_usbip_header, try_get_irp_buffer, get_irp_buffer_size,
          decide_eq_true_eq, ge_iff_le]
        exact hlen
      simp only [do_read_phase, if_pos hun, cmd_unlink, hb, Bool.not_true, Bool.false_eq_true,
        if_false]
    exact (do_read_success env vpdo read_irp irp from_read h0).1
  · intro hs
    by_cases h0 : (do_read_phase env vpdo read_irp irp).status = 0
    · obtain ⟨_, _, hr, hc⟩ := do_read_success env vpdo read_irp irp from_read h0
      rw [hc, hr]
    · obtain ⟨_, hf2, _⟩ := do_read_failure env vpdo read_irp irp from_read h0
      rw [(hf2 hm).1] at hs
      exact absurd hs h0
  · intro hfr
    by_cases h0 : (do_read_phase env vpdo read_irp irp).status = 0
    · obtain ⟨hst, _, hr, hc⟩ := do_read_success env vpdo read_irp irp from_read h0
      rw [hc, hr, hst, hfr]
      simp only [Bool.false_eq_true, if_false]
    · obtain ⟨_, _, hc⟩ := do_read_failure env vpdo read_irp irp from_read h0
      rw [hc, hfr]
      simp only [Bool.false_eq_true, if_false, List.nil_append]

/-- The cancel path with a read IRP queued: `send_cmd_unlink` runs `do_read` on the record
it has just queued. -/
theorem send_cmd_unlink_with_read (env : Helpers) (vpdo : vpdo_dev_t) (irp read_irp : IRP)
    (rq : List IRP) (hm : vpdo.seqnum_payload = 0) (hq0 : vpdo.rx_unlink_irps = [])
    (hrq : vpdo.read_irp_csq = read_irp :: rq) :
    (send_cmd_unlink env vpdo irp).vpdo =
      (do_read env { vpdo with read_irp_csq := rq } read_irp
        { env.clear_context (set_seqnum_unlink irp (get_seqnum irp)) true with id := irp.id }
        false).vpdo ∧
    (send_cmd_unlink env vpdo irp).completed =
      (do_read env { vpdo with read_irp_csq := rq } read_irp
        { env.clear_context (set_seqnum_unlink irp (get_seqnum irp)) true with id := irp.id }
        false).completed := by
  simp only [send_cmd_unlink, send_to_server, if_true, enqueue_rx_unlink_irp, hrq, hq0,
    IoCsqRemoveNextIrp, remove_first, hm, dequeue_rx_irp, dequeue_rx_unlink_irp,
    List.nil_append, set_seqnum_unlink]
  split_ifs <;> exact ⟨rfl, rfl⟩

/-- C22: a cancelled record is lost once its unlink command has been read.  Let the header
builders leave queues and marker alone and let no payload be expected.  First, if the
oldest record `r` of the unlink queue carries an unlink sequence number and the read
buffer has room for a header, `process_read_irp` succeeds, takes `r` off the unlink queue,
puts it on no queue of the device and completes nothing: the record is neither kept for
its reply nor completed.  Second, if the unlink queue is empty and a read IRP is queued
when a record is cancelled, `send_cmd_unlink` takes the record through `do_read` right
away and leaves it on no queue either, whether the read succeeds or fails, and the only
completion it makes is that of the read IRP through `CompleteRequest`. -/
theorem unlink_record_dropped (env : Helpers) (hk : helpers_keep_queues env)
    (vpdo : vpdo_dev_t) (hm : vpdo.seqnum_payload = 0) :
    (∀ (r : IRP) (rest : List IRP) (read_irp : IRP) (fuel : Nat),
      vpdo.rx_unlink_irps = r :: rest → get_seqnum_unlink r ≠ 0 →
      sizeof_usbip_header ≤ read_irp.Length →
      ∃ res, process_read_irp env (fuel + 1) vpdo read_irp = some res ∧
        res.status = STATUS_SUCCESS ∧ res.completed = [] ∧
        res.vpdo.seqnum_payload = 0 ∧
        res.vpdo.rx_irps_csq = vpdo.rx_irps_csq ∧
        res.vpdo.rx_unlink_irps = rest ∧
        res.vpdo.tx_irps_csq = vpdo.tx_irps_csq ∧
        res.vpdo.read_irp_csq = vpdo.read_irp_csq) ∧
    (∀ (irp read_irp : IRP) (rq : List IRP),
      vpdo.rx_unlink_irps = [] → vpdo.read_irp_csq = read_irp :: rq →
      get_seqnum_unlink (env.clear_context (set_seqnum_unlink irp (get_seqnum irp)) true) ≠ 0 →
      (send_cmd_unlink env vpdo irp).vpdo.seqnum_payload = 0 ∧
      (send_cmd_unlink env vpdo irp).vpdo.rx_irps_csq = vpdo.rx_irps_csq ∧
      (send_cmd_unlink env vpdo irp).vpdo.rx_unlink_irps = [] ∧
      (send_cmd_unlink env vpdo irp).vpdo.tx_irps_csq = vpdo.tx_irps_csq ∧
      (send_cmd_unlink env vpdo irp).vpdo.read_irp_csq = rq ∧
      ∀ c ∈ (send_cmd_unlink env vpdo irp).completed,
        c.routine = completion_routine.CompleteRequest) := by
  refine ⟨?_, ?_⟩
  · intro r rest read_irp fuel hq hun hlen
    obtain ⟨h1, h2, h3, h4, h5, h6, h7, _⟩ :=
      do_read_unlink_record env hk { vpdo with rx_unlink_irps := rest } read_irp r true hm hun
    refine ⟨do_read env { vpdo with rx_unlink_irps := rest } read_irp r true, ?_, h6 hlen, ?_,
      h1, h2, h3, h4, h5⟩
    · simp only [process_read_irp, hm, dequeue_rx_irp_unlink_head vpdo r rest hq]
    · rw [h7 (h6 hlen)]
      rfl
  · intro irp read_irp rq hq0 hrq hkeep
    obtain ⟨hv, hc⟩ := send_cmd_unlink_with_read env vpdo irp read_irp rq hm hq0 hrq
    obtain ⟨h1, h2, h3, h4, h5, _, _, h8⟩ :=
      do_read_unlink_record env hk { vpdo with read_irp_csq := rq } read_irp
        { env.clear_context (set_seqnum_unlink irp (get_seqnum irp)) true with id := irp.id }
        false hm hkeep
    rw [hv, hc]
    refine ⟨h1, h2, h3.trans hq0, h4, h5, ?_⟩
    intro c hcm
    rw [h8 rfl] at hcm
    simp only [complete_read] at hcm
    split_ifs at hcm
    · rw [List.mem_singleton] at hcm
      rw [hcm]
      rfl
    · exact absurd hcm (List.not_mem_nil c)

/-- C22 at concrete inputs: a device whose only record is the cancelled record 7 with the
unlink sequence number 5, waiting in the unlink queue, and a read with a buffer of 48
bytes.  The read succeeds with the header of the unlink command; afterwards all four
queues of the device are empty and no completion was made. -/
theorem unlink_record_dropped_witness :
    helpers_keep_queues spec_helpers ∧
    (vpdo_with_queues 0 [] [record 7 0 5] []).seqnum_payload = 0 ∧
    ((process_read_irp spec_helpers 1 (vpdo_with_queues 0 [] [record 7 0 5] [])
        (read_irp_of_size 48)).map fun res =>
      (res.status, res.read_irp.hdr.base.command, res.read_irp.hdr.cmd_unlink.seqnum,
        completion_log res.completed,
        res.vpdo.rx_irps_csq.map (fun i => i.id), res.vpdo.rx_unlink_irps.map (fun i => i.id),
        res.vpdo.tx_irps_csq.map (fun i => i.id), res.vpdo.read_irp_csq.map (fun i => i.id))) =
      some (STATUS_SUCCESS, 2, 5, [], [], [], [], []) ∧
    ∃ res, process_read_irp spec_helpers 1 (vpdo_with_queues 0 [] [record 7 0 5] [])
        (read_irp_of_size 48) = some res ∧
      res.status = STATUS_SUCCESS ∧ res.completed = [] ∧ res.vpdo.rx_unlink_irps = [] :=
  ⟨spec_helpers_keep_queues, by decide, rfl, by
    obtain ⟨res, h1, h2, h3, _, _, h6, _⟩ :=
      (unlink_record_dropped spec_helpers spec_helpers_keep_queues
        (vpdo_with_queues 0 [] [record 7 0 5] []) (by decide)).1 (record 7 0 5) []
        (read_irp_of_size 48) 0 rfl (by decide) (by decide)
    exact ⟨res, h1, h2, h3, h6⟩⟩

/-! ## C21: the payload is read directly after its header -/

theorem payload_after_header_nil : payload_after_header [] := by
  intro pre e post h
  exact absurd h (by simp)

theorem payload_after_header_snoc (hist : List read_event) (e : read_event)
    (hh : payload_after_header hist)
    (ha : e.seqnum_unlink = 0 ∨ e.read_hdr = true)
    (hp : e.read_hdr = false →
      ∃ (pre0 : List read_event) (e0 : read_event), hist = pre0 ++ [e0] ∧ header_read_of e0 e.id) :
    payload_after_header (hist ++ [e]) := by
  intro pre x post h
  rcases List.eq_nil_or_concat post with hpost | ⟨p, b, hpost⟩
  · subst hpost
    obtain ⟨h1, h2⟩ := List.append_inj' h rfl
    have hx : e = x := by simpa using h2
    subst hx
    subst h1
    exact ⟨ha, hp⟩
  · subst hpost
    have h' : hist ++ [e] = (pre ++ x :: p) ++ [b] := by
      rw [h]; simp
    obtain ⟨h1, _⟩ := List.append_inj' h' rfl
    exact hh pre x p h1

theorem rx_clean_nil : rx_clean [] := by
  intro r hr
  cases hr

theorem rx_clean_tail (h : IRP) (t : List IRP) (hc : rx_clean (h :: t)) : rx_clean t :=
  fun r hr => hc r (List.mem_cons_of_mem _ hr)

theorem rx_clean_cons (h : IRP) (t : List IRP) (h1 : get_seqnum_unlink h = 0)
    (h2 : get_seqnum h = 0) (hc : rx_clean t) : rx_clean (h :: t) := by
  intro r hr
  rcases List.mem_cons.1 hr with hr | hr
  · subst hr; exact ⟨h1, h2⟩
  · exact hc r hr

theorem rx_clean_append (q : List IRP) (c : IRP) (hq : rx_clean q)
    (h1 : get_seqnum_unlink c = 0) (h2 : get_seqnum c = 0) : rx_clean (q ++ [c]) := by
  intro r hr
  rcases List.mem_append.1 hr with hr | hr
  · exact hq r hr
  · rw [List.mem_singleton] at hr
    subst hr; exact ⟨h1, h2⟩

theorem rx_clean_filter (q : List IRP) (keep : IRP → Bool) (hq : rx_clean q) :
    rx_clean (q.filter keep) :=
  fun r hr => hq r (List.mem_filter.1 hr).1

theorem reads_inv_append (hist : List read_event) (m : Nat) (rx : List IRP) (c : IRP)
    (hi : reads_inv hist m rx) (h1 : get_seqnum_unlink c = 0) (h2 : get_seqnum c = 0) :
    reads_inv hist m (rx ++ [c]) := by
  obtain ⟨hh, hc | ⟨hm, h, t, hrx, hu, hs, ht, he⟩⟩ := hi
  · exact ⟨hh, Or.inl (rx_clean_append rx c hc h1 h2)⟩
  · exact ⟨hh, Or.inr ⟨hm, h, t ++ [c], by rw [hrx]; rfl, hu, hs,
      rx_clean_append t c ht h1 h2, he⟩⟩

theorem reads_inv_filter (hist : List read_event) (m : Nat) (rx : List IRP) (keep : IRP → Bool)
    (hi : reads_inv hist m rx) : reads_inv hist m (rx.filter keep) := by
  obtain ⟨hh, hc | ⟨hm, h, t, hrx, hu, hs, ht, he⟩⟩ := hi
  · exact ⟨hh, Or.inl (rx_clean_filter rx keep hc)⟩
  · subst hrx
    by_cases hk : keep h = true
    · exact ⟨hh, Or.inr ⟨hm, h, t.filter keep, by rw [List.filter_cons_of_pos hk], hu, hs,
        rx_clean_filter t keep ht, he⟩⟩
    · refine ⟨hh, Or.inl ?_⟩
      rw [List.filter_cons_of_neg hk]
      exact rx_clean_filter t keep ht

/-- What `dequeue_rx_irp` returns in a state of the invariant: the queue it leaves is
clean, and while the marker is armed the record it returns is the record of the last
header read. -/
theorem dequeue_rx_irp_reads_inv (hist : List read_event) (v v1 : vpdo_dev_t) (o : Option IRP)
    (hi : reads_inv hist v.seqnum_payload v.rx_irps_csq)
    (hd : dequeue_rx_irp v v.seqnum_payload = (o, v1)) :
    v1.seqnum_payload = v.seqnum_payload ∧ rx_clean v1.rx_irps_csq ∧
    (∀ irp, o = some irp → v.seqnum_payload ≠ 0 →
      get_seqnum_unlink irp = 0 ∧ get_seqnum irp = v.seqnum_payload ∧
      ∃ (pre0 : List read_event) (e0 : read_event),
        hist = pre0 ++ [e0] ∧ header_read_of e0 irp.id) ∧
    (o = none → v.seqnum_payload = 0 → v1.rx_irps_csq = [] ∧ v1.rx_unlink_irps = []) := by
  obtain ⟨hh, hc | ⟨hm, h, t, hrx, hu, hs, ht, he⟩⟩ := hi
  · by_cases hm : v.seqnum_payload = 0
    · rw [hm] at hd
      cases hul : v.rx_unlink_irps with
      | nil =>
        cases hrx : v.rx_irps_csq with
        | nil =>
          simp only [dequeue_rx_irp, if_true, dequeue_rx_unlink_irp, hul, make_peek_context,
            IoCsqRemoveNextIrp, hrx, remove_first, Prod.mk.injEq] at hd
          obtain ⟨ho, hv⟩ := hd
          subst hv
          exact ⟨rfl, rx_clean_nil, fun _ _ hne => absurd hm hne, fun _ _ => ⟨rfl, rfl⟩⟩
        | cons x xs =>
          simp only [dequeue_rx_irp, if_true, dequeue_rx_unlink_irp, hul, make_peek_context,
            IoCsqRemoveNextIrp, hrx, remove_first, Prod.mk.injEq] at hd
          obtain ⟨ho, hv⟩ := hd
          subst hv
          rw [hrx] at hc
          exact ⟨rfl, rx_clean_tail x xs hc, fun _ _ hne => absurd hm hne,
            fun hn _ => absurd (ho.trans hn) (by simp)⟩
      | cons x xs =>
        simp only [dequeue_rx_irp, if_true, dequeue_rx_unlink_irp, hul, Prod.mk.injEq] at hd
        obtain ⟨ho, hv⟩ := hd
        subst hv
        exact ⟨rfl, hc, fun _ _ hne => absurd hm hne,
          fun hn _ => absurd (ho.trans hn) (by simp)⟩
    · have hgone : ∀ r ∈ v.rx_irps_csq, get_seqnum r ≠ v.seqnum_payload := by
        intro r hr heq
        exact hm (heq.symm.trans (hc r hr).2)
      rw [dequeue_rx_irp_payload_gone v _ hm hgone, Prod.mk.injEq] at hd
      obtain ⟨ho, hv⟩ := hd
      subst hv
      exact ⟨rfl, hc, fun irp hsome _ => absurd (ho.trans hsome) (by simp),
        fun _ h0 => absurd h0 hm⟩
  · rw [dequeue_rx_irp_marker_head v _ h t hm hrx hs, Prod.mk.injEq] at hd
    obtain ⟨ho, hv⟩ := hd
    subst hv
    refine ⟨rfl, ht, ?_, fun _ h0 => absurd h0 hm⟩
    intro irp hsome _
    have : h = irp := by
      rw [← ho] at hsome
      exact Option.some.inj hsome
    subst this
    exact ⟨hu, hs, he⟩

/-- One call of `do_read` on a clean queue keeps the invariant: a payload-phase call comes
after the header read of its record and leaves the queue clean; a header-phase call
leaves the queue clean or arms the marker with its record in front. -/
theorem do_read_reads_inv (env : Helpers) (hk : helpers_keep_queues env)
    (hist : List read_event) (v1 : vpdo_dev_t) (read_irp irp : IRP) (from_read : Bool)
    (hh : payload_after_header hist) (hc : rx_clean v1.rx_irps_csq)
    (hp : v1.seqnum_payload ≠ 0 → get_seqnum_unlink irp = 0 ∧
      ∃ (pre0 : List read_event) (e0 : read_event),
        hist = pre0 ++ [e0] ∧ header_read_of e0 irp.id) :
    reads_inv (hist ++ [do_read_event env v1 read_irp irp from_read])
      (do_read env v1 read_irp irp from_read).vpdo.seqnum_payload
      (do_read env v1 read_irp irp from_read).vpdo.rx_irps_csq := by
  have hgood : payload_after_header (hist ++ [do_read_event env v1 read_irp irp from_read]) := by
    apply payload_after_header_snoc hist _ hh
    · by_cases hm : v1.seqnum_payload = 0
      · right
        simp only [do_read_event, hm, decide_True]
      · left
        exact (hp hm).1
    · intro hf
      have hm : v1.seqnum_payload ≠ 0 := by
        intro hm
        simp only [do_read_event, hm, decide_True] at hf
        exact absurd hf (by decide)
      exact (hp hm).2
  obtain ⟨hfail, hpay, hhdr⟩ := do_read_marker_cases env hk v1 read_irp irp from_read
  refine ⟨hgood, ?_⟩
  by_cases hs : (do_read env v1 read_irp irp from_read).status = STATUS_SUCCESS
  · by_cases hm : v1.seqnum_payload = 0
    · by_cases hun : get_seqnum_unlink irp = 0
      · by_cases hpz :
            env.get_pdu_payload_size (do_read env v1 read_irp irp from_read).read_irp.hdr = 0
        · left
          rw [((hhdr hm hs).2.2 hun hpz).2.1]
          exact hc
        · obtain ⟨h1, _, r, h2, h3, h4, h5⟩ := (hhdr hm hs).2.1 hun hpz
          by_cases hz : (do_read env v1 read_irp irp from_read).vpdo.seqnum_payload = 0
          · left
            rw [h2]
            exact rx_clean_cons r _ h4 (by rw [h5, ← h1, hz]) hc
          · right
            refine ⟨hz, r, v1.rx_irps_csq, h2, h4, by rw [h5, h1], hc, hist,
              do_read_event env v1 read_irp irp from_read, rfl, ?_, hun, hs, h3.symm⟩
            simp only [do_read_event, hm, decide_True]
      · left
        rw [((hhdr hm hs).1 hun).2.1]
        exact hc
    · left
      rw [(hpay hm hs).2.1]
      exact hc
  · left
    rw [(hfail hs).2.1]
    exact hc

theorem reads_inv_clean (hist : List read_event) (m : Nat) (rx : List IRP)
    (hi : payload_after_header hist) (hc : rx_clean rx) : reads_inv hist m rx :=
  ⟨hi, Or.inl hc⟩

/-- A read keeps the invariant. -/
theorem process_read_irp_reads_inv (env : Helpers) (hk : helpers_keep_queues env)
    (hist : List read_event) (fuel : Nat) (v : vpdo_dev_t) (read_irp : IRP)
    (hi : reads_inv hist v.seqnum_payload v.rx_irps_csq) :
    reads_inv (hist ++ process_read_irp_events env fuel v read_irp)
      (device_step env fuel v (device_op.read read_irp)).seqnum_payload
      (device_step env fuel v (device_op.read read_irp)).rx_irps_csq := by
  cases fuel with
  | zero =>
    simp only [process_read_irp_events, device_step, process_read_irp, List.append_nil]
    exact hi
  | succ fuel =>
    rcases hd : dequeue_rx_irp v v.seqnum_payload with ⟨o, v1⟩
    obtain ⟨hm1, hc1, hsome, hnone⟩ := dequeue_rx_irp_reads_inv hist v v1 o hi hd
    cases o with
    | some irp =>
      simp only [process_read_irp_events, device_step, process_read_irp, hd]
      apply do_read_reads_inv env hk hist v1 read_irp irp true hi.1 hc1
      intro hne
      rw [hm1] at hne
      obtain ⟨h1, _, h3⟩ := hsome irp rfl hne
      exact ⟨h1, h3⟩
    | none =>
      by_cases hm : v.seqnum_payload = 0
      · obtain ⟨h1, h2⟩ := hnone rfl hm
        have hd0 : dequeue_rx_irp v 0 = (none, v1) := by rw [← hm]; exact hd
        simp only [process_read_irp_events, device_step, process_read_irp, hd0, hm, ne_eq,
          not_true_eq_false, if_false, InsertIfRxEmpty, h1, h2, List.isEmpty_nil, and_self,
          if_true, List.append_nil]
        exact reads_inv_clean hist _ _ hi.1 rx_clean_nil
      · simp only [process_read_irp_events, device_step, process_read_irp, hd, ne_eq, hm,
          not_false_eq_true, if_true, abort_read_payload, List.append_nil]
        exact reads_inv_clean hist _ _ hi.1 hc1

/-- A submission or a cancellation keeps the invariant. -/
theorem send_to_server_reads_inv (env : Helpers) (hk : helpers_keep_queues env)
    (hist : List read_event) (v : vpdo_dev_t) (irp : IRP) (unlink : Bool)
    (hi : reads_inv hist v.seqnum_payload v.rx_irps_csq)
    (hcl : unlink = false → get_seqnum_unlink (env.clear_context irp false) = 0 ∧
      get_seqnum (env.clear_context irp false) = 0) :
    reads_inv (hist ++ send_to_server_events env v irp unlink)
      (send_to_server env v irp unlink).vpdo.seqnum_payload
      (send_to_server env v irp unlink).vpdo.rx_irps_csq := by
  simp only [send_to_server, send_to_server_events]
  generalize hv0 : (if unlink = true then
      enqueue_rx_unlink_irp v { env.clear_context irp unlink with id := irp.id }
    else { v with rx_irps_csq :=
      IoCsqInsertIrp v.rx_irps_csq { env.clear_context irp unlink with id := irp.id } }) = v0
  have hi0 : reads_inv hist v0.seqnum_payload v0.rx_irps_csq := by
    subst hv0
    cases unlink with
    | true => exact hi
    | false =>
      simp only [Bool.false_eq_true, if_false, IoCsqInsertIrp]
      exact reads_inv_append hist _ _ _ hi (hcl rfl).1 (hcl rfl).2
  cases hq : v0.read_irp_csq with
  | nil =>
    simp only [IoCsqRemoveNextIrp, remove_first, List.append_nil]
    exact hi0
  | cons x q =>
    simp only [IoCsqRemoveNextIrp, remove_first, if_true]
    rcases hd : dequeue_rx_irp { v0 with read_irp_csq := q } v0.seqnum_payload with ⟨o, v3⟩
    obtain ⟨hm1, hc1, hsome, _⟩ :=
      dequeue_rx_irp_reads_inv hist { v0 with read_irp_csq := q } v3 o hi0 hd
    cases o with
    | some next =>
      have hr := do_read_reads_inv env hk hist v3 x next false hi0.1 hc1 (by
        intro hne
        rw [hm1] at hne
        obtain ⟨h1, _, h3⟩ := hsome next rfl hne
        exact ⟨h1, h3⟩)
      simp only []
      split_ifs <;> exact hr
    | none =>
      simp only [List.append_nil, abort_read_payload]
      split_ifs
      · exact reads_inv_clean hist _ _ hi0.1 hc1
      · exact reads_inv_clean hist _ _ hi0.1 hc1

theorem device_step_reads_inv (env : Helpers) (hk : helpers_keep_queues env)
    (hc : clear_context_clears env) (hist : List read_event) (fuel : Nat) (v : vpdo_dev_t)
    (op : device_op) (hi : reads_inv hist v.seqnum_payload v.rx_irps_csq) :
    reads_inv (hist ++ device_events env fuel v op)
      (device_step env fuel v op).seqnum_payload (device_step env fuel v op).rx_irps_csq := by
  cases op with
  | read read_irp => exact process_read_irp_reads_inv env hk hist fuel v read_irp hi
  | send irp => exact send_to_server_reads_inv env hk hist v irp false hi (fun _ => hc irp)
  | unlink irp =>
    exact send_to_server_reads_inv env hk hist v (set_seqnum_unlink irp (get_seqnum irp)) true hi
      (fun h => absurd h (by decide))
  | cancel keep =>
    simp only [device_events, device_step, cancel_queued, List.append_nil]
    exact reads_inv_filter hist _ _ keep hi

theorem device_trace_reads_inv (env : Helpers) (hk : helpers_keep_queues env)
    (hc : clear_context_clears env) (fuel : Nat) :
    ∀ (ops : List device_op) (hist : List read_event) (v : vpdo_dev_t),
      reads_inv hist v.seqnum_payload v.rx_irps_csq →
      reads_inv (hist ++ device_trace env fuel v ops)
        (device_run env fuel v ops).seqnum_payload (device_run env fuel v ops).rx_irps_csq
  | [], hist, v, hi => by
    simp only [device_trace, device_run, List.append_nil]
    exact hi
  | op :: ops, hist, v, hi => by
    have h := device_trace_reads_inv env hk hc fuel ops (hist ++ device_events env fuel v op)
      (device_step env fuel v op) (device_step_reads_inv env hk hc hist fuel v op hi)
    simp only [device_trace, device_run]
    rw [← List.append_assoc]
    exact h

theorem dequeue_rx_irp_none_zero (v v1 : vpdo_dev_t) (hd : dequeue_rx_irp v 0 = (none, v1)) :
    v1.rx_irps_csq = [] ∧ v1.rx_unlink_irps = [] := by
  cases hul : v.rx_unlink_irps with
  | nil =>
    cases hrx : v.rx_irps_csq with
    | nil =>
      simp only [dequeue_rx_irp, if_true, dequeue_rx_unlink_irp, hul, make_peek_context,
        IoCsqRemoveNextIrp, hrx, remove_first, Prod.mk.injEq] at hd
      obtain ⟨_, hv⟩ := hd
      subst hv
      exact ⟨rfl, rfl⟩
    | cons x xs =>
      simp only [dequeue_rx_irp, if_true, dequeue_rx_unlink_irp, hul, make_peek_context,
        IoCsqRemoveNextIrp, hrx, remove_first, Prod.mk.injEq] at hd
      exact absurd hd.1 (by simp)
  | cons x xs =>
    simp only [dequeue_rx_irp, if_true, dequeue_rx_unlink_irp, hul, Prod.mk.injEq] at hd
    exact absurd hd.1 (by simp)

/-- One round of `process_read_irp` returns: the loop is entered a second time only when
the read IRP could not be queued, and it can be queued whenever nothing was dequeued. -/
theorem process_read_irp_returns (env : Helpers) (fuel : Nat) (v : vpdo_dev_t) (read_irp : IRP) :
    (process_read_irp env (fuel + 1) v read_irp).isSome = true := by
  rcases hd : dequeue_rx_irp v v.seqnum_payload with ⟨o, v1⟩
  cases o with
  | some irp => simp only [process_read_irp, hd, Option.isSome_some]
  | none =>
    by_cases hm : v.seqnum_payload = 0
    · have hd0 : dequeue_rx_irp v 0 = (none, v1) := by rw [← hm]; exact hd
      obtain ⟨h1, h2⟩ := dequeue_rx_irp_none_zero v v1 hd0
      simp only [process_read_irp, hd0, hm, ne_eq, not_true_eq_false, if_false, InsertIfRxEmpty,
        h1, h2, List.isEmpty_nil, and_self, if_true, Option.isSome_some]
    · simp only [process_read_irp, hd, ne_eq, hm, not_false_eq_true, if_true,
        abort_read_payload, Option.isSome_some]

/-- C21: let the header builders leave queues and marker of the device alone, let
`clear_context` clear the sequence numbers of a record that is submitted, and let the rx
queue of the device hold no record with a sequence number at the start.  Then, for every
sequence of reads, submissions, cancellations and removals of queued IRPs: every call of
`do_read` satisfies its assertion (the record carries no unlink sequence number or a
header is read), and every payload-phase call comes directly after the call that read
the header of the same record with success, no other call in between.  In the state
reached, while the marker is non-zero, a record that `dequeue_rx_irp` returns carries no
unlink sequence number, has the marker as sequence number, and is the record of the last
call of `do_read`, a successful header read.  Every read returns within one round. -/
theorem payload_read_follows_header (env : Helpers) (hk : helpers_keep_queues env)
    (hc : clear_context_clears env) (vpdo : vpdo_dev_t) (h0 : rx_clean vpdo.rx_irps_csq)
    (fuel : Nat) (ops : List device_op) :
    payload_after_header (device_trace env (fuel + 1) vpdo ops) ∧
    (∀ (r : IRP) (v1 : vpdo_dev_t),
      (device_run env (fuel + 1) vpdo ops).seqnum_payload ≠ 0 →
      dequeue_rx_irp (device_run env (fuel + 1) vpdo ops)
        (device_run env (fuel + 1) vpdo ops).seqnum_payload = (some r, v1) →
      get_seqnum_unlink r = 0 ∧
      get_seqnum r = (device_run env (fuel + 1) vpdo ops).seqnum_payload ∧
      ∃ (pre0 : List read_event) (e0 : read_event),
        device_trace env (fuel + 1) vpdo ops = pre0 ++ [e0] ∧ header_read_of e0 r.id) ∧
    (∀ (v : vpdo_dev_t) (read_irp : IRP),
      (process_read_irp env (fuel + 1) v read_irp).isSome = true) := by
  have hi := device_trace_reads_inv env hk hc (fuel + 1) ops [] vpdo
    (reads_inv_clean [] _ _ payload_after_header_nil h0)
  rw [List.nil_append] at hi
  refine ⟨hi.1, ?_, fun v read_irp => process_read_irp_returns env fuel v read_irp⟩
  intro r v1 hne hd
  exact (dequeue_rx_irp_reads_inv _ _ v1 (some r) hi hd).2.2.1 r rfl hne

theorem spec_helpers_clear_context : clear_context_clears spec_helpers := by
  intro irp
  exact ⟨rfl, rfl⟩

/-- C21 at concrete inputs: a bulk OUT URB of 8 bytes is submitted to a fresh device, then
read with a buffer of 48 bytes and with a buffer of 8 bytes: `do_read` is called twice
for the record, first in the header phase and then in the payload phase, both with
success. -/
theorem payload_read_follows_header_witness :
    helpers_keep_queues spec_helpers ∧ clear_context_clears spec_helpers ∧
    rx_clean (default : vpdo_dev_t).rx_irps_csq ∧
    device_trace spec_helpers 1 default
      [device_op.send (urb_irp_of (bulk_urb URB_FUNCTION_BULK_OR_INTERRUPT_TRANSFER 0x202 0 8)),
       device_op.read (read_irp_of_size 48), device_op.read (read_irp_of_size 8)] =
      [{ read_hdr := true, id := 0, seqnum_unlink := 0, status := STATUS_SUCCESS },
       { read_hdr := false, id := 0, seqnum_unlink := 0, status := STATUS_SUCCESS }] ∧
    payload_after_header (device_trace spec_helpers 1 default
      [device_op.send (urb_irp_of (bulk_urb URB_FUNCTION_BULK_OR_INTERRUPT_TRANSFER 0x202 0 8)),
       device_op.read (read_irp_of_size 48), device_op.read (read_irp_of_size 8)]) :=
  ⟨spec_helpers_keep_queues, spec_helpers_clear_context, rx_clean_nil, by decide,
   (payload_read_follows_header spec_helpers spec_helpers_keep_queues
      spec_helpers_clear_context default rx_clean_nil 0
      [device_op.send (urb_irp_of (bulk_urb URB_FUNCTION_BULK_OR_INTERRUPT_TRANSFER 0x202 0 8)),
       device_op.read (read_irp_of_size 48), device_op.read (read_irp_of_size 8)]).1⟩

/-! ## C14: the status of a URB whose payload read fails -/

theorem do_read_payload_failure (env : Helpers) (v : vpdo_dev_t) (read_irp r : IRP)
    (from_read : Bool) (hm : v.seqnum_payload ≠ 0) (hun : get_seqnum_unlink r = 0)
    (hfail : (read_payload env read_irp r).1 ≠ STATUS_SUCCESS) :
    (do_read env v read_irp r from_read).status = STATUS_REQUEST_ABORTED ∧
    (do_read env v read_irp r from_read).completed =
      if from_read then [complete_internal_ioctl r (read_payload env read_irp r).1]
      else [CompleteRequest { (read_payload env read_irp r).2 with Information := 0 }
        STATUS_REQUEST_ABORTED] := by
  have h0 : (do_read_phase env v read_irp r).status ≠ 0 := by
    simp only [do_read_phase, hun, ne_eq, not_true_eq_false, if_false, hm]
    exact hfail
  obtain ⟨hf, _, hc⟩ := do_read_failure env v read_irp r from_read h0
  obtain ⟨h1, _, h3⟩ := hf hm
  refine ⟨h1, ?_⟩
  rw [hc, h1, h3]
  cases from_read with
  | true =>
    simp only [if_true, List.append_nil, do_read_phase, hun, ne_eq, not_true_eq_false, if_false,
      hm]
  | false =>
    simp only [Bool.false_eq_true, if_false, List.nil_append, complete_read, do_read_phase, hun,
      ne_eq, not_true_eq_false, hm]
    exact if_pos (show STATUS_REQUEST_ABORTED ≠ STATUS_PENDING by decide)

theorem send_to_server_payload_failure (env : Helpers) (vpdo : vpdo_dev_t)
    (irp read_irp r : IRP) (rest rxs : List IRP) (unlink : Bool)
    (hm : vpdo.seqnum_payload ≠ 0) (hq : vpdo.read_irp_csq = read_irp :: rest)
    (hrx : vpdo.rx_irps_csq = r :: rxs) (hr : get_seqnum r = vpdo.seqnum_payload)
    (hun : get_seqnum_unlink r = 0) (hid : r.id ≠ irp.id)
    (hfail : (read_payload env read_irp r).1 ≠ STATUS_SUCCESS) :
    (send_to_server env vpdo irp unlink).status = STATUS_PENDING ∧
    (send_to_server env vpdo irp unlink).completed =
      [CompleteRequest { (read_payload env read_irp r).2 with Information := 0 }
        STATUS_REQUEST_ABORTED,
       if unlink then complete_canceled_irp r
       else complete_internal_ioctl r STATUS_REQUEST_ABORTED] := by
  cases unlink with
  | true =>
    have hd := dequeue_rx_irp_marker_head
      { (enqueue_rx_unlink_irp vpdo { env.clear_context irp true with id := irp.id }) with
        read_irp_csq := rest } vpdo.seqnum_payload r rxs hm hrx hr
    simp only [enqueue_rx_unlink_irp] at hd
    obtain ⟨h1, h2⟩ := do_read_payload_failure env
      { vpdo with
        rx_irps_csq := rxs,
        rx_unlink_irps := vpdo.rx_unlink_irps ++ [{ env.clear_context irp true with id := irp.id }],
        read_irp_csq := rest } read_irp r false hm hun hfail
    simp only [Bool.false_eq_true, if_false] at h1 h2
    simp only [send_to_server, enqueue_rx_unlink_irp, if_true, hq, IoCsqRemoveNextIrp,
      remove_first, hd, h1, h2, hid, if_false, ne_eq]
    exact ⟨rfl, rfl⟩
  | false =>
    have hd := dequeue_rx_irp_marker_head
      { vpdo with
        rx_irps_csq := IoCsqInsertIrp vpdo.rx_irps_csq
          { env.clear_context irp false with id := irp.id },
        read_irp_csq := rest } vpdo.seqnum_payload r
      (rxs ++ [{ env.clear_context irp false with id := irp.id }]) hm
      (by simp only [IoCsqInsertIrp, hrx]; rfl) hr
    obtain ⟨h1, h2⟩ := do_read_payload_failure env
      { vpdo with
        rx_irps_csq := rxs ++ [{ env.clear_context irp false with id := irp.id }],
        read_irp_csq := rest } read_irp r false hm hun hfail
    simp only [Bool.false_eq_true, if_false] at h1 h2
    simp only [IoCsqInsertIrp] at hd
    simp only [send_to_server, Bool.false_eq_true, if_false, hq, IoCsqRemoveNextIrp,
      remove_first, if_true, IoCsqInsertIrp, hd, h1, h2, hid, ne_eq]
    exact ⟨rfl, rfl⟩

/-- The statuses of `read_payload`: it does not call the header builder. -/
theorem read_payload_status_closed (env : Helpers) (read_irp irp : IRP) :
    (read_payload env read_irp irp).1 = STATUS_SUCCESS ∨
    (read_payload env read_irp irp).1 = STATUS_INVALID_PARAMETER ∨
    (read_payload env read_irp irp).1 = STATUS_INSUFFICIENT_RESOURCES ∨
    (read_payload env read_irp irp).1 = STATUS_INTERNAL_ERROR ∨
    (read_payload env read_irp irp).1 = STATUS_BUFFER_TOO_SMALL ∨
    (read_payload env read_irp irp).1 = STATUS_INVALID_DEVICE_REQUEST := by
  have h := read_payload_status
    { env with set_cmd_submit_usbip_header := fun v h _ _ _ => (STATUS_SUCCESS, v, h) }
    read_irp irp
  have he : read_payload
      { env with set_cmd_submit_usbip_header := fun v h _ _ _ => (STATUS_SUCCESS, v, h) }
      read_irp irp = read_payload env read_irp irp := rfl
  rw [he] at h
  simp only [read_phase_status, read_failure_status] at h
  rcases h with h | h | h | h | h | h | ⟨_, _, _, _, _, h⟩
  all_goals simp only [h, true_or, or_true]

/-- C14, on the code: the two paths that take a record through a failing payload read give
its URB different statuses.  Let a payload be expected, let the record `r` that awaits it
be the oldest of the rx queue, and let `read_payload` fail for it.  Its status is then
invalid-parameter, insufficient-resources, internal-error, buffer-too-small or
invalid-device-request, never STATUS_REQUEST_ABORTED.  On the read path
(`process_read_irp`, that is `do_read` with `from_read = true`) the URB is completed
through `complete_internal_ioctl` with this status and the read returns
STATUS_REQUEST_ABORTED.  In `send_to_server`, when a read IRP is queued and another record
is sent, the read IRP is completed with STATUS_REQUEST_ABORTED and the URB of `r` is
completed with the same STATUS_REQUEST_ABORTED through `complete_internal_ioctl`, or,
when the call is that of an unlink, with cancelled status through
`complete_canceled_irp`. -/
theorem payload_failure_urb_statuses (env : Helpers) (vpdo : vpdo_dev_t) (read_irp r : IRP)
    (rxs : List IRP) (hm : vpdo.seqnum_payload ≠ 0) (hrx : vpdo.rx_irps_csq = r :: rxs)
    (hr : get_seqnum r = vpdo.seqnum_payload) (hun : get_seqnum_unlink r = 0)
    (hfail : (read_payload env read_irp r).1 ≠ STATUS_SUCCESS) :
    ((read_payload env read_irp r).1 = STATUS_INVALID_PARAMETER ∨
      (read_payload env read_irp r).1 = STATUS_INSUFFICIENT_RESOURCES ∨
      (read_payload env read_irp r).1 = STATUS_INTERNAL_ERROR ∨
      (read_payload env read_irp r).1 = STATUS_BUFFER_TOO_SMALL ∨
      (read_payload env read_irp r).1 = STATUS_INVALID_DEVICE_REQUEST) ∧
    (∀ fuel : Nat, ∃ res, process_read_irp env (fuel + 1) vpdo read_irp = some res ∧
      res.status = STATUS_REQUEST_ABORTED ∧
      res.completed = [complete_internal_ioctl r (read_payload env read_irp r).1]) ∧
    (∀ (irp : IRP) (rest : List IRP) (unlink : Bool),
      vpdo.read_irp_csq = read_irp :: rest → r.id ≠ irp.id →
      (send_to_server env vpdo irp unlink).status = STATUS_PENDING ∧
      (send_to_server env vpdo irp unlink).completed =
        [CompleteRequest { (read_payload env read_irp r).2 with Information := 0 }
          STATUS_REQUEST_ABORTED,
         if unlink then complete_canceled_irp r
         else complete_internal_ioctl r STATUS_REQUEST_ABORTED]) := by
  refine ⟨?_, ?_, ?_⟩
  · rcases read_payload_status_closed env read_irp r with h | h
    · exact absurd h hfail
    · exact h
  · intro fuel
    obtain ⟨h1, h2⟩ := do_read_payload_failure env { vpdo with rx_irps_csq := rxs } read_irp r
      true hm hun hfail
    refine ⟨do_read env { vpdo with rx_irps_csq := rxs } read_irp r true, ?_, h1, ?_⟩
    · simp only [process_read_irp,
        dequeue_rx_irp_marker_head vpdo vpdo.seqnum_payload r rxs hm hrx hr]
    · rw [h2]
      rfl
  · intro irp rest unlink hq hid
    exact send_to_server_payload_failure env vpdo irp read_irp r rest rxs unlink hm hq hrx hr
      hun hid hfail

/-- C14 at concrete inputs: the device expects the payload of the record 2, a bulk OUT URB
of 8 bytes whose MDL cannot be mapped, so that `read_payload` fails with
STATUS_INSUFFICIENT_RESOURCES.  A read completes the URB with
STATUS_INSUFFICIENT_RESOURCES; with the read IRP queued, the submission of the record 9
completes it with STATUS_REQUEST_ABORTED, and the cancellation of the record 9 completes it
with STATUS_CANCELLED. -/
theorem payload_failure_urb_statuses_witness :
    (vpdo_with_queues 7 [unmapped_bulk_record 2 7 8] [] [read_irp_of_size 8]).seqnum_payload
      ≠ 0 ∧
    (read_payload spec_helpers (read_irp_of_size 8) (unmapped_bulk_record 2 7 8)).1
      = STATUS_INSUFFICIENT_RESOURCES ∧
    ((process_read_irp spec_helpers 1
        (vpdo_with_queues 7 [unmapped_bulk_record 2 7 8] [] [read_irp_of_size 8])
        (read_irp_of_size 8)).map fun res => (res.status, completion_log res.completed)) =
      some (STATUS_REQUEST_ABORTED,
        [(completion_routine.complete_internal_ioctl, STATUS_INSUFFICIENT_RESOURCES, 2)]) ∧
    completion_log (send_to_server spec_helpers
        (vpdo_with_queues 7 [unmapped_bulk_record 2 7 8] [] [read_irp_of_size 8])
        (record 9 0 0) false).completed =
      [(completion_routine.CompleteRequest, STATUS_REQUEST_ABORTED, 0),
       (completion_routine.complete_internal_ioctl, STATUS_REQUEST_ABORTED, 2)] ∧
    completion_log (send_to_server spec_helpers
        (vpdo_with_queues 7 [unmapped_bulk_record 2 7 8] [] [read_irp_of_size 8])
        (record 9 7 7) true).completed =
      [(completion_routine.CompleteRequest, STATUS_REQUEST_ABORTED, 0),
       (completion_routine.complete_canceled_irp, STATUS_CANCELLED, 2)] ∧
    STATUS_REQUEST_ABORTED ∉
      [STATUS_DEVICE_NOT_CONNECTED, STATUS_CANCELLED, STATUS_INVALID_PARAMETER,
        STATUS_INSUFFICIENT_RESOURCES, STATUS_INTERNAL_ERROR] ∧
    (send_to_server spec_helpers
        (vpdo_with_queues 7 [unmapped_bulk_record 2 7 8] [] [read_irp_of_size 8])
        (record 9 0 0) false).status = STATUS_PENDING :=
  ⟨by decide, by decide, rfl, rfl, rfl, by decide,
   (((payload_failure_urb_statuses spec_helpers
      (vpdo_with_queues 7 [unmapped_bulk_record 2 7 8] [] [read_irp_of_size 8])
      (read_irp_of_size 8) (unmapped_bulk_record 2 7 8) [] (by decide) rfl rfl rfl
      (by decide)).2.2) (record 9 0 0) [] false rfl (by decide)).1⟩

end Vhci
